import Mathlib

/-!
# Period aggregation pipeline of `relatorio.js`

A shallow embedding of the calendar functions, the record filters, the
paginated fetch loops, the urgent-ticket scan and the three top-level runs of
`src/relatorio.js` and `src/utils/formatDate.js`, followed by the properties
proved about them.

Conventions of the embedding

* JavaScript strings are Lean `String`s; the few `String.prototype` methods the
  source uses (`split`, `padStart`, template literals) are defined below on the
  underlying character lists.
* A JavaScript `Date` is modelled twice.  The calendar functions work on its
  local day number (days since 1970-01-01 in local time), from which the
  calendar fields are computed with the functions of ECMA-262 section 21.4.1
  (`DayFromYear`, `YearFromTime`, `MonthFromTime`, `DateFromTime`, `WeekDay`,
  `MakeDay`); the time of day and the range limit of `TimeClip` are left out
  there.  Where the source compares two `Date` objects (the loop of
  `getDateRange`) or the range limit matters, the definitions whose names end
  in `Fuso` keep the time value in milliseconds and take the host time zone as
  a parameter, with `TimeClip`.  The two models agree wherever the local
  midnights concerned exist, are in range and keep their order
  (`getDateRangeFuso_regular`, `formatDateFuso_eq`); they differ where a clock
  change skips a local midnight (`getDateRangeFuso_meia_noite_saltada`).
* The clock (`new Date()`) is a parameter `hoje : Nat`, the number of local days
  elapsed since the epoch.
* `fetch` is a parameter `servidor : Requisicao → Resposta`; every request that
  is issued is recorded in a log.  Loops that depend on the upstream answers
  take a fuel argument; running out of fuel is the outcome `semCombustivel`
  (respectively `none`), which stands for a run that has not finished yet.
* A thrown error is identified by its message.  A top-level run is a sequence
  of awaited calls; each call made to the outside is recorded in a log, and
  the identifiers a `catch` block reads are resolved against the bindings in
  scope at that point.
-/

namespace Relatorio

/-! ## JavaScript strings -/

/-- Split of a character list at every occurrence of `sep`
(`String.prototype.split` with a one-character separator). -/
def jsSplitChars (sep : Char) : List Char → List (List Char)
  | [] => [[]]
  | c :: cs =>
    if c = sep then [] :: jsSplitChars sep cs
    else
      match jsSplitChars sep cs with
      | [] => [[c]]
      | p :: ps => (c :: p) :: ps

/-- The JavaScript call `s.split(sep)` for a one-character separator. -/
def jsSplit (s : String) (sep : Char) : List String :=
  (jsSplitChars sep s.data).map String.mk

/-- Decimal digit character of a number below ten. -/
def digitChar : Nat → Char
  | 0 => '0'
  | 1 => '1'
  | 2 => '2'
  | 3 => '3'
  | 4 => '4'
  | 5 => '5'
  | 6 => '6'
  | 7 => '7'
  | 8 => '8'
  | _ => '9'

/-- Value of a decimal digit character, `none` for any other character. -/
def digitVal (c : Char) : Option Nat :=
  if c = '0' then some 0
  else if c = '1' then some 1
  else if c = '2' then some 2
  else if c = '3' then some 3
  else if c = '4' then some 4
  else if c = '5' then some 5
  else if c = '6' then some 6
  else if c = '7' then some 7
  else if c = '8' then some 8
  else if c = '9' then some 9
  else none

/-- Decimal digits of a natural number, most significant first. The first
argument bounds the number of digits produced. -/
def natDigitsAux : Nat → Nat → List Char
  | 0, _ => []
  | fuel + 1, n =>
    if n < 10 then [digitChar n]
    else natDigitsAux fuel (n / 10) ++ [digitChar (n % 10)]

/-- The JavaScript conversion `String(n)` of a non-negative integer. -/
def jsStringNat (n : Nat) : String := ⟨natDigitsAux (n + 1) n⟩

/-- The JavaScript conversion `String(n)` of an integer, as performed by a
template literal. -/
def jsString (n : Int) : String :=
  if n < 0 then "-" ++ jsStringNat n.natAbs else jsStringNat n.toNat

/-- One step of the decimal reading of a digit string. -/
def jsNumberStep (acc : Option Nat) (c : Char) : Option Nat :=
  match acc, digitVal c with
  | some a, some d => some (10 * a + d)
  | _, _ => none

/-- The JavaScript conversion `Number(s)` on strings of decimal digits (the
empty string converts to 0). Every other string is mapped to `none`, which
stands for `NaN`; signs, white space, fractions and exponents are outside
this model. -/
def jsNumber (s : String) : Option Nat :=
  s.data.foldl jsNumberStep (some 0)

/-- The JavaScript call `s.padStart(n, "0")`. -/
def padStart (s : String) (n : Nat) : String :=
  ⟨List.replicate (n - s.length) '0'⟩ ++ s

/-- JavaScript falsiness of a field that is absent, `null` or a string:
`!campo` holds for an absent field and for the empty string. -/
def jsFalsy : Option String → Bool
  | none => true
  | some s => s == ""

/-! ## ECMAScript date arithmetic (ECMA-262, 21.4.1) -/

/-- Day number of the first day of year `y` (ECMA-262 `DayFromYear`). -/
def DayFromYear (y : Int) : Int :=
  365 * (y - 1970) + (y - 1969) / 4 - (y - 1901) / 100 + (y - 1601) / 400

/-- Number of days of year `y` (ECMA-262 `DaysInYear`). -/
def DaysInYear (y : Int) : Int :=
  if y % 4 ≠ 0 then 365
  else if y % 100 ≠ 0 then 366
  else if y % 400 ≠ 0 then 365
  else 366

/-- Leap-year flag, 1 for a leap year and 0 otherwise (ECMA-262 `InLeapYear`). -/
def InLeapYear (y : Int) : Int :=
  if DaysInYear y = 366 then 1 else 0

/-- Year containing day number `n` (ECMA-262 `YearFromTime`): the largest `y`
with `DayFromYear y ≤ n`, computed from an estimate that is off by at most
one. -/
def YearFromDay (n : Int) : Int :=
  let y := 1970 + (400 * n) / 146097
  if n < DayFromYear y then y - 1
  else if DayFromYear (y + 1) ≤ n then y + 1
  else y

/-- Zero-based day within its year (ECMA-262 `DayWithinYear`). -/
def DayWithinYear (n : Int) : Int :=
  n - DayFromYear (YearFromDay n)

/-- Days of the year that precede the zero-based month `mn`, for leap flag `l`
(the thresholds of the ECMA-262 `MonthFromTime` table). -/
def monthStart (l : Int) (mn : Int) : Int :=
  if mn = 0 then 0
  else if mn = 1 then 31
  else if mn = 2 then 59 + l
  else if mn = 3 then 90 + l
  else if mn = 4 then 120 + l
  else if mn = 5 then 151 + l
  else if mn = 6 then 181 + l
  else if mn = 7 then 212 + l
  else if mn = 8 then 243 + l
  else if mn = 9 then 273 + l
  else if mn = 10 then 304 + l
  else 334 + l

/-- Number of days of the zero-based month `m` for leap flag `l`, the
difference of two consecutive values of `monthStart`. -/
def monthLen (l m : Int) : Int :=
  if m = 1 then 28 + l
  else if m = 3 ∨ m = 5 ∨ m = 8 ∨ m = 10 then 30
  else 31

/-- The table of ECMA-262 `MonthFromTime`: the zero-based month of the
zero-based day `d` of a year with leap flag `l`. -/
def monthOfDay (l d : Int) : Int :=
  if d < 31 then 0
  else if d < 59 + l then 1
  else if d < 90 + l then 2
  else if d < 120 + l then 3
  else if d < 151 + l then 4
  else if d < 181 + l then 5
  else if d < 212 + l then 6
  else if d < 243 + l then 7
  else if d < 273 + l then 8
  else if d < 304 + l then 9
  else if d < 334 + l then 10
  else 11

/-- Zero-based month of day number `n` (ECMA-262 `MonthFromTime`). -/
def MonthFromDay (n : Int) : Int :=
  monthOfDay (InLeapYear (YearFromDay n)) (DayWithinYear n)

/-- Day of the month of day number `n` (ECMA-262 `DateFromTime`). -/
def DateFromDay (n : Int) : Int :=
  DayWithinYear n - monthStart (InLeapYear (YearFromDay n)) (MonthFromDay n) + 1

/-- Day of the week of day number `n`, 0 for Sunday (ECMA-262 `WeekDay`). -/
def WeekDay (n : Int) : Int := (n + 4) % 7

/-- Day number of the given year, zero-based month and day of month, with
months and days outside their usual range carried over (ECMA-262 `MakeDay`). -/
def MakeDay (year month date : Int) : Int :=
  let ym := year + month / 12
  let mn := month % 12
  DayFromYear ym + monthStart (InLeapYear ym) mn + date - 1

/-- A JavaScript `Date`, reduced to its local day number. -/
structure JSDate where
  dia : Int
deriving DecidableEq, Repr

namespace JSDate

/-- The method `getFullYear()`. -/
def getFullYear (t : JSDate) : Int := YearFromDay t.dia

/-- The method `getMonth()`, zero-based. -/
def getMonth (t : JSDate) : Int := MonthFromDay t.dia

/-- The method `getDate()`, the day of the month. -/
def getDate (t : JSDate) : Int := DateFromDay t.dia

/-- The method `getDay()`, the day of the week with 0 for Sunday. -/
def getDay (t : JSDate) : Int := WeekDay t.dia

/-- The method `setDate(dt)`: the day of the month is replaced and the result
is renormalised through `MakeDay`. -/
def setDate (t : JSDate) (dt : Int) : JSDate :=
  ⟨MakeDay t.getFullYear t.getMonth dt⟩

/-- The constructor `new Date(y, m, d)`; as ECMA-262 prescribes, a year from
0 to 99 stands for 1900 + y. -/
def ofFields (y m d : Int) : JSDate :=
  let yr := if 0 ≤ y ∧ y ≤ 99 then 1900 + y else y
  ⟨MakeDay yr m d⟩

end JSDate

/-- Number of days of the one-based month `m` of year `y`, used to validate the
fields of an ISO date string. -/
def DaysInMonth (y : Int) (m : Nat) : Nat :=
  if m = 2 then (if InLeapYear y = 1 then 29 else 28)
  else if m = 4 ∨ m = 6 ∨ m = 9 ∨ m = 11 then 30
  else 31

/-- The constructor `new Date(s)` on the only shape of string the source passes
to it, a date `YYYY-MM-DD` followed by `T00:00:00`: local midnight of that date.
Strings of another shape, and field values outside their range, give
`none`, the invalid date. -/
def JSDate.parseLocal (s : String) : Option JSDate :=
  match jsSplit s 'T' with
  | [data, hora] =>
    if hora = "00:00:00" then
      match jsSplit data '-' with
      | [a, m, d] =>
        if a.length = 4 ∧ m.length = 2 ∧ d.length = 2 then
          match jsNumber a, jsNumber m, jsNumber d with
          | some y, some mm, some dd =>
            if 1 ≤ mm ∧ mm ≤ 12 ∧ 1 ≤ dd ∧ dd ≤ DaysInMonth y mm then
              some ⟨MakeDay y ((mm : Int) - 1) dd⟩
            else none
          | _, _, _ => none
        else none
      | _ => none
    else none
  | _ => none

/-! ## Calendar functions of the source -/

/-- Source `formatYMD(date)`: a template literal of the year, the month and the
day, the last two padded to two digits. -/
def formatYMD (date : JSDate) : String :=
  let yyyy := date.getFullYear
  let mm := padStart (jsString (date.getMonth + 1)) 2
  let dd := padStart (jsString date.getDate) 2
  jsString yyyy ++ "-" ++ mm ++ "-" ++ dd

/-- The destructuring `const [y, m, d] = s.split("-").map(Number)`: the first
three pieces converted to numbers; `none` when one of them is missing or is
not a number. -/
def splitYMD (s : String) : Option (Nat × Nat × Nat) :=
  match (jsSplit s '-').map jsNumber with
  | some y :: some m :: some d :: _ => some (y, m, d)
  | _ => none

/-- The `while (current <= end)` loop of `getDateRange` on local day numbers,
the course the loop takes when the local midnights of the days it visits
exist (`getDateRangeLoopFuso` is the loop on instants); `none` when the fuel
runs out before the loop ends. -/
def getDateRangeLoop (fim : JSDate) : Nat → JSDate → List String → Option (List String)
  | 0, _, _ => none
  | fuel + 1, current, dates =>
    if current.dia ≤ fim.dia then
      getDateRangeLoop fim fuel (current.setDate (current.getDate + 1))
        (dates ++ [formatYMD current])
    else some dates

/-- Source `getDateRange(dataInicio, dataFim)` on local day numbers. When a
field is not a number the dates are invalid, the loop condition is false and
the result is empty. -/
def getDateRange (fuel : Nat) (dataInicio dataFim : String) : Option (List String) :=
  match splitYMD dataInicio, splitYMD dataFim with
  | some (y1, m1, d1), some (y2, m2, d2) =>
    let start := JSDate.ofFields y1 ((m1 : Int) - 1) d1
    let fim := JSDate.ofFields y2 ((m2 : Int) - 1) d2
    getDateRangeLoop fim fuel start []
  | _, _ => some []

/-- A period returned by the calendar functions. -/
structure Intervalo where
  inicio : String
  fim : String
deriving DecidableEq, Repr

/-- Source `getLastWeekRange()`, with the clock reading `hoje`. -/
def getLastWeekRange (hoje : Nat) : Intervalo :=
  let today : JSDate := ⟨hoje⟩
  let localToday := JSDate.ofFields today.getFullYear today.getMonth today.getDate
  let dow := localToday.getDay
  let diffToMonday : Int := if dow = 0 then -6 else 1 - dow
  let currentWeekMonday := localToday.setDate (localToday.getDate + diffToMonday)
  let lastWeekMonday := currentWeekMonday.setDate (currentWeekMonday.getDate - 7)
  let lastWeekFriday := lastWeekMonday.setDate (lastWeekMonday.getDate + 4)
  { inicio := formatYMD lastWeekMonday, fim := formatYMD lastWeekFriday }

/-- Source `getLastMonthRange()`, with the clock reading `hoje`. The field
`mesNome`, a locale-formatted label, is left out. -/
def getLastMonthRange (hoje : Nat) : Intervalo :=
  let today : JSDate := ⟨hoje⟩
  let firstDayLastMonth := JSDate.ofFields today.getFullYear (today.getMonth - 1) 1
  let lastDayLastMonth := JSDate.ofFields today.getFullYear today.getMonth 0
  { inicio := formatYMD firstDayLastMonth, fim := formatYMD lastDayLastMonth }

/-- Source `formatDate(offset)` of `utils/formatDate.js` on local day numbers,
with the clock reading `hoje`. -/
def formatDate (hoje : Nat) (offset : Int) : String :=
  let date : JSDate := ⟨hoje⟩
  let date := date.setDate (date.getDate + offset)
  let year := date.getFullYear
  let month := padStart (jsString (date.getMonth + 1)) 2
  let day := padStart (jsString date.getDate) 2
  jsString year ++ "-" ++ month ++ "-" ++ day

/-! ## Records and filters -/

/-- A record of the upstream search endpoints: the three date fields the
source inspects, each absent (or `null`) or a string, and an identifier that
stands for the fields carried along unread. -/
structure Registro where
  propostaId : Nat
  dataVigenciaInicial : Option String
  dataEmitida : Option String
  dataAviso : Option String
deriving DecidableEq, Repr

/-- The callback shared by the three date filters, applied to the selected
field: `if (!campo) return false; return campo.split("T")[0] === dataAnterior`. -/
def campoNoDia (dataAnterior : String) (campo : Option String) : Bool :=
  match campo with
  | none => false
  | some s =>
    if jsFalsy (some s) then false
    else (jsSplit s 'T').head? == some dataAnterior

/-- Source `filtrarPorDiaAnterior(dataAnterior, producoes)`. -/
def filtrarPorDiaAnterior (dataAnterior : String) (producoes : List Registro) :
    List Registro :=
  producoes.filter (fun producao => campoNoDia dataAnterior producao.dataVigenciaInicial)

/-- Source `filtrarPorDataEmitidaDiaAnterior(dataAnterior, producoes)`. -/
def filtrarPorDataEmitidaDiaAnterior (dataAnterior : String) (producoes : List Registro) :
    List Registro :=
  producoes.filter (fun producao => campoNoDia dataAnterior producao.dataEmitida)

/-- Source `filtrarSinistrosPorDiaAnterior(dataAnterior, sinistros)`; the
conversion `String(dataSinistro)` is the identity on a string field. -/
def filtrarSinistrosPorDiaAnterior (dataAnterior : String) (sinistros : List Registro) :
    List Registro :=
  sinistros.filter (fun sinistro => campoNoDia dataAnterior sinistro.dataAviso)

/-! ## Paginated fetches -/

/-- One page request sent upstream: the route and page number of the URL, the
bearer token, and the JSON body. -/
structure Requisicao where
  rota : String
  page : Nat
  token : String
  tipoData : String
  dataInicial : String
  dataFinal : String
  nivel : Option (List String)
  tipo : Option (List String)
  status : Option (List (Option String))
deriving DecidableEq, Repr

/-- One upstream response: `response.ok`, `response.status`, and of the parsed
body the fields `data` and `links.next`, each possibly absent. -/
structure Resposta where
  ok : Bool
  status : Nat
  data : Option (List Registro)
  next : Option String
deriving DecidableEq, Repr

/-- How a call ends: it returns a value, it throws an error with a message, or
the fuel ran out before it ended. -/
inductive Desfecho (α : Type) where
  | retorna : α → Desfecho α
  | lanca : String → Desfecho α
  | semCombustivel : Desfecho α
deriving DecidableEq, Repr

/-- The `do { ... } while (nextPage !== null)` block that the four token-based
fetches share word for word: request page `page`, throw on a response that is
not ok, otherwise append `body?.data ?? []` to the accumulator and go on while
`body?.links?.next ?? null` is not null. Returns the log of the requests sent
and the outcome. -/
def buscarPaginas (servidor : Requisicao → Resposta) (montar : Nat → Requisicao)
    (mensagem : String) :
    Nat → Nat → List Registro → List Requisicao → List Requisicao × Desfecho (List Registro)
  | 0, _, _, log => (log, Desfecho.semCombustivel)
  | fuel + 1, page, allResults, log =>
    let req := montar page
    let response := servidor req
    if !response.ok then
      (log ++ [req], Desfecho.lanca (mensagem ++ jsStringNat response.status))
    else
      let nextPage := response.next
      let allResults := allResults ++ response.data.getD []
      if nextPage.isSome then
        buscarPaginas servidor montar mensagem fuel (page + 1) allResults (log ++ [req])
      else (log ++ [req], Desfecho.retorna allResults)

/-- The request body of the production search, used by the three production
fetches. -/
def reqProducao (token tipoData dataInicial dataFinal : String) (page : Nat) : Requisicao :=
  { rota := "/producao/pesquisar", page := page, token := token,
    tipoData := tipoData, dataInicial := dataInicial, dataFinal := dataFinal,
    nivel := some ["1", "2"], tipo := some ["0", "2", "4"],
    status := some [some "0", none, some "", some "1", some "3", some "4", some "5",
      some "6", some "7"] }

/-- The request body of the claims search. -/
def reqSinistros (token dataInicial dataFinal : String) (page : Nat) : Requisicao :=
  { rota := "/sinistros/pesquisar", page := page, token := token,
    tipoData := "dataAviso", dataInicial := dataInicial, dataFinal := dataFinal,
    nivel := none, tipo := none, status := none }

/-- The end date sent upstream by `getProducaoCompletaPeriodo`: when both dates
are equal, the day after, computed through a `Date` and formatted again; an
invalid date formats as `NaN-NaN-NaN`. -/
def dataFinalParaAPI (dataInicial dataFinal : String) : String :=
  if dataInicial = dataFinal then
    match JSDate.parseLocal (dataFinal ++ "T00:00:00") with
    | some dataFinalDate =>
      let dataFinalDate := dataFinalDate.setDate (dataFinalDate.getDate + 1)
      let yyyy := dataFinalDate.getFullYear
      let mm := padStart (jsString (dataFinalDate.getMonth + 1)) 2
      let dd := padStart (jsString dataFinalDate.getDate) 2
      jsString yyyy ++ "-" ++ mm ++ "-" ++ dd
    | none => "NaN-NaN-NaN"
  else dataFinal

/-- The final filter of `getProducaoCompletaPeriodo`: the records whose
`dataVigenciaInicial`, cut at the first `T`, is one of `datesInRange`. -/
def filtrarPeriodo (datesInRange : List String) (allResults : List Registro) :
    List Registro :=
  allResults.filter (fun producao =>
    match producao.dataVigenciaInicial with
    | none => false
    | some s =>
      if jsFalsy (some s) then false
      else
        match (jsSplit s 'T').head? with
        | some dataVigenciaStr => datesInRange.contains dataVigenciaStr
        | none => false)

/-- Source `getProducaoCompletaPeriodo(token, dataInicial, dataFinal)`: the log
of the page requests and the outcome. The `catch` block logs and rethrows. -/
def getProducaoCompletaPeriodo (fuel : Nat) (servidor : Requisicao → Resposta)
    (token dataInicial dataFinal : String) :
    List Requisicao × Desfecho (List Registro) :=
  let paraAPI := dataFinalParaAPI dataInicial dataFinal
  match buscarPaginas servidor
      (reqProducao token "dataVigenciaInicial" dataInicial paraAPI)
      "Erro na requisição de produção completa: " fuel 1 [] [] with
  | (log, Desfecho.retorna allResults) =>
    match getDateRange fuel dataInicial dataFinal with
    | some datesInRange => (log, Desfecho.retorna (filtrarPeriodo datesInRange allResults))
    | none => (log, Desfecho.semCombustivel)
  | (log, Desfecho.lanca e) => (log, Desfecho.lanca e)
  | (log, Desfecho.semCombustivel) => (log, Desfecho.semCombustivel)

/-- Source `getProducaoCompletaDiaAnterior(token, dataAnterior)`. -/
def getProducaoCompletaDiaAnterior (fuel : Nat) (servidor : Requisicao → Resposta)
    (token dataAnterior : String) : List Requisicao × Desfecho (List Registro) :=
  getProducaoCompletaPeriodo fuel servidor token dataAnterior dataAnterior

/-- The tail common to the three day fetches: the accumulated records go
through the day filter, an error is rethrown. -/
def aposBusca (filtro : List Registro → List Registro)
    (r : List Requisicao × Desfecho (List Registro)) :
    List Requisicao × Desfecho (List Registro) :=
  match r with
  | (log, Desfecho.retorna allResults) => (log, Desfecho.retorna (filtro allResults))
  | (log, Desfecho.lanca e) => (log, Desfecho.lanca e)
  | (log, Desfecho.semCombustivel) => (log, Desfecho.semCombustivel)

/-- Source `getTransmissoesDiaAnterior(token, dataAnterior)`, with the clock
reading `hoje`. -/
def getTransmissoesDiaAnterior (fuel : Nat) (servidor : Requisicao → Resposta) (hoje : Nat)
    (token dataAnterior : String) : List Requisicao × Desfecho (List Registro) :=
  let dataFinal := formatDate hoje 0
  aposBusca (filtrarPorDiaAnterior dataAnterior)
    (buscarPaginas servidor (reqProducao token "dataVigenciaInicial" dataAnterior dataFinal)
      "Erro na requisição de transmissões: " fuel 1 [] [])

/-- Source `getApolicesEmitidasDiaAnterior(token, dataAnterior)`, with the
clock reading `hoje`. -/
def getApolicesEmitidasDiaAnterior (fuel : Nat) (servidor : Requisicao → Resposta)
    (hoje : Nat) (token dataAnterior : String) :
    List Requisicao × Desfecho (List Registro) :=
  let dataFinal := formatDate hoje 0
  aposBusca (filtrarPorDataEmitidaDiaAnterior dataAnterior)
    (buscarPaginas servidor (reqProducao token "dataEmitida" dataAnterior dataFinal)
      "Erro na requisição de apólices emitidas: " fuel 1 [] [])

/-- Source `getSinistrosAbertosDiaAnterior(token, dataAnterior)`, with the
clock reading `hoje`. -/
def getSinistrosAbertosDiaAnterior (fuel : Nat) (servidor : Requisicao → Resposta)
    (hoje : Nat) (token dataAnterior : String) :
    List Requisicao × Desfecho (List Registro) :=
  let dataFinal := formatDate hoje 0
  aposBusca (filtrarSinistrosPorDiaAnterior dataAnterior)
    (buscarPaginas servidor (reqSinistros token dataAnterior dataFinal)
      "Erro na requisição de sinistros: " fuel 1 [] [])

/-! ## The urgent-ticket scan -/

/-- A ticket of the ticket feed: the three fields the scan reads, each possibly
absent. -/
structure Chamado where
  id : Option Nat
  titulo : Option String
  aberto : Option String
deriving DecidableEq, Repr

/-- One request to the ticket feed: the query parameters `start`, `limit` and
`abertoStart` (before URL encoding) and the `Authorization` header. -/
structure RequisicaoChamados where
  start : Nat
  limit : Nat
  abertoStart : String
  authorization : String
deriving DecidableEq, Repr

/-- What one request to the ticket feed leads to: an exception (`fetch` rejects,
or the body of a successful response does not parse), a response that is not
ok, or a successful response with the fields `data` and `totalPage` of its
body, each possibly absent. -/
inductive RespostaChamados where
  | lancou : RespostaChamados
  | naoOk : Nat → RespostaChamados
  | pagina : Option (List Chamado) → Option Nat → RespostaChamados
deriving DecidableEq, Repr

/-- The JavaScript call `s.includes(sub)`: `sub` starts at some position of
`s`. -/
def jsIncludes (s sub : String) : Bool :=
  s.data.tails.any (fun t => sub.data.isPrefixOf t)

/-- The title test of the scan: `item.titulo?.includes(...) ||
item.titulo?.includes(...)` with the two spellings of the marker. -/
def tituloUrgente (item : Chamado) : Bool :=
  match item.titulo with
  | none => false
  | some titulo =>
    jsIncludes titulo "Solicitação: Assistência Urgente" ||
      jsIncludes titulo "Solicitação: Assistência urgente"

/-- The loop `for (const item of filtrados)`: an item is pushed unless
`assistencias.find((a) => a.id === item.id)` finds one. -/
def acrescentar (assistencias filtrados : List Chamado) : List Chamado :=
  filtrados.foldl
    (fun acc item => if (acc.find? (fun a => a.id == item.id)).isSome then acc else acc ++ [item])
    assistencias

/-- The JavaScript comparison `a < b` of two strings, character by character.
JavaScript compares UTF-16 code units; the comparison of code points used here
is the same on the Basic Multilingual Plane. -/
def jsStrLt : List Char → List Char → Bool
  | [], [] => false
  | [], _ :: _ => true
  | _ :: _, [] => false
  | a :: as, b :: bs =>
    if a < b then true
    else if b < a then false
    else jsStrLt as bs

/-- The test `chamados.some(...)` of the scan: some ticket has a non-empty
`aberto` whose part before the first `T` is greater than `dataAnterior`. -/
def temDataMaisRecente (dataAnterior : String) (chamados : List Chamado) : Bool :=
  chamados.any (fun item =>
    match item.aberto with
    | none => false
    | some s =>
      if jsFalsy (some s) then false
      else
        match (jsSplit s 'T').head? with
        | some dataAbertoStr => jsStrLt dataAnterior.data dataAbertoStr.data
        | none => false)

/-- Source `formatISODate(date)`. -/
def formatISODate (date : JSDate) : String :=
  let yyyy := jsString date.getFullYear
  let mm := padStart (jsString (date.getMonth + 1)) 2
  let dd := padStart (jsString date.getDate) 2
  yyyy ++ "-" ++ mm ++ "-" ++ dd ++ "T00:00:00Z"

/-- The value `abertoStart` of the scan: seven days before `dataAnterior`,
through a `Date`; an invalid date formats as `NaN-NaN-NaNT00:00:00Z`. -/
def abertoStartDe (dataAnterior : String) : String :=
  match JSDate.parseLocal (dataAnterior ++ "T00:00:00") with
  | some dataAnteriorDate =>
    formatISODate (dataAnteriorDate.setDate (dataAnteriorDate.getDate - 7))
  | none => "NaN-NaN-NaNT00:00:00Z"

/-- The request of the scan for page index `page`. -/
def reqChamados (accessToken abertoStart : String) (page : Nat) : RequisicaoChamados :=
  { start := page, limit := 100, abertoStart := abertoStart, authorization := accessToken }

/-- The `do { ... } while (page <= totalPage)` loop of
`getAssistenciasUrgentesDiaAnterior`, inside its `try`: an exception ends the
call with the empty list of the `catch` block, a response that is not ok breaks
the loop, a successful page is filtered, merged and tested for the early
stop. Returns the log of the requests sent and the outcome. -/
def varrerChamados (feed : RequisicaoChamados → RespostaChamados)
    (accessToken abertoStart dataAnterior : String) :
    Nat → Nat → List Chamado → List RequisicaoChamados →
      List RequisicaoChamados × Desfecho (List Chamado)
  | 0, _, _, log => (log, Desfecho.semCombustivel)
  | fuel + 1, page, assistencias, log =>
    let req := reqChamados accessToken abertoStart page
    match feed req with
    | RespostaChamados.lancou => (log ++ [req], Desfecho.retorna [])
    | RespostaChamados.naoOk _ => (log ++ [req], Desfecho.retorna assistencias)
    | RespostaChamados.pagina data total =>
      let chamados := data.getD []
      let totalPage := total.getD page
      let assistenciasUrgentes := chamados.filter tituloUrgente
      let filtrados := assistenciasUrgentes.filter (fun item => campoNoDia dataAnterior item.aberto)
      let assistencias := acrescentar assistencias filtrados
      if temDataMaisRecente dataAnterior chamados && !assistencias.isEmpty then
        (log ++ [req], Desfecho.retorna assistencias)
      else if page + 1 ≤ totalPage then
        varrerChamados feed accessToken abertoStart dataAnterior fuel (page + 1) assistencias
          (log ++ [req])
      else (log ++ [req], Desfecho.retorna assistencias)

/-- Source `getAssistenciasUrgentesDiaAnterior(dataAnterior)`, with the
environment variable `SULTS_ACCESS_TOKEN` as the parameter `accessToken`
(absent or a string): the log of the requests sent to the feed and the
outcome. -/
def getAssistenciasUrgentesDiaAnterior (fuel : Nat) (accessToken : Option String)
    (feed : RequisicaoChamados → RespostaChamados) (dataAnterior : String) :
    List RequisicaoChamados × Desfecho (List Chamado) :=
  match accessToken with
  | none => ([], Desfecho.retorna [])
  | some token =>
    if jsFalsy (some token) then ([], Desfecho.retorna [])
    else
      varrerChamados feed token (abertoStartDe dataAnterior) dataAnterior fuel 0 [] []

/-! ## The day-by-day loop of the weekly and monthly runs -/

/-- The four accumulators of the weekly and monthly runs. -/
structure Totais where
  transmissoesTotais : List Registro
  apolicesEmitidasTotais : List Registro
  sinistrosTotais : List Registro
  assistenciasUrgentesTotais : List Chamado
deriving DecidableEq, Repr

/-- The four per-day fetches as the loop calls them, each a function of the
date; the token, the clock and the upstream are fixed inside. -/
structure Adaptadores where
  transmissoes : String → Desfecho (List Registro)
  apolices : String → Desfecho (List Registro)
  sinistros : String → Desfecho (List Registro)
  assistencias : String → Desfecho (List Chamado)

/-- One call of a per-day fetch: which one, and for which date. -/
inductive Chamada where
  | transmissoes : String → Chamada
  | apolices : String → Chamada
  | sinistros : String → Chamada
  | assistencias : String → Chamada
deriving DecidableEq, Repr

/-- The block `for (const data of datesInWeek) { ... }` of
`gerarRelatorioSemanal`, word for word the same in `gerarRelatorioMensal`: for
each date the four fetches are awaited in turn and their results pushed onto
the four accumulators; an error of a fetch leaves the loop. Returns the log
of the calls made and the outcome. -/
def acumularDias (ad : Adaptadores) :
    List String → Totais → List Chamada → List Chamada × Desfecho Totais
  | [], totais, log => (log, Desfecho.retorna totais)
  | data :: resto, totais, log =>
    match ad.transmissoes data with
    | Desfecho.lanca e => (log ++ [Chamada.transmissoes data], Desfecho.lanca e)
    | Desfecho.semCombustivel =>
      (log ++ [Chamada.transmissoes data], Desfecho.semCombustivel)
    | Desfecho.retorna transmissoes =>
      match ad.apolices data with
      | Desfecho.lanca e =>
        (log ++ [Chamada.transmissoes data, Chamada.apolices data], Desfecho.lanca e)
      | Desfecho.semCombustivel =>
        (log ++ [Chamada.transmissoes data, Chamada.apolices data], Desfecho.semCombustivel)
      | Desfecho.retorna apolices =>
        match ad.sinistros data with
        | Desfecho.lanca e =>
          (log ++ [Chamada.transmissoes data, Chamada.apolices data, Chamada.sinistros data],
            Desfecho.lanca e)
        | Desfecho.semCombustivel =>
          (log ++ [Chamada.transmissoes data, Chamada.apolices data, Chamada.sinistros data],
            Desfecho.semCombustivel)
        | Desfecho.retorna sinistros =>
          match ad.assistencias data with
          | Desfecho.lanca e =>
            (log ++ [Chamada.transmissoes data, Chamada.apolices data, Chamada.sinistros data,
              Chamada.assistencias data], Desfecho.lanca e)
          | Desfecho.semCombustivel =>
            (log ++ [Chamada.transmissoes data, Chamada.apolices data, Chamada.sinistros data,
              Chamada.assistencias data], Desfecho.semCombustivel)
          | Desfecho.retorna assistencias =>
            acumularDias ad resto
              { transmissoesTotais := totais.transmissoesTotais ++ transmissoes,
                apolicesEmitidasTotais := totais.apolicesEmitidasTotais ++ apolices,
                sinistrosTotais := totais.sinistrosTotais ++ sinistros,
                assistenciasUrgentesTotais := totais.assistenciasUrgentesTotais ++ assistencias }
              (log ++ [Chamada.transmissoes data, Chamada.apolices data, Chamada.sinistros data,
                Chamada.assistencias data])

/-- The per-day fetches of the source, as the runs pass them to the loop: the
three token-based fetches and the ticket scan, on one upstream, one feed and
one clock reading. -/
def adaptadoresDoDia (fuel : Nat) (servidor : Requisicao → Resposta)
    (feed : RequisicaoChamados → RespostaChamados) (accessToken : Option String)
    (hoje : Nat) (token : String) : Adaptadores :=
  { transmissoes := fun data => (getTransmissoesDiaAnterior fuel servidor hoje token data).2,
    apolices := fun data => (getApolicesEmitidasDiaAnterior fuel servidor hoje token data).2,
    sinistros := fun data => (getSinistrosAbertosDiaAnterior fuel servidor hoje token data).2,
    assistencias := fun data => (getAssistenciasUrgentesDiaAnterior fuel accessToken feed data).2 }

/-! ## The three top-level runs -/

/-- The artifact handle returned by `gerarPlanilhaExcelCompleta`. -/
structure Arquivo where
  filePath : String
  fileName : String
deriving DecidableEq, Repr

/-- The arguments of a report delivery (`enviarEmail`, `enviarWhatsApp` and
their weekly and monthly variants): the four lists, the artifact, and the
trailing period arguments (`dataAnterior`, or `dataInicio` and `dataFim`, or
`mesNome`). -/
structure Entrega where
  transmissoes : List Registro
  apolices : List Registro
  sinistros : List Registro
  assistencias : List Chamado
  arquivo : Arquivo
  periodo : List String
deriving DecidableEq, Repr

/-- Which of the three runs a delivery function belongs to. -/
inductive Tipo where
  | diario : Tipo
  | semanal : Tipo
  | mensal : Tipo
deriving DecidableEq, Repr

/-- One call a run makes to the outside, in the order of the log: `getAuth`, a
per-day fetch, the full-production fetch with its two dates, the spreadsheet
step with its four arguments, an e-mail report function, a WhatsApp report
function, the hook `enviarEmailErro` with its title, message, error and
evaluated context, and the removal of the temporary file. -/
inductive Acao where
  | getAuth : Acao
  | busca : Chamada → Acao
  | producaoCompleta : String → String → Acao
  | planilha : List Registro → List Registro → List Chamado → String → Acao
  | email : Tipo → Entrega → Acao
  | whatsapp : Tipo → Entrega → Acao
  | emailErro : String → String → String → List (String × String) → Acao
  | unlink : String → Acao
deriving DecidableEq, Repr

/-- How the start of the WhatsApp client goes while `inicializarWhatsApp()`
waits for it: the client gets ready (or was ready already), the five-minute
timer fires first, the event `auth_failure` arrives with its message (which
may be absent), or `initialize()` rejects with an error. -/
inductive InicioWhatsApp where
  | pronto : InicioWhatsApp
  | tempoEsgotado : InicioWhatsApp
  | falhaAutenticacao : Option String → InicioWhatsApp
  | erroInitialize : String → InicioWhatsApp
deriving DecidableEq, Repr

/-- Everything outside a run that its course depends on: the fuel of the
fetch loops, the clock, the locale label `mesNome` of `getLastMonthRange()`,
how `getAuth()` with the read of `authData.data.token` ends, the upstream, the
ticket feed and its credential, how `gerarPlanilhaExcelCompleta` ends, the
error, if any, that an e-mail report function throws, the recipient number
`process.env.DIRETOR_WHATSAPP`, how the start of the WhatsApp client goes, and
the error, if any, that the `try` block of a WhatsApp report function throws
once the client is ready (while it sends the message and the file). -/
structure Mundo where
  fuel : Nat
  hoje : Nat
  mesNome : String
  auth : Desfecho String
  servidor : Requisicao → Resposta
  feed : RequisicaoChamados → RespostaChamados
  accessToken : Option String
  planilha : List Registro → List Registro → List Chamado → String → Desfecho Arquivo
  enviarEmail : Tipo → Entrega → Option String
  diretorWhatsApp : Option String
  inicioWhatsApp : InicioWhatsApp
  whatsapp : Tipo → Entrega → Option String

/-- Two awaited steps in sequence inside one block: the second runs on the
value of the first; an error of the first (or its not ending) skips the
second. The logs are concatenated. -/
def seguir {α β : Type} (r : List Acao × Desfecho α) (k : α → List Acao × Desfecho β) :
    List Acao × Desfecho β :=
  match r with
  | (log, Desfecho.retorna a) => (log ++ (k a).1, (k a).2)
  | (log, Desfecho.lanca e) => (log, Desfecho.lanca e)
  | (log, Desfecho.semCombustivel) => (log, Desfecho.semCombustivel)

/-- A piece of a property value of an object literal: literal text, or an
identifier to be resolved (alone, or inside a template literal). -/
inductive Parte where
  | texto : String → Parte
  | variavel : String → Parte

/-- Resolution of an identifier against the bindings in scope, given as pairs
of name and value: the value, or a `ReferenceError` when no binding of that
name is in scope. -/
def lerVariavel (escopo : List (String × String)) (nome : String) : Desfecho String :=
  match escopo.lookup nome with
  | some v => Desfecho.retorna v
  | none => Desfecho.lanca ("ReferenceError: " ++ nome ++ " is not defined")

/-- Evaluation of a property value, piece by piece from left to right; the
first identifier that does not resolve ends it with its `ReferenceError`. -/
def avaliarPartes (escopo : List (String × String)) : List Parte → Desfecho String
  | [] => Desfecho.retorna ""
  | Parte.texto t :: resto =>
    match avaliarPartes escopo resto with
    | Desfecho.retorna s => Desfecho.retorna (t ++ s)
    | d => d
  | Parte.variavel nome :: resto =>
    match lerVariavel escopo nome with
    | Desfecho.retorna v =>
      match avaliarPartes escopo resto with
      | Desfecho.retorna s => Desfecho.retorna (v ++ s)
      | d => d
    | Desfecho.lanca e => Desfecho.lanca e
    | Desfecho.semCombustivel => Desfecho.semCombustivel

/-- Evaluation of a context object literal, property by property in source
order. -/
def avaliarContexto (escopo : List (String × String)) :
    List (String × List Parte) → Desfecho (List (String × String))
  | [] => Desfecho.retorna []
  | (chave, partes) :: resto =>
    match avaliarPartes escopo partes with
    | Desfecho.retorna v =>
      match avaliarContexto escopo resto with
      | Desfecho.retorna c => Desfecho.retorna ((chave, v) :: c)
      | d => d
    | Desfecho.lanca e => Desfecho.lanca e
    | Desfecho.semCombustivel => Desfecho.semCombustivel

/-- A call `await enviarEmailErro(titulo, mensagem, erro, { ... })`: the
arguments are evaluated first, so an identifier of the context that does not
resolve throws before the function is entered; the body of `enviarEmailErro`
is one `try` whose `catch` only logs, so the call itself never throws. -/
def chamarEmailErro (escopo : List (String × String)) (titulo mensagem erro : String)
    (contexto : List (String × List Parte)) : List Acao × Desfecho Unit :=
  match avaliarContexto escopo contexto with
  | Desfecho.retorna c => ([Acao.emailErro titulo mensagem erro c], Desfecho.retorna ())
  | Desfecho.lanca e => ([], Desfecho.lanca e)
  | Desfecho.semCombustivel => ([], Desfecho.semCombustivel)

/-- The block `try { await enviarEmail...(...) } catch (emailErr) { await
enviarEmailErro(...) }` of a run, inside the `try` block of the run, whose
bindings are `escopo`. -/
def tentarEmail (m : Mundo) (tipo : Tipo) (entrega : Entrega) (escopo : List (String × String))
    (titulo mensagem : String) (contexto : List (String × List Parte)) :
    List Acao × Desfecho Unit :=
  match m.enviarEmail tipo entrega with
  | none => ([Acao.email tipo entrega], Desfecho.retorna ())
  | some emailErr =>
    seguir ([Acao.email tipo entrega], Desfecho.retorna ()) fun _ =>
      chamarEmailErro escopo titulo mensagem emailErr contexto

/-- Source `inicializarWhatsApp()`: the promise resolves when the client is
ready; on each of the three failures of the start (the five-minute timer, the
event `auth_failure`, a rejection of `initialize()`) the function itself calls
`enviarEmailErro` and then rejects with the error. The handler of the event
`disconnected`, which reports a disconnection after the start through
`enviarEmailErro` with no error, is not part of this model. -/
def inicializarWhatsApp (inicio : InicioWhatsApp) : List Acao × Desfecho Unit :=
  match inicio with
  | InicioWhatsApp.pronto => ([], Desfecho.retorna ())
  | InicioWhatsApp.tempoEsgotado =>
    ([Acao.emailErro "Timeout na Inicialização do WhatsApp"
        "O WhatsApp não conseguiu conectar em 5 minutos. Isso pode indicar problema de conexão ou necessidade de escanear QR Code novamente."
        "Timeout: WhatsApp não conectou em 5 minutos" []],
      Desfecho.lanca "Timeout: WhatsApp não conectou em 5 minutos")
  | InicioWhatsApp.falhaAutenticacao msg =>
    ([Acao.emailErro "Falha na Autenticação do WhatsApp"
        "O sistema não conseguiu autenticar no WhatsApp. É necessário escanear o QR Code novamente."
        "Falha na autenticação do WhatsApp"
        [("motivo", if jsFalsy msg then "Desconhecido" else msg.getD "")]],
      Desfecho.lanca "Falha na autenticação do WhatsApp")
  | InicioWhatsApp.erroInitialize err =>
    ([Acao.emailErro "Erro ao Inicializar WhatsApp"
        "Ocorreu um erro ao tentar inicializar o cliente WhatsApp." err []],
      Desfecho.lanca err)

/-- The `try` block of a WhatsApp report function: without a recipient number
it returns at once; otherwise it awaits `inicializarWhatsApp()` and then sends
the message and the file, which may throw. -/
def tentarWhatsApp (m : Mundo) (tipo : Tipo) (entrega : Entrega) : List Acao × Desfecho Unit :=
  if jsFalsy m.diretorWhatsApp then ([], Desfecho.retorna ())
  else
    seguir (inicializarWhatsApp m.inicioWhatsApp) fun _ =>
      match m.whatsapp tipo entrega with
      | none => ([], Desfecho.retorna ())
      | some err => ([], Desfecho.lanca err)

/-- Source `enviarWhatsApp(...)`, the WhatsApp report function of the daily
run: an error of its `try` block is caught and passed to `enviarEmailErro`; the
`finally` block waits and disconnects inside its own `try`. The period
argument `dataAnterior` is a parameter, in scope in the `catch` block. The log
starts with the call of the function itself. -/
def enviarWhatsApp (m : Mundo) (entrega : Entrega) (dataAnterior : String) :
    List Acao × Desfecho Unit :=
  match tentarWhatsApp m Tipo.diario entrega with
  | (log, Desfecho.lanca err) =>
    seguir (Acao.whatsapp Tipo.diario entrega :: log, Desfecho.retorna ()) fun _ =>
      chamarEmailErro [("dataAnterior", dataAnterior)]
        "Erro ao Enviar WhatsApp - Relatório Diário"
        "Ocorreu um erro ao tentar enviar o relatório diário via WhatsApp. O relatório foi gerado e enviado por e-mail, mas falhou no envio via WhatsApp."
        err
        [("data", [Parte.variavel "dataAnterior"]), ("tipo", [Parte.texto "Relatório Diário"])]
  | (log, Desfecho.retorna u) => (Acao.whatsapp Tipo.diario entrega :: log, Desfecho.retorna u)
  | (log, Desfecho.semCombustivel) =>
    (Acao.whatsapp Tipo.diario entrega :: log, Desfecho.semCombustivel)

/-- Source `enviarWhatsAppSemanal(...)`, with the parameters `dataInicio` and
`dataFim` in scope in its `catch` block. -/
def enviarWhatsAppSemanal (m : Mundo) (entrega : Entrega) (dataInicio dataFim : String) :
    List Acao × Desfecho Unit :=
  match tentarWhatsApp m Tipo.semanal entrega with
  | (log, Desfecho.lanca err) =>
    seguir (Acao.whatsapp Tipo.semanal entrega :: log, Desfecho.retorna ()) fun _ =>
      chamarEmailErro [("dataInicio", dataInicio), ("dataFim", dataFim)]
        "Erro ao Enviar WhatsApp - Relatório Semanal"
        "Ocorreu um erro ao tentar enviar o relatório semanal via WhatsApp. O relatório foi gerado e enviado por e-mail, mas falhou no envio via WhatsApp."
        err
        [("periodo", [Parte.variavel "dataInicio", Parte.texto " até ", Parte.variavel "dataFim"]),
          ("tipo", [Parte.texto "Relatório Semanal"])]
  | (log, Desfecho.retorna u) => (Acao.whatsapp Tipo.semanal entrega :: log, Desfecho.retorna u)
  | (log, Desfecho.semCombustivel) =>
    (Acao.whatsapp Tipo.semanal entrega :: log, Desfecho.semCombustivel)

/-- Source `enviarWhatsAppMensal(...)`, with the parameter `mesNome` in scope
in its `catch` block. -/
def enviarWhatsAppMensal (m : Mundo) (entrega : Entrega) (mesNome : String) :
    List Acao × Desfecho Unit :=
  match tentarWhatsApp m Tipo.mensal entrega with
  | (log, Desfecho.lanca err) =>
    seguir (Acao.whatsapp Tipo.mensal entrega :: log, Desfecho.retorna ()) fun _ =>
      chamarEmailErro [("mesNome", mesNome)]
        "Erro ao Enviar WhatsApp - Relatório Mensal"
        "Ocorreu um erro ao tentar enviar o relatório mensal via WhatsApp. O relatório foi gerado e enviado por e-mail, mas falhou no envio via WhatsApp."
        err
        [("periodo", [Parte.variavel "mesNome"]), ("tipo", [Parte.texto "Relatório Mensal"])]
  | (log, Desfecho.retorna u) => (Acao.whatsapp Tipo.mensal entrega :: log, Desfecho.retorna u)
  | (log, Desfecho.semCombustivel) =>
    (Acao.whatsapp Tipo.mensal entrega :: log, Desfecho.semCombustivel)

/-- The bindings that hold text in the outer `catch (err)` block of a run: the
caught error. The block also sees the parameter `encerrarProcesso` and the
top-level bindings of the module (imports, functions, `whatsappClient`), none
of which is named `dataAnterior`, `dataInicial`, `dataFinal` or `mesNome`; the
`const` declarations of the `try` block are block-scoped and are not visible
in the `catch` block. -/
def escopoDoCatch (err : String) : List (String × String) :=
  [("err", err)]

/-- The outer `try { ... } catch (err) { await enviarEmailErro(titulo, mensagem,
err, contexto); throw err; }` of a run around its body; the `finally` block only
schedules the exit of the process. -/
def capturar (corpo : List Acao × Desfecho Unit) (titulo mensagem : String)
    (contexto : List (String × List Parte)) : List Acao × Desfecho Unit :=
  match corpo with
  | (log, Desfecho.lanca err) =>
    seguir (log, Desfecho.retorna ()) fun _ =>
      seguir (chamarEmailErro (escopoDoCatch err) titulo mensagem err contexto) fun _ =>
        ([], Desfecho.lanca err)
  | (log, Desfecho.retorna u) => (log, Desfecho.retorna u)
  | (log, Desfecho.semCombustivel) => (log, Desfecho.semCombustivel)

/-- The first part of the `try` block of `gerarRelatorioDiario`, from `getAuth()`
to `gerarPlanilhaExcelCompleta(...)`: authentication, the four fetches of the
day, the full production of the day and the spreadsheet, awaited one after the
other. It yields the arguments of the two deliveries. -/
def coletarDiario (m : Mundo) (dataAnterior : String) : List Acao × Desfecho Entrega :=
  seguir ([Acao.getAuth], m.auth) fun token =>
  seguir ([Acao.busca (Chamada.transmissoes dataAnterior)],
    (getTransmissoesDiaAnterior m.fuel m.servidor m.hoje token dataAnterior).2)
    fun transmissoes =>
  seguir ([Acao.busca (Chamada.apolices dataAnterior)],
    (getApolicesEmitidasDiaAnterior m.fuel m.servidor m.hoje token dataAnterior).2)
    fun apolicesEmitidas =>
  seguir ([Acao.busca (Chamada.sinistros dataAnterior)],
    (getSinistrosAbertosDiaAnterior m.fuel m.servidor m.hoje token dataAnterior).2)
    fun sinistros =>
  seguir ([Acao.busca (Chamada.assistencias dataAnterior)],
    (getAssistenciasUrgentesDiaAnterior m.fuel m.accessToken m.feed dataAnterior).2)
    fun assistenciasUrgentes =>
  seguir ([Acao.producaoCompleta dataAnterior dataAnterior],
    (getProducaoCompletaDiaAnterior m.fuel m.servidor token dataAnterior).2)
    fun producaoCompleta =>
  seguir ([Acao.planilha producaoCompleta sinistros assistenciasUrgentes dataAnterior],
    m.planilha producaoCompleta sinistros assistenciasUrgentes dataAnterior)
    fun arquivoExcel =>
  ([], Desfecho.retorna
    { transmissoes := transmissoes, apolices := apolicesEmitidas, sinistros := sinistros,
      assistencias := assistenciasUrgentes, arquivo := arquivoExcel,
      periodo := [dataAnterior] })

/-- The rest of the `try` block of `gerarRelatorioDiario`: the e-mail delivery
inside its own `try`, the WhatsApp delivery, and the removal of the temporary
file (inside a `try` of its own). The constant `dataAnterior` of the block is in
scope. -/
def entregarDiario (m : Mundo) (dataAnterior : String) (entrega : Entrega) :
    List Acao × Desfecho Unit :=
  seguir (tentarEmail m Tipo.diario entrega [("dataAnterior", dataAnterior)]
    "Erro ao Enviar E-mail - Relatório Diário"
    "Ocorreu um erro ao tentar enviar o relatório diário por e-mail. O relatório foi gerado, mas não foi enviado."
    [("data", [Parte.variavel "dataAnterior"]), ("tipo", [Parte.texto "Relatório Diário"])])
    fun _ =>
  seguir (enviarWhatsApp m entrega dataAnterior) fun _ =>
  ([Acao.unlink entrega.arquivo.filePath], Desfecho.retorna ())

/-- Source `gerarRelatorioDiario()`: the log of the calls made and the outcome.
The `catch` block builds its context from the identifier `dataAnterior`. -/
def gerarRelatorioDiario (m : Mundo) : List Acao × Desfecho Unit :=
  let dataAnterior := formatDate m.hoje (-1)
  capturar (seguir (coletarDiario m dataAnterior) (entregarDiario m dataAnterior))
    "Erro ao Gerar Relatório Diário"
    "Ocorreu um erro crítico ao tentar gerar ou enviar o relatório diário. O processo foi interrompido."
    [("tipo", [Parte.texto "Relatório Diário"]), ("data", [Parte.variavel "dataAnterior"])]

/-- The part common to the `try` blocks of `gerarRelatorioSemanal` and
`gerarRelatorioMensal`, from `getAuth()` to `gerarPlanilhaExcelCompleta(...)`:
authentication, `getDateRange`, the day-by-day loop, the full production of
the period, and the spreadsheet under the name `periodoNome`. `periodo` holds
the trailing arguments of the deliveries. -/
def coletarPeriodo (m : Mundo) (dataInicial dataFinal periodoNome : String)
    (periodo : List String) : List Acao × Desfecho Entrega :=
  seguir ([Acao.getAuth], m.auth) fun token =>
  match getDateRange m.fuel dataInicial dataFinal with
  | none => ([], Desfecho.semCombustivel)
  | some datesInPeriod =>
    seguir
      (((acumularDias
          (adaptadoresDoDia m.fuel m.servidor m.feed m.accessToken m.hoje token)
          datesInPeriod (Totais.mk [] [] [] []) []).1.map Acao.busca),
        (acumularDias
          (adaptadoresDoDia m.fuel m.servidor m.feed m.accessToken m.hoje token)
          datesInPeriod (Totais.mk [] [] [] []) []).2)
      fun totais =>
    seguir ([Acao.producaoCompleta dataInicial dataFinal],
      (getProducaoCompletaPeriodo m.fuel m.servidor token dataInicial dataFinal).2)
      fun producaoCompleta =>
    seguir
      ([Acao.planilha producaoCompleta totais.sinistrosTotais
          totais.assistenciasUrgentesTotais periodoNome],
        m.planilha producaoCompleta totais.sinistrosTotais
          totais.assistenciasUrgentesTotais periodoNome)
      fun arquivoExcel =>
    ([], Desfecho.retorna
      { transmissoes := totais.transmissoesTotais,
        apolices := totais.apolicesEmitidasTotais,
        sinistros := totais.sinistrosTotais,
        assistencias := totais.assistenciasUrgentesTotais,
        arquivo := arquivoExcel, periodo := periodo })

/-- The rest of the `try` block of `gerarRelatorioSemanal`, with the constants
`dataInicial` and `dataFinal` of the block in scope. -/
def entregarSemanal (m : Mundo) (dataInicial dataFinal : String) (entrega : Entrega) :
    List Acao × Desfecho Unit :=
  seguir (tentarEmail m Tipo.semanal entrega
    [("dataInicial", dataInicial), ("dataFinal", dataFinal)]
    "Erro ao Enviar E-mail - Relatório Semanal"
    "Ocorreu um erro ao tentar enviar o relatório semanal por e-mail. O relatório foi gerado, mas não foi enviado."
    [("periodo", [Parte.variavel "dataInicial", Parte.texto " até ",
        Parte.variavel "dataFinal"]),
      ("tipo", [Parte.texto "Relatório Semanal"])])
    fun _ =>
  seguir (enviarWhatsAppSemanal m entrega dataInicial dataFinal) fun _ =>
  ([Acao.unlink entrega.arquivo.filePath], Desfecho.retorna ())

/-- Source `gerarRelatorioSemanal()`: the log of the calls made and the
outcome. The `catch` block builds its context from the identifiers
`dataInicial` and `dataFinal`. -/
def gerarRelatorioSemanal (m : Mundo) : List Acao × Desfecho Unit :=
  let dataInicial := (getLastWeekRange m.hoje).inicio
  let dataFinal := (getLastWeekRange m.hoje).fim
  capturar
    (seguir
      (coletarPeriodo m dataInicial dataFinal
        ("semana_" ++ dataInicial ++ "_a_" ++ dataFinal) [dataInicial, dataFinal])
      (entregarSemanal m dataInicial dataFinal))
    "Erro ao Gerar Relatório Semanal"
    "Ocorreu um erro crítico ao tentar gerar ou enviar o relatório semanal. O processo foi interrompido."
    [("tipo", [Parte.texto "Relatório Semanal"]),
      ("periodo", [Parte.variavel "dataInicial", Parte.texto " até ",
        Parte.variavel "dataFinal"])]

/-- The rest of the `try` block of `gerarRelatorioMensal`, with the constant
`mesNome` of the block in scope. -/
def entregarMensal (m : Mundo) (mesNome : String) (entrega : Entrega) :
    List Acao × Desfecho Unit :=
  seguir (tentarEmail m Tipo.mensal entrega [("mesNome", mesNome)]
    "Erro ao Enviar E-mail - Relatório Mensal"
    "Ocorreu um erro ao tentar enviar o relatório mensal por e-mail. O relatório foi gerado, mas não foi enviado."
    [("periodo", [Parte.variavel "mesNome"]), ("tipo", [Parte.texto "Relatório Mensal"])])
    fun _ =>
  seguir (enviarWhatsAppMensal m entrega mesNome) fun _ =>
  ([Acao.unlink entrega.arquivo.filePath], Desfecho.retorna ())

/-- Source `gerarRelatorioMensal()`: the log of the calls made and the
outcome. The `catch` block builds its context from the identifier `mesNome`. -/
def gerarRelatorioMensal (m : Mundo) : List Acao × Desfecho Unit :=
  let inicio := (getLastMonthRange m.hoje).inicio
  let fim := (getLastMonthRange m.hoje).fim
  let mesNome := m.mesNome
  capturar
    (seguir (coletarPeriodo m inicio fim mesNome [mesNome]) (entregarMensal m mesNome))
    "Erro ao Gerar Relatório Mensal"
    "Ocorreu um erro crítico ao tentar gerar ou enviar o relatório mensal. O processo foi interrompido."
    [("tipo", [Parte.texto "Relatório Mensal"]), ("periodo", [Parte.variavel "mesNome"])]

/-! ## Dates as instants in a host time zone

The calendar functions above work on local day numbers. The definitions of
this section keep what a `Date` object holds, a time value in milliseconds
since the epoch in UTC (or `NaN`), and take the host time zone as a parameter.
They are used where the source compares two `Date` objects, in the loop of
`getDateRange`. -/

/-- Milliseconds in a day (ECMA-262 `msPerDay`). -/
def msPerDay : Int := 86400000

/-- Day number of a time value (ECMA-262 `Day`). -/
def Day (t : Int) : Int := t / msPerDay

/-- Milliseconds elapsed since the start of the day (ECMA-262
`TimeWithinDay`). -/
def TimeWithinDay (t : Int) : Int := t % msPerDay

/-- Time value of a day number and a time within the day (ECMA-262
`MakeDate`). -/
def MakeDate (day time : Int) : Int := day * msPerDay + time

/-- ECMA-262 `TimeClip`: a time value more than 8.64e15 milliseconds (10^8
days) away from the epoch is replaced by `NaN`, here `none`. -/
def TimeClip (t : Int) : Option Int :=
  if -8640000000000000 ≤ t ∧ t ≤ 8640000000000000 then some t else none

/-- The host time zone, given by the two conversions that ECMA-262 leaves to
the implementation: `localTime` is `LocalTime(t)`, from a UTC time value to the
local one, and `utc` is `UTC(t)`, from a local time value to the UTC one. -/
structure Fuso where
  localTime : Int → Int
  utc : Int → Int

namespace Fuso

/-- The local calendar day of a valid time value, from which `getFullYear()`,
`getMonth()` and `getDate()` read their fields. -/
def dataLocal (f : Fuso) (t : Int) : JSDate := ⟨Day (f.localTime t)⟩

/-- The constructor `new Date(y, m, d)` in the time zone `f`: local midnight
of the day `MakeDay` gives, converted to UTC and clipped. A year from 0 to 99
stands for 1900 + y. -/
def ofFields (f : Fuso) (y m d : Int) : Option Int :=
  let yr := if 0 ≤ y ∧ y ≤ 99 then 1900 + y else y
  TimeClip (f.utc (MakeDate (MakeDay yr m d) 0))

/-- The method `setDate(dt)` on a valid time value `t` in the time zone `f`:
the day of the month of the local time is replaced, the time within the day is
kept, and the result is converted to UTC and clipped. -/
def setDate (f : Fuso) (t : Int) (dt : Int) : Option Int :=
  let tl := f.localTime t
  TimeClip (f.utc (MakeDate (MakeDay (YearFromDay (Day tl)) (MonthFromDay (Day tl)) dt)
    (TimeWithinDay tl)))

end Fuso

/-- The `while (current <= end)` loop of `getDateRange` on time values in the
time zone `f`: the two dates are compared as instants, and a comparison with an
invalid date is false. `none` when the fuel runs out before the loop ends. -/
def getDateRangeLoopFuso (f : Fuso) (fim : Option Int) :
    Nat → Option Int → List String → Option (List String)
  | 0, _, _ => none
  | fuel + 1, current, dates =>
    match current, fim with
    | some c, some e =>
      if c ≤ e then
        getDateRangeLoopFuso f fim fuel (f.setDate c ((f.dataLocal c).getDate + 1))
          (dates ++ [formatYMD (f.dataLocal c)])
      else some dates
    | _, _ => some dates

/-- Source `getDateRange(dataInicio, dataFim)` in the time zone `f`. When a
field is not a number the dates are invalid, the loop condition is false and
the result is empty. -/
def getDateRangeFuso (f : Fuso) (fuel : Nat) (dataInicio dataFim : String) :
    Option (List String) :=
  match splitYMD dataInicio, splitYMD dataFim with
  | some (y1, m1, d1), some (y2, m2, d2) =>
    let start := f.ofFields y1 ((m1 : Int) - 1) d1
    let fim := f.ofFields y2 ((m2 : Int) - 1) d2
    getDateRangeLoopFuso f fim fuel start []
  | _, _ => some []

/-- Source `getProducaoCompletaPeriodo(token, dataInicial, dataFinal)` with
its call of `getDateRange` made in the time zone `f`: the log of the page
requests and the outcome. The `catch` block logs and rethrows. -/
def getProducaoCompletaPeriodoFuso (f : Fuso) (fuel : Nat) (servidor : Requisicao → Resposta)
    (token dataInicial dataFinal : String) :
    List Requisicao × Desfecho (List Registro) :=
  let paraAPI := dataFinalParaAPI dataInicial dataFinal
  match buscarPaginas servidor
      (reqProducao token "dataVigenciaInicial" dataInicial paraAPI)
      "Erro na requisição de produção completa: " fuel 1 [] [] with
  | (log, Desfecho.retorna allResults) =>
    match getDateRangeFuso f fuel dataInicial dataFinal with
    | some datesInRange => (log, Desfecho.retorna (filtrarPeriodo datesInRange allResults))
    | none => (log, Desfecho.semCombustivel)
  | (log, Desfecho.lanca e) => (log, Desfecho.lanca e)
  | (log, Desfecho.semCombustivel) => (log, Desfecho.semCombustivel)

/-- Source `formatDate(offset)` of `utils/formatDate.js` on time values in the
time zone `f`, with the clock reading the instant `agora`. The fields of an
invalid date are `NaN`, which the template literal and `String(...)` render as
`NaN` (three characters, so `padStart(2, "0")` adds nothing). -/
def formatDateFuso (f : Fuso) (agora : Int) (offset : Int) : String :=
  match f.setDate agora ((f.dataLocal agora).getDate + offset) with
  | some t =>
    let date := f.dataLocal t
    let year := date.getFullYear
    let month := padStart (jsString (date.getMonth + 1)) 2
    let day := padStart (jsString date.getDate) 2
    jsString year ++ "-" ++ month ++ "-" ++ day
  | none => "NaN-NaN-NaN"

/-! ## Vocabulary of the specification

The notions below are not taken from the source: they spell out the words the
specification uses (calendar dates, the day after, the zero-padded rendering,
the part of a field before the first `T`), so that the source functions can be
compared with them. -/

/-- Specification side: `pre` is the part of `s` before its first `T`, that is
`pre` has no `T` and `s` is `pre` alone or `pre` followed by `T` and a rest. -/
def parteAntesDoT (s pre : String) : Prop :=
  'T' ∉ pre.data ∧ (s = pre ∨ ∃ resto : String, s = pre ++ "T" ++ resto)

/-- Specification side: the selected field is present, is not empty, and its
part before the first `T` is the target date `t`. -/
def campoCasa (t : String) (campo : Option String) : Prop :=
  ∃ s, campo = some s ∧ s ≠ "" ∧ parteAntesDoT s t

/-- A calendar date of the specification: year, month from 1 to 12 and day of
the month. -/
structure DataCivil where
  ano : Nat
  mes : Nat
  dia : Nat
deriving DecidableEq, Repr

/-- Specification side: the Gregorian leap-year rule. -/
def bissexto (y : Nat) : Bool :=
  (y % 4 == 0 && y % 100 != 0) || y % 400 == 0

/-- Specification side: number of days of month `m` of year `y`. -/
def diasNoMes (y m : Nat) : Nat :=
  if m = 2 then (if bissexto y then 29 else 28)
  else if m = 4 ∨ m = 6 ∨ m = 9 ∨ m = 11 then 30
  else 31

/-- Specification side: a valid calendar date. -/
def DataCivil.valida (c : DataCivil) : Prop :=
  1 ≤ c.mes ∧ c.mes ≤ 12 ∧ 1 ≤ c.dia ∧ c.dia ≤ diasNoMes c.ano c.mes

instance (c : DataCivil) : Decidable c.valida := by
  unfold DataCivil.valida; infer_instance

/-- Specification side: the calendar day immediately after `c`. -/
def diaSeguinte (c : DataCivil) : DataCivil :=
  if c.dia < diasNoMes c.ano c.mes then { c with dia := c.dia + 1 }
  else if c.mes < 12 then { ano := c.ano, mes := c.mes + 1, dia := 1 }
  else { ano := c.ano + 1, mes := 1, dia := 1 }

/-- Specification side: `a` is not after `b` in the calendar. -/
def DataCivil.ateh (a b : DataCivil) : Prop :=
  a.ano < b.ano ∨ (a.ano = b.ano ∧ (a.mes < b.mes ∨ (a.mes = b.mes ∧ a.dia ≤ b.dia)))

instance (a b : DataCivil) : Decidable (a.ateh b) := by
  unfold DataCivil.ateh; infer_instance

/-- Specification side: the zero-padded `YYYY-MM-DD` rendering of a calendar
date, four digits of year, two of month, two of day. -/
def ymd (c : DataCivil) : String :=
  padStart (jsStringNat c.ano) 4 ++ "-" ++ padStart (jsStringNat c.mes) 2 ++ "-" ++
    padStart (jsStringNat c.dia) 2

/-- The calendar date a JavaScript `Date` with local day number `n` reports
through `getFullYear`, `getMonth` and `getDate`. -/
def civilDe (n : Int) : DataCivil :=
  { ano := (YearFromDay n).toNat, mes := (MonthFromDay n + 1).toNat,
    dia := (DateFromDay n).toNat }

/-- Specification side: the upstream answers pages 1 to `k` of the requests
`montar 1`, `montar 2`, ... successfully, and page `k` is the first one whose
`links.next` is null or absent. -/
def paginasOk (servidor : Requisicao → Resposta) (montar : Nat → Requisicao) (k : Nat) :
    Prop :=
  1 ≤ k ∧ ∀ i, 1 ≤ i → i ≤ k →
    (servidor (montar i)).ok = true ∧ ((servidor (montar i)).next = none ↔ i = k)

/-- Specification side: the concatenation, in page order, of the `data` arrays
of pages 1 to `k`, an absent array contributing nothing. -/
def acumulado (servidor : Requisicao → Resposta) (montar : Nat → Requisicao) (k : Nat) :
    List Registro :=
  ((List.range k).map (fun i => (servidor (montar (i + 1))).data.getD [])).flatten

/-- An upstream that answers every request with a single successful page
holding the given records. -/
def servidorUmaPagina (rs : List Registro) : Requisicao → Resposta :=
  fun _ => { ok := true, status := 200, data := some rs, next := none }

/-- An upstream of two successful pages: page 1 holds the given records and
points to a next page, every other page has no `data` array and no next
page. -/
def servidorDuasPaginas (rs : List Registro) : Requisicao → Resposta :=
  fun req =>
    if req.page = 1 then { ok := true, status := 200, data := some rs, next := some "2" }
    else { ok := true, status := 200, data := none, next := none }

/-- A production record with the given identifier and effective date and no
other date. -/
def registroVigencia (n : Nat) (s : String) : Registro :=
  { propostaId := n, dataVigenciaInicial := some s, dataEmitida := none, dataAviso := none }

/-- Specification side: pages 1 to `p - 1` of the requests `montar 1`,
`montar 2`, ... are answered successfully and point to a next page, and page
`p` is answered with a status that is not a success. -/
def paginasFalham (servidor : Requisicao → Resposta) (montar : Nat → Requisicao) (p : Nat) :
    Prop :=
  1 ≤ p ∧
    (∀ i, 1 ≤ i → i < p →
      (servidor (montar i)).ok = true ∧ (servidor (montar i)).next ≠ none) ∧
    (servidor (montar p)).ok = false

/-- An upstream whose first page succeeds with the given records and points to
a next page, and whose every other page answers with status 500. -/
def servidorFalhaNaSegunda (rs : List Registro) : Requisicao → Resposta :=
  fun req =>
    if req.page = 1 then { ok := true, status := 200, data := some rs, next := some "2" }
    else { ok := false, status := 500, data := none, next := none }

/-- Specification side: the title of the ticket contains the marker of an
urgent assistance in one of the two spellings the source looks for. -/
def tituloMarcado (c : Chamado) : Prop :=
  ∃ t, c.titulo = some t ∧
    ("Solicitação: Assistência Urgente".data <:+: t.data ∨
      "Solicitação: Assistência urgente".data <:+: t.data)

/-- Specification side: an urgent ticket of the target date: its title matches
the marker and the part of `aberto` before the first `T` is the target. -/
def urgenteDoDia (alvo : String) (c : Chamado) : Prop :=
  tituloMarcado c ∧ campoCasa alvo c.aberto

/-- Specification side: some ticket of the page has an `aberto` whose part
before the first `T` is lexicographically greater than the target date. -/
def haMaisRecente (alvo : String) (chamados : List Chamado) : Prop :=
  ∃ c ∈ chamados, ∃ s pre, c.aberto = some s ∧ parteAntesDoT s pre ∧ alvo < pre

/-- Specification side: the list without the tickets whose id already occurred
earlier in it (the first occurrence of every id is kept). -/
def primeirosPorId : List Chamado → List Chamado
  | [] => []
  | c :: cs => c :: (primeirosPorId cs).filter (fun d => !(d.id == c.id))

/-- The tickets of one answer of the feed that the scan selects: of a successful
page, the urgent tickets of the target date; nothing otherwise. -/
def selecionados (alvo : String) : RespostaChamados → List Chamado
  | RespostaChamados.pagina data _ =>
    ((data.getD []).filter tituloUrgente).filter (fun item => campoNoDia alvo item.aberto)
  | _ => []

/-- Specification side: the concatenation, in page order, of the selected
tickets of the pages with index below `k`. -/
def coletadosAte (feed : RequisicaoChamados → RespostaChamados)
    (accessToken abertoStart alvo : String) (k : Nat) : List Chamado :=
  ((List.range k).map
    (fun i => selecionados alvo (feed (reqChamados accessToken abertoStart i)))).flatten

/-- Specification side: the scan does not go on after the page of index `i`:
the request fails, or the page holds a ticket dated after the target while the
result accumulated up to and including this page is not empty, or the next
index exceeds the `totalPage` of the page (the index itself when absent). -/
def paraEm (feed : RequisicaoChamados → RespostaChamados)
    (accessToken abertoStart alvo : String) (i : Nat) : Bool :=
  match feed (reqChamados accessToken abertoStart i) with
  | RespostaChamados.pagina data total =>
    (temDataMaisRecente alvo (data.getD []) &&
      !(primeirosPorId (coletadosAte feed accessToken abertoStart alvo (i + 1))).isEmpty) ||
    decide (total.getD i < i + 1)
  | _ => true

/-- Specification side: what the scan returns when it ends at the page of index
`m`: the empty list when that request raised an exception, otherwise the
selected tickets of the pages 0 to `m`, reduced to first occurrences. -/
def resultadoEm (feed : RequisicaoChamados → RespostaChamados)
    (accessToken abertoStart alvo : String) (m : Nat) : List Chamado :=
  match feed (reqChamados accessToken abertoStart m) with
  | RespostaChamados.lancou => []
  | _ => primeirosPorId (coletadosAte feed accessToken abertoStart alvo (m + 1))

/-- A ticket with the given id, title and opening time. -/
def chamadoComTitulo (n : Nat) (titulo aberto : String) : Chamado :=
  { id := some n, titulo := some titulo, aberto := some aberto }

/-- A ticket that has a title and neither id nor opening time. -/
def chamadoSoTitulo (titulo : String) : Chamado :=
  { id := none, titulo := some titulo, aberto := none }

/-- An urgent ticket with the given id and opening time. -/
def chamadoUrgente (n : Nat) (aberto : String) : Chamado :=
  { id := some n, titulo := some "Solicitação: Assistência Urgente - segurado",
    aberto := some aberto }

/-- The feed of the three-page example, for the target date 2024-05-01: two
urgent tickets of the day on the first page, a duplicate and a new one on the
second, a ticket of the next day on the third; `totalPage` is 3 throughout
and a fourth page exists. -/
def feedTresPaginas : RequisicaoChamados → RespostaChamados :=
  fun req =>
    if req.start = 0 then
      RespostaChamados.pagina
        (some [chamadoUrgente 1 "2024-05-01T08:00:00", chamadoUrgente 2 "2024-05-01T09:30:00"])
        (some 3)
    else if req.start = 1 then
      RespostaChamados.pagina
        (some [chamadoUrgente 2 "2024-05-01T09:30:00", chamadoUrgente 3 "2024-05-01T17:00:00"])
        (some 3)
    else if req.start = 2 then
      RespostaChamados.pagina (some [chamadoUrgente 4 "2024-05-02T10:00:00"]) (some 3)
    else
      RespostaChamados.pagina (some [chamadoUrgente 5 "2024-05-01T23:00:00"]) (some 3)

/-- A feed of a single successful page with the given tickets, whatever the
page index asked for; `totalPage` is 0. -/
def feedUmaPagina (cs : List Chamado) : RequisicaoChamados → RespostaChamados :=
  fun _ => RespostaChamados.pagina (some cs) (some 0)

/-- A feed whose first page holds an urgent ticket of 2024-05-01 and announces
a second page, and whose second request raises an exception. -/
def feedComExcecao : RequisicaoChamados → RespostaChamados :=
  fun req =>
    if req.start = 0 then
      RespostaChamados.pagina (some [chamadoUrgente 1 "2024-05-01T08:00:00"]) (some 1)
    else RespostaChamados.lancou

/-- A feed whose first page holds an urgent ticket of 2024-05-01 and announces
more pages, and whose every other request is answered with status 503. -/
def feedComFalha : RequisicaoChamados → RespostaChamados :=
  fun req =>
    if req.start = 0 then
      RespostaChamados.pagina (some [chamadoUrgente 1 "2024-05-01T08:00:00"]) (some 2)
    else RespostaChamados.naoOk 503

/-- A record with the given identifier and issue date and no other date. -/
def registroEmitida (n : Nat) (s : String) : Registro :=
  { propostaId := n, dataVigenciaInicial := none, dataEmitida := some s, dataAviso := none }

/-- Per-day fetches that never fail: for the date `d` they return one record
effective on `d`, one record issued on `d`, no claim and one urgent ticket
opened on `d`. -/
def adaptadoresDeExemplo : Adaptadores :=
  { transmissoes := fun d => Desfecho.retorna [registroVigencia 1 d],
    apolices := fun d => Desfecho.retorna [registroEmitida 2 d],
    sinistros := fun _ => Desfecho.retorna [],
    assistencias := fun d => Desfecho.retorna [chamadoUrgente 3 d] }

/-- Specification side: the loop of the scan with the early-stop check removed:
`varrerChamados` without the test `temDataMaisRecente && assistencias.length >
0`, everything else unchanged. -/
def varrerSemParada (feed : RequisicaoChamados → RespostaChamados)
    (accessToken abertoStart dataAnterior : String) :
    Nat → Nat → List Chamado → List RequisicaoChamados →
      List RequisicaoChamados × Desfecho (List Chamado)
  | 0, _, _, log => (log, Desfecho.semCombustivel)
  | fuel + 1, page, assistencias, log =>
    let req := reqChamados accessToken abertoStart page
    match feed req with
    | RespostaChamados.lancou => (log ++ [req], Desfecho.retorna [])
    | RespostaChamados.naoOk _ => (log ++ [req], Desfecho.retorna assistencias)
    | RespostaChamados.pagina data total =>
      let chamados := data.getD []
      let totalPage := total.getD page
      let assistenciasUrgentes := chamados.filter tituloUrgente
      let filtrados := assistenciasUrgentes.filter (fun item => campoNoDia dataAnterior item.aberto)
      let assistencias := acrescentar assistencias filtrados
      if page + 1 ≤ totalPage then
        varrerSemParada feed accessToken abertoStart dataAnterior fuel (page + 1) assistencias
          (log ++ [req])
      else (log ++ [req], Desfecho.retorna assistencias)

/-- Specification side: the scan with the early-stop check removed, around the
loop `varrerSemParada` as `getAssistenciasUrgentesDiaAnterior` is around
`varrerChamados`. -/
def getAssistenciasSemParada (fuel : Nat) (accessToken : Option String)
    (feed : RequisicaoChamados → RespostaChamados) (dataAnterior : String) :
    List RequisicaoChamados × Desfecho (List Chamado) :=
  match accessToken with
  | none => ([], Desfecho.retorna [])
  | some token =>
    if jsFalsy (some token) then ([], Desfecho.retorna [])
    else
      varrerSemParada feed token (abertoStartDe dataAnterior) dataAnterior fuel 0 [] []

/-- Specification side: the tickets of the page of index `i` of the feed, none
when that request does not lead to a successful page. -/
def chamadosDaPagina (feed : RequisicaoChamados → RespostaChamados)
    (accessToken abertoStart : String) (i : Nat) : List Chamado :=
  match feed (reqChamados accessToken abertoStart i) with
  | RespostaChamados.pagina data _ => data.getD []
  | _ => []

/-- Specification side: the ticket is dated `pre`: its `aberto` is present and
not empty, and `pre` is its part before the first `T`. -/
def datadoEm (c : Chamado) (pre : String) : Prop :=
  ∃ s, c.aberto = some s ∧ s ≠ "" ∧ parteAntesDoT s pre

/-- Specification side: the tickets of the feed are in non-decreasing date order
across pages: every dated ticket of a later page is dated no earlier than every
dated ticket of an earlier page. -/
def feedOrdenadoPorData (feed : RequisicaoChamados → RespostaChamados)
    (accessToken abertoStart : String) : Prop :=
  ∀ i j, i < j →
    ∀ a ∈ chamadosDaPagina feed accessToken abertoStart i,
    ∀ b ∈ chamadosDaPagina feed accessToken abertoStart j,
    ∀ pa pb, datadoEm a pa → datadoEm b pb → pa ≤ pb

/-- A feed in date order whose `totalPage` is 2 throughout: two urgent tickets
of 2024-05-01 on page 0, a third one and a ticket of the next day on page 1,
and on every later page one ticket of 2024-05-03. -/
def feedEmOrdem : RequisicaoChamados → RespostaChamados :=
  fun req =>
    if req.start = 0 then
      RespostaChamados.pagina
        (some [chamadoUrgente 1 "2024-05-01T08:00:00", chamadoUrgente 2 "2024-05-01T09:30:00"])
        (some 2)
    else if req.start = 1 then
      RespostaChamados.pagina
        (some [chamadoUrgente 3 "2024-05-01T17:00:00", chamadoUrgente 4 "2024-05-02T10:00:00"])
        (some 2)
    else
      RespostaChamados.pagina (some [chamadoUrgente 5 "2024-05-03T07:00:00"]) (some 2)

/-- Specification side: the call sends a report through a channel or generates
the spreadsheet. -/
def Acao.ehRelatorio : Acao → Bool
  | Acao.planilha _ _ _ _ => true
  | Acao.email _ _ => true
  | Acao.whatsapp _ _ => true
  | _ => false

/-- A world for examples: the clock reads 2024-05-01 (day 19844),
authentication succeeds with the token `t`, the ticket feed has no credential,
the spreadsheet step succeeds, a recipient number is configured, the WhatsApp
client gets ready, and the upstream and the errors of the two deliveries are
as given. -/
def mundoDeExemplo (servidor : Requisicao → Resposta)
    (erroEmail erroWhatsApp : Option String) : Mundo :=
  { fuel := 8, hoje := 19844, mesNome := "abril de 2024", auth := Desfecho.retorna "t",
    servidor := servidor, feed := feedUmaPagina [], accessToken := none,
    planilha := fun _ _ _ periodoNome =>
      Desfecho.retorna
        { filePath := "/app/relatorio_completo_" ++ periodoNome ++ ".xlsx",
          fileName := "relatorio_completo_" ++ periodoNome ++ ".xlsx" },
    enviarEmail := fun _ _ => erroEmail,
    diretorWhatsApp := some "5531999990000", inicioWhatsApp := InicioWhatsApp.pronto,
    whatsapp := fun _ _ => erroWhatsApp }

/-- The example world with a start of the WhatsApp client that goes as
given. -/
def mundoComInicio (servidor : Requisicao → Resposta) (erroEmail : Option String)
    (inicio : InicioWhatsApp) : Mundo :=
  { mundoDeExemplo servidor erroEmail none with inicioWhatsApp := inicio }

/-- The arguments of the deliveries of the daily run of 2024-05-01 in the
example world, on an upstream whose single page holds one record effective on
2024-04-30. -/
def entregaDeExemplo : Entrega :=
  { transmissoes := [registroVigencia 1 "2024-04-30"], apolices := [], sinistros := [],
    assistencias := [],
    arquivo :=
      { filePath := "/app/relatorio_completo_2024-04-30.xlsx",
        fileName := "relatorio_completo_2024-04-30.xlsx" },
    periodo := ["2024-04-30"] }

/-- Specification side: in the time zone `f`, the local midnight of every day
from `a` to `b` exists (converting it to UTC and back gives it again), lies in
the range of `Date`, and is earlier than the local midnight of the day after,
as the conversion to UTC gives it. -/
def meiasNoitesRegulares (f : Fuso) (a b : Int) : Prop :=
  ∀ n : Int, a ≤ n → n ≤ b →
    f.localTime (f.utc (MakeDate n 0)) = MakeDate n 0 ∧
    TimeClip (f.utc (MakeDate n 0)) = some (f.utc (MakeDate n 0)) ∧
    f.utc (MakeDate n 0) < f.utc (MakeDate (n + 1) 0)

instance (f : Fuso) (a b : Int) : Decidable (meiasNoitesRegulares f a b) := by
  unfold meiasNoitesRegulares
  infer_instance

/-- A time zone for examples: the local time is always `off` milliseconds
ahead of UTC. -/
def fusoFixo (off : Int) : Fuso :=
  { localTime := fun t => t + off, utc := fun t => t - off }

/-- A time zone for examples, three hours behind UTC, in which summer time
starts at the local midnight of 2004-11-02 (day 12724): the clocks go from
00:00 to 01:00, as they did in `America/Sao_Paulo`. A local time inside the
skipped hour is read with the offset in force before the change. -/
def fusoHorarioDeVerao : Fuso :=
  { localTime := fun t =>
      if t < MakeDate 12724 0 + 10800000 then t - 10800000 else t - 7200000,
    utc := fun t =>
      if t < MakeDate 12724 0 + 3600000 then t + 10800000 else t + 7200000 }

/-- The local day number of a calendar date, as `new Date(y, m - 1, d)` computes
it through `MakeDay`. -/
def diaDe (c : DataCivil) : Int :=
  MakeDay c.ano ((c.mes : Int) - 1) c.dia

/-! ## Strings: split, digits and padding -/

theorem jsSplitChars_ne_nil (sep : Char) (l : List Char) : jsSplitChars sep l ≠ [] := by
  cases l with
  | nil => simp [jsSplitChars]
  | cons c cs =>
    unfold jsSplitChars
    split_ifs
    · simp
    · split <;> simp

theorem jsSplitChars_head (sep : Char) (l : List Char) :
    (jsSplitChars sep l).head? = some (l.takeWhile (fun c => c != sep)) := by
  induction l with
  | nil => simp [jsSplitChars]
  | cons c cs ih =>
    unfold jsSplitChars
    by_cases h : c = sep
    · simp [h]
    · simp only [h, if_false]
      have hne := jsSplitChars_ne_nil sep cs
      cases hs : jsSplitChars sep cs with
      | nil => exact absurd hs hne
      | cons p ps =>
        rw [hs] at ih
        simp only [List.head?_cons, Option.some.injEq] at ih
        simp [List.takeWhile_cons, h, ih]

theorem takeWhile_eq_iff (sep : Char) (l p : List Char) :
    l.takeWhile (fun c => c != sep) = p ↔
      sep ∉ p ∧ (l = p ∨ ∃ r, l = p ++ sep :: r) := by
  induction l generalizing p with
  | nil =>
    constructor
    · intro h; subst h; simp
    · rintro ⟨_, h | ⟨r, h⟩⟩
      · simp [← h]
      · simp at h
  | cons c cs ih =>
    by_cases h : c = sep
    · subst h
      simp only [List.takeWhile_cons, bne_self_eq_false, Bool.false_eq_true, if_false]
      constructor
      · intro hp; subst hp
        exact ⟨by simp, Or.inr ⟨cs, by simp⟩⟩
      · rintro ⟨hp, hl | ⟨r, hl⟩⟩
        · subst hl; simp at hp
        · cases p with
          | nil => rfl
          | cons q qs =>
            simp only [List.cons_append, List.cons.injEq] at hl
            simp [hl.1] at hp
    · have hb : (c != sep) = true := by simpa using h
      simp only [List.takeWhile_cons, hb, if_true]
      constructor
      · intro hp; subst hp
        have := (ih (cs.takeWhile (fun c => c != sep))).mp rfl
        refine ⟨?_, ?_⟩
        · simp only [List.mem_cons, not_or]
          exact ⟨fun e => h e.symm, this.1⟩
        · rcases this.2 with e | ⟨r, e⟩
          · left; rw [← e]
          · right; exact ⟨r, by rw [List.cons_append, ← e]⟩
      · rintro ⟨hp, hl | ⟨r, hl⟩⟩
        · subst hl
          simp only [List.mem_cons, not_or] at hp
          congr 1
          exact (ih cs).mpr ⟨hp.2, Or.inl rfl⟩
        · cases p with
          | nil =>
            simp only [List.nil_append, List.cons.injEq] at hl
            exact absurd hl.1 h
          | cons q qs =>
            simp only [List.cons_append, List.cons.injEq] at hl
            simp only [List.mem_cons, not_or] at hp
            rw [hl.1]
            congr 1
            exact (ih qs).mpr ⟨hp.2, Or.inr ⟨r, hl.2⟩⟩

theorem jsSplit_head (s : String) (sep : Char) :
    (jsSplit s sep).head? = some ⟨s.data.takeWhile (fun c => c != sep)⟩ := by
  unfold jsSplit
  rw [List.head?_map, jsSplitChars_head]
  rfl

theorem campoNoDia_iff (t : String) (campo : Option String) :
    campoNoDia t campo = true ↔ campoCasa t campo := by
  unfold campoNoDia campoCasa parteAntesDoT
  cases campo with
  | none => simp
  | some s =>
    have hdata : ∀ a b : String, a = b ↔ a.data = b.data := fun a b =>
      ⟨fun h => by rw [h], fun h => String.ext h⟩
    have key := takeWhile_eq_iff 'T' s.data t.data
    by_cases he : s = ""
    · subst he
      simp [jsFalsy]
    · have hf : jsFalsy (some s) = false := by simp [jsFalsy, he]
      simp only [hf, Bool.false_eq_true, if_false, jsSplit_head, beq_iff_eq,
        Option.some.injEq]
      constructor
      · intro h
        have h2 : s.data.takeWhile (fun c => c != 'T') = t.data := by rw [← h]
        rcases key.mp h2 with ⟨hT, hl | ⟨r, hl⟩⟩
        · exact ⟨s, rfl, he, hT, Or.inl (String.ext hl)⟩
        · refine ⟨s, rfl, he, hT, Or.inr ⟨⟨r⟩, String.ext ?_⟩⟩
          simp [hl]
      · rintro ⟨s2, hs, -, hT, hl | ⟨r, hl⟩⟩
        · cases hs
          apply String.ext
          exact key.mpr ⟨hT, Or.inl (by rw [hl])⟩
        · cases hs
          apply String.ext
          refine key.mpr ⟨hT, Or.inr ⟨r.data, ?_⟩⟩
          rw [hl]; simp

theorem jsSplitChars_of_not_mem (sep : Char) (p : List Char) (h : sep ∉ p) :
    jsSplitChars sep p = [p] := by
  induction p with
  | nil => rfl
  | cons c cs ih =>
    simp only [List.mem_cons, not_or] at h
    have hc : ¬ c = sep := fun e => h.1 e.symm
    unfold jsSplitChars
    simp only [hc, if_false, ih h.2]

theorem jsSplitChars_append (sep : Char) (p r : List Char) (h : sep ∉ p) :
    jsSplitChars sep (p ++ sep :: r) = p :: jsSplitChars sep r := by
  induction p with
  | nil =>
    simp only [List.nil_append]
    rw [jsSplitChars]
    simp
  | cons c cs ih =>
    simp only [List.mem_cons, not_or] at h
    have hc : ¬ c = sep := fun e => h.1 e.symm
    rw [List.cons_append, jsSplitChars]
    simp only [hc, if_false, ih h.2]

theorem digitVal_digitChar (d : Nat) (h : d < 10) : digitVal (digitChar d) = some d := by
  interval_cases d <;> decide

theorem natDigitsAux_digits (fuel n : Nat) :
    ∀ c ∈ natDigitsAux fuel n, ∃ d, d < 10 ∧ c = digitChar d := by
  induction fuel generalizing n with
  | zero => simp [natDigitsAux]
  | succ f ih =>
    intro c hc
    unfold natDigitsAux at hc
    split_ifs at hc with h
    · simp only [List.mem_singleton] at hc
      exact ⟨n, h, hc⟩
    · simp only [List.mem_append, List.mem_singleton] at hc
      rcases hc with hc | hc
      · exact ih _ c hc
      · exact ⟨n % 10, Nat.mod_lt _ (by norm_num), hc⟩

theorem digitChar_ne (d : Nat) : digitChar d ≠ '-' ∧ digitChar d ≠ 'T' := by
  unfold digitChar
  split <;> decide

theorem natDigitsAux_not_mem (fuel n : Nat) :
    '-' ∉ natDigitsAux fuel n ∧ 'T' ∉ natDigitsAux fuel n := by
  constructor
  · intro h
    obtain ⟨d, _, e⟩ := natDigitsAux_digits fuel n _ h
    exact (digitChar_ne d).1 e.symm
  · intro h
    obtain ⟨d, _, e⟩ := natDigitsAux_digits fuel n _ h
    exact (digitChar_ne d).2 e.symm

theorem natDigitsAux_foldl (fuel n : Nat) (h : n < fuel) :
    (natDigitsAux fuel n).foldl jsNumberStep (some 0) = some n := by
  induction fuel generalizing n with
  | zero => omega
  | succ f ih =>
    unfold natDigitsAux
    split_ifs with hn
    · simp [jsNumberStep, digitVal_digitChar n hn]
    · have hlt : n / 10 < f := by omega
      rw [List.foldl_append, ih _ hlt]
      simp only [List.foldl_cons, List.foldl_nil, jsNumberStep,
        digitVal_digitChar (n % 10) (Nat.mod_lt _ (by norm_num))]
      congr 1
      omega

theorem foldl_replicate_zero (k : Nat) :
    (List.replicate k '0').foldl jsNumberStep (some 0) = some 0 := by
  induction k with
  | zero => rfl
  | succ k ih =>
    rw [List.replicate_succ, List.foldl_cons]
    have : jsNumberStep (some 0) '0' = some 0 := by decide
    rw [this, ih]

theorem padStart_data (s : String) (k : Nat) :
    (padStart s k).data = List.replicate (k - s.data.length) '0' ++ s.data := by
  unfold padStart
  rw [String.data_append]
  rfl

/-- Reading back a padded decimal rendering gives the number. -/
theorem jsNumber_padStart (n k : Nat) : jsNumber (padStart (jsStringNat n) k) = some n := by
  unfold jsNumber
  rw [padStart_data, List.foldl_append, foldl_replicate_zero]
  exact natDigitsAux_foldl (n + 1) n (Nat.lt_succ_self n)

theorem padStart_not_mem (n k : Nat) :
    '-' ∉ (padStart (jsStringNat n) k).data ∧ 'T' ∉ (padStart (jsStringNat n) k).data := by
  rw [padStart_data]
  have h := natDigitsAux_not_mem (n + 1) n
  have e : (jsStringNat n).data = natDigitsAux (n + 1) n := rfl
  rw [e]
  constructor
  · simp only [List.mem_append, List.mem_replicate, not_or]
    exact ⟨fun hh => absurd hh.2 (by decide), h.1⟩
  · simp only [List.mem_append, List.mem_replicate, not_or]
    exact ⟨fun hh => absurd hh.2 (by decide), h.2⟩

theorem natDigitsAux_length_le (fuel n k : Nat) (hk : n < 10 ^ (k + 1)) :
    (natDigitsAux fuel n).length ≤ k + 1 := by
  induction fuel generalizing n k with
  | zero => simp [natDigitsAux]
  | succ f ih =>
    unfold natDigitsAux
    split_ifs with hn
    · simp
    · cases k with
      | zero => simp at hk; omega
      | succ k =>
        have hlt : n / 10 < 10 ^ (k + 1) := by
          rw [Nat.div_lt_iff_lt_mul (by norm_num)]
          rw [pow_succ] at hk
          exact hk
        have := ih (n / 10) k hlt
        simp only [List.length_append, List.length_singleton]
        omega

theorem natDigitsAux_length_ge (fuel n k : Nat) (hk : 10 ^ k ≤ n) (hf : n < fuel) :
    k + 1 ≤ (natDigitsAux fuel n).length := by
  induction fuel generalizing n k with
  | zero => omega
  | succ f ih =>
    unfold natDigitsAux
    split_ifs with hn
    · cases k with
      | zero => simp
      | succ k =>
        have : 10 ≤ 10 ^ (k + 1) := by
          calc 10 = 10 ^ 1 := by norm_num
            _ ≤ 10 ^ (k + 1) := Nat.pow_le_pow_right (by norm_num) (by omega)
        omega
    · cases k with
      | zero => simp
      | succ k =>
        have hge : 10 ^ k ≤ n / 10 := by
          rw [Nat.le_div_iff_mul_le (by norm_num)]
          rw [pow_succ] at hk
          exact hk
        have := ih (n / 10) k hge (by omega)
        simp only [List.length_append, List.length_singleton]
        omega

theorem padStart_length (n k : Nat) (h : n < 10 ^ k) (hk : 1 ≤ k) :
    (padStart (jsStringNat n) k).length = k := by
  have hl : (jsStringNat n).data.length ≤ k := by
    obtain ⟨j, rfl⟩ : ∃ j, k = j + 1 := ⟨k - 1, by omega⟩
    exact natDigitsAux_length_le (n + 1) n j h
  show (padStart (jsStringNat n) k).data.length = k
  rw [padStart_data]
  simp only [List.length_append, List.length_replicate]
  omega

theorem padStart_of_ge (n k : Nat) (h : 10 ^ k ≤ n) :
    padStart (jsStringNat n) (k + 1) = jsStringNat n := by
  have hl : k + 1 ≤ (jsStringNat n).data.length :=
    natDigitsAux_length_ge (n + 1) n k h (Nat.lt_succ_self n)
  apply String.ext
  rw [padStart_data]
  have : k + 1 - (jsStringNat n).data.length = 0 := by omega
  rw [this]
  simp

theorem ymd_data (c : DataCivil) :
    (ymd c).data = (padStart (jsStringNat c.ano) 4).data ++
      '-' :: ((padStart (jsStringNat c.mes) 2).data ++
        '-' :: (padStart (jsStringNat c.dia) 2).data) := by
  unfold ymd
  simp [String.data_append]

theorem jsSplit_ymd (c : DataCivil) :
    jsSplit (ymd c) '-' = [padStart (jsStringNat c.ano) 4, padStart (jsStringNat c.mes) 2,
      padStart (jsStringNat c.dia) 2] := by
  unfold jsSplit
  rw [ymd_data, jsSplitChars_append _ _ _ (padStart_not_mem _ _).1,
    jsSplitChars_append _ _ _ (padStart_not_mem _ _).1,
    jsSplitChars_of_not_mem _ _ (padStart_not_mem _ _).1]
  rfl

/-- The destructuring of a zero-padded date gives its three fields. -/
theorem splitYMD_ymd (c : DataCivil) : splitYMD (ymd c) = some (c.ano, c.mes, c.dia) := by
  unfold splitYMD
  rw [jsSplit_ymd]
  simp only [List.map_cons, List.map_nil, jsNumber_padStart]

theorem ymd_not_mem_T (c : DataCivil) : 'T' ∉ (ymd c).data := by
  rw [ymd_data]
  simp only [List.mem_append, List.mem_cons, not_or]
  refine ⟨(padStart_not_mem _ _).2, by decide, (padStart_not_mem _ _).2, by decide,
    (padStart_not_mem _ _).2⟩

/-! ## Day numbers and calendar fields -/

theorem DayFromYear_succ (y : Int) : DayFromYear (y + 1) = DayFromYear y + DaysInYear y := by
  unfold DayFromYear DaysInYear
  split_ifs <;> omega

theorem DaysInYear_cases (y : Int) : DaysInYear y = 365 + InLeapYear y := by
  unfold InLeapYear DaysInYear
  split_ifs <;> omega

theorem InLeapYear_cases (y : Int) : InLeapYear y = 0 ∨ InLeapYear y = 1 := by
  unfold InLeapYear
  split_ifs <;> simp

theorem DayFromYear_lt {a b : Int} (h : a < b) : DayFromYear a < DayFromYear b := by
  unfold DayFromYear; omega

theorem YearFromDay_lo (n : Int) : DayFromYear (1970 + (400 * n) / 146097 - 1) ≤ n := by
  unfold DayFromYear; omega

theorem YearFromDay_hi (n : Int) : n < DayFromYear (1970 + (400 * n) / 146097 + 2) := by
  unfold DayFromYear; omega

/-- The model of `YearFromTime` meets its ECMA-262 definition: the year `y`
with `DayFromYear y ≤ n < DayFromYear (y + 1)`. -/
theorem YearFromDay_spec (n : Int) :
    DayFromYear (YearFromDay n) ≤ n ∧ n < DayFromYear (YearFromDay n + 1) := by
  have h1 := YearFromDay_lo n
  have h2 := YearFromDay_hi n
  unfold YearFromDay
  simp only []
  generalize 1970 + (400 * n) / 146097 = y at *
  have e1 : y - 1 + 1 = y := by ring
  have e2 : y + 1 + 1 = y + 2 := by ring
  split_ifs with ha hb
  · rw [e1]; exact ⟨h1, ha⟩
  · rw [e2]; exact ⟨hb, h2⟩
  · exact ⟨not_lt.mp ha, not_le.mp hb⟩

theorem YearFromDay_unique (n y : Int) (h1 : DayFromYear y ≤ n)
    (h2 : n < DayFromYear (y + 1)) : YearFromDay n = y := by
  have hs := YearFromDay_spec n
  by_contra hne
  rcases lt_or_gt_of_ne hne with h | h
  · have hle : YearFromDay n + 1 ≤ y := by omega
    rcases eq_or_lt_of_le hle with e | l
    · rw [e] at hs; omega
    · have := DayFromYear_lt l; omega
  · have hle : y + 1 ≤ YearFromDay n := by omega
    rcases eq_or_lt_of_le hle with e | l
    · rw [← e] at hs; omega
    · have := DayFromYear_lt l; omega

theorem DayWithinYear_range (n : Int) :
    0 ≤ DayWithinYear n ∧ DayWithinYear n < 365 + InLeapYear (YearFromDay n) := by
  have hs := YearFromDay_spec n
  rw [DayFromYear_succ, DaysInYear_cases] at hs
  unfold DayWithinYear
  omega

theorem MonthFromDay_range (n : Int) : 0 ≤ MonthFromDay n ∧ MonthFromDay n ≤ 11 := by
  unfold MonthFromDay monthOfDay
  generalize DayWithinYear n = d
  generalize InLeapYear (YearFromDay n) = l
  omega

theorem monthStart_monthOfDay (l d : Int) (hl : l = 0 ∨ l = 1) (hd : 0 ≤ d ∧ d < 365 + l) :
    0 ≤ d - monthStart l (monthOfDay l d) ∧ d - monthStart l (monthOfDay l d) ≤ 30 := by
  have hc : monthOfDay l d = 0 ∨ monthOfDay l d = 1 ∨ monthOfDay l d = 2 ∨
      monthOfDay l d = 3 ∨ monthOfDay l d = 4 ∨ monthOfDay l d = 5 ∨ monthOfDay l d = 6 ∨
      monthOfDay l d = 7 ∨ monthOfDay l d = 8 ∨ monthOfDay l d = 9 ∨ monthOfDay l d = 10 ∨
      monthOfDay l d = 11 := by
    unfold monthOfDay; omega
  rcases hc with h | h | h | h | h | h | h | h | h | h | h | h <;>
    (rw [h]; unfold monthOfDay at h; norm_num [monthStart]; omega)

theorem DateFromDay_range (n : Int) : 1 ≤ DateFromDay n ∧ DateFromDay n ≤ 31 := by
  have hr := DayWithinYear_range n
  have hl := InLeapYear_cases (YearFromDay n)
  have := monthStart_monthOfDay _ _ hl hr
  unfold DateFromDay MonthFromDay
  omega

/-- `MakeDay` undoes the three field readers: rebuilding a day number from
its own year and month with the day of month shifted by `k` moves it by `k`. -/
theorem MakeDay_fields (n k : Int) :
    MakeDay (YearFromDay n) (MonthFromDay n) (DateFromDay n + k) = n + k := by
  have hm := MonthFromDay_range n
  have h1 : MonthFromDay n / 12 = 0 := by omega
  have h2 : MonthFromDay n % 12 = MonthFromDay n := by omega
  unfold MakeDay
  simp only [h1, h2, add_zero]
  unfold DateFromDay DayWithinYear
  ring

theorem setDate_getDate_add (t : JSDate) (k : Int) :
    (t.setDate (t.getDate + k)).dia = t.dia + k := by
  unfold JSDate.setDate JSDate.getFullYear JSDate.getMonth JSDate.getDate
  exact MakeDay_fields t.dia k

theorem month_table (l m d : Int) (hl : l = 0 ∨ l = 1) (hm : 0 ≤ m ∧ m ≤ 11)
    (hd : 1 ≤ d ∧ d ≤ monthLen l m) :
    0 ≤ monthStart l m + d - 1 ∧ monthStart l m + d - 1 < 365 + l ∧
      monthOfDay l (monthStart l m + d - 1) = m := by
  have hc : m = 0 ∨ m = 1 ∨ m = 2 ∨ m = 3 ∨ m = 4 ∨ m = 5 ∨ m = 6 ∨ m = 7 ∨ m = 8 ∨
      m = 9 ∨ m = 10 ∨ m = 11 := by omega
  rcases hc with h | h | h | h | h | h | h | h | h | h | h | h <;>
    (subst h; norm_num [monthStart, monthLen] at hd ⊢; unfold monthOfDay; omega)

/-- The field readers undo `MakeDay` on a year, a zero-based month and a day
that exists in that month. -/
theorem MakeDay_valid (y m d : Int) (hm : 0 ≤ m ∧ m ≤ 11)
    (hd : 1 ≤ d ∧ d ≤ monthLen (InLeapYear y) m) :
    YearFromDay (MakeDay y m d) = y ∧ MonthFromDay (MakeDay y m d) = m ∧
      DateFromDay (MakeDay y m d) = d := by
  have hl := InLeapYear_cases y
  have ht := month_table (InLeapYear y) m d hl hm hd
  have h1 : m / 12 = 0 := by omega
  have h2 : m % 12 = m := by omega
  have hn : MakeDay y m d = DayFromYear y + (monthStart (InLeapYear y) m + d - 1) := by
    unfold MakeDay
    simp only [h1, h2, add_zero]
    ring
  have hy : YearFromDay (MakeDay y m d) = y := by
    apply YearFromDay_unique
    · rw [hn]; omega
    · rw [hn, DayFromYear_succ, DaysInYear_cases]; omega
  have hw : DayWithinYear (MakeDay y m d) = monthStart (InLeapYear y) m + d - 1 := by
    unfold DayWithinYear
    rw [hy, hn]; ring
  have hmo : MonthFromDay (MakeDay y m d) = m := by
    unfold MonthFromDay
    rw [hw, hy]; exact ht.2.2
  refine ⟨hy, hmo, ?_⟩
  unfold DateFromDay
  rw [hw, hy, hmo]; ring

/-! ## Calendar dates of the specification and day numbers -/

theorem InLeapYear_nat (y : Nat) : InLeapYear (y : Int) = if bissexto y then 1 else 0 := by
  unfold InLeapYear DaysInYear bissexto
  have h4 : ((y : Int) % 4 = 0) ↔ (y % 4 = 0) := by omega
  have h100 : ((y : Int) % 100 = 0) ↔ (y % 100 = 0) := by omega
  have h400 : ((y : Int) % 400 = 0) ↔ (y % 400 = 0) := by omega
  by_cases a : y % 4 = 0 <;> by_cases b : y % 100 = 0 <;> by_cases c : y % 400 = 0 <;>
    simp [h4, h100, h400, a, b, c] <;> omega

theorem monthLen_diasNoMes (y m : Nat) (hm : 1 ≤ m ∧ m ≤ 12) :
    monthLen (InLeapYear (y : Int)) ((m : Int) - 1) = (diasNoMes y m : Int) := by
  rw [InLeapYear_nat]
  have hc : m = 1 ∨ m = 2 ∨ m = 3 ∨ m = 4 ∨ m = 5 ∨ m = 6 ∨ m = 7 ∨ m = 8 ∨ m = 9 ∨
      m = 10 ∨ m = 11 ∨ m = 12 := by omega
  rcases hc with h | h | h | h | h | h | h | h | h | h | h | h <;>
    (subst h; unfold diasNoMes; cases bissexto y <;> norm_num [monthLen])

theorem DaysInMonth_diasNoMes (y m : Nat) : DaysInMonth (y : Int) m = diasNoMes y m := by
  unfold DaysInMonth diasNoMes
  rw [InLeapYear_nat]
  cases bissexto y <;> simp

theorem diasNoMes_range (y m : Nat) : 28 ≤ diasNoMes y m ∧ diasNoMes y m ≤ 31 := by
  unfold diasNoMes
  split_ifs <;> omega

/-- Reading the fields of the day number of a valid calendar date gives the
date back. -/
theorem fields_diaDe (c : DataCivil) (hv : c.valida) :
    YearFromDay (diaDe c) = c.ano ∧ MonthFromDay (diaDe c) = (c.mes : Int) - 1 ∧
      DateFromDay (diaDe c) = c.dia := by
  obtain ⟨h1, h2, h3, h4⟩ := hv
  unfold diaDe
  apply MakeDay_valid
  · omega
  · rw [monthLen_diasNoMes c.ano c.mes ⟨h1, h2⟩]
    omega

theorem civilDe_diaDe (c : DataCivil) (hv : c.valida) : civilDe (diaDe c) = c := by
  obtain ⟨hy, hm, hd⟩ := fields_diaDe c hv
  unfold civilDe
  rw [hy, hm, hd]
  cases c
  simp

theorem civilDe_valida (n : Int) (hy : 0 ≤ YearFromDay n) : (civilDe n).valida := by
  have hm := MonthFromDay_range n
  have hd := DateFromDay_range n
  have hr := DayWithinYear_range n
  have hl := InLeapYear_cases (YearFromDay n)
  have hmo : monthOfDay (InLeapYear (YearFromDay n)) (DayWithinYear n) = MonthFromDay n := rfl
  have hlen : DateFromDay n ≤ monthLen (InLeapYear (YearFromDay n)) (MonthFromDay n) := by
    unfold DateFromDay
    have hc : MonthFromDay n = 0 ∨ MonthFromDay n = 1 ∨ MonthFromDay n = 2 ∨
        MonthFromDay n = 3 ∨ MonthFromDay n = 4 ∨ MonthFromDay n = 5 ∨ MonthFromDay n = 6 ∨
        MonthFromDay n = 7 ∨ MonthFromDay n = 8 ∨ MonthFromDay n = 9 ∨ MonthFromDay n = 10 ∨
        MonthFromDay n = 11 := by omega
    generalize DayWithinYear n = d at *
    generalize InLeapYear (YearFromDay n) = l at *
    generalize MonthFromDay n = m at *
    rcases hc with h | h | h | h | h | h | h | h | h | h | h | h <;>
      (subst h; unfold monthOfDay at hmo; norm_num [monthStart, monthLen]; omega)
  unfold DataCivil.valida civilDe
  simp only
  have e : ((YearFromDay n).toNat : Int) = YearFromDay n := Int.toNat_of_nonneg hy
  have hlen2 := monthLen_diasNoMes (YearFromDay n).toNat (MonthFromDay n + 1).toNat
    (by omega)
  rw [e] at hlen2
  have e2 : (((MonthFromDay n + 1).toNat : Nat) : Int) - 1 = MonthFromDay n := by omega
  rw [e2] at hlen2
  omega

theorem diaDe_civilDe (n : Int) (hy : 0 ≤ YearFromDay n) : diaDe (civilDe n) = n := by
  have hm := MonthFromDay_range n
  have hd := DateFromDay_range n
  unfold diaDe civilDe
  simp only
  have e : ((YearFromDay n).toNat : Int) = YearFromDay n := Int.toNat_of_nonneg hy
  have e2 : (((MonthFromDay n + 1).toNat : Nat) : Int) - 1 = MonthFromDay n := by omega
  have e3 : ((DateFromDay n).toNat : Int) = DateFromDay n := by omega
  rw [e, e2, e3]
  have := MakeDay_fields n 0
  simpa using this

theorem diaSeguinte_valida (c : DataCivil) (hv : c.valida) : (diaSeguinte c).valida := by
  obtain ⟨h1, h2, h3, h4⟩ := hv
  unfold diaSeguinte DataCivil.valida
  split_ifs with ha hb
  · simp only; omega
  · have := diasNoMes_range c.ano (c.mes + 1)
    simp only; omega
  · have := diasNoMes_range (c.ano + 1) 1
    simp only; omega

theorem MakeDay_month_succ (y m d : Int) (hm : 0 ≤ m ∧ m ≤ 10) :
    MakeDay y (m + 1) d = MakeDay y m d + monthLen (InLeapYear y) m := by
  have h1 : m / 12 = 0 := by omega
  have h2 : m % 12 = m := by omega
  have h3 : (m + 1) / 12 = 0 := by omega
  have h4 : (m + 1) % 12 = m + 1 := by omega
  unfold MakeDay
  simp only [h1, h2, h3, h4, add_zero]
  have hc : m = 0 ∨ m = 1 ∨ m = 2 ∨ m = 3 ∨ m = 4 ∨ m = 5 ∨ m = 6 ∨ m = 7 ∨ m = 8 ∨
      m = 9 ∨ m = 10 := by omega
  rcases hc with h | h | h | h | h | h | h | h | h | h | h <;>
    (subst h; norm_num [monthStart, monthLen]; ring)

theorem MakeDay_year_succ (y d : Int) :
    MakeDay (y + 1) 0 d = MakeDay y 11 d + 31 := by
  unfold MakeDay
  norm_num [monthStart]
  rw [DayFromYear_succ, DaysInYear_cases]
  ring

/-- The day after a valid calendar date has the next day number. -/
theorem diaDe_diaSeguinte (c : DataCivil) (hv : c.valida) :
    diaDe (diaSeguinte c) = diaDe c + 1 := by
  obtain ⟨h1, h2, h3, h4⟩ := hv
  have hlen := monthLen_diasNoMes c.ano c.mes ⟨h1, h2⟩
  unfold diaSeguinte
  split_ifs with ha hb
  · unfold diaDe MakeDay
    simp only
    push_cast
    ring
  · have hd : c.dia = diasNoMes c.ano c.mes := by omega
    unfold diaDe
    simp only
    have e : ((c.mes + 1 : Nat) : Int) - 1 = ((c.mes : Int) - 1) + 1 := by push_cast; ring
    rw [e, MakeDay_month_succ _ _ _ (by omega), hlen, hd]
    unfold MakeDay
    push_cast
    ring
  · have hd : c.dia = diasNoMes c.ano c.mes := by omega
    have hm : c.mes = 12 := by omega
    unfold diaDe
    simp only
    have e : ((c.ano + 1 : Nat) : Int) = (c.ano : Int) + 1 := by push_cast; ring
    have e1 : ((1 : Nat) : Int) - 1 = 0 := by norm_num
    rw [e, e1, MakeDay_year_succ, hd, hm]
    have : diasNoMes c.ano 12 = 31 := by simp [diasNoMes]
    rw [this]
    unfold MakeDay
    push_cast
    ring

theorem iterate_diaSeguinte (c : DataCivil) (hv : c.valida) (k : Nat) :
    (diaSeguinte^[k] c).valida ∧ diaDe (diaSeguinte^[k] c) = diaDe c + k := by
  induction k with
  | zero => simp [hv]
  | succ k ih =>
    rw [Function.iterate_succ_apply']
    refine ⟨diaSeguinte_valida _ ih.1, ?_⟩
    rw [diaDe_diaSeguinte _ ih.1, ih.2]
    push_cast
    ring

theorem YearFromDay_mono {a b : Int} (h : a ≤ b) : YearFromDay a ≤ YearFromDay b := by
  have ha := YearFromDay_spec a
  have hb := YearFromDay_spec b
  by_contra hlt
  have hlt2 : YearFromDay b + 1 ≤ YearFromDay a := by omega
  rcases eq_or_lt_of_le hlt2 with e | l
  · rw [e] at hb; omega
  · have := DayFromYear_lt l; omega

/-- The calendar date of the day number `n + k` is `k` days after that of `n`. -/
theorem civilDe_add (n : Int) (hy : 0 ≤ YearFromDay n) (k : Nat) :
    civilDe (n + k) = diaSeguinte^[k] (civilDe n) := by
  have hv := civilDe_valida n hy
  obtain ⟨hv2, hd⟩ := iterate_diaSeguinte (civilDe n) hv k
  rw [diaDe_civilDe n hy] at hd
  rw [← hd, civilDe_diaDe _ hv2]

theorem monthStart_table :
    ∀ l : Fin 2, ∀ m : Fin 12, ∀ m2 : Fin 12, m < m2 →
      monthStart ((l : Nat) : Int) ((m : Nat) : Int) + monthLen ((l : Nat) : Int) ((m : Nat) : Int)
        ≤ monthStart ((l : Nat) : Int) ((m2 : Nat) : Int) := by
  decide

theorem monthStart_lt (l m m2 : Int) (hl : l = 0 ∨ l = 1) (hm : 0 ≤ m) (hlt : m < m2)
    (hm2 : m2 ≤ 11) : monthStart l m + monthLen l m ≤ monthStart l m2 := by
  have h := monthStart_table ⟨l.toNat, by omega⟩ ⟨m.toNat, by omega⟩ ⟨m2.toNat, by omega⟩
    (by simp only [Fin.mk_lt_mk]; omega)
  simp only at h
  have e1 : ((l.toNat : Nat) : Int) = l := by omega
  have e2 : ((m.toNat : Nat) : Int) = m := by omega
  have e3 : ((m2.toNat : Nat) : Int) = m2 := by omega
  rw [e1, e2, e3] at h
  exact h

/-- A calendar date strictly before another has a smaller day number. -/
theorem diaDe_lt_of_antes (a b : DataCivil) (ha : a.valida) (hb : b.valida)
    (h : a.ano < b.ano ∨ (a.ano = b.ano ∧ (a.mes < b.mes ∨ (a.mes = b.mes ∧ a.dia < b.dia)))) :
    diaDe a < diaDe b := by
  have fa := fields_diaDe a ha
  have fb := fields_diaDe b hb
  have sa := YearFromDay_spec (diaDe a)
  have sb := YearFromDay_spec (diaDe b)
  rw [fa.1] at sa
  rw [fb.1] at sb
  rcases h with h | ⟨hy, h⟩
  · have hle : (a.ano : Int) + 1 ≤ b.ano := by omega
    rcases eq_or_lt_of_le hle with e | l
    · rw [e] at sa; omega
    · have := DayFromYear_lt l; omega
  · obtain ⟨h1, h2a, h3, h4⟩ := ha
    obtain ⟨g1, g2, g3, g4⟩ := hb
    have hlena := monthLen_diasNoMes a.ano a.mes ⟨h1, h2a⟩
    have q1 : ((a.mes : Int) - 1) / 12 = 0 := by omega
    have q2 : ((a.mes : Int) - 1) % 12 = (a.mes : Int) - 1 := by omega
    have q3 : ((b.mes : Int) - 1) / 12 = 0 := by omega
    have q4 : ((b.mes : Int) - 1) % 12 = (b.mes : Int) - 1 := by omega
    unfold diaDe MakeDay
    simp only [q1, q2, q3, q4, add_zero]
    rw [← hy]
    rcases h with h | ⟨hm, h⟩
    · have := monthStart_lt (InLeapYear (a.ano : Int)) ((a.mes : Int) - 1) ((b.mes : Int) - 1)
        (InLeapYear_cases _) (by omega) (by omega) (by omega)
      omega
    · rw [hm]; omega

theorem diaDe_le_iff (a b : DataCivil) (ha : a.valida) (hb : b.valida) :
    a.ateh b ↔ diaDe a ≤ diaDe b := by
  constructor
  · intro h
    unfold DataCivil.ateh at h
    by_cases he : a = b
    · rw [he]
    · apply le_of_lt
      apply diaDe_lt_of_antes a b ha hb
      have hne : ¬ (a.ano = b.ano ∧ a.mes = b.mes ∧ a.dia = b.dia) := by
        intro ⟨e1, e2, e3⟩
        apply he
        cases a; cases b; simp_all
      omega
  · intro h
    by_contra hnot
    unfold DataCivil.ateh at hnot
    have := diaDe_lt_of_antes b a hb ha (by omega)
    omega

/-! ## Rendering of dates and the date range loop -/

/-- From the year 1000 on, the template literal of `formatYMD` is the
zero-padded rendering of the calendar date. -/
theorem formatYMD_eq_ymd (n : Int) (hy : 1000 ≤ YearFromDay n) :
    formatYMD ⟨n⟩ = ymd (civilDe n) := by
  have hm := MonthFromDay_range n
  have hd := DateFromDay_range n
  unfold formatYMD ymd civilDe JSDate.getFullYear JSDate.getMonth JSDate.getDate jsString
  simp only
  have h1 : ¬ YearFromDay n < 0 := by omega
  have h2 : ¬ MonthFromDay n + 1 < 0 := by omega
  have h3 : ¬ DateFromDay n < 0 := by omega
  simp only [h1, h2, h3, if_false]
  have h4 : (10 : Nat) ^ 3 ≤ (YearFromDay n).toNat := by
    have : (1000 : Int) ≤ ((YearFromDay n).toNat : Int) := by omega
    norm_num
    exact_mod_cast this
  rw [padStart_of_ge _ 3 h4]

theorem ymd_injective (a b : DataCivil) (h : ymd a = ymd b) : a = b := by
  have ha := splitYMD_ymd a
  rw [h, splitYMD_ymd b] at ha
  cases a; cases b
  simp only [Option.some.injEq, Prod.mk.injEq] at ha
  simp only [DataCivil.mk.injEq]
  omega

theorem ofFields_of_ge (y m d : Int) (hy : 100 ≤ y) :
    JSDate.ofFields y m d = ⟨MakeDay y m d⟩ := by
  unfold JSDate.ofFields
  have : ¬ (0 ≤ y ∧ y ≤ 99) := by omega
  simp only [this, if_false]

theorem getDateRangeLoop_done (fim cur : JSDate) (fuel : Nat) (acc : List String)
    (h : fim.dia < cur.dia) (hf : 1 ≤ fuel) : getDateRangeLoop fim fuel cur acc = some acc := by
  obtain ⟨f, rfl⟩ : ∃ f, fuel = f + 1 := ⟨fuel - 1, by omega⟩
  unfold getDateRangeLoop
  have : ¬ cur.dia ≤ fim.dia := by omega
  simp only [this, if_false]

/-- The loop of `getDateRange` with `k` days left and more fuel than that
appends the renderings of the `k` consecutive day numbers. -/
theorem getDateRangeLoop_eq (fim : JSDate) (k : Nat) :
    ∀ (cur : JSDate) (acc : List String) (fuel : Nat),
      cur.dia + k = fim.dia + 1 → k < fuel →
      getDateRangeLoop fim fuel cur acc =
        some (acc ++ (List.range k).map (fun i => formatYMD ⟨cur.dia + (i : Nat)⟩)) := by
  induction k with
  | zero =>
    intro cur acc fuel h hf
    rw [getDateRangeLoop_done fim cur fuel acc (by omega) (by omega)]
    simp
  | succ k ih =>
    intro cur acc fuel h hf
    obtain ⟨f, rfl⟩ : ∃ f, fuel = f + 1 := ⟨fuel - 1, by omega⟩
    unfold getDateRangeLoop
    have hle : cur.dia ≤ fim.dia := by omega
    simp only [hle, if_true]
    have hn := setDate_getDate_add cur 1
    rw [ih _ _ f (by rw [hn]; push_cast at h ⊢; omega) (by omega)]
    rw [hn, List.range_succ_eq_map, List.map_cons, List.map_map, List.append_assoc]
    congr 2
    have e0 : formatYMD ⟨cur.dia + ((0 : Nat) : Int)⟩ = formatYMD cur := by simp
    rw [e0, List.singleton_append]
    congr 1
    apply List.map_congr_left
    intro i _
    simp only [Function.comp, Nat.succ_eq_add_one]
    congr 2
    push_cast
    ring

/-- Result of `getDateRange` on two zero-padded valid dates from the year 100
on, the first not after the second: the renderings of the consecutive day
numbers from the first to the second. -/
theorem getDateRange_eq (a b : DataCivil)
    (hya : 100 ≤ a.ano) (hyb : 100 ≤ b.ano) (k : Nat) (hk : diaDe a + k = diaDe b + 1)
    (fuel : Nat) (hf : k < fuel) :
    getDateRange fuel (ymd a) (ymd b) =
      some ((List.range k).map (fun i => formatYMD ⟨diaDe a + (i : Nat)⟩)) := by
  unfold getDateRange
  rw [splitYMD_ymd, splitYMD_ymd]
  simp only
  rw [ofFields_of_ge (a.ano : Int) _ _ (by exact_mod_cast hya),
    ofFields_of_ge (b.ano : Int) _ _ (by exact_mod_cast hyb)]
  have := getDateRangeLoop_eq ⟨diaDe b⟩ k ⟨diaDe a⟩ [] fuel hk hf
  simpa using this

theorem YearFromDay_diaDe_add (a : DataCivil) (ha : a.valida) (i : Nat) :
    (a.ano : Int) ≤ YearFromDay (diaDe a + i) := by
  have h := YearFromDay_mono (show diaDe a ≤ diaDe a + i by omega)
  rw [(fields_diaDe a ha).1] at h
  exact h

theorem civilDe_diaDe_add (a : DataCivil) (ha : a.valida) (i : Nat) :
    civilDe (diaDe a + i) = diaSeguinte^[i] a := by
  have hy : 0 ≤ YearFromDay (diaDe a) := by rw [(fields_diaDe a ha).1]; omega
  rw [civilDe_add _ hy, civilDe_diaDe a ha]

/-- Result of `getDateRange` on two zero-padded valid dates from the year 1000
on: the zero-padded renderings of the first date and of the days after it, up
to the second date. -/
theorem getDateRange_ymd (a b : DataCivil) (ha : a.valida) (hb : b.valida)
    (hya : 1000 ≤ a.ano) (hab : a.ateh b) :
    ∃ n : Nat, diaSeguinte^[n] a = b ∧ diaDe b = diaDe a + n ∧
      ∀ fuel, n + 2 ≤ fuel →
        getDateRange fuel (ymd a) (ymd b) =
          some ((List.range (n + 1)).map (fun i => ymd (diaSeguinte^[i] a))) := by
  have hle := (diaDe_le_iff a b ha hb).mp hab
  obtain ⟨n, hn⟩ : ∃ n : Nat, diaDe b = diaDe a + n :=
    ⟨(diaDe b - diaDe a).toNat, by omega⟩
  have hyb : 1000 ≤ b.ano := by
    have := YearFromDay_diaDe_add a ha n
    rw [← hn, (fields_diaDe b hb).1] at this
    omega
  refine ⟨n, ?_, hn, ?_⟩
  · rw [← civilDe_diaDe_add a ha n, ← hn, civilDe_diaDe b hb]
  · intro fuel hf
    rw [getDateRange_eq a b (by omega) (by omega) (n + 1) (by rw [hn]; push_cast; ring)
      fuel (by omega)]
    congr 1
    apply List.map_congr_left
    intro i _
    rw [formatYMD_eq_ymd _ (by have := YearFromDay_diaDe_add a ha i; omega),
      civilDe_diaDe_add a ha i]

theorem parseLocal_ymd (c : DataCivil) (hv : c.valida) (hy : c.ano ≤ 9999) :
    JSDate.parseLocal (ymd c ++ "T00:00:00") = some ⟨diaDe c⟩ := by
  obtain ⟨h1, h2, h3, h4⟩ := hv
  have hd31 := (diasNoMes_range c.ano c.mes).2
  have hs : jsSplit (ymd c ++ "T00:00:00") 'T' = [ymd c, "00:00:00"] := by
    unfold jsSplit
    have e : (ymd c ++ "T00:00:00").data = (ymd c).data ++ 'T' :: "00:00:00".data := by
      rw [String.data_append]
    rw [e, jsSplitChars_append _ _ _ (ymd_not_mem_T c)]
    have e2 : jsSplitChars 'T' "00:00:00".data = ["00:00:00".data] := by decide
    rw [e2]
    rfl
  unfold JSDate.parseLocal
  rw [hs]
  simp only [if_true]
  rw [jsSplit_ymd]
  simp only
  have l1 : (padStart (jsStringNat c.ano) 4).length = 4 :=
    padStart_length _ 4 (by have : (10 : Nat) ^ 4 = 10000 := by norm_num
                            omega) (by norm_num)
  have l2 : (padStart (jsStringNat c.mes) 2).length = 2 :=
    padStart_length _ 2 (by have : (10 : Nat) ^ 2 = 100 := by norm_num
                            omega) (by norm_num)
  have l3 : (padStart (jsStringNat c.dia) 2).length = 2 :=
    padStart_length _ 2 (by have : (10 : Nat) ^ 2 = 100 := by norm_num
                            omega) (by norm_num)
  simp only [l1, l2, l3, and_self, if_true, jsNumber_padStart]
  have hr : 1 ≤ c.mes ∧ c.mes ≤ 12 ∧ 1 ≤ c.dia ∧ c.dia ≤ DaysInMonth (c.ano : Int) c.mes := by
    rw [DaysInMonth_diasNoMes]; exact ⟨h1, h2, h3, h4⟩
  simp only [hr, and_self, if_true]
  rfl

/-- On a valid zero-padded date of the years 1000 to 9999, passed as both
bounds, the end date sent upstream is the zero-padded day after. -/
theorem dataFinalParaAPI_ymd (c : DataCivil) (hv : c.valida) (hy : 1000 ≤ c.ano)
    (hy2 : c.ano ≤ 9999) : dataFinalParaAPI (ymd c) (ymd c) = ymd (diaSeguinte c) := by
  unfold dataFinalParaAPI
  simp only [if_true]
  rw [parseLocal_ymd c hv hy2]
  simp only
  have hn := setDate_getDate_add ⟨diaDe c⟩ 1
  have e : (JSDate.mk (diaDe c)).setDate ((JSDate.mk (diaDe c)).getDate + 1)
      = ⟨diaDe c + ((1 : Nat) : Int)⟩ := by
    generalize (JSDate.mk (diaDe c)).setDate ((JSDate.mk (diaDe c)).getDate + 1) = t at hn
    cases t
    simp only at hn
    simp [hn]
  have hf := formatYMD_eq_ymd (diaDe c + ((1 : Nat) : Int))
    (by have := YearFromDay_diaDe_add c hv 1; omega)
  rw [civilDe_diaDe_add c hv 1] at hf
  rw [e]
  exact hf

theorem dataFinalParaAPI_ne (a b : String) (h : a ≠ b) : dataFinalParaAPI a b = b := by
  unfold dataFinalParaAPI
  simp only [h, if_false]

/-! ## The paginated loop -/

/-- The log of the paginated loop is the initial log followed by the requests
of consecutive pages, at least one when there is fuel. -/
theorem buscarPaginas_log (servidor : Requisicao → Resposta) (montar : Nat → Requisicao)
    (mensagem : String) (fuel : Nat) :
    ∀ (page : Nat) (acc : List Registro) (log : List Requisicao),
      ∃ j, (1 ≤ fuel → 1 ≤ j) ∧ j ≤ fuel ∧
        (buscarPaginas servidor montar mensagem fuel page acc log).1 =
          log ++ (List.range j).map (fun i => montar (page + i)) := by
  induction fuel with
  | zero =>
    intro page acc log
    exact ⟨0, by simp, le_refl _, by simp [buscarPaginas]⟩
  | succ f ih =>
    intro page acc log
    unfold buscarPaginas
    simp only
    have r1 : List.range 1 = [0] := rfl
    split_ifs with h1 h2
    · exact ⟨1, by simp, by omega, by simp [r1]⟩
    · obtain ⟨j, -, hj2, hj⟩ := ih (page + 1)
        (acc ++ (servidor (montar page)).data.getD []) (log ++ [montar page])
      refine ⟨j + 1, by simp, by omega, ?_⟩
      rw [hj, List.range_succ_eq_map, List.map_cons, List.map_map, List.append_assoc]
      congr 1
      simp only [List.singleton_append, Nat.add_zero, List.cons.injEq, true_and]
      apply List.map_congr_left
      intro i _
      simp only [Function.comp, Nat.succ_eq_add_one]
      congr 1
      omega
    · exact ⟨1, by simp, by omega, by simp [r1]⟩

/-- With pages `page` to `page + j` answered successfully and only the last
one without a next page, the loop requests exactly those pages and returns
the accumulator extended by their `data` arrays in order. -/
theorem buscarPaginas_ok (servidor : Requisicao → Resposta) (montar : Nat → Requisicao)
    (mensagem : String) (j : Nat) :
    ∀ (page : Nat) (acc : List Registro) (log : List Requisicao) (fuel : Nat),
      j < fuel →
      (∀ i, i ≤ j → (servidor (montar (page + i))).ok = true ∧
        ((servidor (montar (page + i))).next = none ↔ i = j)) →
      buscarPaginas servidor montar mensagem fuel page acc log =
        (log ++ (List.range (j + 1)).map (fun i => montar (page + i)),
          Desfecho.retorna (acc ++
            ((List.range (j + 1)).map
              (fun i => (servidor (montar (page + i))).data.getD [])).flatten)) := by
  induction j with
  | zero =>
    intro page acc log fuel hf h
    obtain ⟨f, rfl⟩ : ∃ f, fuel = f + 1 := ⟨fuel - 1, by omega⟩
    have h0 := h 0 (le_refl _)
    simp only [Nat.add_zero, iff_true] at h0
    have r1 : List.range 1 = [0] := rfl
    unfold buscarPaginas
    simp [h0.1, h0.2, r1]
  | succ j ih =>
    intro page acc log fuel hf h
    obtain ⟨f, rfl⟩ : ∃ f, fuel = f + 1 := ⟨fuel - 1, by omega⟩
    have h0 := h 0 (by omega)
    simp only [Nat.add_zero] at h0
    have hnext : (servidor (montar page)).next.isSome = true := by
      cases hx : (servidor (montar page)).next with
      | none => exact absurd (h0.2.mp hx) (by omega)
      | some v => rfl
    have hrest : ∀ i, i ≤ j → (servidor (montar (page + 1 + i))).ok = true ∧
        ((servidor (montar (page + 1 + i))).next = none ↔ i = j) := by
      intro i hi
      have := h (i + 1) (by omega)
      have e : page + (i + 1) = page + 1 + i := by omega
      rw [e] at this
      refine ⟨this.1, this.2.trans ?_⟩
      omega
    unfold buscarPaginas
    simp only [h0.1, hnext, Bool.not_true, Bool.false_eq_true, if_false, if_true]
    rw [ih (page + 1) _ _ f (by omega) hrest]
    have e1 : ∀ g : Nat → Requisicao, (List.range (j + 1 + 1)).map (fun i => g (page + i))
        = g page :: (List.range (j + 1)).map (fun i => g (page + 1 + i)) := by
      intro g
      rw [List.range_succ_eq_map, List.map_cons, List.map_map]
      congr 1
      apply List.map_congr_left
      intro i _
      simp only [Function.comp, Nat.succ_eq_add_one]
      congr 1
      omega
    have e2 : ∀ g : Nat → List Registro, (List.range (j + 1 + 1)).map (fun i => g (page + i))
        = g page :: (List.range (j + 1)).map (fun i => g (page + 1 + i)) := by
      intro g
      rw [List.range_succ_eq_map, List.map_cons, List.map_map]
      congr 1
      apply List.map_congr_left
      intro i _
      simp only [Function.comp, Nat.succ_eq_add_one]
      congr 1
      omega
    rw [e1 montar, e2 (fun p => (servidor (montar p)).data.getD [])]
    simp [List.append_assoc]

/-- The loop started at page 1 on an upstream that satisfies `paginasOk`. -/
theorem buscarPaginas_paginasOk (servidor : Requisicao → Resposta)
    (montar : Nat → Requisicao) (mensagem : String) (k : Nat)
    (h : paginasOk servidor montar k) (fuel : Nat) (hf : k ≤ fuel) :
    buscarPaginas servidor montar mensagem fuel 1 [] [] =
      ((List.range k).map (fun i => montar (i + 1)),
        Desfecho.retorna (acumulado servidor montar k)) := by
  obtain ⟨hk, hp⟩ := h
  obtain ⟨j, rfl⟩ : ∃ j, k = j + 1 := ⟨k - 1, by omega⟩
  have := buscarPaginas_ok servidor montar mensagem j 1 [] [] fuel (by omega)
    (by
      intro i hi
      have := hp (1 + i) (by omega) (by omega)
      refine ⟨this.1, this.2.trans ?_⟩
      omega)
  rw [this]
  unfold acumulado
  simp only [List.nil_append, Nat.add_comm 1]

/-! ## C1: the three date filters -/

theorem campoNoDia_exemplos :
    campoNoDia "2024-05-01" (some "2024-05-01T13:22:00-03:00") = true ∧
    campoNoDia "2024-05-02" (some "2024-05-01T13:22:00-03:00") = false := by
  constructor <;> decide

/-- C1: for every target date `t` and every list of records, each of the three
date filters is the selection of the records whose field (`dataVigenciaInicial`,
`dataEmitida`, `dataAviso` respectively) is present, non-empty and has `t` as its
part before the first `T`; a record whose field is absent is dropped, and a
record whose field is `2024-05-01T13:22:00-03:00` is kept for `2024-05-01` and
dropped for `2024-05-02`. -/
theorem C1_filtros_por_data (t : String) (rs : List Registro) :
    ((∃ p : Registro → Bool, (∀ r, p r = true ↔ campoCasa t r.dataVigenciaInicial) ∧
        filtrarPorDiaAnterior t rs = rs.filter p) ∧
      (∃ p : Registro → Bool, (∀ r, p r = true ↔ campoCasa t r.dataEmitida) ∧
        filtrarPorDataEmitidaDiaAnterior t rs = rs.filter p) ∧
      (∃ p : Registro → Bool, (∀ r, p r = true ↔ campoCasa t r.dataAviso) ∧
        filtrarSinistrosPorDiaAnterior t rs = rs.filter p)) ∧
    ((∀ r, r ∈ filtrarPorDiaAnterior t rs ↔ r ∈ rs ∧ campoCasa t r.dataVigenciaInicial) ∧
      (∀ r, r ∈ filtrarPorDataEmitidaDiaAnterior t rs ↔ r ∈ rs ∧ campoCasa t r.dataEmitida) ∧
      (∀ r, r ∈ filtrarSinistrosPorDiaAnterior t rs ↔ r ∈ rs ∧ campoCasa t r.dataAviso)) ∧
    ((∀ r, r.dataVigenciaInicial = none → r ∉ filtrarPorDiaAnterior t rs) ∧
      (∀ r, r.dataEmitida = none → r ∉ filtrarPorDataEmitidaDiaAnterior t rs) ∧
      (∀ r, r.dataAviso = none → r ∉ filtrarSinistrosPorDiaAnterior t rs)) ∧
    ((∀ r, r.dataVigenciaInicial = some "2024-05-01T13:22:00-03:00" →
        filtrarPorDiaAnterior "2024-05-01" [r] = [r] ∧
        filtrarPorDiaAnterior "2024-05-02" [r] = []) ∧
      (∀ r, r.dataEmitida = some "2024-05-01T13:22:00-03:00" →
        filtrarPorDataEmitidaDiaAnterior "2024-05-01" [r] = [r] ∧
        filtrarPorDataEmitidaDiaAnterior "2024-05-02" [r] = []) ∧
      (∀ r, r.dataAviso = some "2024-05-01T13:22:00-03:00" →
        filtrarSinistrosPorDiaAnterior "2024-05-01" [r] = [r] ∧
        filtrarSinistrosPorDiaAnterior "2024-05-02" [r] = [])) := by
  refine ⟨⟨?_, ?_, ?_⟩, ⟨?_, ?_, ?_⟩, ⟨?_, ?_, ?_⟩, ⟨?_, ?_, ?_⟩⟩
  · exact ⟨_, fun r => campoNoDia_iff t r.dataVigenciaInicial, rfl⟩
  · exact ⟨_, fun r => campoNoDia_iff t r.dataEmitida, rfl⟩
  · exact ⟨_, fun r => campoNoDia_iff t r.dataAviso, rfl⟩
  · intro r
    simp only [filtrarPorDiaAnterior, List.mem_filter, campoNoDia_iff]
  · intro r
    simp only [filtrarPorDataEmitidaDiaAnterior, List.mem_filter, campoNoDia_iff]
  · intro r
    simp only [filtrarSinistrosPorDiaAnterior, List.mem_filter, campoNoDia_iff]
  · intro r h
    simp [filtrarPorDiaAnterior, List.mem_filter, h, campoNoDia]
  · intro r h
    simp [filtrarPorDataEmitidaDiaAnterior, List.mem_filter, h, campoNoDia]
  · intro r h
    simp [filtrarSinistrosPorDiaAnterior, List.mem_filter, h, campoNoDia]
  · intro r h
    simp [filtrarPorDiaAnterior, h, campoNoDia_exemplos.1, campoNoDia_exemplos.2]
  · intro r h
    simp [filtrarPorDataEmitidaDiaAnterior, h, campoNoDia_exemplos.1, campoNoDia_exemplos.2]
  · intro r h
    simp [filtrarSinistrosPorDiaAnterior, h, campoNoDia_exemplos.1, campoNoDia_exemplos.2]

/-! ## C2 and C3: the single-day policy of `getProducaoCompletaPeriodo` -/

theorem getProducaoCompletaPeriodo_log (fuel : Nat) (servidor : Requisicao → Resposta)
    (token a b : String) :
    (getProducaoCompletaPeriodo fuel servidor token a b).1 =
      (buscarPaginas servidor
        (reqProducao token "dataVigenciaInicial" a (dataFinalParaAPI a b))
        "Erro na requisição de produção completa: " fuel 1 [] []).1 := by
  unfold getProducaoCompletaPeriodo
  simp only
  split
  · rename_i log all h
    rw [h]
    split <;> rfl
  · rename_i log e h
    rw [h]
  · rename_i log h
    rw [h]

theorem getProducaoCompletaPeriodo_reqs (fuel : Nat) (servidor : Requisicao → Resposta)
    (token a b : String) :
    (1 ≤ fuel → (getProducaoCompletaPeriodo fuel servidor token a b).1 ≠ []) ∧
    ∀ req ∈ (getProducaoCompletaPeriodo fuel servidor token a b).1,
      req.dataInicial = a ∧ req.dataFinal = dataFinalParaAPI a b := by
  rw [getProducaoCompletaPeriodo_log]
  obtain ⟨j, hj1, -, hj⟩ := buscarPaginas_log servidor
    (reqProducao token "dataVigenciaInicial" a (dataFinalParaAPI a b))
    "Erro na requisição de produção completa: " fuel 1 [] []
  rw [hj]
  constructor
  · intro hf
    have := hj1 hf
    obtain ⟨i, rfl⟩ : ∃ i, j = i + 1 := ⟨j - 1, by omega⟩
    simp [List.range_succ_eq_map]
  · intro req hreq
    simp only [List.nil_append, List.mem_map, List.mem_range] at hreq
    obtain ⟨i, -, rfl⟩ := hreq
    exact ⟨rfl, rfl⟩

/-- C2, counterexample: for the valid zero-padded date `0998-12-31` passed as
both bounds, the page request carries `dataFinal = 999-01-01`, which is not
the zero-padded day after, `0999-01-01`. -/
theorem C2_contraexemplo :
    (DataCivil.mk 998 12 31).valida ∧ ymd (DataCivil.mk 998 12 31) = "0998-12-31" ∧
    ymd (diaSeguinte (DataCivil.mk 998 12 31)) = "0999-01-01" ∧
    (getProducaoCompletaPeriodo 3 (servidorUmaPagina []) "t" "0998-12-31" "0998-12-31").1.map
      (fun req => req.dataFinal) = ["999-01-01"] := by
  refine ⟨by decide, by decide, by decide, by decide⟩

/-- C2, amended: for every valid zero-padded date `d` of the years 1000 to 9999,
`getProducaoCompletaPeriodo(token, d, d)` sends at least one page request and
every page request it sends carries `dataInicial = d` and `dataFinal` = the
zero-padded calendar day after `d` (as for `2024-05-01`, `2024-02-29` and
`2024-12-31`); when the two bounds differ, `dataFinal` is sent unchanged. -/
theorem C2_requisicao_dia_unico (fuel : Nat) (servidor : Requisicao → Resposta)
    (token : String) (c : DataCivil) (hv : c.valida) (h1 : 1000 ≤ c.ano) (h2 : c.ano ≤ 9999) :
    ((1 ≤ fuel → (getProducaoCompletaPeriodo fuel servidor token (ymd c) (ymd c)).1 ≠ []) ∧
      ∀ req ∈ (getProducaoCompletaPeriodo fuel servidor token (ymd c) (ymd c)).1,
        req.dataInicial = ymd c ∧ req.dataFinal = ymd (diaSeguinte c)) ∧
    (∀ dataInicial dataFinal : String, dataInicial ≠ dataFinal →
      ∀ req ∈ (getProducaoCompletaPeriodo fuel servidor token dataInicial dataFinal).1,
        req.dataInicial = dataInicial ∧ req.dataFinal = dataFinal) ∧
    (dataFinalParaAPI "2024-05-01" "2024-05-01" = "2024-05-02" ∧
      dataFinalParaAPI "2024-02-29" "2024-02-29" = "2024-03-01" ∧
      dataFinalParaAPI "2024-12-31" "2024-12-31" = "2025-01-01") := by
  refine ⟨⟨(getProducaoCompletaPeriodo_reqs fuel servidor token _ _).1, ?_⟩, ?_,
    ⟨by decide, by decide, by decide⟩⟩
  · intro req hreq
    have := (getProducaoCompletaPeriodo_reqs fuel servidor token _ _).2 req hreq
    rw [dataFinalParaAPI_ymd c hv h1 h2] at this
    exact this
  · intro a b hab req hreq
    have := (getProducaoCompletaPeriodo_reqs fuel servidor token _ _).2 req hreq
    rw [dataFinalParaAPI_ne a b hab] at this
    exact this

/-- Witness of C2 at the date 2024-02-29, with three units of fuel and an
upstream of one empty page. -/
theorem C2_requisicao_dia_unico_witness :
    (DataCivil.mk 2024 2 29).valida ∧ 1000 ≤ (DataCivil.mk 2024 2 29).ano ∧
    (DataCivil.mk 2024 2 29).ano ≤ 9999 ∧
    (((1 ≤ 3 → (getProducaoCompletaPeriodo 3 (servidorUmaPagina []) "t"
          (ymd (DataCivil.mk 2024 2 29)) (ymd (DataCivil.mk 2024 2 29))).1 ≠ []) ∧
      ∀ req ∈ (getProducaoCompletaPeriodo 3 (servidorUmaPagina []) "t"
          (ymd (DataCivil.mk 2024 2 29)) (ymd (DataCivil.mk 2024 2 29))).1,
        req.dataInicial = ymd (DataCivil.mk 2024 2 29) ∧
        req.dataFinal = ymd (diaSeguinte (DataCivil.mk 2024 2 29))) ∧
    (∀ dataInicial dataFinal : String, dataInicial ≠ dataFinal →
      ∀ req ∈ (getProducaoCompletaPeriodo 3 (servidorUmaPagina []) "t"
          dataInicial dataFinal).1,
        req.dataInicial = dataInicial ∧ req.dataFinal = dataFinal) ∧
    (dataFinalParaAPI "2024-05-01" "2024-05-01" = "2024-05-02" ∧
      dataFinalParaAPI "2024-02-29" "2024-02-29" = "2024-03-01" ∧
      dataFinalParaAPI "2024-12-31" "2024-12-31" = "2025-01-01")) :=
  ⟨by decide, by decide, by decide,
    C2_requisicao_dia_unico 3 (servidorUmaPagina []) "t" (DataCivil.mk 2024 2 29)
      (by decide) (by decide) (by decide)⟩

theorem filtrarPeriodo_singleton (d : String) (rs : List Registro) :
    filtrarPeriodo [d] rs = filtrarPorDiaAnterior d rs := by
  unfold filtrarPeriodo filtrarPorDiaAnterior
  apply List.filter_congr
  intro r _
  unfold campoNoDia
  cases r.dataVigenciaInicial with
  | none => rfl
  | some s =>
    simp only
    split_ifs
    · rfl
    · cases (jsSplit s 'T').head? with
      | none => simp
      | some v =>
        simp only [List.contains, List.elem, Option.some.injEq]
        by_cases hv : v = d
        · subst hv; simp
        · have : (v == d) = false := by simpa using hv
          simp [this, hv]

theorem campoCasa_unique (t1 t2 : String) (campo : Option String)
    (h1 : campoCasa t1 campo) (h2 : campoCasa t2 campo) : t1 = t2 := by
  rw [← campoNoDia_iff] at h1 h2
  unfold campoNoDia at h1 h2
  cases campo with
  | none => simp at h1
  | some s =>
    simp only at h1 h2
    split_ifs at h1 h2
    rw [beq_iff_eq] at h1 h2
    rw [h1] at h2
    exact Option.some.inj h2

theorem diaSeguinte_ne (c : DataCivil) (hv : c.valida) : diaSeguinte c ≠ c := by
  intro h
  have := diaDe_diaSeguinte c hv
  rw [h] at this
  omega

/-- C3, counterexample: for the valid zero-padded date `0999-05-01` and one
successful page holding a record of that very day,
`getProducaoCompletaPeriodo` returns no record, whereas
`filtrarPorDiaAnterior` keeps the record. -/
theorem C3_contraexemplo :
    (DataCivil.mk 999 5 1).valida ∧ ymd (DataCivil.mk 999 5 1) = "0999-05-01" ∧
    (getProducaoCompletaPeriodo 3 (servidorUmaPagina [registroVigencia 7 "0999-05-01"]) "t"
      "0999-05-01" "0999-05-01").2 = Desfecho.retorna [] ∧
    filtrarPorDiaAnterior "0999-05-01" [registroVigencia 7 "0999-05-01"] =
      [registroVigencia 7 "0999-05-01"] := by
  refine ⟨by decide, by decide, by decide, by decide⟩

/-- C3, amended: for every valid zero-padded date `d` of the years 1000 to 9999
and every upstream whose pages 1 to `k` answer the requests of
`getProducaoCompletaPeriodo(token, d, d)` successfully, the call (and likewise
`getProducaoCompletaDiaAnterior(token, d)`) returns exactly
`filtrarPorDiaAnterior(d, allFetchedRecords)`: every returned record has `d` as
the date part of `dataVigenciaInicial`, none has the day after. -/
theorem C3_resultado_dia_unico (servidor : Requisicao → Resposta) (token : String)
    (c : DataCivil) (hv : c.valida) (h1 : 1000 ≤ c.ano) (h2 : c.ano ≤ 9999) (k : Nat)
    (hp : paginasOk servidor
      (reqProducao token "dataVigenciaInicial" (ymd c) (ymd (diaSeguinte c))) k)
    (fuel : Nat) (hf : k ≤ fuel) (hf2 : 2 ≤ fuel) :
    (getProducaoCompletaPeriodo fuel servidor token (ymd c) (ymd c)).2 =
      Desfecho.retorna (filtrarPorDiaAnterior (ymd c) (acumulado servidor
        (reqProducao token "dataVigenciaInicial" (ymd c) (ymd (diaSeguinte c))) k)) ∧
    getProducaoCompletaDiaAnterior fuel servidor token (ymd c) =
      getProducaoCompletaPeriodo fuel servidor token (ymd c) (ymd c) ∧
    ∀ r ∈ filtrarPorDiaAnterior (ymd c) (acumulado servidor
        (reqProducao token "dataVigenciaInicial" (ymd c) (ymd (diaSeguinte c))) k),
      campoCasa (ymd c) r.dataVigenciaInicial ∧
      ¬ campoCasa (ymd (diaSeguinte c)) r.dataVigenciaInicial := by
  refine ⟨?_, rfl, ?_⟩
  · unfold getProducaoCompletaPeriodo
    simp only
    rw [dataFinalParaAPI_ymd c hv h1 h2,
      buscarPaginas_paginasOk servidor _ _ k hp fuel hf]
    simp only
    have hab : c.ateh c := by
      unfold DataCivil.ateh
      omega
    obtain ⟨n, hn, hd, hr⟩ := getDateRange_ymd c c hv hv h1 hab
    have hn0 : n = 0 := by omega
    subst hn0
    rw [hr fuel (by omega)]
    have r1 : List.range (0 + 1) = [0] := rfl
    simp only [r1, List.map_cons, List.map_nil, Function.iterate_zero, id_eq]
    rw [filtrarPeriodo_singleton]
  · intro r hr
    have hc : campoCasa (ymd c) r.dataVigenciaInicial := by
      unfold filtrarPorDiaAnterior at hr
      rw [List.mem_filter, campoNoDia_iff] at hr
      exact hr.2
    refine ⟨hc, ?_⟩
    intro hc2
    have := campoCasa_unique _ _ _ hc hc2
    exact diaSeguinte_ne c hv (ymd_injective _ _ this).symm

theorem paginasOk_servidorUmaPagina (rs : List Registro) (montar : Nat → Requisicao) :
    paginasOk (servidorUmaPagina rs) montar 1 := by
  refine ⟨le_refl _, ?_⟩
  intro i h1 h2
  have : i = 1 := by omega
  subst this
  simp [servidorUmaPagina]

/-- Witness of C3 at the date 2024-05-01, with one page that holds a record of
that day and a record of the day after. -/
theorem C3_resultado_dia_unico_witness :
    (DataCivil.mk 2024 5 1).valida ∧ 1000 ≤ (DataCivil.mk 2024 5 1).ano ∧
    (DataCivil.mk 2024 5 1).ano ≤ 9999 ∧
    paginasOk
      (servidorUmaPagina [registroVigencia 1 "2024-05-01T13:22:00-03:00",
        registroVigencia 2 "2024-05-02"])
      (reqProducao "t" "dataVigenciaInicial" (ymd (DataCivil.mk 2024 5 1))
        (ymd (diaSeguinte (DataCivil.mk 2024 5 1)))) 1 ∧
    1 ≤ 2 ∧ 2 ≤ 2 ∧
    ((getProducaoCompletaPeriodo 2
        (servidorUmaPagina [registroVigencia 1 "2024-05-01T13:22:00-03:00",
          registroVigencia 2 "2024-05-02"]) "t"
        (ymd (DataCivil.mk 2024 5 1)) (ymd (DataCivil.mk 2024 5 1))).2 =
      Desfecho.retorna (filtrarPorDiaAnterior (ymd (DataCivil.mk 2024 5 1))
        (acumulado
          (servidorUmaPagina [registroVigencia 1 "2024-05-01T13:22:00-03:00",
            registroVigencia 2 "2024-05-02"])
          (reqProducao "t" "dataVigenciaInicial" (ymd (DataCivil.mk 2024 5 1))
            (ymd (diaSeguinte (DataCivil.mk 2024 5 1)))) 1)) ∧
    getProducaoCompletaDiaAnterior 2
        (servidorUmaPagina [registroVigencia 1 "2024-05-01T13:22:00-03:00",
          registroVigencia 2 "2024-05-02"]) "t" (ymd (DataCivil.mk 2024 5 1)) =
      getProducaoCompletaPeriodo 2
        (servidorUmaPagina [registroVigencia 1 "2024-05-01T13:22:00-03:00",
          registroVigencia 2 "2024-05-02"]) "t"
        (ymd (DataCivil.mk 2024 5 1)) (ymd (DataCivil.mk 2024 5 1)) ∧
    ∀ r ∈ filtrarPorDiaAnterior (ymd (DataCivil.mk 2024 5 1))
        (acumulado
          (servidorUmaPagina [registroVigencia 1 "2024-05-01T13:22:00-03:00",
            registroVigencia 2 "2024-05-02"])
          (reqProducao "t" "dataVigenciaInicial" (ymd (DataCivil.mk 2024 5 1))
            (ymd (diaSeguinte (DataCivil.mk 2024 5 1)))) 1),
      campoCasa (ymd (DataCivil.mk 2024 5 1)) r.dataVigenciaInicial ∧
      ¬ campoCasa (ymd (diaSeguinte (DataCivil.mk 2024 5 1))) r.dataVigenciaInicial) :=
  ⟨by decide, by decide, by decide, paginasOk_servidorUmaPagina _ _, by decide, by decide,
    C3_resultado_dia_unico _ "t" (DataCivil.mk 2024 5 1) (by decide) (by decide) (by decide) 1
      (paginasOk_servidorUmaPagina _ _) 2 (by decide) (by decide)⟩

/-! ## C4, C5 and C6: `getDateRange` -/

theorem iterate_diaSeguinte_injective (a : DataCivil) (ha : a.valida) (i j : Nat)
    (h : diaSeguinte^[i] a = diaSeguinte^[j] a) : i = j := by
  have hi := (iterate_diaSeguinte a ha i).2
  have hj := (iterate_diaSeguinte a ha j).2
  rw [h] at hi
  omega

theorem Day_MakeDate (n : Int) : Day (MakeDate n 0) = n := by
  unfold Day MakeDate msPerDay
  omega

theorem TimeWithinDay_MakeDate (n : Int) : TimeWithinDay (MakeDate n 0) = 0 := by
  unfold TimeWithinDay MakeDate msPerDay
  omega

theorem TimeClip_some (t c : Int) (h : TimeClip t = some c) : c = t := by
  unfold TimeClip at h
  split_ifs at h
  exact (Option.some.inj h).symm

theorem meiasNoitesRegulares_sub (f : Fuso) (a b a2 b2 : Int)
    (h : meiasNoitesRegulares f a b) (h1 : a ≤ a2) (h2 : b2 ≤ b) :
    meiasNoitesRegulares f a2 b2 :=
  fun n hn1 hn2 => h n (by omega) (by omega)

/-- Where the local midnights are regular, their instants are in the order of
the days. -/
theorem utc_meia_noite_le (f : Fuso) (a b : Int) (h : meiasNoitesRegulares f a b) :
    ∀ (k : Nat) (n : Int), a ≤ n → n + k ≤ b + 1 →
      f.utc (MakeDate n 0) ≤ f.utc (MakeDate (n + k) 0) := by
  intro k
  induction k with
  | zero =>
    intro n _ _
    simp
  | succ k ih =>
    intro n hn hk
    have h1 := ih n hn (by push_cast at hk; omega)
    have h2 := (h (n + k) (by omega) (by push_cast at hk; omega)).2.2
    have e : n + ((k + 1 : Nat) : Int) = n + k + 1 := by push_cast; ring
    rw [e]
    exact le_trans h1 (le_of_lt h2)

/-- One turn of the loop from a local midnight that exists: the date read is
that day, and `setDate` moves to the local midnight of the day after. -/
theorem setDate_meia_noite (f : Fuso) (n : Int)
    (h : f.localTime (f.utc (MakeDate n 0)) = MakeDate n 0) :
    f.setDate (f.utc (MakeDate n 0)) ((f.dataLocal (f.utc (MakeDate n 0))).getDate + 1) =
      TimeClip (f.utc (MakeDate (n + 1) 0)) ∧
    f.dataLocal (f.utc (MakeDate n 0)) = ⟨n⟩ := by
  have hd : f.dataLocal (f.utc (MakeDate n 0)) = ⟨n⟩ := by
    unfold Fuso.dataLocal
    rw [h, Day_MakeDate]
  refine ⟨?_, hd⟩
  rw [hd]
  unfold Fuso.setDate
  simp only [h, Day_MakeDate, TimeWithinDay_MakeDate]
  have e := MakeDay_fields n 1
  unfold JSDate.getDate
  simp only
  rw [e]

/-- In a time zone whose local midnights from `a` to `b` are regular, the loop
of `getDateRange` on instants takes the course of the loop on day numbers. -/
theorem getDateRangeLoopFuso_regular (f : Fuso) (a b : Int) (hab : a ≤ b)
    (h : meiasNoitesRegulares f a b) :
    ∀ (k : Nat) (n : Int) (acc : List String) (fuel : Nat), a ≤ n → n + k = b + 1 →
      getDateRangeLoopFuso f (some (f.utc (MakeDate b 0))) fuel
          (TimeClip (f.utc (MakeDate n 0))) acc =
        getDateRangeLoop ⟨b⟩ fuel ⟨n⟩ acc := by
  intro k
  induction k with
  | zero =>
    intro n acc fuel hn hk
    cases fuel with
    | zero => rfl
    | succ fuel =>
      have hnb : ¬ n ≤ b := by push_cast at hk; omega
      have hold : getDateRangeLoop ⟨b⟩ (fuel + 1) ⟨n⟩ acc = some acc := by
        unfold getDateRangeLoop
        simp only [hnb, if_false]
      rw [hold]
      cases hc : TimeClip (f.utc (MakeDate n 0)) with
      | none =>
        unfold getDateRangeLoopFuso
        rfl
      | some c =>
        have ec := TimeClip_some _ _ hc
        have hlt := (h b hab (le_refl _)).2.2
        have enb : n = b + 1 := by push_cast at hk; omega
        rw [← enb] at hlt
        unfold getDateRangeLoopFuso
        have : ¬ c ≤ f.utc (MakeDate b 0) := by rw [ec]; omega
        simp only [this, if_false]
  | succ k ih =>
    intro n acc fuel hn hk
    have hnb : n ≤ b := by push_cast at hk; omega
    obtain ⟨hrt, hclip, -⟩ := h n hn hnb
    rw [hclip]
    cases fuel with
    | zero => rfl
    | succ fuel =>
      have hle : f.utc (MakeDate n 0) ≤ f.utc (MakeDate b 0) := by
        have := utc_meia_noite_le f a b h (b - n).toNat n hn (by omega)
        have e : n + (((b - n).toNat : Nat) : Int) = b := by omega
        rw [e] at this
        exact this
      obtain ⟨hs, hd⟩ := setDate_meia_noite f n hrt
      unfold getDateRangeLoopFuso getDateRangeLoop
      simp only [hle, hnb, if_true]
      have e2 : (JSDate.mk n).setDate ((JSDate.mk n).getDate + 1) = ⟨n + 1⟩ := by
        unfold JSDate.setDate JSDate.getFullYear JSDate.getMonth JSDate.getDate
        simp only
        rw [MakeDay_fields]
      rw [hs, hd, e2]
      exact ih (n + 1) _ fuel (by omega) (by push_cast at hk ⊢; omega)

/-- In a time zone whose local midnights from the first date to the second are
regular, `getDateRange` on instants returns what the loop on day numbers
returns. -/
theorem getDateRangeFuso_regular (f : Fuso) (s1 s2 : String) (y1 m1 d1 y2 m2 d2 : Nat)
    (h1 : splitYMD s1 = some (y1, m1, d1)) (h2 : splitYMD s2 = some (y2, m2, d2))
    (hle : (JSDate.ofFields y1 ((m1 : Int) - 1) d1).dia ≤
      (JSDate.ofFields y2 ((m2 : Int) - 1) d2).dia)
    (h : meiasNoitesRegulares f (JSDate.ofFields y1 ((m1 : Int) - 1) d1).dia
      (JSDate.ofFields y2 ((m2 : Int) - 1) d2).dia)
    (fuel : Nat) :
    getDateRangeFuso f fuel s1 s2 = getDateRange fuel s1 s2 := by
  unfold getDateRangeFuso getDateRange
  rw [h1, h2]
  simp only
  have e1 : ∀ y m d : Int,
      f.ofFields y m d = TimeClip (f.utc (MakeDate (JSDate.ofFields y m d).dia 0)) :=
    fun _ _ _ => rfl
  rw [e1, e1, (h _ hle (le_refl _)).2.1]
  exact getDateRangeLoopFuso_regular f _ _ hle h
    ((JSDate.ofFields y2 ((m2 : Int) - 1) d2).dia -
      (JSDate.ofFields y1 ((m1 : Int) - 1) d1).dia + 1).toNat _ [] fuel (le_refl _) (by omega)

/-- The same on two zero-padded dates from the year 100 on. -/
theorem getDateRangeFuso_ymd (f : Fuso) (a b : DataCivil) (hya : 100 ≤ a.ano)
    (hyb : 100 ≤ b.ano) (hle : diaDe a ≤ diaDe b)
    (h : meiasNoitesRegulares f (diaDe a) (diaDe b)) (fuel : Nat) :
    getDateRangeFuso f fuel (ymd a) (ymd b) = getDateRange fuel (ymd a) (ymd b) := by
  have ea : (JSDate.ofFields (a.ano : Int) ((a.mes : Int) - 1) a.dia).dia = diaDe a := by
    rw [ofFields_of_ge _ _ _ (by exact_mod_cast hya)]
    rfl
  have eb : (JSDate.ofFields (b.ano : Int) ((b.mes : Int) - 1) b.dia).dia = diaDe b := by
    rw [ofFields_of_ge _ _ _ (by exact_mod_cast hyb)]
    rfl
  exact getDateRangeFuso_regular f _ _ _ _ _ _ _ _ (splitYMD_ymd a) (splitYMD_ymd b)
    (by rw [ea, eb]; exact hle) (by rw [ea, eb]; exact h) fuel

/-- The loop on instants in a time zone where summer time starts at a local
midnight inside the range: from 2004-11-01 to 2004-11-05 with the midnight of
2004-11-02 skipped, the cursor stands at 01:00 from that day on, one hour
after the end date, and the end date is not listed. In a time zone without
that change the same call lists the five dates. -/
theorem getDateRangeFuso_meia_noite_saltada :
    getDateRangeFuso fusoHorarioDeVerao 7 "2004-11-01" "2004-11-05" =
      some ["2004-11-01", "2004-11-02", "2004-11-03", "2004-11-04"] ∧
    getDateRangeFuso (fusoFixo (-10800000)) 7 "2004-11-01" "2004-11-05" =
      some ["2004-11-01", "2004-11-02", "2004-11-03", "2004-11-04", "2004-11-05"] ∧
    ¬ meiasNoitesRegulares fusoHorarioDeVerao 12723 12727 ∧
    diaDe (DataCivil.mk 2004 11 1) = 12723 ∧ diaDe (DataCivil.mk 2004 11 5) = 12727 := by
  refine ⟨by decide, by decide, by decide, by decide, by decide⟩

/-- C4, counterexample: on the valid zero-padded dates `0999-12-30` and
`0999-12-31`, in a time zone three hours behind UTC whose midnights are
regular, the result of `getDateRange` holds `999-12-30` and `999-12-31`; its
first element is not the start date and its elements are not zero-padded
`YYYY-MM-DD` strings. -/
theorem C4_contraexemplo :
    (DataCivil.mk 999 12 30).valida ∧ (DataCivil.mk 999 12 31).valida ∧
    (DataCivil.mk 999 12 30).ateh (DataCivil.mk 999 12 31) ∧
    ymd (DataCivil.mk 999 12 30) = "0999-12-30" ∧ ymd (DataCivil.mk 999 12 31) = "0999-12-31" ∧
    meiasNoitesRegulares (fusoFixo (-10800000)) (diaDe (DataCivil.mk 999 12 30))
      (diaDe (DataCivil.mk 999 12 31)) ∧
    getDateRangeFuso (fusoFixo (-10800000)) 5 "0999-12-30" "0999-12-31" =
      some ["999-12-30", "999-12-31"] ∧
    (["999-12-30", "999-12-31"] : List String).head? ≠ some "0999-12-30" := by
  refine ⟨by decide, by decide, by decide, by decide, by decide, by decide, by decide,
    by decide⟩

/-- C4, amended: for all valid calendar dates `a` not after `b`, from the year
1000 on, given as zero-padded strings, and every host time zone in which the
local midnight of each day from `a` to `b` exists, lies in the range of `Date`
and is earlier than the local midnight of the day after, `getDateRange`
returns (with enough fuel) the zero-padded renderings of a list of dates that
starts with `a`, ends with `b`, in which every element is the calendar day
immediately after the one before it, and in which no date occurs twice. -/
theorem C4_getDateRange_datas (f : Fuso) (a b : DataCivil) (ha : a.valida) (hb : b.valida)
    (hya : 1000 ≤ a.ano) (hab : a.ateh b)
    (hz : meiasNoitesRegulares f (diaDe a) (diaDe b)) :
    ∃ n : Nat, diaSeguinte^[n] a = b ∧
      ∀ fuel, n + 2 ≤ fuel →
        ∃ L : List DataCivil,
          getDateRangeFuso f fuel (ymd a) (ymd b) = some (L.map ymd) ∧
          L = (List.range (n + 1)).map (fun i => diaSeguinte^[i] a) ∧
          L.head? = some a ∧ L.getLast? = some b ∧
          List.Chain' (fun x y => y = diaSeguinte x) L ∧
          (∀ x ∈ L, x.valida) ∧ L.Nodup ∧ (L.map ymd).Nodup := by
  obtain ⟨n, hn, hdn, hr⟩ := getDateRange_ymd a b ha hb hya hab
  have hyb : 1000 ≤ b.ano := by
    have := YearFromDay_diaDe_add a ha n
    rw [← hdn, (fields_diaDe b hb).1] at this
    omega
  refine ⟨n, hn, ?_⟩
  intro fuel hf
  have hnd : ((List.range (n + 1)).map (fun i => diaSeguinte^[i] a)).Nodup := by
    apply List.Nodup.map_on _ (List.nodup_range _)
    intro i _ j _ h
    exact iterate_diaSeguinte_injective a ha i j h
  refine ⟨_, ?_, rfl, ?_, ?_, ?_, ?_, hnd, ?_⟩
  · rw [getDateRangeFuso_ymd f a b (by omega) (by omega) (by omega) hz fuel, hr fuel hf,
      List.map_map]
    rfl
  · rw [List.head?_map, List.head?_range]
    simp
  · rw [List.getLast?_map, List.getLast?_range]
    simp [hn]
  · rw [List.chain'_map, List.chain'_range_succ]
    intro m _
    rw [Function.iterate_succ_apply']
  · intro x hx
    simp only [List.mem_map, List.mem_range] at hx
    obtain ⟨i, -, rfl⟩ := hx
    exact (iterate_diaSeguinte a ha i).1
  · apply List.Nodup.map_on _ hnd
    intro x _ y _ h
    exact ymd_injective x y h

/-- Witness of C4 from 2024-02-27 to 2024-03-02, across a leap day, in a time
zone three hours behind UTC. -/
theorem C4_getDateRange_datas_witness :
    (DataCivil.mk 2024 2 27).valida ∧ (DataCivil.mk 2024 3 2).valida ∧
    1000 ≤ (DataCivil.mk 2024 2 27).ano ∧
    (DataCivil.mk 2024 2 27).ateh (DataCivil.mk 2024 3 2) ∧
    meiasNoitesRegulares (fusoFixo (-10800000)) (diaDe (DataCivil.mk 2024 2 27))
      (diaDe (DataCivil.mk 2024 3 2)) ∧
    (∃ n : Nat, diaSeguinte^[n] (DataCivil.mk 2024 2 27) = DataCivil.mk 2024 3 2 ∧
      ∀ fuel, n + 2 ≤ fuel →
        ∃ L : List DataCivil,
          getDateRangeFuso (fusoFixo (-10800000)) fuel (ymd (DataCivil.mk 2024 2 27))
              (ymd (DataCivil.mk 2024 3 2)) =
            some (L.map ymd) ∧
          L = (List.range (n + 1)).map (fun i => diaSeguinte^[i] (DataCivil.mk 2024 2 27)) ∧
          L.head? = some (DataCivil.mk 2024 2 27) ∧ L.getLast? = some (DataCivil.mk 2024 3 2) ∧
          List.Chain' (fun x y => y = diaSeguinte x) L ∧
          (∀ x ∈ L, x.valida) ∧ L.Nodup ∧ (L.map ymd).Nodup) :=
  ⟨by decide, by decide, by decide, by decide, by decide,
    C4_getDateRange_datas (fusoFixo (-10800000)) (DataCivil.mk 2024 2 27)
      (DataCivil.mk 2024 3 2) (by decide) (by decide) (by decide) (by decide) (by decide)⟩

/-- C5, counterexample: for the valid zero-padded dates `0099-12-31` and
`0100-01-01`, one day apart, in a time zone three hours behind UTC whose
midnights are regular, `getDateRange` returns the empty list instead of two
dates (the `Date` constructor reads the year 99 as 1999); and
`getDateRange("0999-01-01", "0999-01-01")` is `["999-01-01"]`, not
`["0999-01-01"]`. -/
theorem C5_contraexemplo :
    (DataCivil.mk 99 12 31).valida ∧ (DataCivil.mk 100 1 1).valida ∧
    (DataCivil.mk 99 12 31).ateh (DataCivil.mk 100 1 1) ∧
    diaSeguinte (DataCivil.mk 99 12 31) = DataCivil.mk 100 1 1 ∧
    ymd (DataCivil.mk 99 12 31) = "0099-12-31" ∧ ymd (DataCivil.mk 100 1 1) = "0100-01-01" ∧
    meiasNoitesRegulares (fusoFixo (-10800000)) (diaDe (DataCivil.mk 99 12 31))
      (diaDe (DataCivil.mk 100 1 1)) ∧
    getDateRangeFuso (fusoFixo (-10800000)) 5 "0099-12-31" "0100-01-01" = some [] ∧
    (DataCivil.mk 999 1 1).valida ∧ ymd (DataCivil.mk 999 1 1) = "0999-01-01" ∧
    meiasNoitesRegulares (fusoFixo (-10800000)) (diaDe (DataCivil.mk 999 1 1))
      (diaDe (DataCivil.mk 999 1 1)) ∧
    getDateRangeFuso (fusoFixo (-10800000)) 5 "0999-01-01" "0999-01-01" = some ["999-01-01"] ∧
    (["999-01-01"] : List String) ≠ ["0999-01-01"] := by
  refine ⟨by decide, by decide, by decide, by decide, by decide, by decide, by decide,
    by decide, by decide, by decide, by decide, by decide, by decide⟩

/-- C5, amended: for all valid zero-padded dates `a` not after `b`, from the
year 1000 on, and every host time zone in which the local midnight of each day
from `a` to `b` exists, lies in the range of `Date` and is earlier than the
local midnight of the day after, `b` is reached from `a` in exactly one number
`n` of day steps and `getDateRange(a, b)` has length `n + 1`; and
`getDateRange(a, a)` is the one-element list `[a]`. -/
theorem C5_getDateRange_comprimento (f : Fuso) (a b : DataCivil) (ha : a.valida)
    (hb : b.valida) (hya : 1000 ≤ a.ano) (hab : a.ateh b)
    (hz : meiasNoitesRegulares f (diaDe a) (diaDe b)) :
    (∃ n : Nat, diaSeguinte^[n] a = b ∧ (∀ m, diaSeguinte^[m] a = b → m = n) ∧
      ∀ fuel, n + 2 ≤ fuel →
        ∃ L, getDateRangeFuso f fuel (ymd a) (ymd b) = some L ∧ L.length = n + 1) ∧
    (∀ fuel, 2 ≤ fuel → getDateRangeFuso f fuel (ymd a) (ymd a) = some [ymd a]) := by
  have hle := (diaDe_le_iff a b ha hb).mp hab
  constructor
  · obtain ⟨n, hn, hdn, hr⟩ := getDateRange_ymd a b ha hb hya hab
    have hyb : 1000 ≤ b.ano := by
      have := YearFromDay_diaDe_add a ha n
      rw [← hdn, (fields_diaDe b hb).1] at this
      omega
    refine ⟨n, hn, ?_, ?_⟩
    · intro m hm
      exact iterate_diaSeguinte_injective a ha m n (by rw [hm, hn])
    · intro fuel hf
      have e : getDateRangeFuso f fuel (ymd a) (ymd b) =
          some ((List.range (n + 1)).map (fun i => ymd (diaSeguinte^[i] a))) := by
        rw [getDateRangeFuso_ymd f a b (by omega) (by omega) hle hz fuel]
        exact hr fuel hf
      exact ⟨_, e, by simp⟩
  · intro fuel hf
    have haa : a.ateh a := by
      unfold DataCivil.ateh
      omega
    obtain ⟨n, hn, hd, hr⟩ := getDateRange_ymd a a ha ha hya haa
    have hn0 : n = 0 := by omega
    subst hn0
    rw [getDateRangeFuso_ymd f a a (by omega) (by omega) (le_refl _)
      (meiasNoitesRegulares_sub f _ _ _ _ hz (le_refl _) hle) fuel, hr fuel (by omega)]
    rfl

/-- Witness of C5 from 2023-12-30 to 2024-01-02, across a year end, in a time
zone three hours behind UTC. -/
theorem C5_getDateRange_comprimento_witness :
    (DataCivil.mk 2023 12 30).valida ∧ (DataCivil.mk 2024 1 2).valida ∧
    1000 ≤ (DataCivil.mk 2023 12 30).ano ∧
    (DataCivil.mk 2023 12 30).ateh (DataCivil.mk 2024 1 2) ∧
    meiasNoitesRegulares (fusoFixo (-10800000)) (diaDe (DataCivil.mk 2023 12 30))
      (diaDe (DataCivil.mk 2024 1 2)) ∧
    ((∃ n : Nat, diaSeguinte^[n] (DataCivil.mk 2023 12 30) = DataCivil.mk 2024 1 2 ∧
      (∀ m, diaSeguinte^[m] (DataCivil.mk 2023 12 30) = DataCivil.mk 2024 1 2 → m = n) ∧
      ∀ fuel, n + 2 ≤ fuel →
        ∃ L, getDateRangeFuso (fusoFixo (-10800000)) fuel (ymd (DataCivil.mk 2023 12 30))
            (ymd (DataCivil.mk 2024 1 2)) =
          some L ∧ L.length = n + 1) ∧
    (∀ fuel, 2 ≤ fuel →
      getDateRangeFuso (fusoFixo (-10800000)) fuel (ymd (DataCivil.mk 2023 12 30))
          (ymd (DataCivil.mk 2023 12 30)) =
        some [ymd (DataCivil.mk 2023 12 30)])) :=
  ⟨by decide, by decide, by decide, by decide, by decide,
    C5_getDateRange_comprimento (fusoFixo (-10800000)) (DataCivil.mk 2023 12 30)
      (DataCivil.mk 2024 1 2) (by decide) (by decide) (by decide) (by decide) (by decide)⟩

/-- C6, counterexample: `getDateRange("2024-05-02", "2024-05-01")`, whose first
date is after the second, returns the empty list; it raises no error. -/
theorem C6_contraexemplo :
    (DataCivil.mk 2024 5 2).valida ∧ (DataCivil.mk 2024 5 1).valida ∧
    ¬ (DataCivil.mk 2024 5 2).ateh (DataCivil.mk 2024 5 1) ∧
    getDateRange 5 "2024-05-02" "2024-05-01" = some [] := by
  refine ⟨by decide, by decide, by decide, by decide⟩

/-- C6, amended: for all valid zero-padded dates from the year 100 on, where
`a` is chronologically after `b`, `getDateRange(a, b)` returns the empty list
(with any fuel from 1 on) and raises no error. -/
theorem C6_getDateRange_invertido (a b : DataCivil) (ha : a.valida) (hb : b.valida)
    (hyb : 100 ≤ b.ano) (hab : ¬ a.ateh b) (fuel : Nat) (hf : 1 ≤ fuel) :
    getDateRange fuel (ymd a) (ymd b) = some [] := by
  have hba : diaDe b < diaDe a := by
    rw [diaDe_le_iff a b ha hb] at hab
    omega
  have hya : 100 ≤ a.ano := by
    have h := YearFromDay_mono (le_of_lt hba)
    rw [(fields_diaDe a ha).1, (fields_diaDe b hb).1] at h
    omega
  unfold getDateRange
  rw [splitYMD_ymd, splitYMD_ymd]
  simp only
  rw [ofFields_of_ge (a.ano : Int) _ _ (by exact_mod_cast hya),
    ofFields_of_ge (b.ano : Int) _ _ (by exact_mod_cast hyb)]
  exact getDateRangeLoop_done _ _ fuel [] hba hf

/-- Witness of C6 on 2024-03-01 and 2024-02-29. -/
theorem C6_getDateRange_invertido_witness :
    (DataCivil.mk 2024 3 1).valida ∧ (DataCivil.mk 2024 2 29).valida ∧
    100 ≤ (DataCivil.mk 2024 2 29).ano ∧
    ¬ (DataCivil.mk 2024 3 1).ateh (DataCivil.mk 2024 2 29) ∧ 1 ≤ 1 ∧
    getDateRange 1 (ymd (DataCivil.mk 2024 3 1)) (ymd (DataCivil.mk 2024 2 29)) = some [] :=
  ⟨by decide, by decide, by decide, by decide, by decide,
    C6_getDateRange_invertido (DataCivil.mk 2024 3 1) (DataCivil.mk 2024 2 29) (by decide)
      (by decide) (by decide) (by decide) 1 (by decide)⟩

/-! ## C7, C8 and C9: periods computed from the clock -/

theorem setDate_add (t : JSDate) (k : Int) : t.setDate (t.getDate + k) = ⟨t.dia + k⟩ := by
  have h := setDate_getDate_add t k
  generalize t.setDate (t.getDate + k) = u at h
  cases u
  simp only at h
  rw [h]

theorem ofFields_fields (n : Int) (h : 100 ≤ YearFromDay n) :
    JSDate.ofFields (YearFromDay n) (MonthFromDay n) (DateFromDay n) = ⟨n⟩ := by
  rw [ofFields_of_ge _ _ _ h]
  have := MakeDay_fields n 0
  simp only [add_zero] at this
  rw [this]

theorem YearFromDay_ge_of_ge (n : Int) (h : -365 ≤ n) : 1969 ≤ YearFromDay n := by
  have h2 := YearFromDay_mono h
  have e : YearFromDay (-365) = 1969 := by decide
  omega

theorem YearFromDay_nat (n : Nat) : 1970 ≤ YearFromDay (n : Int) := by
  have h2 := YearFromDay_mono (show (0 : Int) ≤ (n : Int) by omega)
  have e : YearFromDay 0 = 1970 := by decide
  omega

/-- C7: for every clock reading `hoje` (a day from 1970-01-01 on, of any
weekday), `getLastWeekRange()` returns the zero-padded renderings of a Monday
`seg` and of the Friday `seg + 4`, four calendar days later, where `seg + 7` is the Monday of the Monday-to-Sunday week that contains
today (six days before today when today is a Sunday); hence `inicio` is between
7 and 13 days before today. -/
theorem C7_getLastWeekRange (hoje : Nat) :
    ∃ seg : Int,
      getLastWeekRange hoje = { inicio := ymd (civilDe seg), fim := ymd (civilDe (seg + 4)) } ∧
      WeekDay seg = 1 ∧ WeekDay (seg + 4) = 5 ∧
      (WeekDay (seg + 7) = 1 ∧ seg + 7 ≤ hoje ∧ (hoje : Int) ≤ seg + 7 + 6) ∧
      (WeekDay hoje = 0 → seg + 7 = (hoje : Int) - 6) ∧
      civilDe (seg + 4) = diaSeguinte^[4] (civilDe seg) ∧
      (∃ k : Nat, 7 ≤ k ∧ k ≤ 13 ∧ (hoje : Int) = seg + k ∧
        civilDe hoje = diaSeguinte^[k] (civilDe seg)) := by
  have hy := YearFromDay_nat hoje
  obtain ⟨diff, hdiff, hlo, hhi, hmon, hsun⟩ : ∃ diff : Int,
      (if WeekDay hoje = 0 then -6 else 1 - WeekDay hoje) = diff ∧ -6 ≤ diff ∧ diff ≤ 0 ∧
      WeekDay ((hoje : Int) + diff) = 1 ∧ (WeekDay hoje = 0 → diff = -6) := by
    refine ⟨_, rfl, ?_, ?_, ?_, ?_⟩
    · unfold WeekDay; split_ifs <;> omega
    · unfold WeekDay; split_ifs <;> omega
    · unfold WeekDay; split_ifs <;> omega
    · intro h; simp only [h, if_true]
  have hseg : 1969 ≤ YearFromDay ((hoje : Int) + diff - 7) :=
    YearFromDay_ge_of_ge _ (by omega)
  have hseg4 : 1969 ≤ YearFromDay ((hoje : Int) + diff - 7 + 4) :=
    YearFromDay_ge_of_ge _ (by omega)
  refine ⟨(hoje : Int) + diff - 7, ?_, ?_, ?_, ?_, ?_, ?_, ?_⟩
  · rw [← formatYMD_eq_ymd _ (by omega), ← formatYMD_eq_ymd _ (by omega)]
    unfold getLastWeekRange
    simp only [JSDate.getFullYear, JSDate.getMonth]
    have e0 : (JSDate.mk (hoje : Int)).getDate = DateFromDay hoje := rfl
    rw [e0, ofFields_fields _ (by omega)]
    have hd2 := hdiff
    simp only [sub_eq_add_neg] at hd2
    simp only [JSDate.getDay, sub_eq_add_neg, setDate_add, hd2]
  · unfold WeekDay at hmon ⊢
    omega
  · unfold WeekDay at hmon ⊢
    omega
  · refine ⟨?_, by omega, by omega⟩
    unfold WeekDay at hmon ⊢
    omega
  · intro h0
    have := hsun h0
    omega
  · have := civilDe_add ((hoje : Int) + diff - 7) (by omega) 4
    exact_mod_cast this
  · refine ⟨(7 - diff).toNat, by omega, by omega, by omega, ?_⟩
    have := civilDe_add ((hoje : Int) + diff - 7) (by omega) (7 - diff).toNat
    rw [← this]
    congr 1
    omega

theorem MakeDay_prev_month (y d : Int) : MakeDay y (-1) d = MakeDay (y - 1) 11 d := by
  unfold MakeDay
  norm_num
  ring_nf

theorem MakeDay_date (y m d e : Int) : MakeDay y m d = MakeDay y m e + (d - e) := by
  unfold MakeDay
  ring

theorem formatYMD_diaDe (c : DataCivil) (hv : c.valida) (hy : 1000 ≤ c.ano) :
    formatYMD ⟨diaDe c⟩ = ymd c := by
  rw [formatYMD_eq_ymd _ (by rw [(fields_diaDe c hv).1]; exact_mod_cast hy), civilDe_diaDe c hv]

/-- C8: for every clock reading `hoje` (a day from 1970-01-01 on),
`getLastMonthRange()` returns the zero-padded first day `p` and last day of
the month before today's month; the day after `fim`
is the first day of today's month; in January the result is December 1 to
December 31 of the year before, and in March `fim` is February 28 or 29
according to the leap-year rule. -/
theorem C8_getLastMonthRange (hoje : Nat) :
    ∃ p : DataCivil,
      p.dia = 1 ∧
      (((civilDe hoje).mes = 1 ∧ p.ano + 1 = (civilDe hoje).ano ∧ p.mes = 12) ∨
        (1 < (civilDe hoje).mes ∧ p.ano = (civilDe hoje).ano ∧
          p.mes + 1 = (civilDe hoje).mes)) ∧
      getLastMonthRange hoje =
        { inicio := ymd p, fim := ymd { p with dia := diasNoMes p.ano p.mes } } ∧
      p.valida ∧ ({ p with dia := diasNoMes p.ano p.mes } : DataCivil).valida ∧
      diaSeguinte { p with dia := diasNoMes p.ano p.mes } = { civilDe hoje with dia := 1 } ∧
      ((civilDe hoje).mes = 1 →
        (getLastMonthRange hoje).inicio = ymd ⟨(civilDe hoje).ano - 1, 12, 1⟩ ∧
        (getLastMonthRange hoje).fim = ymd ⟨(civilDe hoje).ano - 1, 12, 31⟩) ∧
      ((civilDe hoje).mes = 3 →
        (getLastMonthRange hoje).fim =
          ymd ⟨(civilDe hoje).ano, 2, if bissexto (civilDe hoje).ano then 29 else 28⟩) := by
  have hy := YearFromDay_nat hoje
  have hm := MonthFromDay_range hoje
  have hcv := civilDe_valida hoje (by omega)
  have hano : ((civilDe hoje).ano : Int) = YearFromDay hoje := by
    unfold civilDe; simp only; omega
  have hmes : ((civilDe hoje).mes : Int) = MonthFromDay hoje + 1 := by
    unfold civilDe; simp only; omega
  -- the first day of the month before
  obtain ⟨p, hp1, hpm, hpd⟩ : ∃ p : DataCivil, p.dia = 1 ∧
      (((civilDe hoje).mes = 1 ∧ p.ano + 1 = (civilDe hoje).ano ∧ p.mes = 12) ∨
        (1 < (civilDe hoje).mes ∧ p.ano = (civilDe hoje).ano ∧
          p.mes + 1 = (civilDe hoje).mes)) ∧
      diaDe p = MakeDay (YearFromDay hoje) (MonthFromDay hoje - 1) 1 := by
    by_cases h0 : MonthFromDay hoje = 0
    · refine ⟨⟨(civilDe hoje).ano - 1, 12, 1⟩, rfl, Or.inl ⟨by omega, by simp only; omega, rfl⟩, ?_⟩
      unfold diaDe
      simp only
      rw [h0]
      have e : ((0 : Int) - 1) = -1 := by norm_num
      rw [e, MakeDay_prev_month]
      have e2 : (((civilDe hoje).ano - 1 : Nat) : Int) = YearFromDay hoje - 1 := by omega
      rw [e2]
      norm_num
    · refine ⟨⟨(civilDe hoje).ano, (civilDe hoje).mes - 1, 1⟩, rfl,
        Or.inr ⟨by omega, rfl, by simp only; omega⟩, ?_⟩
      unfold diaDe
      simp only
      have e2 : (((civilDe hoje).mes - 1 : Nat) : Int) - 1 = MonthFromDay hoje - 1 := by omega
      rw [e2, hano]
      norm_num
  have hpv : p.valida := by
    have := diasNoMes_range p.ano p.mes
    unfold DataCivil.valida
    omega
  have hpy : 1000 ≤ p.ano := by omega
  have hqv : ({ p with dia := diasNoMes p.ano p.mes } : DataCivil).valida := by
    have := diasNoMes_range p.ano p.mes
    unfold DataCivil.valida at hpv ⊢
    simp only
    omega
  have hnext : diaSeguinte { p with dia := diasNoMes p.ano p.mes } =
      { civilDe hoje with dia := 1 } := by
    unfold diaSeguinte
    simp only [lt_self_iff_false, if_false]
    rcases hpm with ⟨h1, h2, h3⟩ | ⟨h1, h2, h3⟩
    · have : ¬ p.mes < 12 := by omega
      simp only [this, if_false, DataCivil.mk.injEq, and_true]
      omega
    · have : p.mes < 12 := by
        have := hcv.2.1
        omega
      simp only [this, if_true, DataCivil.mk.injEq, and_true]
      omega
  have hini : formatYMD (JSDate.ofFields (YearFromDay hoje) (MonthFromDay hoje - 1) 1) = ymd p := by
    rw [ofFields_of_ge _ _ _ (by omega), ← hpd, formatYMD_diaDe p hpv hpy]
  have hfim : formatYMD (JSDate.ofFields (YearFromDay hoje) (MonthFromDay hoje) 0) =
      ymd { p with dia := diasNoMes p.ano p.mes } := by
    rw [ofFields_of_ge _ _ _ (by omega), ← formatYMD_diaDe _ hqv hpy]
    congr 2
    have h1 := diaDe_diaSeguinte _ hqv
    rw [hnext] at h1
    have h2 : diaDe { civilDe hoje with dia := 1 } =
        MakeDay (YearFromDay hoje) (MonthFromDay hoje) 1 := by
      unfold diaDe
      simp only
      rw [hano, hmes]
      norm_num
    rw [h2] at h1
    rw [MakeDay_date _ _ 0 1, h1]
    ring
  have hres : getLastMonthRange hoje =
      { inicio := ymd p, fim := ymd { p with dia := diasNoMes p.ano p.mes } } := by
    unfold getLastMonthRange
    simp only [JSDate.getFullYear, JSDate.getMonth]
    rw [hini, hfim]
  refine ⟨p, hp1, hpm, hres, hpv, hqv, hnext, ?_, ?_⟩
  · intro hjan
    rw [hres]
    simp only
    rcases hpm with ⟨h1, h2, h3⟩ | ⟨h1, h2, h3⟩
    · have ep : p = ⟨(civilDe hoje).ano - 1, 12, 1⟩ := by
        cases p
        simp only [DataCivil.mk.injEq] at *
        omega
      rw [ep]
      simp [diasNoMes]
    · omega
  · intro hmar
    rw [hres]
    simp only
    rcases hpm with ⟨h1, h2, h3⟩ | ⟨h1, h2, h3⟩
    · omega
    · have ep : p = ⟨(civilDe hoje).ano, 2, 1⟩ := by
        cases p
        simp only [DataCivil.mk.injEq] at *
        omega
      rw [ep]
      simp [diasNoMes]

theorem formatDate_eq (hoje : Nat) (offset : Int) :
    formatDate hoje offset = formatYMD ⟨(hoje : Int) + offset⟩ := by
  have h : formatDate hoje offset =
      formatYMD ((JSDate.mk (hoje : Int)).setDate ((JSDate.mk (hoje : Int)).getDate + offset)) :=
    rfl
  rw [h, setDate_add]

/-- On time values, `formatDate` in a time zone `f` at the instant `agora`
returns what `formatDate` on day numbers returns for the local day of `agora`,
provided that the local time reached by the shift is in the range of `Date`
and, converted to UTC and back, falls on the shifted day. -/
theorem formatDateFuso_eq (f : Fuso) (agora : Int) (hoje : Nat) (offset : Int)
    (hh : Day (f.localTime agora) = hoje)
    (hclip : TimeClip (f.utc (MakeDate ((hoje : Int) + offset)
        (TimeWithinDay (f.localTime agora)))) =
      some (f.utc (MakeDate ((hoje : Int) + offset) (TimeWithinDay (f.localTime agora)))))
    (hdia : Day (f.localTime (f.utc (MakeDate ((hoje : Int) + offset)
        (TimeWithinDay (f.localTime agora))))) = (hoje : Int) + offset) :
    formatDateFuso f agora offset = formatDate hoje offset := by
  have hs : f.setDate agora ((f.dataLocal agora).getDate + offset) =
      some (f.utc (MakeDate ((hoje : Int) + offset) (TimeWithinDay (f.localTime agora)))) := by
    unfold Fuso.setDate Fuso.dataLocal JSDate.getDate
    simp only [hh]
    rw [MakeDay_fields, hclip]
  unfold formatDateFuso
  rw [hs, formatDate_eq]
  simp only [Fuso.dataLocal, hdia]
  rfl

/-- C9, counterexample: with today = 2024-05-01 (day 19844) and the offset
-400000, the date 400000 days before today is 0929-03-03 and `formatDate`
returns `929-03-03`, which is not its zero-padded `YYYY-MM-DD` rendering. And
with the clock at noon of 2024-05-01 in a time zone three hours behind UTC and
the offset 100000000, the shifted date is beyond the range of `Date` and
`formatDate` returns `NaN-NaN-NaN`. -/
theorem C9_contraexemplo :
    formatDate 19844 0 = "2024-05-01" ∧
    diaSeguinte^[400000] (DataCivil.mk 929 3 3) = DataCivil.mk 2024 5 1 ∧
    (DataCivil.mk 929 3 3).valida ∧ ymd (DataCivil.mk 929 3 3) = "0929-03-03" ∧
    formatDate 19844 (-400000) = "929-03-03" ∧
    formatDate 19844 (-400000) ≠ ymd (DataCivil.mk 929 3 3) ∧
    formatDateFuso (fusoFixo (-10800000)) (MakeDate 19844 54000000) 0 = "2024-05-01" ∧
    formatDateFuso (fusoFixo (-10800000)) (MakeDate 19844 54000000) 100000000 =
      "NaN-NaN-NaN" := by
  have h := civilDe_add (-380156) (by decide) 400000
  have e1 : civilDe (-380156 + ((400000 : Nat) : Int)) = DataCivil.mk 2024 5 1 := by decide
  have e2 : civilDe (-380156) = DataCivil.mk 929 3 3 := by decide
  rw [e1, e2] at h
  exact ⟨by decide, h.symm, by decide, by decide, by decide, by decide, by decide, by decide⟩

/-- The day numbers of the years 1000 to 275759. -/
theorem dia_entre_anos (n : Int) (h1 : 1000 ≤ YearFromDay n) (h2 : YearFromDay n ≤ 275759) :
    -354285 ≤ n ∧ n ≤ 99999743 := by
  constructor
  · by_contra hc
    have := YearFromDay_mono (show n ≤ -354286 by omega)
    have e : YearFromDay (-354286) = 999 := by decide
    omega
  · by_contra hc
    have := YearFromDay_mono (show (99999744 : Int) ≤ n by omega)
    have e : YearFromDay 99999744 = 275760 := by decide
    omega

/-- C9, amended: for every clock reading and every integer offset such that the
shifted date lies in the years 1000 to 275759 (the last full year a `Date` can
hold: beyond 100,000,000 days from the epoch `setDate` yields an invalid date),
`formatDate(offset)` is the zero-padded `YYYY-MM-DD` rendering of the calendar
date exactly `offset` days from today (reached from today by `offset` day
steps, or reaching today in `-offset` day steps); `formatDate(0)` is today and
`formatDate(-1)` is yesterday. The first statement holds as well on time
values, at every instant of today in a time zone with a fixed offset of at
most a day. -/
theorem C9_formatDate (hoje : Nat) (offset : Int)
    (h : 1000 ≤ YearFromDay ((hoje : Int) + offset))
    (hmax : YearFromDay ((hoje : Int) + offset) ≤ 275759) :
    formatDate hoje offset = ymd (civilDe ((hoje : Int) + offset)) ∧
    (civilDe ((hoje : Int) + offset)).valida ∧
    (0 ≤ offset → civilDe ((hoje : Int) + offset) = diaSeguinte^[offset.toNat] (civilDe hoje)) ∧
    (offset ≤ 0 →
      diaSeguinte^[(-offset).toNat] (civilDe ((hoje : Int) + offset)) = civilDe hoje) ∧
    formatDate hoje 0 = ymd (civilDe hoje) ∧
    (∃ ontem : DataCivil, ontem.valida ∧ diaSeguinte ontem = civilDe hoje ∧
      formatDate hoje (-1) = ymd ontem) ∧
    (∀ off agora : Int, -86400000 ≤ off → off ≤ 86400000 →
      Day ((fusoFixo off).localTime agora) = (hoje : Int) →
      formatDateFuso (fusoFixo off) agora offset = ymd (civilDe ((hoje : Int) + offset))) := by
  have hy := YearFromDay_nat hoje
  refine ⟨?_, civilDe_valida _ (by omega), ?_, ?_, ?_, ?_, ?_⟩
  · rw [formatDate_eq, formatYMD_eq_ymd _ h]
  · intro h0
    rw [← civilDe_add _ (by omega)]
    congr 1
    omega
  · intro h0
    rw [← civilDe_add _ (by omega)]
    congr 1
    omega
  · rw [formatDate_eq, formatYMD_eq_ymd _ (by simpa using (by omega : 1000 ≤ YearFromDay hoje))]
    simp
  · have hy1 : 1969 ≤ YearFromDay ((hoje : Int) + -1) := YearFromDay_ge_of_ge _ (by omega)
    refine ⟨civilDe ((hoje : Int) + -1), civilDe_valida _ (by omega), ?_, ?_⟩
    · have := civilDe_add ((hoje : Int) + -1) (by omega) 1
      simp only [Function.iterate_one] at this
      rw [← this]
      congr 1
      push_cast
      ring
    · rw [formatDate_eq, formatYMD_eq_ymd _ (by omega)]
  · intro off agora h1 h2 hh
    obtain ⟨hlo, hhi⟩ := dia_entre_anos _ h hmax
    rw [formatDateFuso_eq (fusoFixo off) agora hoje offset hh, formatDate_eq,
      formatYMD_eq_ymd _ h]
    · unfold TimeClip fusoFixo MakeDate TimeWithinDay msPerDay
      simp only
      rw [if_pos]
      constructor <;> omega
    · unfold Day fusoFixo MakeDate TimeWithinDay msPerDay
      simp only
      omega

/-- Witness of C9 with today = 2024-05-01 and the offset of -30 days. -/
theorem C9_formatDate_witness :
    1000 ≤ YearFromDay (((19844 : Nat) : Int) + (-30)) ∧
    YearFromDay (((19844 : Nat) : Int) + (-30)) ≤ 275759 ∧
    (formatDate 19844 (-30) = ymd (civilDe (((19844 : Nat) : Int) + (-30))) ∧
    (civilDe (((19844 : Nat) : Int) + (-30))).valida ∧
    (0 ≤ (-30 : Int) → civilDe (((19844 : Nat) : Int) + (-30)) =
      diaSeguinte^[(-30 : Int).toNat] (civilDe ((19844 : Nat) : Int))) ∧
    ((-30 : Int) ≤ 0 →
      diaSeguinte^[(-(-30 : Int)).toNat] (civilDe (((19844 : Nat) : Int) + (-30))) =
        civilDe ((19844 : Nat) : Int)) ∧
    formatDate 19844 0 = ymd (civilDe ((19844 : Nat) : Int)) ∧
    (∃ ontem : DataCivil, ontem.valida ∧ diaSeguinte ontem = civilDe ((19844 : Nat) : Int) ∧
      formatDate 19844 (-1) = ymd ontem) ∧
    (∀ off agora : Int, -86400000 ≤ off → off ≤ 86400000 →
      Day ((fusoFixo off).localTime agora) = ((19844 : Nat) : Int) →
      formatDateFuso (fusoFixo off) agora (-30) =
        ymd (civilDe (((19844 : Nat) : Int) + (-30))))) :=
  ⟨by decide, by decide, C9_formatDate 19844 (-30) (by decide) (by decide)⟩

/-! ## C10: pagination -/

/-- The loop of `getDateRange` ends on every input: from some amount of fuel
on, the result is a list that no longer depends on the fuel. -/
theorem getDateRange_total (a b : String) :
    ∃ f0 ds, ∀ fuel, f0 ≤ fuel → getDateRange fuel a b = some ds := by
  unfold getDateRange
  cases ha : splitYMD a with
  | none => exact ⟨0, [], fun _ _ => rfl⟩
  | some x =>
    obtain ⟨y1, m1, d1⟩ := x
    cases hb : splitYMD b with
    | none => exact ⟨0, [], fun _ _ => rfl⟩
    | some y =>
      obtain ⟨y2, m2, d2⟩ := y
      simp only
      generalize JSDate.ofFields (y1 : Int) ((m1 : Int) - 1) d1 = start
      generalize JSDate.ofFields (y2 : Int) ((m2 : Int) - 1) d2 = fim
      by_cases h : start.dia ≤ fim.dia
      · refine ⟨(fim.dia - start.dia + 1).toNat + 1, _, fun fuel hf =>
          getDateRangeLoop_eq fim (fim.dia - start.dia + 1).toNat start [] fuel (by omega)
            (by omega)⟩
      · exact ⟨1, [], fun fuel hf => getDateRangeLoop_done fim start fuel [] (by omega) hf⟩

/-- C10: on an upstream whose pages 1 to `k` answer successfully, page `k`
being the first without a next page, each of the four paginated fetches
requests exactly the pages 1, 2, ..., `k` in that order and hands to its filter
the concatenation, in page order, of the pages' `data` arrays (an absent array
contributing nothing). -/
theorem C10_paginacao (servidor : Requisicao → Resposta) (hoje : Nat)
    (token dataAnterior dataInicial dataFinal : String) (k : Nat) :
    (paginasOk servidor
        (reqProducao token "dataVigenciaInicial" dataAnterior (formatDate hoje 0)) k →
      ∀ fuel, k ≤ fuel →
        getTransmissoesDiaAnterior fuel servidor hoje token dataAnterior =
          ((List.range k).map (fun i =>
              reqProducao token "dataVigenciaInicial" dataAnterior (formatDate hoje 0) (i + 1)),
            Desfecho.retorna (filtrarPorDiaAnterior dataAnterior (acumulado servidor
              (reqProducao token "dataVigenciaInicial" dataAnterior (formatDate hoje 0)) k)))) ∧
    (paginasOk servidor (reqProducao token "dataEmitida" dataAnterior (formatDate hoje 0)) k →
      ∀ fuel, k ≤ fuel →
        getApolicesEmitidasDiaAnterior fuel servidor hoje token dataAnterior =
          ((List.range k).map (fun i =>
              reqProducao token "dataEmitida" dataAnterior (formatDate hoje 0) (i + 1)),
            Desfecho.retorna (filtrarPorDataEmitidaDiaAnterior dataAnterior (acumulado servidor
              (reqProducao token "dataEmitida" dataAnterior (formatDate hoje 0)) k)))) ∧
    (paginasOk servidor (reqSinistros token dataAnterior (formatDate hoje 0)) k →
      ∀ fuel, k ≤ fuel →
        getSinistrosAbertosDiaAnterior fuel servidor hoje token dataAnterior =
          ((List.range k).map (fun i =>
              reqSinistros token dataAnterior (formatDate hoje 0) (i + 1)),
            Desfecho.retorna (filtrarSinistrosPorDiaAnterior dataAnterior (acumulado servidor
              (reqSinistros token dataAnterior (formatDate hoje 0)) k)))) ∧
    (paginasOk servidor (reqProducao token "dataVigenciaInicial" dataInicial
        (dataFinalParaAPI dataInicial dataFinal)) k →
      ∃ f0 datesInRange, ∀ fuel, f0 ≤ fuel →
        getDateRange fuel dataInicial dataFinal = some datesInRange ∧
        getProducaoCompletaPeriodo fuel servidor token dataInicial dataFinal =
          ((List.range k).map (fun i =>
              reqProducao token "dataVigenciaInicial" dataInicial
                (dataFinalParaAPI dataInicial dataFinal) (i + 1)),
            Desfecho.retorna (filtrarPeriodo datesInRange (acumulado servidor
              (reqProducao token "dataVigenciaInicial" dataInicial
                (dataFinalParaAPI dataInicial dataFinal)) k)))) ∧
    (∀ (td a b : String) (p : Nat),
      (reqProducao token td a b p).page = p ∧ (reqSinistros token a b p).page = p) := by
  refine ⟨?_, ?_, ?_, ?_, fun _ _ _ _ => ⟨rfl, rfl⟩⟩
  · intro hp fuel hf
    unfold getTransmissoesDiaAnterior
    simp only
    rw [buscarPaginas_paginasOk servidor _ _ k hp fuel hf]
    rfl
  · intro hp fuel hf
    unfold getApolicesEmitidasDiaAnterior
    simp only
    rw [buscarPaginas_paginasOk servidor _ _ k hp fuel hf]
    rfl
  · intro hp fuel hf
    unfold getSinistrosAbertosDiaAnterior
    simp only
    rw [buscarPaginas_paginasOk servidor _ _ k hp fuel hf]
    rfl
  · intro hp
    obtain ⟨f0, ds, hds⟩ := getDateRange_total dataInicial dataFinal
    refine ⟨max f0 k, ds, ?_⟩
    intro fuel hf
    have hd := hds fuel (le_trans (le_max_left _ _) hf)
    refine ⟨hd, ?_⟩
    unfold getProducaoCompletaPeriodo
    simp only
    rw [buscarPaginas_paginasOk servidor _ _ k hp fuel (le_trans (le_max_right _ _) hf)]
    simp only
    rw [hd]

theorem paginasOk_servidorDuasPaginas (rs : List Registro) (montar : Nat → Requisicao)
    (hm : ∀ p, (montar p).page = p) : paginasOk (servidorDuasPaginas rs) montar 2 := by
  refine ⟨by omega, ?_⟩
  intro i h1 h2
  have hc : i = 1 ∨ i = 2 := by omega
  rcases hc with rfl | rfl
  · simp [servidorDuasPaginas, hm]
  · simp [servidorDuasPaginas, hm]

/-- Witness of C10: on an upstream of two pages, the second without a `data`
array, the transmissions fetch requests pages 1 and 2 and returns the filtered
records of page 1. -/
theorem C10_paginacao_witness :
    paginasOk
      (servidorDuasPaginas [registroVigencia 1 "2024-04-30T10:00:00", registroVigencia 2 "2024-05-01"])
      (reqProducao "t" "dataVigenciaInicial" "2024-04-30" (formatDate 19844 0)) 2 ∧
    getTransmissoesDiaAnterior 2
      (servidorDuasPaginas [registroVigencia 1 "2024-04-30T10:00:00", registroVigencia 2 "2024-05-01"])
      19844 "t" "2024-04-30" =
      ((List.range 2).map (fun i =>
          reqProducao "t" "dataVigenciaInicial" "2024-04-30" (formatDate 19844 0) (i + 1)),
        Desfecho.retorna (filtrarPorDiaAnterior "2024-04-30" (acumulado
          (servidorDuasPaginas
            [registroVigencia 1 "2024-04-30T10:00:00", registroVigencia 2 "2024-05-01"])
          (reqProducao "t" "dataVigenciaInicial" "2024-04-30" (formatDate 19844 0)) 2))) ∧
    (getTransmissoesDiaAnterior 2
      (servidorDuasPaginas [registroVigencia 1 "2024-04-30T10:00:00", registroVigencia 2 "2024-05-01"])
      19844 "t" "2024-04-30").1.map (fun req => req.page) = [1, 2] ∧
    (getTransmissoesDiaAnterior 2
      (servidorDuasPaginas [registroVigencia 1 "2024-04-30T10:00:00", registroVigencia 2 "2024-05-01"])
      19844 "t" "2024-04-30").2 =
      Desfecho.retorna [registroVigencia 1 "2024-04-30T10:00:00"] :=
  ⟨paginasOk_servidorDuasPaginas _ _ (fun _ => rfl),
    (C10_paginacao
      (servidorDuasPaginas
        [registroVigencia 1 "2024-04-30T10:00:00", registroVigencia 2 "2024-05-01"])
      19844 "t" "2024-04-30" "2024-04-30" "2024-04-30" 2).1
      (paginasOk_servidorDuasPaginas _ _ (fun _ => rfl)) 2 (le_refl _),
    by decide, by decide⟩

/-! ## C11: a page that fails -/

/-- With pages `page` to `page + j - 1` answered successfully with a next page
and page `page + j` answered with a failure, the loop requests exactly those
pages and throws the error message with the status of the failing page. -/
theorem buscarPaginas_falha (servidor : Requisicao → Resposta) (montar : Nat → Requisicao)
    (mensagem : String) (j : Nat) :
    ∀ (page : Nat) (acc : List Registro) (log : List Requisicao) (fuel : Nat),
      j < fuel →
      (∀ i, i < j → (servidor (montar (page + i))).ok = true ∧
        (servidor (montar (page + i))).next ≠ none) →
      (servidor (montar (page + j))).ok = false →
      buscarPaginas servidor montar mensagem fuel page acc log =
        (log ++ (List.range (j + 1)).map (fun i => montar (page + i)),
          Desfecho.lanca (mensagem ++ jsStringNat (servidor (montar (page + j))).status)) := by
  induction j with
  | zero =>
    intro page acc log fuel hf _ hfail
    obtain ⟨f, rfl⟩ : ∃ f, fuel = f + 1 := ⟨fuel - 1, by omega⟩
    have r1 : List.range 1 = [0] := rfl
    simp only [Nat.add_zero] at hfail
    unfold buscarPaginas
    simp [hfail, r1]
  | succ j ih =>
    intro page acc log fuel hf h hfail
    obtain ⟨f, rfl⟩ : ∃ f, fuel = f + 1 := ⟨fuel - 1, by omega⟩
    have h0 := h 0 (by omega)
    simp only [Nat.add_zero] at h0
    have hnext : (servidor (montar page)).next.isSome = true := by
      cases hx : (servidor (montar page)).next with
      | none => exact absurd hx h0.2
      | some v => rfl
    have hrest : ∀ i, i < j → (servidor (montar (page + 1 + i))).ok = true ∧
        (servidor (montar (page + 1 + i))).next ≠ none := by
      intro i hi
      have := h (i + 1) (by omega)
      have e : page + (i + 1) = page + 1 + i := by omega
      rw [e] at this
      exact this
    have e3 : page + (j + 1) = page + 1 + j := by omega
    rw [e3] at hfail ⊢
    unfold buscarPaginas
    simp only [h0.1, hnext, Bool.not_true, Bool.false_eq_true, if_false, if_true]
    rw [ih (page + 1) _ _ f (by omega) hrest hfail]
    have e1 : (List.range (j + 1 + 1)).map (fun i => montar (page + i))
        = montar page :: (List.range (j + 1)).map (fun i => montar (page + 1 + i)) := by
      rw [List.range_succ_eq_map, List.map_cons, List.map_map]
      congr 1
      apply List.map_congr_left
      intro i _
      simp only [Function.comp, Nat.succ_eq_add_one]
      congr 1
      omega
    rw [e1]
    simp [List.append_assoc]

/-- The loop started at page 1 on an upstream that satisfies `paginasFalham`. -/
theorem buscarPaginas_paginasFalham (servidor : Requisicao → Resposta)
    (montar : Nat → Requisicao) (mensagem : String) (p : Nat)
    (h : paginasFalham servidor montar p) (fuel : Nat) (hf : p ≤ fuel) :
    buscarPaginas servidor montar mensagem fuel 1 [] [] =
      ((List.range p).map (fun i => montar (i + 1)),
        Desfecho.lanca (mensagem ++ jsStringNat (servidor (montar p)).status)) := by
  obtain ⟨hp1, hok, hfail⟩ := h
  obtain ⟨j, rfl⟩ : ∃ j, p = j + 1 := ⟨p - 1, by omega⟩
  have e : 1 + j = j + 1 := by omega
  have := buscarPaginas_falha servidor montar mensagem j 1 [] [] fuel (by omega)
    (fun i hi => hok (1 + i) (by omega) (by omega)) (by rw [e]; exact hfail)
  rw [this, e]
  simp only [List.nil_append, Nat.add_comm 1]

/-- C11: for each of the four token-based fetches, when pages 1 to `p - 1`
succeed and page `p` answers with a status that is not a success, the fetch
requests exactly the pages 1 to `p` (none after `p`) and ends by throwing an
error whose message carries the status of page `p`; no record is returned,
those of the earlier pages included. -/
theorem C11_falha_de_pagina (servidor : Requisicao → Resposta) (hoje : Nat)
    (token dataAnterior dataInicial dataFinal : String) (p : Nat) :
    (paginasFalham servidor
        (reqProducao token "dataVigenciaInicial" dataAnterior (formatDate hoje 0)) p →
      ∀ fuel, p ≤ fuel →
        getTransmissoesDiaAnterior fuel servidor hoje token dataAnterior =
          ((List.range p).map (fun i =>
              reqProducao token "dataVigenciaInicial" dataAnterior (formatDate hoje 0) (i + 1)),
            Desfecho.lanca ("Erro na requisição de transmissões: " ++
              jsStringNat (servidor (reqProducao token "dataVigenciaInicial" dataAnterior
                (formatDate hoje 0) p)).status))) ∧
    (paginasFalham servidor (reqProducao token "dataEmitida" dataAnterior (formatDate hoje 0)) p →
      ∀ fuel, p ≤ fuel →
        getApolicesEmitidasDiaAnterior fuel servidor hoje token dataAnterior =
          ((List.range p).map (fun i =>
              reqProducao token "dataEmitida" dataAnterior (formatDate hoje 0) (i + 1)),
            Desfecho.lanca ("Erro na requisição de apólices emitidas: " ++
              jsStringNat (servidor (reqProducao token "dataEmitida" dataAnterior
                (formatDate hoje 0) p)).status))) ∧
    (paginasFalham servidor (reqSinistros token dataAnterior (formatDate hoje 0)) p →
      ∀ fuel, p ≤ fuel →
        getSinistrosAbertosDiaAnterior fuel servidor hoje token dataAnterior =
          ((List.range p).map (fun i =>
              reqSinistros token dataAnterior (formatDate hoje 0) (i + 1)),
            Desfecho.lanca ("Erro na requisição de sinistros: " ++
              jsStringNat (servidor (reqSinistros token dataAnterior
                (formatDate hoje 0) p)).status))) ∧
    (paginasFalham servidor (reqProducao token "dataVigenciaInicial" dataInicial
        (dataFinalParaAPI dataInicial dataFinal)) p →
      ∀ fuel, p ≤ fuel →
        getProducaoCompletaPeriodo fuel servidor token dataInicial dataFinal =
          ((List.range p).map (fun i =>
              reqProducao token "dataVigenciaInicial" dataInicial
                (dataFinalParaAPI dataInicial dataFinal) (i + 1)),
            Desfecho.lanca ("Erro na requisição de produção completa: " ++
              jsStringNat (servidor (reqProducao token "dataVigenciaInicial" dataInicial
                (dataFinalParaAPI dataInicial dataFinal) p)).status))) := by
  refine ⟨?_, ?_, ?_, ?_⟩
  · intro hp fuel hf
    unfold getTransmissoesDiaAnterior
    simp only
    rw [buscarPaginas_paginasFalham servidor _ _ p hp fuel hf]
    rfl
  · intro hp fuel hf
    unfold getApolicesEmitidasDiaAnterior
    simp only
    rw [buscarPaginas_paginasFalham servidor _ _ p hp fuel hf]
    rfl
  · intro hp fuel hf
    unfold getSinistrosAbertosDiaAnterior
    simp only
    rw [buscarPaginas_paginasFalham servidor _ _ p hp fuel hf]
    rfl
  · intro hp fuel hf
    unfold getProducaoCompletaPeriodo
    simp only
    rw [buscarPaginas_paginasFalham servidor _ _ p hp fuel hf]

theorem paginasFalham_servidorFalhaNaSegunda (rs : List Registro) (montar : Nat → Requisicao)
    (hm : ∀ p, (montar p).page = p) : paginasFalham (servidorFalhaNaSegunda rs) montar 2 := by
  refine ⟨by omega, ?_, ?_⟩
  · intro i h1 h2
    have : i = 1 := by omega
    subst this
    simp [servidorFalhaNaSegunda, hm]
  · simp [servidorFalhaNaSegunda, hm]

/-- Witness of C11: on an upstream whose first page holds a record of the
target day and whose second page answers 500, the claims fetch and the
full-production fetch request pages 1 and 2 and throw with the status 500. -/
theorem C11_falha_de_pagina_witness :
    paginasFalham (servidorFalhaNaSegunda [registroVigencia 1 "2024-04-30"])
      (reqSinistros "t" "2024-04-30" (formatDate 19844 0)) 2 ∧
    getSinistrosAbertosDiaAnterior 2 (servidorFalhaNaSegunda [registroVigencia 1 "2024-04-30"])
        19844 "t" "2024-04-30" =
      ((List.range 2).map (fun i => reqSinistros "t" "2024-04-30" (formatDate 19844 0) (i + 1)),
        Desfecho.lanca ("Erro na requisição de sinistros: " ++
          jsStringNat ((servidorFalhaNaSegunda [registroVigencia 1 "2024-04-30"])
            (reqSinistros "t" "2024-04-30" (formatDate 19844 0) 2)).status)) ∧
    (getProducaoCompletaPeriodo 2 (servidorFalhaNaSegunda [registroVigencia 1 "2024-04-30"])
        "t" "2024-04-30" "2024-04-30").2 =
      Desfecho.lanca "Erro na requisição de produção completa: 500" ∧
    (getProducaoCompletaPeriodo 2 (servidorFalhaNaSegunda [registroVigencia 1 "2024-04-30"])
        "t" "2024-04-30" "2024-04-30").1.map (fun req => req.page) = [1, 2] :=
  ⟨paginasFalham_servidorFalhaNaSegunda _ _ (fun _ => rfl),
    (C11_falha_de_pagina (servidorFalhaNaSegunda [registroVigencia 1 "2024-04-30"]) 19844 "t"
      "2024-04-30" "2024-04-30" "2024-04-30" 2).2.2.1
      (paginasFalham_servidorFalhaNaSegunda _ _ (fun _ => rfl)) 2 (le_refl _),
    by decide, by decide⟩

/-! ## The ticket scan: predicates and accumulation -/

theorem jsStrLt_iff (a b : List Char) : jsStrLt a b = true ↔ a < b := by
  induction a generalizing b with
  | nil =>
    cases b with
    | nil =>
      simp only [jsStrLt, Bool.false_eq_true, false_iff]
      exact fun h => nomatch h
    | cons b bs =>
      simp only [jsStrLt, true_iff]
      exact List.Lex.nil
  | cons a as ih =>
    cases b with
    | nil =>
      simp only [jsStrLt, Bool.false_eq_true, false_iff]
      exact fun h => nomatch h
    | cons b bs =>
      unfold jsStrLt
      by_cases h1 : a < b
      · simp only [h1, if_true, true_iff]
        exact List.Lex.rel h1
      · by_cases h2 : b < a
        · simp only [h1, h2, if_false, if_true, Bool.false_eq_true, false_iff]
          intro h
          cases h with
          | cons h => exact lt_irrefl _ h2
          | rel h => exact h1 h
        · have e : a = b := le_antisymm (not_lt.mp h2) (not_lt.mp h1)
          subst e
          simp only [h1, if_false, ih]
          constructor
          · intro h; exact List.Lex.cons h
          · intro h
            cases h with
            | cons h => exact h
            | rel h => exact absurd h h1

/-- The comparison of the scan is the lexicographic order of strings. -/
theorem jsStrLt_string (a b : String) : jsStrLt a.data b.data = true ↔ a < b := by
  rw [String.lt_iff_toList_lt]
  exact jsStrLt_iff a.data b.data

theorem jsSplit_head_iff (s pre : String) :
    (jsSplit s 'T').head? = some pre ↔ parteAntesDoT s pre := by
  rw [jsSplit_head]
  unfold parteAntesDoT
  have key := takeWhile_eq_iff 'T' s.data pre.data
  constructor
  · intro h
    have h2 : s.data.takeWhile (fun c => c != 'T') = pre.data := by
      rw [← Option.some.inj h]
    rcases key.mp h2 with ⟨hT, hl | ⟨r, hl⟩⟩
    · exact ⟨hT, Or.inl (String.ext hl)⟩
    · refine ⟨hT, Or.inr ⟨⟨r⟩, String.ext ?_⟩⟩
      simp [hl]
  · rintro ⟨hT, hl | ⟨r, hl⟩⟩
    · congr 1
      apply String.ext
      exact key.mpr ⟨hT, Or.inl (by rw [hl])⟩
    · congr 1
      apply String.ext
      refine key.mpr ⟨hT, Or.inr ⟨r.data, ?_⟩⟩
      rw [hl]; simp

theorem not_lt_empty_string (a : String) : ¬ a < "" := by
  rw [← jsStrLt_string]
  cases h : a.data with
  | nil => simp [jsStrLt]
  | cons c cs => simp [jsStrLt]

/-- The test of the scan for a later date holds exactly when some ticket of the
page has an `aberto` whose part before the first `T` is greater than the
target. -/
theorem temDataMaisRecente_iff (alvo : String) (chamados : List Chamado) :
    temDataMaisRecente alvo chamados = true ↔ haMaisRecente alvo chamados := by
  unfold temDataMaisRecente haMaisRecente
  rw [List.any_eq_true]
  constructor
  · rintro ⟨c, hc, h⟩
    refine ⟨c, hc, ?_⟩
    cases ha : c.aberto with
    | none => simp [ha] at h
    | some s =>
      simp only [ha] at h
      split_ifs at h
      cases hh : (jsSplit s 'T').head? with
      | none => simp [hh] at h
      | some pre =>
        simp only [hh] at h
        exact ⟨s, pre, rfl, (jsSplit_head_iff s pre).mp hh, (jsStrLt_string alvo pre).mp h⟩
  · rintro ⟨c, hc, s, pre, ha, hp, hlt⟩
    refine ⟨c, hc, ?_⟩
    have hh := (jsSplit_head_iff s pre).mpr hp
    have hne : jsFalsy (some s) = false := by
      by_cases he : s = ""
      · subst he
        have e : pre = "" := by
          have : (jsSplit "" 'T').head? = some "" := by decide
          rw [this] at hh
          exact (Option.some.inj hh).symm
        subst e
        exact absurd hlt (not_lt_empty_string alvo)
      · simp [jsFalsy, he]
    simp only [ha, hne, Bool.false_eq_true, if_false, hh]
    exact (jsStrLt_string alvo pre).mpr hlt

theorem jsIncludes_iff (s sub : String) : jsIncludes s sub = true ↔ sub.data <:+: s.data := by
  unfold jsIncludes
  rw [List.any_eq_true, List.infix_iff_prefix_suffix]
  constructor
  · rintro ⟨t, ht, hp⟩
    exact ⟨t, List.isPrefixOf_iff_prefix.mp hp, (List.mem_tails _ _).mp ht⟩
  · rintro ⟨t, hp, ht⟩
    exact ⟨t, (List.mem_tails _ _).mpr ht, List.isPrefixOf_iff_prefix.mpr hp⟩

/-- The title test of the scan holds exactly for the titles that contain one of
the two spellings of the marker. -/
theorem tituloUrgente_iff (c : Chamado) : tituloUrgente c = true ↔ tituloMarcado c := by
  unfold tituloUrgente tituloMarcado
  cases h : c.titulo with
  | none => simp
  | some t =>
    simp only [Bool.or_eq_true, jsIncludes_iff, Option.some.injEq, exists_eq_left']

theorem mem_selecionados (alvo : String) (data : Option (List Chamado)) (total : Option Nat)
    (c : Chamado) :
    c ∈ selecionados alvo (RespostaChamados.pagina data total) ↔
      c ∈ data.getD [] ∧ urgenteDoDia alvo c := by
  unfold selecionados urgenteDoDia
  simp only [List.mem_filter, tituloUrgente_iff, campoNoDia_iff, and_assoc]

theorem acrescentar_append (acc xs ys : List Chamado) :
    acrescentar acc (xs ++ ys) = acrescentar (acrescentar acc xs) ys := by
  unfold acrescentar
  rw [List.foldl_append]

theorem find_isSome_eq_any (acc : List Chamado) (x : Chamado) :
    (acc.find? (fun a => a.id == x.id)).isSome = acc.any (fun a => a.id == x.id) := by
  induction acc with
  | nil => rfl
  | cons a as ih =>
    by_cases h : (a.id == x.id) = true
    · simp [List.find?, h]
    · have h2 : (a.id == x.id) = false := by simpa using h
      simp only [List.find?, h2, List.any_cons, Bool.false_or]
      exact ih

/-- Pushing the items that are not found by id onto `acc` appends the first
occurrences of the ids that `acc` does not hold yet. -/
theorem acrescentar_eq (ys : List Chamado) :
    ∀ acc : List Chamado,
      acrescentar acc ys =
        acc ++ (primeirosPorId ys).filter (fun y => !(acc.any (fun a => a.id == y.id))) := by
  induction ys with
  | nil => intro acc; simp [acrescentar, primeirosPorId]
  | cons y ys ih =>
    intro acc
    have hstep : acrescentar acc (y :: ys) =
        acrescentar (if (acc.find? (fun a => a.id == y.id)).isSome then acc else acc ++ [y]) ys :=
      rfl
    rw [hstep, find_isSome_eq_any, ih]
    by_cases h : acc.any (fun a => a.id == y.id) = true
    · simp only [h, if_true, primeirosPorId, List.filter_cons, Bool.not_true,
        Bool.false_eq_true, if_false, List.filter_filter]
      congr 1
      apply List.filter_congr
      intro d _
      by_cases hd : acc.any (fun a => a.id == d.id) = true
      · simp [hd]
      · have hd2 : acc.any (fun a => a.id == d.id) = false := by simpa using hd
        simp only [hd2, Bool.not_false, Bool.true_and, Bool.true_eq, Bool.not_eq_true']
        by_contra hne
        have hdy : d.id = y.id := by simpa using hne
        rw [hdy] at hd2
        rw [hd2] at h
        exact absurd h (by simp)
    · have h2 : acc.any (fun a => a.id == y.id) = false := by simpa using h
      simp only [h2, Bool.false_eq_true, if_false, primeirosPorId, List.filter_cons,
        Bool.not_false, if_true, List.filter_filter, List.append_assoc, List.singleton_append]
      congr 2
      apply List.filter_congr
      intro d _
      simp only [List.any_append, List.any_cons, List.any_nil, Bool.or_false, Bool.not_or]
      congr 1
      by_cases hdy : d.id = y.id
      · simp [hdy]
      · have e1 : (d.id == y.id) = false := by simpa using hdy
        have e2 : (y.id == d.id) = false := by simpa using fun e => hdy e.symm
        simp [e1, e2]

theorem acrescentar_nil (ys : List Chamado) : acrescentar [] ys = primeirosPorId ys := by
  rw [acrescentar_eq]
  simp

theorem mem_primeirosPorId (ys : List Chamado) : ∀ c ∈ primeirosPorId ys, c ∈ ys := by
  induction ys with
  | nil => intro c h; simp [primeirosPorId] at h
  | cons y ys ih =>
    intro c h
    simp only [primeirosPorId, List.mem_cons, List.mem_filter] at h
    rcases h with h | h
    · simp [h]
    · exact List.mem_cons_of_mem _ (ih c h.1)

/-- No two elements of a list reduced to first occurrences share an id. -/
theorem primeirosPorId_pairwise (ys : List Chamado) :
    (primeirosPorId ys).Pairwise (fun a b => a.id ≠ b.id) := by
  induction ys with
  | nil => simp [primeirosPorId]
  | cons y ys ih =>
    simp only [primeirosPorId, List.pairwise_cons, List.mem_filter]
    constructor
    · intro d hd
      have := hd.2
      intro e
      simp [e] at this
    · exact ih.sublist (List.filter_sublist _)

theorem primeirosPorId_isEmpty (ys : List Chamado) :
    (primeirosPorId ys).isEmpty = ys.isEmpty := by
  cases ys <;> rfl

/-! ## The ticket scan: the run -/

theorem range_map_shift {α : Type} (g : Nat → α) (p n : Nat) :
    (List.range (n + 1)).map (fun j => g (p + j)) =
      g p :: (List.range n).map (fun j => g (p + 1 + j)) := by
  rw [List.range_succ_eq_map, List.map_cons, List.map_map]
  congr 1
  apply List.map_congr_left
  intro i _
  simp only [Function.comp, Nat.succ_eq_add_one]
  congr 1
  omega

theorem coletadosAte_succ (feed : RequisicaoChamados → RespostaChamados)
    (tok abS alvo : String) (k : Nat) :
    coletadosAte feed tok abS alvo (k + 1) =
      coletadosAte feed tok abS alvo k ++ selecionados alvo (feed (reqChamados tok abS k)) := by
  unfold coletadosAte
  rw [List.range_succ, List.map_append, List.flatten_append]
  simp

theorem acrescentar_coletados (feed : RequisicaoChamados → RespostaChamados)
    (tok abS alvo : String) (k : Nat) :
    acrescentar (primeirosPorId (coletadosAte feed tok abS alvo k))
        (selecionados alvo (feed (reqChamados tok abS k))) =
      primeirosPorId (coletadosAte feed tok abS alvo (k + 1)) := by
  rw [coletadosAte_succ, ← acrescentar_nil, ← acrescentar_nil, acrescentar_append]

/-- The loop of the scan, entered at page `p` with the tickets accumulated from
the pages before `p`: either it ends at the first page `m` from `p` on after
which the scan does not go on, having requested the pages `p` to `m`, or it
goes on after each of the next `fuel` pages and the fuel runs out. -/
theorem varrerChamados_casos (feed : RequisicaoChamados → RespostaChamados)
    (tok abS alvo : String) (fuel : Nat) :
    ∀ (p : Nat) (log : List RequisicaoChamados),
      (∃ m, p ≤ m ∧ m < p + fuel ∧
        (∀ i, p ≤ i → i < m → paraEm feed tok abS alvo i = false) ∧
        paraEm feed tok abS alvo m = true ∧
        varrerChamados feed tok abS alvo fuel p
            (primeirosPorId (coletadosAte feed tok abS alvo p)) log =
          (log ++ (List.range (m + 1 - p)).map (fun j => reqChamados tok abS (p + j)),
            Desfecho.retorna (resultadoEm feed tok abS alvo m))) ∨
      ((∀ i, p ≤ i → i < p + fuel → paraEm feed tok abS alvo i = false) ∧
        varrerChamados feed tok abS alvo fuel p
            (primeirosPorId (coletadosAte feed tok abS alvo p)) log =
          (log ++ (List.range fuel).map (fun j => reqChamados tok abS (p + j)),
            Desfecho.semCombustivel)) := by
  induction fuel with
  | zero =>
    intro p log
    right
    exact ⟨fun i h1 h2 => by omega, by simp [varrerChamados]⟩
  | succ f ih =>
    intro p log
    have r1 : List.range (p + 1 - p) = [0] := by
      have : p + 1 - p = 1 := by omega
      rw [this]; rfl
    have hacc := acrescentar_coletados feed tok abS alvo p
    cases hr : feed (reqChamados tok abS p) with
    | lancou =>
      left
      refine ⟨p, le_refl _, by omega, fun i h1 h2 => by omega, ?_, ?_⟩
      · unfold paraEm; rw [hr]
      · unfold varrerChamados resultadoEm
        simp only [hr, r1, List.map_cons, List.map_nil, Nat.add_zero]
    | naoOk st =>
      left
      refine ⟨p, le_refl _, by omega, fun i h1 h2 => by omega, ?_, ?_⟩
      · unfold paraEm; rw [hr]
      · unfold varrerChamados resultadoEm
        simp only [hr, r1, List.map_cons, List.map_nil, Nat.add_zero]
        rw [coletadosAte_succ, hr]
        simp [selecionados]
    | pagina data total =>
      rw [hr] at hacc
      have hsel : selecionados alvo (RespostaChamados.pagina data total) =
          ((data.getD []).filter tituloUrgente).filter
            (fun item => campoNoDia alvo item.aberto) := rfl
      rw [hsel] at hacc
      unfold varrerChamados
      simp only [hr, hacc]
      by_cases hstop : (temDataMaisRecente alvo (data.getD []) &&
          !(primeirosPorId (coletadosAte feed tok abS alvo (p + 1))).isEmpty) = true
      · left
        refine ⟨p, le_refl _, by omega, fun i h1 h2 => by omega, ?_, ?_⟩
        · unfold paraEm; rw [hr]; simp only [hstop, Bool.true_or]
        · simp only [hstop, if_true, r1, List.map_cons, List.map_nil, Nat.add_zero]
          unfold resultadoEm
          rw [hr]
      · have hstop2 : (temDataMaisRecente alvo (data.getD []) &&
            !(primeirosPorId (coletadosAte feed tok abS alvo (p + 1))).isEmpty) = false := by
          simpa using hstop
        simp only [hstop, if_false]
        by_cases hnext : p + 1 ≤ total.getD p
        · simp only [hnext, if_true]
          have hpara : paraEm feed tok abS alvo p = false := by
            unfold paraEm
            rw [hr]
            simp only [hstop2, Bool.false_or, decide_eq_false_iff_not]
            omega
          rcases ih (p + 1) (log ++ [reqChamados tok abS p]) with
            ⟨m, hm1, hm2, hm3, hm4, hm5⟩ | ⟨hn1, hn2⟩
          · left
            refine ⟨m, by omega, by omega, ?_, hm4, ?_⟩
            · intro i h1 h2
              by_cases hi : i = p
              · rw [hi]; exact hpara
              · exact hm3 i (by omega) h2
            · rw [hm5]
              have e : m + 1 - p = (m + 1 - (p + 1)) + 1 := by omega
              rw [e, range_map_shift (fun q => reqChamados tok abS q) p]
              simp [List.append_assoc]
          · right
            refine ⟨?_, ?_⟩
            · intro i h1 h2
              by_cases hi : i = p
              · rw [hi]; exact hpara
              · exact hn1 i (by omega) (by omega)
            · rw [hn2, range_map_shift (fun q => reqChamados tok abS q) p]
              simp [List.append_assoc]
        · left
          refine ⟨p, le_refl _, by omega, fun i h1 h2 => by omega, ?_, ?_⟩
          · unfold paraEm
            rw [hr]
            simp only [hstop2, Bool.false_or, decide_eq_true_eq]
            omega
          · simp only [hnext, if_false, r1, List.map_cons, List.map_nil, Nat.add_zero]
            unfold resultadoEm
            rw [hr]
            simp

theorem getAssistencias_eq_varrer (fuel : Nat) (tok : String) (htok : tok ≠ "")
    (feed : RequisicaoChamados → RespostaChamados) (alvo : String) :
    getAssistenciasUrgentesDiaAnterior fuel (some tok) feed alvo =
      varrerChamados feed tok (abertoStartDe alvo) alvo fuel 0 [] [] := by
  unfold getAssistenciasUrgentesDiaAnterior
  have : jsFalsy (some tok) = false := by simp [jsFalsy, htok]
  simp only [this, Bool.false_eq_true, if_false]

/-- The scan as a whole, with a token that is set: either it ends at the first
page `m` after which it does not go on, having requested the pages 0 to `m`, or
the fuel runs out. -/
theorem getAssistencias_casos (fuel : Nat) (tok : String) (htok : tok ≠ "")
    (feed : RequisicaoChamados → RespostaChamados) (alvo : String) :
    (∃ m, m < fuel ∧
      (∀ i, i < m → paraEm feed tok (abertoStartDe alvo) alvo i = false) ∧
      paraEm feed tok (abertoStartDe alvo) alvo m = true ∧
      getAssistenciasUrgentesDiaAnterior fuel (some tok) feed alvo =
        ((List.range (m + 1)).map (fun j => reqChamados tok (abertoStartDe alvo) j),
          Desfecho.retorna (resultadoEm feed tok (abertoStartDe alvo) alvo m))) ∨
    ((∀ i, i < fuel → paraEm feed tok (abertoStartDe alvo) alvo i = false) ∧
      getAssistenciasUrgentesDiaAnterior fuel (some tok) feed alvo =
        ((List.range fuel).map (fun j => reqChamados tok (abertoStartDe alvo) j),
          Desfecho.semCombustivel)) := by
  rw [getAssistencias_eq_varrer fuel tok htok]
  have h0 : primeirosPorId (coletadosAte feed tok (abertoStartDe alvo) alvo 0) = [] := rfl
  rcases varrerChamados_casos feed tok (abertoStartDe alvo) alvo fuel 0 [] with
    ⟨m, -, hm2, hm3, hm4, hm5⟩ | ⟨hn1, hn2⟩
  · left
    rw [h0] at hm5
    refine ⟨m, by omega, fun i hi => hm3 i (Nat.zero_le _) hi, hm4, ?_⟩
    rw [hm5]
    simp
  · right
    rw [h0] at hn2
    refine ⟨fun i hi => hn1 i (Nat.zero_le _) (by omega), ?_⟩
    rw [hn2]
    simp

theorem getAssistencias_sem_token (fuel : Nat) (tok : Option String) (h : jsFalsy tok = true)
    (feed : RequisicaoChamados → RespostaChamados) (alvo : String) :
    getAssistenciasUrgentesDiaAnterior fuel tok feed alvo = ([], Desfecho.retorna []) := by
  unfold getAssistenciasUrgentesDiaAnterior
  cases tok with
  | none => rfl
  | some t => simp only [h, if_true]

theorem jsFalsy_cases (tok : Option String) :
    jsFalsy tok = true ∨ ∃ t, tok = some t ∧ t ≠ "" := by
  cases tok with
  | none => left; rfl
  | some t =>
    by_cases h : t = ""
    · left; simp [jsFalsy, h]
    · right; exact ⟨t, rfl, h⟩

theorem mem_coletadosAte (feed : RequisicaoChamados → RespostaChamados)
    (tok abS alvo : String) (k : Nat) :
    ∀ c ∈ coletadosAte feed tok abS alvo k, urgenteDoDia alvo c := by
  intro c hc
  unfold coletadosAte at hc
  simp only [List.mem_flatten, List.mem_map, List.mem_range] at hc
  obtain ⟨l, ⟨i, -, rfl⟩, hcl⟩ := hc
  cases hr : feed (reqChamados tok abS i) with
  | lancou => rw [hr] at hcl; simp [selecionados] at hcl
  | naoOk st => rw [hr] at hcl; simp [selecionados] at hcl
  | pagina data total =>
    rw [hr] at hcl
    exact ((mem_selecionados alvo data total c).mp hcl).2

theorem mem_resultadoEm (feed : RequisicaoChamados → RespostaChamados)
    (tok abS alvo : String) (m : Nat) :
    ∀ c ∈ resultadoEm feed tok abS alvo m, urgenteDoDia alvo c := by
  intro c hc
  unfold resultadoEm at hc
  split at hc
  · simp at hc
  · exact mem_coletadosAte feed tok abS alvo _ c (mem_primeirosPorId _ c hc)

/-- Every ticket that the scan returns is an urgent ticket of the target
date. -/
theorem getAssistencias_retornados (fuel : Nat) (tok : Option String)
    (feed : RequisicaoChamados → RespostaChamados) (alvo : String) (xs : List Chamado)
    (h : (getAssistenciasUrgentesDiaAnterior fuel tok feed alvo).2 = Desfecho.retorna xs) :
    ∀ c ∈ xs, urgenteDoDia alvo c := by
  rcases jsFalsy_cases tok with hf | ⟨t, rfl, ht⟩
  · rw [getAssistencias_sem_token fuel tok hf] at h
    simp only [Desfecho.retorna.injEq] at h
    subst h
    intro c hc
    simp at hc
  · rcases getAssistencias_casos fuel t ht feed alvo with ⟨m, -, -, -, hm⟩ | ⟨-, hn⟩
    · rw [hm] at h
      simp only [Desfecho.retorna.injEq] at h
      subst h
      exact mem_resultadoEm feed t _ alvo m
    · rw [hn] at h
      simp at h

/-- Every request of the scan carries the same `abertoStart`, the one computed
from the target date, and the page size 100. -/
theorem getAssistencias_log (fuel : Nat) (tok : Option String)
    (feed : RequisicaoChamados → RespostaChamados) (alvo : String) :
    ∀ req ∈ (getAssistenciasUrgentesDiaAnterior fuel tok feed alvo).1,
      req.abertoStart = abertoStartDe alvo ∧ req.limit = 100 := by
  rcases jsFalsy_cases tok with hf | ⟨t, rfl, ht⟩
  · rw [getAssistencias_sem_token fuel tok hf]
    intro req hreq
    simp at hreq
  · intro req hreq
    rcases getAssistencias_casos fuel t ht feed alvo with ⟨m, -, -, -, hm⟩ | ⟨-, hn⟩
    · rw [hm] at hreq
      simp only [List.mem_map, List.mem_range] at hreq
      obtain ⟨j, -, rfl⟩ := hreq
      exact ⟨rfl, rfl⟩
    · rw [hn] at hreq
      simp only [List.mem_map, List.mem_range] at hreq
      obtain ⟨j, -, rfl⟩ := hreq
      exact ⟨rfl, rfl⟩

theorem log_map_selecionados (feed : RequisicaoChamados → RespostaChamados)
    (tok abS alvo : String) (k : Nat) :
    (((List.range k).map (fun j => reqChamados tok abS j)).map
      (fun req => selecionados alvo (feed req))).flatten = coletadosAte feed tok abS alvo k := by
  unfold coletadosAte
  rw [List.map_map]
  rfl

/-! ## C12: the result of the ticket scan -/

/-- C12, counterexample: on a feed whose first page is fetched successfully and
holds an urgent ticket of the target date 2024-05-01, and whose second
request raises an exception, the scan returns the empty list, not the ticket
of the page it fetched. -/
theorem C12_contraexemplo :
    (getAssistenciasUrgentesDiaAnterior 5 (some "k") feedComExcecao "2024-05-01").1.map
        (fun req => req.start) = [0, 1] ∧
    feedComExcecao (reqChamados "k" (abertoStartDe "2024-05-01") 0) =
      RespostaChamados.pagina (some [chamadoUrgente 1 "2024-05-01T08:00:00"]) (some 1) ∧
    tituloUrgente (chamadoUrgente 1 "2024-05-01T08:00:00") = true ∧
    campoNoDia "2024-05-01" (chamadoUrgente 1 "2024-05-01T08:00:00").aberto = true ∧
    feedComExcecao (reqChamados "k" (abertoStartDe "2024-05-01") 1) = RespostaChamados.lancou ∧
    (getAssistenciasUrgentesDiaAnterior 5 (some "k") feedComExcecao "2024-05-01").2 =
      Desfecho.retorna [] := by
  refine ⟨by decide, by decide, by decide, by decide, by decide, by decide⟩

/-- C12, amended: for every target date and every feed that has a page index
`m0` after which the scan does not go on, the scan returns a list (with fuel
beyond `m0`), and when none of its requests raised an exception, that list is the
concatenation, over the pages it fetched in order, of the tickets whose title
matches the marker and whose `aberto` date part is the target date, reduced to
the first occurrence of every id; when a request raised an exception the list
is empty. In both cases no two returned tickets share an id and every
returned ticket is an urgent ticket of the target date. On the three-page
example the result has exactly 3 tickets. -/
theorem C12_resultado_da_varredura (fuel : Nat) (tok : String) (htok : tok ≠ "")
    (feed : RequisicaoChamados → RespostaChamados) (alvo : String) (m0 : Nat)
    (hstop : paraEm feed tok (abertoStartDe alvo) alvo m0 = true) (hf : m0 < fuel) :
    ∃ xs, (getAssistenciasUrgentesDiaAnterior fuel (some tok) feed alvo).2 =
        Desfecho.retorna xs ∧
      ((∀ req ∈ (getAssistenciasUrgentesDiaAnterior fuel (some tok) feed alvo).1,
          feed req ≠ RespostaChamados.lancou) →
        ∃ p : Chamado → Bool, (∀ c, p c = true ↔ urgenteDoDia alvo c) ∧
          xs = primeirosPorId
            (((getAssistenciasUrgentesDiaAnterior fuel (some tok) feed alvo).1.map
              (fun req =>
                match feed req with
                | RespostaChamados.pagina data _ => (data.getD []).filter p
                | _ => [])).flatten)) ∧
      ((∃ req ∈ (getAssistenciasUrgentesDiaAnterior fuel (some tok) feed alvo).1,
          feed req = RespostaChamados.lancou) → xs = []) ∧
      xs.Pairwise (fun a b => a.id ≠ b.id) ∧
      (∀ c ∈ xs, urgenteDoDia alvo c) ∧
      (getAssistenciasUrgentesDiaAnterior 10 (some "k") feedTresPaginas "2024-05-01").2 =
        Desfecho.retorna [chamadoUrgente 1 "2024-05-01T08:00:00",
          chamadoUrgente 2 "2024-05-01T09:30:00", chamadoUrgente 3 "2024-05-01T17:00:00"] := by
  rcases getAssistencias_casos fuel tok htok feed alvo with ⟨m, hm1, hm2, hm3, hm⟩ | ⟨hn, -⟩
  swap
  · have := hn m0 hf
    rw [hstop] at this
    exact absurd this (by simp)
  have hpag : ∀ i, i < m → ∃ data total,
      feed (reqChamados tok (abertoStartDe alvo) i) = RespostaChamados.pagina data total := by
    intro i hi
    have := hm2 i hi
    unfold paraEm at this
    cases hr : feed (reqChamados tok (abertoStartDe alvo) i) with
    | lancou => rw [hr] at this; simp at this
    | naoOk st => rw [hr] at this; simp at this
    | pagina data total => exact ⟨data, total, rfl⟩
  refine ⟨resultadoEm feed tok (abertoStartDe alvo) alvo m, by rw [hm], ?_, ?_, ?_,
    mem_resultadoEm feed tok _ alvo m, by decide⟩
  · intro hexc
    refine ⟨fun c => campoNoDia alvo c.aberto && tituloUrgente c, ?_, ?_⟩
    · intro c
      unfold urgenteDoDia
      rw [Bool.and_eq_true, campoNoDia_iff, tituloUrgente_iff, and_comm]
    · have hlast : feed (reqChamados tok (abertoStartDe alvo) m) ≠ RespostaChamados.lancou := by
        apply hexc
        rw [hm]
        simp only [List.mem_map, List.mem_range]
        exact ⟨m, by omega, rfl⟩
      have hfun : (fun req =>
            match feed req with
            | RespostaChamados.pagina data _ =>
              (data.getD []).filter (fun c => campoNoDia alvo c.aberto && tituloUrgente c)
            | _ => []) = (fun req => selecionados alvo (feed req)) := by
        funext req
        cases feed req with
        | lancou => rfl
        | naoOk st => rfl
        | pagina data total =>
          simp only [selecionados, List.filter_filter]
      rw [hfun, hm]
      simp only
      rw [log_map_selecionados]
      unfold resultadoEm
      cases hr : feed (reqChamados tok (abertoStartDe alvo) m) with
      | lancou => exact absurd hr hlast
      | naoOk st => rfl
      | pagina data total => rfl
  · rintro ⟨req, hreq, hl⟩
    rw [hm] at hreq
    simp only [List.mem_map, List.mem_range] at hreq
    obtain ⟨j, hj, rfl⟩ := hreq
    have hjm : j = m := by
      by_contra hne
      obtain ⟨data, total, hr⟩ := hpag j (by omega)
      rw [hr] at hl
      simp at hl
    subst hjm
    unfold resultadoEm
    rw [hl]
  · unfold resultadoEm
    split
    · simp
    · exact primeirosPorId_pairwise _

theorem feedTresPaginas_ne_lancou (req : RequisicaoChamados) :
    feedTresPaginas req ≠ RespostaChamados.lancou := by
  unfold feedTresPaginas
  split_ifs <;> simp

/-- Witness of C12 on the three-page example, target date 2024-05-01. -/
theorem C12_resultado_da_varredura_witness :
    "k" ≠ "" ∧
    paraEm feedTresPaginas "k" (abertoStartDe "2024-05-01") "2024-05-01" 2 = true ∧ 2 < 10 ∧
    (∀ req ∈ (getAssistenciasUrgentesDiaAnterior 10 (some "k") feedTresPaginas "2024-05-01").1,
      feedTresPaginas req ≠ RespostaChamados.lancou) ∧
    (∃ xs, (getAssistenciasUrgentesDiaAnterior 10 (some "k") feedTresPaginas "2024-05-01").2 =
        Desfecho.retorna xs ∧
      ((∀ req ∈ (getAssistenciasUrgentesDiaAnterior 10 (some "k") feedTresPaginas
            "2024-05-01").1, feedTresPaginas req ≠ RespostaChamados.lancou) →
        ∃ p : Chamado → Bool, (∀ c, p c = true ↔ urgenteDoDia "2024-05-01" c) ∧
          xs = primeirosPorId
            (((getAssistenciasUrgentesDiaAnterior 10 (some "k") feedTresPaginas
                "2024-05-01").1.map
              (fun req =>
                match feedTresPaginas req with
                | RespostaChamados.pagina data _ => (data.getD []).filter p
                | _ => [])).flatten)) ∧
      ((∃ req ∈ (getAssistenciasUrgentesDiaAnterior 10 (some "k") feedTresPaginas
            "2024-05-01").1, feedTresPaginas req = RespostaChamados.lancou) → xs = []) ∧
      xs.Pairwise (fun a b => a.id ≠ b.id) ∧
      (∀ c ∈ xs, urgenteDoDia "2024-05-01" c) ∧
      (getAssistenciasUrgentesDiaAnterior 10 (some "k") feedTresPaginas "2024-05-01").2 =
        Desfecho.retorna [chamadoUrgente 1 "2024-05-01T08:00:00",
          chamadoUrgente 2 "2024-05-01T09:30:00", chamadoUrgente 3 "2024-05-01T17:00:00"]) :=
  ⟨by decide, by decide, by decide, fun req _ => feedTresPaginas_ne_lancou req,
    C12_resultado_da_varredura 10 "k" (by decide) feedTresPaginas "2024-05-01" 2 (by decide)
      (by decide)⟩

/-! ## C13: the stop condition of the ticket scan -/

theorem paraEm_pagina (feed : RequisicaoChamados → RespostaChamados)
    (tok abS alvo : String) (i : Nat) (data : Option (List Chamado)) (total : Option Nat)
    (hr : feed (reqChamados tok abS i) = RespostaChamados.pagina data total) :
    paraEm feed tok abS alvo i = true ↔
      (haMaisRecente alvo (data.getD []) ∧
        primeirosPorId (coletadosAte feed tok abS alvo (i + 1)) ≠ []) ∨
      total.getD i < i + 1 := by
  unfold paraEm
  rw [hr]
  simp only [Bool.or_eq_true, Bool.and_eq_true, temDataMaisRecente_iff, decide_eq_true_eq,
    Bool.not_eq_true', List.isEmpty_eq_false]

/-- C13: on a feed that has a page index `m0` after which the scan does not go
on, the scan (with fuel beyond `m0`) requests the consecutive page indices 0 to
`m`, and after each successfully fetched page `i` of them: if the page holds a
ticket whose `aberto` date part is greater than the target and the result
accumulated up to and including this page is not empty, page `i` is the last
one requested; otherwise the page `i + 1` is requested exactly when `i + 1` is
at most the `totalPage` of page `i` (the index `i` itself when absent). On the
three-page example only the indices 0, 1 and 2 are requested, although
`totalPage` is 3. -/
theorem C13_condicao_de_parada (fuel : Nat) (tok : String) (htok : tok ≠ "")
    (feed : RequisicaoChamados → RespostaChamados) (alvo : String) (m0 : Nat)
    (hstop : paraEm feed tok (abertoStartDe alvo) alvo m0 = true) (hf : m0 < fuel) :
    (∃ m, m < fuel ∧
      (getAssistenciasUrgentesDiaAnterior fuel (some tok) feed alvo).1 =
        (List.range (m + 1)).map (fun j => reqChamados tok (abertoStartDe alvo) j) ∧
      ∀ i, i ≤ m → ∀ data total,
        feed (reqChamados tok (abertoStartDe alvo) i) = RespostaChamados.pagina data total →
        ((haMaisRecente alvo (data.getD []) ∧
            primeirosPorId (coletadosAte feed tok (abertoStartDe alvo) alvo (i + 1)) ≠ []) →
          i = m) ∧
        (¬ (haMaisRecente alvo (data.getD []) ∧
            primeirosPorId (coletadosAte feed tok (abertoStartDe alvo) alvo (i + 1)) ≠ []) →
          (i < m ↔ i + 1 ≤ total.getD i))) ∧
    ((getAssistenciasUrgentesDiaAnterior 10 (some "k") feedTresPaginas "2024-05-01").1.map
        (fun req => req.start) = [0, 1, 2] ∧
      feedTresPaginas (reqChamados "k" (abertoStartDe "2024-05-01") 2) =
        RespostaChamados.pagina (some [chamadoUrgente 4 "2024-05-02T10:00:00"]) (some 3)) := by
  refine ⟨?_, by decide, by decide⟩
  rcases getAssistencias_casos fuel tok htok feed alvo with ⟨m, hm1, hm2, hm3, hm⟩ | ⟨hn, -⟩
  swap
  · have := hn m0 hf
    rw [hstop] at this
    exact absurd this (by simp)
  refine ⟨m, hm1, by rw [hm], ?_⟩
  intro i hi data total hr
  have hiff := paraEm_pagina feed tok (abertoStartDe alvo) alvo i data total hr
  constructor
  · intro hstop
    by_contra hne
    have hf := hm2 i (by omega)
    rw [hiff.mpr (Or.inl hstop)] at hf
    exact absurd hf (by simp)
  · intro hnstop
    constructor
    · intro hlt
      have hf := hm2 i hlt
      by_contra hnot
      rw [hiff.mpr (Or.inr (by omega))] at hf
      exact absurd hf (by simp)
    · intro hle
      by_contra hnot
      have him : i = m := by omega
      subst him
      rcases hiff.mp hm3 with h | h
      · exact hnstop h
      · omega

/-- Witness of C13 on the three-page example, target date 2024-05-01. -/
theorem C13_condicao_de_parada_witness :
    "k" ≠ "" ∧
    paraEm feedTresPaginas "k" (abertoStartDe "2024-05-01") "2024-05-01" 2 = true ∧ 2 < 10 ∧
    ((∃ m, m < 10 ∧
      (getAssistenciasUrgentesDiaAnterior 10 (some "k") feedTresPaginas "2024-05-01").1 =
        (List.range (m + 1)).map (fun j => reqChamados "k" (abertoStartDe "2024-05-01") j) ∧
      ∀ i, i ≤ m → ∀ data total,
        feedTresPaginas (reqChamados "k" (abertoStartDe "2024-05-01") i) =
          RespostaChamados.pagina data total →
        ((haMaisRecente "2024-05-01" (data.getD []) ∧
            primeirosPorId (coletadosAte feedTresPaginas "k" (abertoStartDe "2024-05-01")
              "2024-05-01" (i + 1)) ≠ []) →
          i = m) ∧
        (¬ (haMaisRecente "2024-05-01" (data.getD []) ∧
            primeirosPorId (coletadosAte feedTresPaginas "k" (abertoStartDe "2024-05-01")
              "2024-05-01" (i + 1)) ≠ []) →
          (i < m ↔ i + 1 ≤ total.getD i))) ∧
    ((getAssistenciasUrgentesDiaAnterior 10 (some "k") feedTresPaginas "2024-05-01").1.map
        (fun req => req.start) = [0, 1, 2] ∧
      feedTresPaginas (reqChamados "k" (abertoStartDe "2024-05-01") 2) =
        RespostaChamados.pagina (some [chamadoUrgente 4 "2024-05-02T10:00:00"]) (some 3))) :=
  ⟨by decide, by decide, by decide,
    C13_condicao_de_parada 10 "k" (by decide) feedTresPaginas "2024-05-01" 2 (by decide)
      (by decide)⟩

/-! ## C14: the title test -/

/-- C14, counterexample: a ticket of the target date whose title is
`Solicitação: Assistência URGENTE` is not treated as urgent, and the scan of a
page that holds it returns nothing. -/
theorem C14_contraexemplo :
    tituloUrgente
      (chamadoComTitulo 1 "Solicitação: Assistência URGENTE" "2024-05-01T08:00:00") = false ∧
    campoNoDia "2024-05-01"
      (chamadoComTitulo 1 "Solicitação: Assistência URGENTE" "2024-05-01T08:00:00").aberto =
        true ∧
    getAssistenciasUrgentesDiaAnterior 5 (some "k")
        (feedUmaPagina
          [chamadoComTitulo 1 "Solicitação: Assistência URGENTE" "2024-05-01T08:00:00"])
        "2024-05-01" =
      ([reqChamados "k" "2024-04-24T00:00:00Z" 0], Desfecho.retorna []) := by
  refine ⟨by decide, by decide, by decide⟩

/-- C14, amended: the scan treats a ticket as an urgent-assistance ticket if and
only if its title contains `Solicitação: Assistência Urgente` or
`Solicitação: Assistência urgente`, exactly these two spellings; a ticket with
no title is never kept, and every ticket the scan returns has such a title. -/
theorem C14_teste_do_titulo (c : Chamado) :
    (tituloUrgente c = true ↔ tituloMarcado c) ∧
    (c.titulo = none → tituloUrgente c = false) ∧
    (∀ (alvo : String) (data : Option (List Chamado)) (total : Option Nat),
      c ∈ selecionados alvo (RespostaChamados.pagina data total) ↔
        c ∈ data.getD [] ∧ tituloMarcado c ∧ campoCasa alvo c.aberto) ∧
    (∀ (fuel : Nat) (tok : Option String) (feed : RequisicaoChamados → RespostaChamados)
      (alvo : String) (xs : List Chamado),
      (getAssistenciasUrgentesDiaAnterior fuel tok feed alvo).2 = Desfecho.retorna xs →
      c ∈ xs → tituloMarcado c) ∧
    (tituloUrgente (chamadoSoTitulo "Solicitação: Assistência Urgente") = true ∧
      tituloUrgente (chamadoSoTitulo "Re: Solicitação: Assistência urgente (2)") = true ∧
      tituloUrgente (chamadoSoTitulo "Solicitação: Assistência URGENTE") = false) := by
  refine ⟨tituloUrgente_iff c, ?_, ?_, ?_, by decide, by decide, by decide⟩
  · intro h
    unfold tituloUrgente
    rw [h]
  · intro alvo data total
    exact mem_selecionados alvo data total c
  · intro fuel tok feed alvo xs h hc
    exact (getAssistencias_retornados fuel tok feed alvo xs h c hc).1

/-! ## C15 and C16: a failing page and a missing credential -/

/-- C15: when the pages 0 to `p - 1` of the feed are answered successfully
without meeting the stop condition and page `p` is answered with a status that
is not a success, the scan raises no error and requests no page after `p`: it
requests the pages 0 to `m` for some `m ≤ p` and returns the tickets
accumulated from them; when moreover every page before `p` announces a
`totalPage` that reaches the next index, page `p` is requested (`m = p`) and
the result is exactly what was accumulated from the pages 0 to `p - 1`. -/
theorem C15_falha_branda (fuel : Nat) (tok : String) (htok : tok ≠ "")
    (feed : RequisicaoChamados → RespostaChamados) (alvo : String) (p status : Nat)
    (hok : ∀ i, i < p → ∃ data total,
      feed (reqChamados tok (abertoStartDe alvo) i) = RespostaChamados.pagina data total ∧
      ¬ (haMaisRecente alvo (data.getD []) ∧
        primeirosPorId (coletadosAte feed tok (abertoStartDe alvo) alvo (i + 1)) ≠ []))
    (hp : feed (reqChamados tok (abertoStartDe alvo) p) = RespostaChamados.naoOk status)
    (hf : p < fuel) :
    ∃ m, m ≤ p ∧
      (getAssistenciasUrgentesDiaAnterior fuel (some tok) feed alvo).1 =
        (List.range (m + 1)).map (fun j => reqChamados tok (abertoStartDe alvo) j) ∧
      (getAssistenciasUrgentesDiaAnterior fuel (some tok) feed alvo).2 =
        Desfecho.retorna
          (primeirosPorId (coletadosAte feed tok (abertoStartDe alvo) alvo (m + 1))) ∧
      ((∀ i, i < p → ∀ data total,
          feed (reqChamados tok (abertoStartDe alvo) i) = RespostaChamados.pagina data total →
          i + 1 ≤ total.getD i) →
        m = p ∧
        (getAssistenciasUrgentesDiaAnterior fuel (some tok) feed alvo).2 =
          Desfecho.retorna
            (primeirosPorId (coletadosAte feed tok (abertoStartDe alvo) alvo p))) := by
  have hparap : paraEm feed tok (abertoStartDe alvo) alvo p = true := by
    unfold paraEm; rw [hp]
  rcases getAssistencias_casos fuel tok htok feed alvo with ⟨m, hm1, hm2, hm3, hm⟩ | ⟨hn, -⟩
  swap
  · have := hn p hf
    rw [hparap] at this
    exact absurd this (by simp)
  have hmp : m ≤ p := by
    by_contra hlt
    have := hm2 p (by omega)
    rw [hparap] at this
    exact absurd this (by simp)
  have hcol : coletadosAte feed tok (abertoStartDe alvo) alvo (p + 1) =
      coletadosAte feed tok (abertoStartDe alvo) alvo p := by
    rw [coletadosAte_succ, hp]
    simp [selecionados]
  have hres : resultadoEm feed tok (abertoStartDe alvo) alvo m =
      primeirosPorId (coletadosAte feed tok (abertoStartDe alvo) alvo (m + 1)) := by
    unfold resultadoEm
    rcases Nat.lt_or_ge m p with hlt | hge
    · obtain ⟨data, total, hr, -⟩ := hok m hlt
      rw [hr]
    · have : m = p := by omega
      subst this
      rw [hp]
  refine ⟨m, hmp, by rw [hm], by rw [hm, hres], ?_⟩
  intro htot
  have hmeq : m = p := by
    by_contra hne
    have hlt : m < p := by omega
    obtain ⟨data, total, hr, hns⟩ := hok m hlt
    rcases (paraEm_pagina feed tok (abertoStartDe alvo) alvo m data total hr).mp hm3 with h | h
    · exact hns h
    · have := htot m hlt data total hr
      omega
  subst hmeq
  exact ⟨rfl, by rw [hm, hres, hcol]⟩

/-- Witness of C15 on a feed whose page 0 succeeds and whose page 1 answers
503. -/
theorem C15_falha_branda_witness :
    "k" ≠ "" ∧
    (∀ i, i < 1 → ∃ data total,
      feedComFalha (reqChamados "k" (abertoStartDe "2024-05-01") i) =
        RespostaChamados.pagina data total ∧
      ¬ (haMaisRecente "2024-05-01" (data.getD []) ∧
        primeirosPorId (coletadosAte feedComFalha "k" (abertoStartDe "2024-05-01")
          "2024-05-01" (i + 1)) ≠ [])) ∧
    feedComFalha (reqChamados "k" (abertoStartDe "2024-05-01") 1) =
      RespostaChamados.naoOk 503 ∧
    1 < 5 ∧
    (∃ m, m ≤ 1 ∧
      (getAssistenciasUrgentesDiaAnterior 5 (some "k") feedComFalha "2024-05-01").1 =
        (List.range (m + 1)).map (fun j => reqChamados "k" (abertoStartDe "2024-05-01") j) ∧
      (getAssistenciasUrgentesDiaAnterior 5 (some "k") feedComFalha "2024-05-01").2 =
        Desfecho.retorna
          (primeirosPorId (coletadosAte feedComFalha "k" (abertoStartDe "2024-05-01")
            "2024-05-01" (m + 1))) ∧
      ((∀ i, i < 1 → ∀ data total,
          feedComFalha (reqChamados "k" (abertoStartDe "2024-05-01") i) =
            RespostaChamados.pagina data total →
          i + 1 ≤ total.getD i) →
        m = 1 ∧
        (getAssistenciasUrgentesDiaAnterior 5 (some "k") feedComFalha "2024-05-01").2 =
          Desfecho.retorna
            (primeirosPorId (coletadosAte feedComFalha "k" (abertoStartDe "2024-05-01")
              "2024-05-01" 1)))) :=
  have hok : ∀ i, i < 1 → ∃ data total,
      feedComFalha (reqChamados "k" (abertoStartDe "2024-05-01") i) =
        RespostaChamados.pagina data total ∧
      ¬ (haMaisRecente "2024-05-01" (data.getD []) ∧
        primeirosPorId (coletadosAte feedComFalha "k" (abertoStartDe "2024-05-01")
          "2024-05-01" (i + 1)) ≠ []) := by
    intro i hi
    have hi0 : i = 0 := by omega
    subst hi0
    refine ⟨some [chamadoUrgente 1 "2024-05-01T08:00:00"], some 2, by decide, ?_⟩
    intro h
    have := (temDataMaisRecente_iff "2024-05-01" _).mpr h.1
    exact absurd this (by decide)
  ⟨by decide, hok, by decide, by decide,
    C15_falha_branda 5 "k" (by decide) feedComFalha "2024-05-01" 1 503 hok (by decide)
      (by decide)⟩

/-- C16: when the credential `SULTS_ACCESS_TOKEN` is absent or is the empty
string, `getAssistenciasUrgentesDiaAnterior` returns the empty list for every
target date and every feed, raises no error and sends no request. -/
theorem C16_sem_credencial (fuel : Nat) (feed : RequisicaoChamados → RespostaChamados)
    (dataAnterior : String) :
    getAssistenciasUrgentesDiaAnterior fuel none feed dataAnterior =
      ([], Desfecho.retorna []) ∧
    getAssistenciasUrgentesDiaAnterior fuel (some "") feed dataAnterior =
      ([], Desfecho.retorna []) ∧
    (∀ tok : Option String, jsFalsy tok = true ↔ tok = none ∨ tok = some "") := by
  refine ⟨rfl, getAssistencias_sem_token fuel _ (by decide) feed dataAnterior, ?_⟩
  intro tok
  cases tok with
  | none => simp [jsFalsy]
  | some t => simp [jsFalsy]

/-! ## C17: the window start of the ticket scan -/

theorem formatISODate_eq (t : JSDate) : formatISODate t = formatYMD t ++ "T00:00:00Z" := by
  unfold formatISODate formatYMD
  simp only [String.append_assoc]

/-- On a valid zero-padded date up to the year 9999 whose seventh day before,
`c7`, lies in the year 1000 or later, `abertoStart` is the zero-padded
rendering of `c7` followed by `T00:00:00Z`. -/
theorem abertoStartDe_ymd (c7 c : DataCivil) (hv7 : c7.valida) (h7 : diaSeguinte^[7] c7 = c)
    (hy : 1000 ≤ c7.ano) (hy2 : c.ano ≤ 9999) :
    abertoStartDe (ymd c) = ymd c7 ++ "T00:00:00Z" := by
  obtain ⟨hv, hd⟩ := iterate_diaSeguinte c7 hv7 7
  rw [h7] at hv hd
  unfold abertoStartDe
  rw [parseLocal_ymd c hv hy2]
  simp only [sub_eq_add_neg, setDate_add]
  have e : diaDe c + -7 = diaDe c7 := by
    rw [hd]; push_cast; ring
  rw [e, formatISODate_eq, formatYMD_diaDe c7 hv7 hy]

/-- C17, counterexample: for the valid target date `1000-01-03`, whose seventh
day before is `0999-12-27`, the request of the scan carries `abertoStart =
999-12-27T00:00:00Z`, whose date is not rendered as `YYYY-MM-DD`. -/
theorem C17_contraexemplo :
    (DataCivil.mk 1000 1 3).valida ∧ ymd (DataCivil.mk 1000 1 3) = "1000-01-03" ∧
    diaSeguinte^[7] (DataCivil.mk 999 12 27) = DataCivil.mk 1000 1 3 ∧
    ymd (DataCivil.mk 999 12 27) = "0999-12-27" ∧
    (getAssistenciasUrgentesDiaAnterior 1 (some "k") feedComFalha "1000-01-03").1.map
      (fun req => req.abertoStart) = ["999-12-27T00:00:00Z"] := by
  refine ⟨by decide, by decide, by decide, by decide, by decide⟩

/-- C17, amended: for every valid target date `d` up to the year 9999 whose
seventh day before, `c7`, lies in the year 1000 or later, every request that
`getAssistenciasUrgentesDiaAnterior(d)` sends to the ticket feed carries the
same `abertoStart`, the zero-padded `YYYY-MM-DD` rendering of `c7` followed by
`T00:00:00Z` (for `2024-05-03` it is `2024-04-26T00:00:00Z`); with a token that
is set and some fuel at least one request is sent. -/
theorem C17_abertoStart (c7 c : DataCivil) (hv7 : c7.valida) (h7 : diaSeguinte^[7] c7 = c)
    (hy : 1000 ≤ c7.ano) (hy2 : c.ano ≤ 9999) (fuel : Nat) (tok : Option String)
    (feed : RequisicaoChamados → RespostaChamados) :
    c.valida ∧
    (∀ req ∈ (getAssistenciasUrgentesDiaAnterior fuel tok feed (ymd c)).1,
      req.abertoStart = ymd c7 ++ "T00:00:00Z") ∧
    (∀ t, tok = some t → t ≠ "" → 1 ≤ fuel →
      (getAssistenciasUrgentesDiaAnterior fuel tok feed (ymd c)).1 ≠ []) ∧
    abertoStartDe "2024-05-03" = "2024-04-26T00:00:00Z" := by
  refine ⟨?_, ?_, ?_, by decide⟩
  · have := (iterate_diaSeguinte c7 hv7 7).1
    rw [h7] at this
    exact this
  · intro req hreq
    rw [(getAssistencias_log fuel tok feed (ymd c) req hreq).1,
      abertoStartDe_ymd c7 c hv7 h7 hy hy2]
  · intro t ht hne hf
    subst ht
    rcases getAssistencias_casos fuel t hne feed (ymd c) with ⟨m, -, -, -, hm⟩ | ⟨-, hn⟩
    · rw [hm]
      simp [List.range_succ_eq_map]
    · rw [hn]
      obtain ⟨f, rfl⟩ : ∃ f, fuel = f + 1 := ⟨fuel - 1, by omega⟩
      simp [List.range_succ_eq_map]

/-- Witness of C17 on the target date 2024-05-03 and the three-page feed. -/
theorem C17_abertoStart_witness :
    (DataCivil.mk 2024 4 26).valida ∧
    diaSeguinte^[7] (DataCivil.mk 2024 4 26) = DataCivil.mk 2024 5 3 ∧
    1000 ≤ (DataCivil.mk 2024 4 26).ano ∧ (DataCivil.mk 2024 5 3).ano ≤ 9999 ∧
    ((DataCivil.mk 2024 5 3).valida ∧
    (∀ req ∈ (getAssistenciasUrgentesDiaAnterior 10 (some "k") feedTresPaginas
        (ymd (DataCivil.mk 2024 5 3))).1,
      req.abertoStart = ymd (DataCivil.mk 2024 4 26) ++ "T00:00:00Z") ∧
    (∀ t, some "k" = some t → t ≠ "" → 1 ≤ 10 →
      (getAssistenciasUrgentesDiaAnterior 10 (some "k") feedTresPaginas
        (ymd (DataCivil.mk 2024 5 3))).1 ≠ []) ∧
    abertoStartDe "2024-05-03" = "2024-04-26T00:00:00Z") :=
  ⟨by decide, by decide, by decide, by decide,
    C17_abertoStart (DataCivil.mk 2024 4 26) (DataCivil.mk 2024 5 3) (by decide) (by decide)
      (by decide) (by decide) 10 (some "k") feedTresPaginas⟩

/-! ## C19: no record is kept for two days -/

theorem campoNoDia_unique (d1 d2 : String) (campo : Option String)
    (h1 : campoNoDia d1 campo = true) (h2 : campoNoDia d2 campo = true) : d1 = d2 :=
  campoCasa_unique d1 d2 campo ((campoNoDia_iff d1 campo).mp h1) ((campoNoDia_iff d2 campo).mp h2)

theorem length_le_one_of_all_eq {α : Type} (l : List α) (hn : l.Nodup)
    (h : ∀ a ∈ l, ∀ b ∈ l, a = b) : l.length ≤ 1 := by
  match l, hn, h with
  | [], _, _ => simp
  | [_], _, _ => simp
  | a :: b :: t, hn, h =>
    have hab : a = b := h a (by simp) b (by simp)
    rw [hab] at hn
    simp at hn

/-- C19: for two distinct target dates, no record is kept by a date filter for
the one and also by the same filter for the other, whatever the two lists of
fetched records; hence, for a period of distinct dates, each with its own
fetched list, a record is kept for at most one date of the period. -/
theorem C19_sem_duplicacao_entre_dias (d1 d2 : String) (h : d1 ≠ d2)
    (rs1 rs2 : List Registro) (r : Registro) :
    ¬ (r ∈ filtrarPorDiaAnterior d1 rs1 ∧ r ∈ filtrarPorDiaAnterior d2 rs2) ∧
    ¬ (r ∈ filtrarPorDataEmitidaDiaAnterior d1 rs1 ∧
      r ∈ filtrarPorDataEmitidaDiaAnterior d2 rs2) ∧
    ¬ (r ∈ filtrarSinistrosPorDiaAnterior d1 rs1 ∧ r ∈ filtrarSinistrosPorDiaAnterior d2 rs2) ∧
    (∀ (datas : List String) (buscados : String → List Registro), datas.Nodup →
      (datas.filter (fun d => decide (r ∈ filtrarPorDiaAnterior d (buscados d)))).length ≤ 1 ∧
      (datas.filter
        (fun d => decide (r ∈ filtrarPorDataEmitidaDiaAnterior d (buscados d)))).length ≤ 1 ∧
      (datas.filter
        (fun d => decide (r ∈ filtrarSinistrosPorDiaAnterior d (buscados d)))).length ≤ 1) := by
  refine ⟨?_, ?_, ?_, ?_⟩
  · rintro ⟨h1, h2⟩
    unfold filtrarPorDiaAnterior at h1 h2
    rw [List.mem_filter] at h1 h2
    exact h (campoNoDia_unique d1 d2 _ h1.2 h2.2)
  · rintro ⟨h1, h2⟩
    unfold filtrarPorDataEmitidaDiaAnterior at h1 h2
    rw [List.mem_filter] at h1 h2
    exact h (campoNoDia_unique d1 d2 _ h1.2 h2.2)
  · rintro ⟨h1, h2⟩
    unfold filtrarSinistrosPorDiaAnterior at h1 h2
    rw [List.mem_filter] at h1 h2
    exact h (campoNoDia_unique d1 d2 _ h1.2 h2.2)
  · intro datas buscados hnd
    refine ⟨?_, ?_, ?_⟩
    · apply length_le_one_of_all_eq _ (hnd.sublist (List.filter_sublist _))
      intro a ha b hb
      simp only [List.mem_filter, decide_eq_true_eq, filtrarPorDiaAnterior] at ha hb
      exact campoNoDia_unique a b _ ha.2.2 hb.2.2
    · apply length_le_one_of_all_eq _ (hnd.sublist (List.filter_sublist _))
      intro a ha b hb
      simp only [List.mem_filter, decide_eq_true_eq, filtrarPorDataEmitidaDiaAnterior] at ha hb
      exact campoNoDia_unique a b _ ha.2.2 hb.2.2
    · apply length_le_one_of_all_eq _ (hnd.sublist (List.filter_sublist _))
      intro a ha b hb
      simp only [List.mem_filter, decide_eq_true_eq, filtrarSinistrosPorDiaAnterior] at ha hb
      exact campoNoDia_unique a b _ ha.2.2 hb.2.2

/-- Witness of C19 on the dates 2024-05-01 and 2024-05-02 and a record of the
first. -/
theorem C19_sem_duplicacao_entre_dias_witness :
    "2024-05-01" ≠ "2024-05-02" ∧
    (¬ (registroVigencia 1 "2024-05-01T10:00:00" ∈
          filtrarPorDiaAnterior "2024-05-01" [registroVigencia 1 "2024-05-01T10:00:00"] ∧
        registroVigencia 1 "2024-05-01T10:00:00" ∈
          filtrarPorDiaAnterior "2024-05-02" [registroVigencia 1 "2024-05-01T10:00:00"]) ∧
      registroVigencia 1 "2024-05-01T10:00:00" ∈
        filtrarPorDiaAnterior "2024-05-01" [registroVigencia 1 "2024-05-01T10:00:00"]) :=
  ⟨by decide,
    (C19_sem_duplicacao_entre_dias "2024-05-01" "2024-05-02" (by decide)
      [registroVigencia 1 "2024-05-01T10:00:00"] [registroVigencia 1 "2024-05-01T10:00:00"]
      (registroVigencia 1 "2024-05-01T10:00:00")).1,
    by decide⟩

/-! ## C18: the day-by-day aggregation -/

/-- When the four fetches return on every date of the list, the loop calls
them once per date, in the order of the list, and appends their results to
the four accumulators in that order. -/
theorem acumularDias_retorna (ad : Adaptadores) (ft fa fs : String → List Registro)
    (fu : String → List Chamado) (datas : List String) :
    (∀ d ∈ datas, ad.transmissoes d = Desfecho.retorna (ft d) ∧
      ad.apolices d = Desfecho.retorna (fa d) ∧ ad.sinistros d = Desfecho.retorna (fs d) ∧
      ad.assistencias d = Desfecho.retorna (fu d)) →
    ∀ (totais : Totais) (log : List Chamada),
      acumularDias ad datas totais log =
        (log ++ (datas.map (fun d => [Chamada.transmissoes d, Chamada.apolices d,
            Chamada.sinistros d, Chamada.assistencias d])).flatten,
          Desfecho.retorna
            { transmissoesTotais := totais.transmissoesTotais ++ (datas.map ft).flatten,
              apolicesEmitidasTotais := totais.apolicesEmitidasTotais ++ (datas.map fa).flatten,
              sinistrosTotais := totais.sinistrosTotais ++ (datas.map fs).flatten,
              assistenciasUrgentesTotais :=
                totais.assistenciasUrgentesTotais ++ (datas.map fu).flatten }) := by
  induction datas with
  | nil =>
    intro _ totais log
    simp [acumularDias]
  | cons d resto ih =>
    intro h totais log
    obtain ⟨h1, h2, h3, h4⟩ := h d (by simp)
    have hresto := ih (fun x hx => h x (List.mem_cons_of_mem _ hx))
    unfold acumularDias
    simp only [h1, h2, h3, h4]
    rw [hresto]
    simp [List.append_assoc]

/-- The week of `getLastWeekRange()`: the renderings of a Monday and of the
fourth day after it. -/
theorem getLastWeekRange_formato (hoje : Nat) :
    ∃ seg : Int, WeekDay seg = 1 ∧ -13 ≤ seg ∧
      getLastWeekRange hoje = { inicio := formatYMD ⟨seg⟩, fim := formatYMD ⟨seg + 4⟩ } := by
  have hy := YearFromDay_nat hoje
  obtain ⟨diff, hdiff, hlo, hhi, hmon⟩ : ∃ diff : Int,
      (if WeekDay hoje = 0 then -6 else 1 - WeekDay hoje) = diff ∧ -6 ≤ diff ∧ diff ≤ 0 ∧
      WeekDay ((hoje : Int) + diff) = 1 := by
    refine ⟨_, rfl, ?_, ?_, ?_⟩
    · unfold WeekDay; split_ifs <;> omega
    · unfold WeekDay; split_ifs <;> omega
    · unfold WeekDay; split_ifs <;> omega
  refine ⟨(hoje : Int) + diff - 7, ?_, by omega, ?_⟩
  · unfold WeekDay at hmon ⊢
    omega
  · unfold getLastWeekRange
    simp only [JSDate.getFullYear, JSDate.getMonth]
    have e0 : (JSDate.mk (hoje : Int)).getDate = DateFromDay hoje := rfl
    rw [e0, ofFields_fields _ (by omega)]
    have hd2 := hdiff
    simp only [sub_eq_add_neg] at hd2
    simp only [JSDate.getDay, sub_eq_add_neg, setDate_add, hd2]

/-- C18: for every list of dates (the weekly and monthly runs pass the list
that `getDateRange` returned for their period) and every behaviour of the four
per-day fetches that does not fail on these dates, the loop of the weekly and
monthly runs calls each fetch exactly once per date, in the order of the list,
and each of the four accumulated lists is the concatenation, in that order, of
what its fetch returned for each date. For a list of five dates each total is
the five single-day results one after the other, first day first. -/
theorem C18_agregacao_do_periodo (ad : Adaptadores) (ft fa fs : String → List Registro)
    (fu : String → List Chamado) (datas : List String)
    (h : ∀ d ∈ datas, ad.transmissoes d = Desfecho.retorna (ft d) ∧
      ad.apolices d = Desfecho.retorna (fa d) ∧ ad.sinistros d = Desfecho.retorna (fs d) ∧
      ad.assistencias d = Desfecho.retorna (fu d)) :
    acumularDias ad datas (Totais.mk [] [] [] []) [] =
      ((datas.map (fun d => [Chamada.transmissoes d, Chamada.apolices d,
          Chamada.sinistros d, Chamada.assistencias d])).flatten,
        Desfecho.retorna (Totais.mk (datas.map ft).flatten (datas.map fa).flatten
          (datas.map fs).flatten (datas.map fu).flatten)) ∧
    (∀ d1 d2 d3 d4 d5 : String, datas = [d1, d2, d3, d4, d5] →
      acumularDias ad datas (Totais.mk [] [] [] []) [] =
        ([Chamada.transmissoes d1, Chamada.apolices d1, Chamada.sinistros d1,
            Chamada.assistencias d1,
          Chamada.transmissoes d2, Chamada.apolices d2, Chamada.sinistros d2,
            Chamada.assistencias d2,
          Chamada.transmissoes d3, Chamada.apolices d3, Chamada.sinistros d3,
            Chamada.assistencias d3,
          Chamada.transmissoes d4, Chamada.apolices d4, Chamada.sinistros d4,
            Chamada.assistencias d4,
          Chamada.transmissoes d5, Chamada.apolices d5, Chamada.sinistros d5,
            Chamada.assistencias d5],
          Desfecho.retorna (Totais.mk
            (ft d1 ++ (ft d2 ++ (ft d3 ++ (ft d4 ++ ft d5))))
            (fa d1 ++ (fa d2 ++ (fa d3 ++ (fa d4 ++ fa d5))))
            (fs d1 ++ (fs d2 ++ (fs d3 ++ (fs d4 ++ fs d5))))
            (fu d1 ++ (fu d2 ++ (fu d3 ++ (fu d4 ++ fu d5))))))) := by
  have key : acumularDias ad datas (Totais.mk [] [] [] []) [] =
      ((datas.map (fun d => [Chamada.transmissoes d, Chamada.apolices d,
          Chamada.sinistros d, Chamada.assistencias d])).flatten,
        Desfecho.retorna (Totais.mk (datas.map ft).flatten (datas.map fa).flatten
          (datas.map fs).flatten (datas.map fu).flatten)) := by
    rw [acumularDias_retorna ad ft fa fs fu datas h]
    simp
  refine ⟨key, ?_⟩
  intro d1 d2 d3 d4 d5 hd
  rw [key, hd]
  simp

/-- Witness of C18 on the five days of the week of 2024-04-22 and fetches
that return fixed records per date. -/
theorem C18_agregacao_do_periodo_witness :
    (∀ d ∈ ["2024-04-22", "2024-04-23", "2024-04-24", "2024-04-25", "2024-04-26"],
      adaptadoresDeExemplo.transmissoes d = Desfecho.retorna [registroVigencia 1 d] ∧
      adaptadoresDeExemplo.apolices d = Desfecho.retorna [registroEmitida 2 d] ∧
      adaptadoresDeExemplo.sinistros d = Desfecho.retorna [] ∧
      adaptadoresDeExemplo.assistencias d = Desfecho.retorna [chamadoUrgente 3 d]) ∧
    (acumularDias adaptadoresDeExemplo
        ["2024-04-22", "2024-04-23", "2024-04-24", "2024-04-25", "2024-04-26"]
        (Totais.mk [] [] [] []) []).2 =
      Desfecho.retorna (Totais.mk
        [registroVigencia 1 "2024-04-22", registroVigencia 1 "2024-04-23",
          registroVigencia 1 "2024-04-24", registroVigencia 1 "2024-04-25",
          registroVigencia 1 "2024-04-26"]
        [registroEmitida 2 "2024-04-22", registroEmitida 2 "2024-04-23",
          registroEmitida 2 "2024-04-24", registroEmitida 2 "2024-04-25",
          registroEmitida 2 "2024-04-26"]
        []
        [chamadoUrgente 3 "2024-04-22", chamadoUrgente 3 "2024-04-23",
          chamadoUrgente 3 "2024-04-24", chamadoUrgente 3 "2024-04-25",
          chamadoUrgente 3 "2024-04-26"]) :=
  ⟨fun _ _ => ⟨rfl, rfl, rfl, rfl⟩,
    by
      have h := (C18_agregacao_do_periodo adaptadoresDeExemplo
        (fun d => [registroVigencia 1 d]) (fun d => [registroEmitida 2 d]) (fun _ => [])
        (fun d => [chamadoUrgente 3 d])
        ["2024-04-22", "2024-04-23", "2024-04-24", "2024-04-25", "2024-04-26"]
        (fun _ _ => ⟨rfl, rfl, rfl, rfl⟩)).1
      rw [h]
      rfl⟩

/-! ## C20: full production for a period -/

theorem ymd_ne_empty (c : DataCivil) : ymd c ≠ "" := by
  intro h
  have hd := ymd_data c
  rw [h] at hd
  have : ("" : String).data = [] := rfl
  rw [this] at hd
  simp at hd

/-- The callback of the period filter holds exactly for the records whose
`dataVigenciaInicial` is present with a part before the first `T` that is one of
the dates, provided that no date is the empty string. -/
theorem filtrarPeriodo_eq (datas : List String) (hne : "" ∉ datas) (rs : List Registro) :
    ∃ p : Registro → Bool,
      (∀ r, p r = true ↔
        ∃ s pre, r.dataVigenciaInicial = some s ∧ parteAntesDoT s pre ∧ pre ∈ datas) ∧
      filtrarPeriodo datas rs = rs.filter p := by
  refine ⟨_, ?_, rfl⟩
  intro r
  cases hr : r.dataVigenciaInicial with
  | none => simp
  | some s =>
    simp only [Option.some.injEq, exists_and_left, exists_eq_left']
    by_cases hs : s = ""
    · subst hs
      simp only [jsFalsy, beq_self_eq_true, if_true, Bool.false_eq_true, false_iff]
      rintro ⟨pre, hp, hmem⟩
      have hh := (jsSplit_head_iff "" pre).mpr hp
      have e : (jsSplit "" 'T').head? = some "" := by decide
      rw [e] at hh
      rw [← Option.some.inj hh] at hmem
      exact hne hmem
    · have hf : jsFalsy (some s) = false := by simp [jsFalsy, hs]
      simp only [hf, Bool.false_eq_true, if_false]
      cases hh : (jsSplit s 'T').head? with
      | none =>
        simp only [Bool.false_eq_true, false_iff]
        rintro ⟨pre, hp, -⟩
        rw [(jsSplit_head_iff s pre).mpr hp] at hh
        exact absurd hh (by simp)
      | some v =>
        show List.elem v datas = true ↔ _
        rw [List.elem_iff]
        constructor
        · intro hv
          exact ⟨v, (jsSplit_head_iff s v).mp hh, hv⟩
        · rintro ⟨pre, hp, hmem⟩
          have := (jsSplit_head_iff s pre).mpr hp
          rw [hh] at this
          rw [Option.some.inj this]
          exact hmem

/-- A valid date is rendered among the days from `a` on, up to the `n`-th,
exactly when it lies between `a` and that last day. -/
theorem ymd_mem_range (a b c : DataCivil) (ha : a.valida) (hb : b.valida) (hc : c.valida)
    (n : Nat) (hn : diaDe b = diaDe a + n) :
    ymd c ∈ (List.range (n + 1)).map (fun i => ymd (diaSeguinte^[i] a)) ↔
      a.ateh c ∧ c.ateh b := by
  rw [diaDe_le_iff a c ha hc, diaDe_le_iff c b hc hb]
  simp only [List.mem_map, List.mem_range]
  constructor
  · rintro ⟨i, hi, he⟩
    have hci := ymd_injective _ _ he
    have hd := (iterate_diaSeguinte a ha i).2
    rw [hci] at hd
    omega
  · rintro ⟨h1, h2⟩
    refine ⟨(diaDe c - diaDe a).toNat, by omega, ?_⟩
    have e : diaDe a + (((diaDe c - diaDe a).toNat : Nat) : Int) = diaDe c := by omega
    rw [← civilDe_diaDe_add a ha, e, civilDe_diaDe c hc]

/-- In a time zone whose local midnights from `a` to `b` are regular,
`getProducaoCompletaPeriodo` with `getDateRange` on instants is
`getProducaoCompletaPeriodo` with `getDateRange` on day numbers. -/
theorem getProducaoCompletaPeriodoFuso_regular (f : Fuso) (fuel : Nat)
    (servidor : Requisicao → Resposta) (token : String) (a b : DataCivil)
    (hya : 100 ≤ a.ano) (hyb : 100 ≤ b.ano) (hle : diaDe a ≤ diaDe b)
    (h : meiasNoitesRegulares f (diaDe a) (diaDe b)) :
    getProducaoCompletaPeriodoFuso f fuel servidor token (ymd a) (ymd b) =
      getProducaoCompletaPeriodo fuel servidor token (ymd a) (ymd b) := by
  unfold getProducaoCompletaPeriodoFuso getProducaoCompletaPeriodo
  rw [getDateRangeFuso_ymd f a b hya hyb hle h fuel]

/-- C20, counterexample: for the valid zero-padded dates `0999-05-01` and
`0999-05-03` and one fetched record dated `0999-05-02`, a valid zero-padded
date between the two, in a time zone three hours behind UTC whose midnights
are regular, `getProducaoCompletaPeriodo` returns no record: the dates of
`getDateRange` are `999-05-01`, `999-05-02` and `999-05-03`. -/
theorem C20_contraexemplo :
    (DataCivil.mk 999 5 1).valida ∧ (DataCivil.mk 999 5 2).valida ∧
    (DataCivil.mk 999 5 3).valida ∧
    (DataCivil.mk 999 5 1).ateh (DataCivil.mk 999 5 2) ∧
    (DataCivil.mk 999 5 2).ateh (DataCivil.mk 999 5 3) ∧
    ymd (DataCivil.mk 999 5 1) = "0999-05-01" ∧ ymd (DataCivil.mk 999 5 2) = "0999-05-02" ∧
    ymd (DataCivil.mk 999 5 3) = "0999-05-03" ∧
    meiasNoitesRegulares (fusoFixo (-10800000)) (diaDe (DataCivil.mk 999 5 1))
      (diaDe (DataCivil.mk 999 5 3)) ∧
    getDateRangeFuso (fusoFixo (-10800000)) 5 "0999-05-01" "0999-05-03" =
      some ["999-05-01", "999-05-02", "999-05-03"] ∧
    (getProducaoCompletaPeriodoFuso (fusoFixo (-10800000)) 5
      (servidorUmaPagina [registroVigencia 7 "0999-05-02"]) "t"
      "0999-05-01" "0999-05-03").2 = Desfecho.retorna [] := by
  refine ⟨by decide, by decide, by decide, by decide, by decide, by decide, by decide,
    by decide, by decide, by decide, by decide⟩

/-- C20, amended: for all valid zero-padded dates `a` not after `b`, with `a` in
the year 1000 or later, every host time zone in which the local midnight of
each day from `a` to `b` exists, lies in the range of `Date` and is earlier
than the local midnight of the day after, and every upstream whose pages 1 to
`k` answer successfully, `getProducaoCompletaPeriodo` returns (with enough
fuel) exactly the fetched records, in fetch order, whose `dataVigenciaInicial`
is present and whose part before the first `T` is a member of
`getDateRange(a, b)`; a valid zero-padded date is a member of that range
exactly when it lies between `a` and `b`. -/
theorem C20_producao_do_periodo (f : Fuso) (servidor : Requisicao → Resposta)
    (token : String)
    (a b : DataCivil) (ha : a.valida) (hb : b.valida) (hya : 1000 ≤ a.ano) (hab : a.ateh b)
    (hz : meiasNoitesRegulares f (diaDe a) (diaDe b))
    (k : Nat)
    (hp : paginasOk servidor (reqProducao token "dataVigenciaInicial" (ymd a)
      (dataFinalParaAPI (ymd a) (ymd b))) k) :
    ∃ (f0 : Nat) (datas : List String) (p : Registro → Bool),
      (∀ r, p r = true ↔
        ∃ s pre, r.dataVigenciaInicial = some s ∧ parteAntesDoT s pre ∧ pre ∈ datas) ∧
      (∀ c : DataCivil, c.valida → (ymd c ∈ datas ↔ a.ateh c ∧ c.ateh b)) ∧
      ∀ fuel, f0 ≤ fuel →
        getDateRangeFuso f fuel (ymd a) (ymd b) = some datas ∧
        (getProducaoCompletaPeriodoFuso f fuel servidor token (ymd a) (ymd b)).2 =
          Desfecho.retorna ((acumulado servidor (reqProducao token "dataVigenciaInicial" (ymd a)
            (dataFinalParaAPI (ymd a) (ymd b))) k).filter p) := by
  obtain ⟨n, -, hn, hr⟩ := getDateRange_ymd a b ha hb hya hab
  have hle := (diaDe_le_iff a b ha hb).mp hab
  have hyb : 1000 ≤ b.ano := by
    have := YearFromDay_diaDe_add a ha n
    rw [← hn, (fields_diaDe b hb).1] at this
    omega
  have hne : "" ∉ (List.range (n + 1)).map (fun i => ymd (diaSeguinte^[i] a)) := by
    simp only [List.mem_map, List.mem_range, not_exists, not_and]
    intro i _ h
    exact ymd_ne_empty _ h
  obtain ⟨p, hp1, hp2⟩ := filtrarPeriodo_eq _ hne
    (acumulado servidor (reqProducao token "dataVigenciaInicial" (ymd a)
      (dataFinalParaAPI (ymd a) (ymd b))) k)
  refine ⟨max (n + 2) k, _, p, hp1, ?_, ?_⟩
  · intro c hc
    exact ymd_mem_range a b c ha hb hc n hn
  · intro fuel hf
    have hd : getDateRangeFuso f fuel (ymd a) (ymd b) =
        some ((List.range (n + 1)).map (fun i => ymd (diaSeguinte^[i] a))) := by
      rw [getDateRangeFuso_ymd f a b (by omega) (by omega) hle hz fuel]
      exact hr fuel (le_trans (le_max_left _ _) hf)
    refine ⟨hd, ?_⟩
    unfold getProducaoCompletaPeriodoFuso
    simp only
    rw [buscarPaginas_paginasOk servidor _ _ k hp fuel (le_trans (le_max_right _ _) hf)]
    simp only
    rw [hd]
    simp only
    rw [hp2]

/-- Witness of C20 from 2024-04-29 to 2024-05-02, in a time zone three hours
behind UTC, with one page of three records, one of them outside the period. -/
theorem C20_producao_do_periodo_witness :
    (DataCivil.mk 2024 4 29).valida ∧ (DataCivil.mk 2024 5 2).valida ∧
    1000 ≤ (DataCivil.mk 2024 4 29).ano ∧
    (DataCivil.mk 2024 4 29).ateh (DataCivil.mk 2024 5 2) ∧
    meiasNoitesRegulares (fusoFixo (-10800000)) (diaDe (DataCivil.mk 2024 4 29))
      (diaDe (DataCivil.mk 2024 5 2)) ∧
    paginasOk
      (servidorUmaPagina [registroVigencia 1 "2024-05-01T10:00:00", registroVigencia 2 "2024-05-03",
        registroVigencia 3 "2024-04-29"])
      (reqProducao "t" "dataVigenciaInicial" (ymd (DataCivil.mk 2024 4 29))
        (dataFinalParaAPI (ymd (DataCivil.mk 2024 4 29)) (ymd (DataCivil.mk 2024 5 2)))) 1 ∧
    (∃ (f0 : Nat) (datas : List String) (p : Registro → Bool),
      (∀ r, p r = true ↔
        ∃ s pre, r.dataVigenciaInicial = some s ∧ parteAntesDoT s pre ∧ pre ∈ datas) ∧
      (∀ c : DataCivil, c.valida →
        (ymd c ∈ datas ↔ (DataCivil.mk 2024 4 29).ateh c ∧ c.ateh (DataCivil.mk 2024 5 2))) ∧
      ∀ fuel, f0 ≤ fuel →
        getDateRangeFuso (fusoFixo (-10800000)) fuel (ymd (DataCivil.mk 2024 4 29))
            (ymd (DataCivil.mk 2024 5 2)) =
          some datas ∧
        (getProducaoCompletaPeriodoFuso (fusoFixo (-10800000)) fuel
          (servidorUmaPagina [registroVigencia 1 "2024-05-01T10:00:00",
            registroVigencia 2 "2024-05-03", registroVigencia 3 "2024-04-29"]) "t"
          (ymd (DataCivil.mk 2024 4 29)) (ymd (DataCivil.mk 2024 5 2))).2 =
          Desfecho.retorna ((acumulado
            (servidorUmaPagina [registroVigencia 1 "2024-05-01T10:00:00",
              registroVigencia 2 "2024-05-03", registroVigencia 3 "2024-04-29"])
            (reqProducao "t" "dataVigenciaInicial" (ymd (DataCivil.mk 2024 4 29))
              (dataFinalParaAPI (ymd (DataCivil.mk 2024 4 29)) (ymd (DataCivil.mk 2024 5 2))))
            1).filter p)) ∧
    (getProducaoCompletaPeriodoFuso (fusoFixo (-10800000)) 6
      (servidorUmaPagina [registroVigencia 1 "2024-05-01T10:00:00",
        registroVigencia 2 "2024-05-03", registroVigencia 3 "2024-04-29"]) "t"
      "2024-04-29" "2024-05-02").2 =
      Desfecho.retorna [registroVigencia 1 "2024-05-01T10:00:00", registroVigencia 3 "2024-04-29"] :=
  ⟨by decide, by decide, by decide, by decide, by decide, paginasOk_servidorUmaPagina _ _,
    C20_producao_do_periodo (fusoFixo (-10800000)) _ "t" (DataCivil.mk 2024 4 29)
      (DataCivil.mk 2024 5 2) (by decide)
      (by decide) (by decide) (by decide) (by decide) 1 (paginasOk_servidorUmaPagina _ _),
    by decide⟩

/-! ## C21: the day fetches fetch, then filter on one field -/

/-- When the paginated loop returns, it has requested consecutive pages that all
answered successfully, and it returns the accumulator extended by their `data`
arrays in order. -/
theorem buscarPaginas_retorna (servidor : Requisicao → Resposta) (montar : Nat → Requisicao)
    (mensagem : String) (fuel : Nat) :
    ∀ (page : Nat) (acc : List Registro) (log : List Requisicao) (xs : List Registro),
      (buscarPaginas servidor montar mensagem fuel page acc log).2 = Desfecho.retorna xs →
      ∃ j, (buscarPaginas servidor montar mensagem fuel page acc log).1 =
          log ++ (List.range j).map (fun i => montar (page + i)) ∧
        xs = acc ++
          ((List.range j).map (fun i => (servidor (montar (page + i))).data.getD [])).flatten ∧
        ∀ i, i < j → (servidor (montar (page + i))).ok = true := by
  induction fuel with
  | zero =>
    intro page acc log xs h
    simp [buscarPaginas] at h
  | succ f ih =>
    intro page acc log xs h
    have r1 : List.range 1 = [0] := rfl
    cases hok : (servidor (montar page)).ok with
    | false =>
      unfold buscarPaginas at h
      simp [hok] at h
    | true =>
      cases hnx : (servidor (montar page)).next with
      | none =>
        have e : buscarPaginas servidor montar mensagem (f + 1) page acc log =
            (log ++ [montar page],
              Desfecho.retorna (acc ++ (servidor (montar page)).data.getD [])) := by
          conv_lhs => rw [buscarPaginas]
          simp [hok, hnx]
        rw [e] at h ⊢
        simp only [Desfecho.retorna.injEq] at h
        refine ⟨1, by simp [r1], by simp [r1, h], ?_⟩
        intro i hi
        have h0 : i = 0 := by omega
        subst h0
        simpa using hok
      | some v =>
        have e : buscarPaginas servidor montar mensagem (f + 1) page acc log =
            buscarPaginas servidor montar mensagem f (page + 1)
              (acc ++ (servidor (montar page)).data.getD []) (log ++ [montar page]) := by
          conv_lhs => rw [buscarPaginas]
          simp [hok, hnx]
        rw [e] at h ⊢
        obtain ⟨j, hj1, hj2, hj3⟩ := ih (page + 1)
          (acc ++ (servidor (montar page)).data.getD []) (log ++ [montar page]) xs h
        refine ⟨j + 1, ?_, ?_, ?_⟩
        · rw [hj1, range_map_shift montar page j]
          simp
        · rw [hj2, range_map_shift (fun p => (servidor (montar p)).data.getD []) page j]
          simp
        · intro i hi
          rcases Nat.eq_zero_or_pos i with h0 | hpos
          · subst h0
            simpa using hok
          · have := hj3 (i - 1) (by omega)
            have e2 : page + 1 + (i - 1) = page + i := by omega
            rw [e2] at this
            exact this

theorem aposBusca_log (filtro : List Registro → List Registro)
    (r : List Requisicao × Desfecho (List Registro)) : (aposBusca filtro r).1 = r.1 := by
  obtain ⟨log, d⟩ := r
  cases d <;> rfl

theorem aposBusca_retorna (filtro : List Registro → List Registro)
    (r : List Requisicao × Desfecho (List Registro)) (xs : List Registro)
    (h : (aposBusca filtro r).2 = Desfecho.retorna xs) :
    ∃ ys, r.2 = Desfecho.retorna ys ∧ xs = filtro ys := by
  obtain ⟨log, d⟩ := r
  cases d with
  | retorna ys =>
    simp only [aposBusca, Desfecho.retorna.injEq] at h
    exact ⟨ys, rfl, h.symm⟩
  | lanca e => simp [aposBusca] at h
  | semCombustivel => simp [aposBusca] at h

/-- A day fetch as a whole: every request it sends is built by `montar`; what it
returns is its filter applied to the `data` arrays of the pages it requested,
in order; and on an upstream whose pages 1 to `k` succeed it does return. -/
theorem aposBusca_buscarPaginas (servidor : Requisicao → Resposta)
    (montar : Nat → Requisicao) (mensagem : String)
    (filtro : List Registro → List Registro) (fuel : Nat) :
    (∀ req ∈ (aposBusca filtro (buscarPaginas servidor montar mensagem fuel 1 [] [])).1,
      ∃ i, req = montar i) ∧
    (∀ xs, (aposBusca filtro (buscarPaginas servidor montar mensagem fuel 1 [] [])).2 =
        Desfecho.retorna xs →
      xs = filtro
        (((aposBusca filtro (buscarPaginas servidor montar mensagem fuel 1 [] [])).1.map
          (fun req => (servidor req).data.getD [])).flatten)) ∧
    (∀ k, paginasOk servidor montar k → k ≤ fuel →
      aposBusca filtro (buscarPaginas servidor montar mensagem fuel 1 [] []) =
        ((List.range k).map (fun i => montar (i + 1)),
          Desfecho.retorna (filtro (acumulado servidor montar k)))) := by
  refine ⟨?_, ?_, ?_⟩
  · intro req hreq
    rw [aposBusca_log] at hreq
    obtain ⟨j, -, -, hj⟩ := buscarPaginas_log servidor montar mensagem fuel 1 [] []
    rw [hj] at hreq
    simp only [List.nil_append, List.mem_map, List.mem_range] at hreq
    obtain ⟨i, -, rfl⟩ := hreq
    exact ⟨1 + i, rfl⟩
  · intro xs h
    obtain ⟨ys, hys, rfl⟩ := aposBusca_retorna _ _ _ h
    obtain ⟨j, hj1, hj2, -⟩ := buscarPaginas_retorna servidor montar mensagem fuel 1 [] [] ys hys
    rw [aposBusca_log, hj1, hj2]
    simp only [List.nil_append, List.map_map]
    rfl
  · intro k hk hf
    rw [buscarPaginas_paginasOk servidor montar mensagem k hk fuel hf]
    rfl

/-- C21: each of the three day fetches sends only requests that carry
`dataInicial` = the target date, `dataFinal` = `formatDate(0)` and `tipoData` =
its own date field (`dataVigenciaInicial`, `dataEmitida`, `dataAviso`); what it
returns is the date filter for the target date, on that same field, applied to
the concatenation in order of the `data` arrays of the pages it requested; and
on an upstream whose pages 1 to `k` succeed it returns that list for the pages
1 to `k`. -/
theorem C21_adaptadores_do_dia (servidor : Requisicao → Resposta) (hoje : Nat)
    (token d : String) (fuel : Nat) :
    ((∀ req ∈ (getTransmissoesDiaAnterior fuel servidor hoje token d).1,
        req.dataInicial = d ∧ req.dataFinal = formatDate hoje 0 ∧
          req.tipoData = "dataVigenciaInicial") ∧
      (∀ xs, (getTransmissoesDiaAnterior fuel servidor hoje token d).2 = Desfecho.retorna xs →
        xs = (((getTransmissoesDiaAnterior fuel servidor hoje token d).1.map
          (fun req => (servidor req).data.getD [])).flatten).filter
            (fun r => campoNoDia d r.dataVigenciaInicial)) ∧
      (∀ k, paginasOk servidor
          (reqProducao token "dataVigenciaInicial" d (formatDate hoje 0)) k → k ≤ fuel →
        (getTransmissoesDiaAnterior fuel servidor hoje token d).2 =
          Desfecho.retorna ((acumulado servidor
            (reqProducao token "dataVigenciaInicial" d (formatDate hoje 0)) k).filter
              (fun r => campoNoDia d r.dataVigenciaInicial)))) ∧
    ((∀ req ∈ (getApolicesEmitidasDiaAnterior fuel servidor hoje token d).1,
        req.dataInicial = d ∧ req.dataFinal = formatDate hoje 0 ∧
          req.tipoData = "dataEmitida") ∧
      (∀ xs, (getApolicesEmitidasDiaAnterior fuel servidor hoje token d).2 =
          Desfecho.retorna xs →
        xs = (((getApolicesEmitidasDiaAnterior fuel servidor hoje token d).1.map
          (fun req => (servidor req).data.getD [])).flatten).filter
            (fun r => campoNoDia d r.dataEmitida)) ∧
      (∀ k, paginasOk servidor (reqProducao token "dataEmitida" d (formatDate hoje 0)) k →
        k ≤ fuel →
        (getApolicesEmitidasDiaAnterior fuel servidor hoje token d).2 =
          Desfecho.retorna ((acumulado servidor
            (reqProducao token "dataEmitida" d (formatDate hoje 0)) k).filter
              (fun r => campoNoDia d r.dataEmitida)))) ∧
    ((∀ req ∈ (getSinistrosAbertosDiaAnterior fuel servidor hoje token d).1,
        req.dataInicial = d ∧ req.dataFinal = formatDate hoje 0 ∧
          req.tipoData = "dataAviso") ∧
      (∀ xs, (getSinistrosAbertosDiaAnterior fuel servidor hoje token d).2 =
          Desfecho.retorna xs →
        xs = (((getSinistrosAbertosDiaAnterior fuel servidor hoje token d).1.map
          (fun req => (servidor req).data.getD [])).flatten).filter
            (fun r => campoNoDia d r.dataAviso)) ∧
      (∀ k, paginasOk servidor (reqSinistros token d (formatDate hoje 0)) k → k ≤ fuel →
        (getSinistrosAbertosDiaAnterior fuel servidor hoje token d).2 =
          Desfecho.retorna ((acumulado servidor
            (reqSinistros token d (formatDate hoje 0)) k).filter
              (fun r => campoNoDia d r.dataAviso)))) := by
  refine ⟨?_, ?_, ?_⟩
  · obtain ⟨h1, h2, h3⟩ := aposBusca_buscarPaginas servidor
      (reqProducao token "dataVigenciaInicial" d (formatDate hoje 0))
      "Erro na requisição de transmissões: " (filtrarPorDiaAnterior d) fuel
    refine ⟨?_, h2, ?_⟩
    · intro req hreq
      obtain ⟨i, rfl⟩ := h1 req hreq
      exact ⟨rfl, rfl, rfl⟩
    · intro k hk hf
      have := h3 k hk hf
      unfold getTransmissoesDiaAnterior
      simp only
      rw [this]
      rfl
  · obtain ⟨h1, h2, h3⟩ := aposBusca_buscarPaginas servidor
      (reqProducao token "dataEmitida" d (formatDate hoje 0))
      "Erro na requisição de apólices emitidas: " (filtrarPorDataEmitidaDiaAnterior d) fuel
    refine ⟨?_, h2, ?_⟩
    · intro req hreq
      obtain ⟨i, rfl⟩ := h1 req hreq
      exact ⟨rfl, rfl, rfl⟩
    · intro k hk hf
      have := h3 k hk hf
      unfold getApolicesEmitidasDiaAnterior
      simp only
      rw [this]
      rfl
  · obtain ⟨h1, h2, h3⟩ := aposBusca_buscarPaginas servidor
      (reqSinistros token d (formatDate hoje 0))
      "Erro na requisição de sinistros: " (filtrarSinistrosPorDiaAnterior d) fuel
    refine ⟨?_, h2, ?_⟩
    · intro req hreq
      obtain ⟨i, rfl⟩ := h1 req hreq
      exact ⟨rfl, rfl, rfl⟩
    · intro k hk hf
      have := h3 k hk hf
      unfold getSinistrosAbertosDiaAnterior
      simp only
      rw [this]
      rfl

/-- Witness of C21 on an upstream of two pages: the transmissions fetch for
2024-04-30 returns the record of that day of page 1. -/
theorem C21_adaptadores_do_dia_witness :
    paginasOk
      (servidorDuasPaginas [registroVigencia 1 "2024-04-30T10:00:00", registroVigencia 2 "2024-05-01"])
      (reqProducao "t" "dataVigenciaInicial" "2024-04-30" (formatDate 19844 0)) 2 ∧
    (getTransmissoesDiaAnterior 2
      (servidorDuasPaginas [registroVigencia 1 "2024-04-30T10:00:00", registroVigencia 2 "2024-05-01"])
      19844 "t" "2024-04-30").2 =
      Desfecho.retorna ((acumulado
        (servidorDuasPaginas
          [registroVigencia 1 "2024-04-30T10:00:00", registroVigencia 2 "2024-05-01"])
        (reqProducao "t" "dataVigenciaInicial" "2024-04-30" (formatDate 19844 0)) 2).filter
          (fun r => campoNoDia "2024-04-30" r.dataVigenciaInicial)) ∧
    (getTransmissoesDiaAnterior 2
      (servidorDuasPaginas [registroVigencia 1 "2024-04-30T10:00:00", registroVigencia 2 "2024-05-01"])
      19844 "t" "2024-04-30").1.map
        (fun req => (req.tipoData, req.dataInicial, req.dataFinal)) =
      [("dataVigenciaInicial", "2024-04-30", "2024-05-01"),
        ("dataVigenciaInicial", "2024-04-30", "2024-05-01")] :=
  ⟨paginasOk_servidorDuasPaginas _ _ (fun _ => rfl),
    (C21_adaptadores_do_dia
      (servidorDuasPaginas
        [registroVigencia 1 "2024-04-30T10:00:00", registroVigencia 2 "2024-05-01"])
      19844 "t" "2024-04-30" 2).1.2.2 2
      (paginasOk_servidorDuasPaginas _ _ (fun _ => rfl)) (le_refl _),
    by decide⟩

/-! ## C25: filtering never alters a record -/

/-- C25: for every list of records, the output of each of the three date
filters and of the period filter of `getProducaoCompletaPeriodo` is a
subsequence of the input (the same records, unchanged, in their original
relative order), and filtering the output again with the same target leaves it
unchanged. -/
theorem C25_filtros_nao_alteram (d : String) (datas : List String) (rs : List Registro) :
    ((filtrarPorDiaAnterior d rs).Sublist rs ∧
      filtrarPorDiaAnterior d (filtrarPorDiaAnterior d rs) = filtrarPorDiaAnterior d rs) ∧
    ((filtrarPorDataEmitidaDiaAnterior d rs).Sublist rs ∧
      filtrarPorDataEmitidaDiaAnterior d (filtrarPorDataEmitidaDiaAnterior d rs) =
        filtrarPorDataEmitidaDiaAnterior d rs) ∧
    ((filtrarSinistrosPorDiaAnterior d rs).Sublist rs ∧
      filtrarSinistrosPorDiaAnterior d (filtrarSinistrosPorDiaAnterior d rs) =
        filtrarSinistrosPorDiaAnterior d rs) ∧
    ((filtrarPeriodo datas rs).Sublist rs ∧
      filtrarPeriodo datas (filtrarPeriodo datas rs) = filtrarPeriodo datas rs) := by
  refine ⟨⟨?_, ?_⟩, ⟨?_, ?_⟩, ⟨?_, ?_⟩, ⟨?_, ?_⟩⟩
  · exact List.filter_sublist rs
  · unfold filtrarPorDiaAnterior
    rw [List.filter_filter]
    simp only [Bool.and_self]
  · exact List.filter_sublist rs
  · unfold filtrarPorDataEmitidaDiaAnterior
    rw [List.filter_filter]
    simp only [Bool.and_self]
  · exact List.filter_sublist rs
  · unfold filtrarSinistrosPorDiaAnterior
    rw [List.filter_filter]
    simp only [Bool.and_self]
  · exact List.filter_sublist rs
  · unfold filtrarPeriodo
    rw [List.filter_filter]
    simp only [Bool.and_self]

/-! ## C30: the weekly period on a Saturday and on a Monday -/

/-- The period of `getLastWeekRange()` by day numbers: the Monday of the
current week is `hoje + diff`, where `diff` is -6 on a Sunday and `1 - dow`
otherwise; the period starts 7 days before it and ends 4 days later. -/
theorem getLastWeekRange_eq (hoje : Nat) :
    getLastWeekRange hoje =
      { inicio := formatYMD
          ⟨(hoje : Int) + (if WeekDay hoje = 0 then -6 else 1 - WeekDay hoje) - 7⟩,
        fim := formatYMD
          ⟨(hoje : Int) + (if WeekDay hoje = 0 then -6 else 1 - WeekDay hoje) - 7 + 4⟩ } := by
  have hy := YearFromDay_nat hoje
  unfold getLastWeekRange
  simp only [JSDate.getFullYear, JSDate.getMonth]
  have e0 : (JSDate.mk (hoje : Int)).getDate = DateFromDay hoje := rfl
  rw [e0, ofFields_fields _ (by omega)]
  simp only [JSDate.getDay, sub_eq_add_neg, setDate_add]

/-- C30: when today is a Saturday, `getLastWeekRange()` returns as `inicio` the
zero-padded date 12 days before today, a Monday, and as `fim` the date 8 days
before today, a Friday, that is the Monday and the Friday one week before the
Monday-to-Friday that ended yesterday; when today is a Monday it returns the
dates 7 days and 3 days before today. -/
theorem C30_semana_no_dia_agendado (hoje : Nat) :
    (WeekDay hoje = 6 →
      getLastWeekRange hoje =
        { inicio := ymd (civilDe ((hoje : Int) - 12)), fim := ymd (civilDe ((hoje : Int) - 8)) } ∧
      diaSeguinte^[12] (civilDe ((hoje : Int) - 12)) = civilDe hoje ∧
      diaSeguinte^[8] (civilDe ((hoje : Int) - 8)) = civilDe hoje ∧
      WeekDay ((hoje : Int) - 12) = 1 ∧ WeekDay ((hoje : Int) - 8) = 5 ∧
      WeekDay ((hoje : Int) - 1) = 5 ∧
      (hoje : Int) - 12 = ((hoje : Int) - 1 - 4) - 7 ∧ (hoje : Int) - 8 = ((hoje : Int) - 1) - 7) ∧
    (WeekDay hoje = 1 →
      getLastWeekRange hoje =
        { inicio := ymd (civilDe ((hoje : Int) - 7)), fim := ymd (civilDe ((hoje : Int) - 3)) } ∧
      diaSeguinte^[7] (civilDe ((hoje : Int) - 7)) = civilDe hoje ∧
      diaSeguinte^[3] (civilDe ((hoje : Int) - 3)) = civilDe hoje ∧
      WeekDay ((hoje : Int) - 7) = 1 ∧ WeekDay ((hoje : Int) - 3) = 5) := by
  have hyear : ∀ k : Int, k ≤ 13 → 1969 ≤ YearFromDay ((hoje : Int) - k) :=
    fun k hk => YearFromDay_ge_of_ge _ (by omega)
  have hback : ∀ k : Nat, k ≤ 13 →
      diaSeguinte^[k] (civilDe ((hoje : Int) - k)) = civilDe hoje := by
    intro k hk
    have := civilDe_add ((hoje : Int) - k) (by have := hyear k (by omega); omega) k
    rw [← this]
    congr 1
    omega
  constructor
  · intro h
    have hne : ¬ WeekDay (hoje : Int) = 0 := by omega
    refine ⟨?_, hback 12 (by omega), hback 8 (by omega), ?_, ?_, ?_, by ring, by ring⟩
    · rw [getLastWeekRange_eq, if_neg hne, h,
        ← formatYMD_eq_ymd _ (by have := hyear 12 (by omega); omega),
        ← formatYMD_eq_ymd _ (by have := hyear 8 (by omega); omega)]
      have e1 : (hoje : Int) + (1 - 6) - 7 = (hoje : Int) - 12 := by ring
      have e2 : (hoje : Int) - 12 + 4 = (hoje : Int) - 8 := by ring
      rw [e1, e2]
    · unfold WeekDay at h ⊢
      omega
    · unfold WeekDay at h ⊢
      omega
    · unfold WeekDay at h ⊢
      omega
  · intro h
    have hne : ¬ WeekDay (hoje : Int) = 0 := by omega
    refine ⟨?_, hback 7 (by omega), hback 3 (by omega), ?_, ?_⟩
    · rw [getLastWeekRange_eq, if_neg hne, h,
        ← formatYMD_eq_ymd _ (by have := hyear 7 (by omega); omega),
        ← formatYMD_eq_ymd _ (by have := hyear 3 (by omega); omega)]
      have e1 : (hoje : Int) + (1 - 1) - 7 = (hoje : Int) - 7 := by ring
      have e2 : (hoje : Int) - 7 + 4 = (hoje : Int) - 3 := by ring
      rw [e1, e2]
    · unfold WeekDay at h ⊢
      omega
    · unfold WeekDay at h ⊢
      omega

/-- Witness of C30 on Saturday 2024-05-04 (day 19847) and Monday 2024-05-06
(day 19849). -/
theorem C30_semana_no_dia_agendado_witness :
    WeekDay ((19847 : Nat) : Int) = 6 ∧ WeekDay ((19849 : Nat) : Int) = 1 ∧
    formatDate 19847 0 = "2024-05-04" ∧ formatDate 19849 0 = "2024-05-06" ∧
    getLastWeekRange 19847 = { inicio := "2024-04-22", fim := "2024-04-26" } ∧
    getLastWeekRange 19849 = { inicio := "2024-04-29", fim := "2024-05-03" } ∧
    (getLastWeekRange 19847 =
        { inicio := ymd (civilDe (((19847 : Nat) : Int) - 12)),
          fim := ymd (civilDe (((19847 : Nat) : Int) - 8)) } ∧
      diaSeguinte^[12] (civilDe (((19847 : Nat) : Int) - 12)) = civilDe ((19847 : Nat) : Int) ∧
      diaSeguinte^[8] (civilDe (((19847 : Nat) : Int) - 8)) = civilDe ((19847 : Nat) : Int) ∧
      WeekDay (((19847 : Nat) : Int) - 12) = 1 ∧ WeekDay (((19847 : Nat) : Int) - 8) = 5 ∧
      WeekDay (((19847 : Nat) : Int) - 1) = 5 ∧
      ((19847 : Nat) : Int) - 12 = (((19847 : Nat) : Int) - 1 - 4) - 7 ∧
      ((19847 : Nat) : Int) - 8 = (((19847 : Nat) : Int) - 1) - 7) ∧
    (getLastWeekRange 19849 =
        { inicio := ymd (civilDe (((19849 : Nat) : Int) - 7)),
          fim := ymd (civilDe (((19849 : Nat) : Int) - 3)) } ∧
      diaSeguinte^[7] (civilDe (((19849 : Nat) : Int) - 7)) = civilDe ((19849 : Nat) : Int) ∧
      diaSeguinte^[3] (civilDe (((19849 : Nat) : Int) - 3)) = civilDe ((19849 : Nat) : Int) ∧
      WeekDay (((19849 : Nat) : Int) - 7) = 1 ∧ WeekDay (((19849 : Nat) : Int) - 3) = 5) :=
  ⟨by decide, by decide, by decide, by decide, by decide, by decide,
    (C30_semana_no_dia_agendado 19847).1 (by decide),
    (C30_semana_no_dia_agendado 19849).2 (by decide)⟩

/-! ## C27 and C29: the scan never raises and ends within the announced pages -/

/-- With a token that is set, a page index `m0` after which the scan does not
go on, and fuel beyond it: the scan ends at the first such index `m`, having
requested the pages 0 to `m`. -/
theorem getAssistencias_termina (fuel : Nat) (tok : String) (htok : tok ≠ "")
    (feed : RequisicaoChamados → RespostaChamados) (alvo : String) (m0 : Nat)
    (hstop : paraEm feed tok (abertoStartDe alvo) alvo m0 = true) (hf : m0 < fuel) :
    ∃ m, m ≤ m0 ∧
      (∀ i, i < m → paraEm feed tok (abertoStartDe alvo) alvo i = false) ∧
      paraEm feed tok (abertoStartDe alvo) alvo m = true ∧
      getAssistenciasUrgentesDiaAnterior fuel (some tok) feed alvo =
        ((List.range (m + 1)).map (fun j => reqChamados tok (abertoStartDe alvo) j),
          Desfecho.retorna (resultadoEm feed tok (abertoStartDe alvo) alvo m)) := by
  rcases getAssistencias_casos fuel tok htok feed alvo with ⟨m, -, hm2, hm3, hm⟩ | ⟨hn, -⟩
  · refine ⟨m, ?_, hm2, hm3, hm⟩
    by_contra hlt
    have := hm2 m0 (by omega)
    rw [hstop] at this
    exact absurd this (by simp)
  · have := hn m0 hf
    rw [hstop] at this
    exact absurd this (by simp)

/-- The scan does not go on after a request that fails, raises, or is answered
by a page without `totalPage` or with a `totalPage` below the next index. -/
theorem paraEm_of_fim (feed : RequisicaoChamados → RespostaChamados)
    (tok abS alvo : String) (i : Nat)
    (h : feed (reqChamados tok abS i) = RespostaChamados.lancou ∨
      (∃ st, feed (reqChamados tok abS i) = RespostaChamados.naoOk st) ∨
      (∃ data, feed (reqChamados tok abS i) = RespostaChamados.pagina data none) ∨
      (∃ data n, feed (reqChamados tok abS i) = RespostaChamados.pagina data (some n) ∧
        n ≤ i)) :
    paraEm feed tok abS alvo i = true := by
  unfold paraEm
  rcases h with h | ⟨st, h⟩ | ⟨data, h⟩ | ⟨data, n, h, hn⟩
  · rw [h]
  · rw [h]
  · rw [h]
    simp
  · rw [h]
    simp only [Option.getD_some, Bool.or_eq_true, decide_eq_true_eq]
    right
    omega

theorem reqChamados_mem_range (tok abS : String) (i k : Nat)
    (h : reqChamados tok abS i ∈ (List.range k).map (fun j => reqChamados tok abS j)) :
    i < k := by
  simp only [List.mem_map, List.mem_range] at h
  obtain ⟨j, hj, e⟩ := h
  have : j = i := congrArg RequisicaoChamados.start e
  omega

/-- C27: for every target date string, every token and every feed, the scan
never ends by throwing; it returns a list as soon as some request fails,
raises, or is answered by a page without `totalPage` or with a `totalPage`
below the next index (with fuel beyond that request); without a token it
returns the empty list; and when a request raised an exception the list
returned is empty. Neither a target that is not a date nor tickets without
`titulo`, `aberto` or `id` make it throw. -/
theorem C27_varredura_nunca_lanca (fuel : Nat) (tok : Option String)
    (feed : RequisicaoChamados → RespostaChamados) (alvo : String) :
    (∀ e, (getAssistenciasUrgentesDiaAnterior fuel tok feed alvo).2 ≠ Desfecho.lanca e) ∧
    (∀ t m0, tok = some t → m0 < fuel →
      (feed (reqChamados t (abertoStartDe alvo) m0) = RespostaChamados.lancou ∨
        (∃ st, feed (reqChamados t (abertoStartDe alvo) m0) = RespostaChamados.naoOk st) ∨
        (∃ data, feed (reqChamados t (abertoStartDe alvo) m0) =
          RespostaChamados.pagina data none) ∨
        (∃ data n, feed (reqChamados t (abertoStartDe alvo) m0) =
          RespostaChamados.pagina data (some n) ∧ n ≤ m0)) →
      ∃ xs, (getAssistenciasUrgentesDiaAnterior fuel tok feed alvo).2 = Desfecho.retorna xs) ∧
    (jsFalsy tok = true →
      (getAssistenciasUrgentesDiaAnterior fuel tok feed alvo).2 = Desfecho.retorna []) ∧
    (∀ req ∈ (getAssistenciasUrgentesDiaAnterior fuel tok feed alvo).1,
      feed req = RespostaChamados.lancou →
      (getAssistenciasUrgentesDiaAnterior fuel tok feed alvo).2 = Desfecho.retorna []) ∧
    (getAssistenciasUrgentesDiaAnterior 3 (some "k") (fun _ => RespostaChamados.lancou) "ontem" =
        ([reqChamados "k" "NaN-NaN-NaNT00:00:00Z" 0], Desfecho.retorna []) ∧
      (getAssistenciasUrgentesDiaAnterior 3 (some "k")
        (fun _ => RespostaChamados.pagina
          (some [chamadoSoTitulo "Solicitação: Assistência Urgente", Chamado.mk none none none])
          none) "2024-05-01").2 = Desfecho.retorna [] ∧
      (getAssistenciasUrgentesDiaAnterior 3 (some "k")
        (fun _ => RespostaChamados.pagina none none) "2024-05-01").2 = Desfecho.retorna []) := by
  refine ⟨?_, ?_, ?_, ?_, by decide, by decide, by decide⟩
  · intro e
    rcases jsFalsy_cases tok with hfal | ⟨t, rfl, ht⟩
    · rw [getAssistencias_sem_token fuel tok hfal]
      simp
    · rcases getAssistencias_casos fuel t ht feed alvo with ⟨m, -, -, -, hm⟩ | ⟨-, hn⟩
      · rw [hm]; simp
      · rw [hn]; simp
  · intro t m0 htok hf hfim
    subst htok
    by_cases ht : t = ""
    · subst ht
      rw [getAssistencias_sem_token fuel (some "") (by decide)]
      exact ⟨[], rfl⟩
    · obtain ⟨m, -, -, -, hm⟩ := getAssistencias_termina fuel t ht feed alvo m0
        (paraEm_of_fim feed t _ alvo m0 hfim) hf
      rw [hm]
      exact ⟨_, rfl⟩
  · intro hfal
    rw [getAssistencias_sem_token fuel tok hfal]
  · intro req hreq hl
    rcases jsFalsy_cases tok with hfal | ⟨t, rfl, ht⟩
    · rw [getAssistencias_sem_token fuel tok hfal]
    · rcases getAssistencias_casos fuel t ht feed alvo with ⟨m, -, hm2, -, hm⟩ | ⟨hn1, hn⟩
      · rw [hm] at hreq ⊢
        simp only [List.mem_map, List.mem_range] at hreq
        obtain ⟨j, hj, rfl⟩ := hreq
        have hpj : paraEm feed t (abertoStartDe alvo) alvo j = true :=
          paraEm_of_fim feed t _ alvo j (Or.inl hl)
        have hjm : j = m := by
          by_contra hne
          have := hm2 j (by omega)
          rw [hpj] at this
          exact absurd this (by simp)
        subst hjm
        simp only [Desfecho.retorna.injEq]
        unfold resultadoEm
        rw [hl]
      · rw [hn] at hreq
        simp only [List.mem_map, List.mem_range] at hreq
        obtain ⟨j, hj, rfl⟩ := hreq
        have hpj : paraEm feed t (abertoStartDe alvo) alvo j = true :=
          paraEm_of_fim feed t _ alvo j (Or.inl hl)
        have := hn1 j hj
        rw [hpj] at this
        exact absurd this (by simp)

/-- C29: with a token that is set, on a feed whose every successful page
announces the same `totalPage = N`, the scan (with fuel beyond `N`) returns
after requesting the consecutive indices `start = 0, 1, ..., m` for some `m ≤
N`, hence at most `N + 1` requests; and on any feed, a requested page that
carries no `totalPage` is the last one requested. -/
theorem C29_termina_no_total (fuel : Nat) (tok : String) (htok : tok ≠ "")
    (feed : RequisicaoChamados → RespostaChamados) (alvo : String) :
    (∀ N, (∀ i data total, feed (reqChamados tok (abertoStartDe alvo) i) =
          RespostaChamados.pagina data total → total = some N) →
      N < fuel →
      ∃ m, m ≤ N ∧
        (getAssistenciasUrgentesDiaAnterior fuel (some tok) feed alvo).1.map
          (fun req => req.start) = List.range (m + 1) ∧
        (getAssistenciasUrgentesDiaAnterior fuel (some tok) feed alvo).1.length ≤ N + 1 ∧
        ∃ xs, (getAssistenciasUrgentesDiaAnterior fuel (some tok) feed alvo).2 =
          Desfecho.retorna xs) ∧
    (∀ i data, feed (reqChamados tok (abertoStartDe alvo) i) =
        RespostaChamados.pagina data none →
      reqChamados tok (abertoStartDe alvo) i ∈
        (getAssistenciasUrgentesDiaAnterior fuel (some tok) feed alvo).1 →
      (getAssistenciasUrgentesDiaAnterior fuel (some tok) feed alvo).1.map
          (fun req => req.start) = List.range (i + 1) ∧
        ∃ xs, (getAssistenciasUrgentesDiaAnterior fuel (some tok) feed alvo).2 =
          Desfecho.retorna xs) := by
  have hstarts : ∀ k, ((List.range k).map
      (fun j => reqChamados tok (abertoStartDe alvo) j)).map (fun req => req.start) =
      List.range k := by
    intro k
    rw [List.map_map]
    exact List.map_id _
  constructor
  · intro N hN hf
    have hstop : paraEm feed tok (abertoStartDe alvo) alvo N = true := by
      cases hr : feed (reqChamados tok (abertoStartDe alvo) N) with
      | lancou => exact paraEm_of_fim feed tok _ alvo N (Or.inl hr)
      | naoOk st => exact paraEm_of_fim feed tok _ alvo N (Or.inr (Or.inl ⟨st, hr⟩))
      | pagina data total =>
        have := hN N data total hr
        subst this
        exact paraEm_of_fim feed tok _ alvo N (Or.inr (Or.inr (Or.inr ⟨data, N, hr, le_refl _⟩)))
    obtain ⟨m, hm1, -, -, hm⟩ := getAssistencias_termina fuel tok htok feed alvo N hstop hf
    refine ⟨m, hm1, ?_, ?_, ?_⟩
    · rw [hm]
      exact hstarts (m + 1)
    · rw [hm]
      simp only [List.length_map, List.length_range]
      omega
    · rw [hm]
      exact ⟨_, rfl⟩
  · intro i data hr hmem
    have hpi : paraEm feed tok (abertoStartDe alvo) alvo i = true :=
      paraEm_of_fim feed tok _ alvo i (Or.inr (Or.inr (Or.inl ⟨data, hr⟩)))
    rcases getAssistencias_casos fuel tok htok feed alvo with ⟨m, -, hm2, -, hm⟩ | ⟨hn1, hn⟩
    · rw [hm] at hmem ⊢
      have hi := reqChamados_mem_range tok _ i (m + 1) hmem
      have him : i = m := by
        by_contra hne
        have := hm2 i (by omega)
        rw [hpi] at this
        exact absurd this (by simp)
      subst him
      exact ⟨hstarts (i + 1), _, rfl⟩
    · rw [hn] at hmem
      have hi := reqChamados_mem_range tok _ i fuel hmem
      have := hn1 i hi
      rw [hpi] at this
      exact absurd this (by simp)

/-- Witness of C29 on the three-page example, whose `totalPage` is 3 on every
page: the indices 0, 1 and 2 are requested. -/
theorem C29_termina_no_total_witness :
    "k" ≠ "" ∧
    (∀ i data total, feedTresPaginas (reqChamados "k" (abertoStartDe "2024-05-01") i) =
      RespostaChamados.pagina data total → total = some 3) ∧
    3 < 10 ∧
    (∃ m, m ≤ 3 ∧
      (getAssistenciasUrgentesDiaAnterior 10 (some "k") feedTresPaginas "2024-05-01").1.map
        (fun req => req.start) = List.range (m + 1) ∧
      (getAssistenciasUrgentesDiaAnterior 10 (some "k") feedTresPaginas "2024-05-01").1.length ≤
        3 + 1 ∧
      ∃ xs, (getAssistenciasUrgentesDiaAnterior 10 (some "k") feedTresPaginas "2024-05-01").2 =
        Desfecho.retorna xs) ∧
    (getAssistenciasUrgentesDiaAnterior 10 (some "k")
      (fun _ => RespostaChamados.pagina (some [chamadoUrgente 1 "2024-05-01T08:00:00"]) none)
      "2024-05-01").1.map (fun req => req.start) = [0] :=
  have h3 : ∀ i data total, feedTresPaginas (reqChamados "k" (abertoStartDe "2024-05-01") i) =
      RespostaChamados.pagina data total → total = some 3 := by
    intro i data total h
    unfold feedTresPaginas at h
    split_ifs at h <;> simp only [RespostaChamados.pagina.injEq] at h <;> exact h.2.symm
  ⟨by decide, h3, by decide,
    (C29_termina_no_total 10 "k" (by decide) feedTresPaginas "2024-05-01").1 3 h3 (by decide),
    by decide⟩

/-! ## C26: the early stop on a feed in date order -/

theorem chamadosDaPagina_eq (feed : RequisicaoChamados → RespostaChamados)
    (tok abS : String) (i : Nat) (data : Option (List Chamado)) (total : Option Nat)
    (hr : feed (reqChamados tok abS i) = RespostaChamados.pagina data total) :
    chamadosDaPagina feed tok abS i = data.getD [] := by
  unfold chamadosDaPagina
  rw [hr]

/-- The scan without the early stop, entered at page `p` with the tickets
accumulated from the pages before `p`, on a feed whose pages up to `N` are
successful and announce `totalPage = N`: it requests the pages `p` to `N` and
returns the first occurrences of the tickets selected on the pages 0 to `N`. -/
theorem varrerSemParada_paginas (feed : RequisicaoChamados → RespostaChamados)
    (tok abS alvo : String) (N : Nat)
    (hpag : ∀ i, i ≤ N → ∃ data,
      feed (reqChamados tok abS i) = RespostaChamados.pagina data (some N)) (d : Nat) :
    ∀ (p fuel : Nat) (log : List RequisicaoChamados), p + d = N → d < fuel →
      varrerSemParada feed tok abS alvo fuel p
          (primeirosPorId (coletadosAte feed tok abS alvo p)) log =
        (log ++ (List.range (d + 1)).map (fun j => reqChamados tok abS (p + j)),
          Desfecho.retorna (primeirosPorId (coletadosAte feed tok abS alvo (N + 1)))) := by
  induction d with
  | zero =>
    intro p fuel log hp hf
    obtain ⟨f, rfl⟩ : ∃ f, fuel = f + 1 := ⟨fuel - 1, by omega⟩
    have hpN : p = N := by omega
    subst hpN
    obtain ⟨data, hr⟩ := hpag p (le_refl _)
    have hacc := acrescentar_coletados feed tok abS alvo p
    rw [hr] at hacc
    have hsel : selecionados alvo (RespostaChamados.pagina data (some p)) =
        ((data.getD []).filter tituloUrgente).filter
          (fun item => campoNoDia alvo item.aberto) := rfl
    rw [hsel] at hacc
    have r1 : List.range (0 + 1) = [0] := rfl
    unfold varrerSemParada
    simp only [hr, hacc, Option.getD_some, r1, List.map_cons, List.map_nil, Nat.add_zero]
    simp
  | succ d ih =>
    intro p fuel log hp hf
    obtain ⟨f, rfl⟩ : ∃ f, fuel = f + 1 := ⟨fuel - 1, by omega⟩
    obtain ⟨data, hr⟩ := hpag p (by omega)
    have hacc := acrescentar_coletados feed tok abS alvo p
    rw [hr] at hacc
    have hsel : selecionados alvo (RespostaChamados.pagina data (some N)) =
        ((data.getD []).filter tituloUrgente).filter
          (fun item => campoNoDia alvo item.aberto) := rfl
    rw [hsel] at hacc
    have hnext : p + 1 ≤ N := by omega
    unfold varrerSemParada
    simp only [hr, hacc, Option.getD_some, hnext, if_true]
    rw [ih (p + 1) f (log ++ [reqChamados tok abS p]) (by omega) (by omega),
      range_map_shift (fun q => reqChamados tok abS q) p (d + 1)]
    simp [List.append_assoc]

/-- On a feed in date order, once a page holds a ticket dated after the target,
no later page holds a ticket the scan selects. -/
theorem selecionados_depois (feed : RequisicaoChamados → RespostaChamados)
    (tok abS alvo : String) (hord : feedOrdenadoPorData feed tok abS) (m : Nat)
    (hm : haMaisRecente alvo (chamadosDaPagina feed tok abS m)) (j : Nat) (hj : m < j) :
    selecionados alvo (feed (reqChamados tok abS j)) = [] := by
  obtain ⟨a, ha, s, pa, hs, hpa, hlt⟩ := hm
  have hsne : s ≠ "" := by
    intro h
    subst h
    have hpre : pa = "" := by
      rcases hpa.2 with h | ⟨r, h⟩
      · exact h.symm
      · have := congrArg String.length h
        simp only [String.length_append] at this
        have e1 : "T".length = 1 := rfl
        have e0 : "".length = 0 := rfl
        exfalso
        omega
    rw [hpre] at hlt
    exact not_lt_empty_string alvo hlt
  cases hr : feed (reqChamados tok abS j) with
  | lancou => rfl
  | naoOk st => rfl
  | pagina data total =>
    apply List.eq_nil_iff_forall_not_mem.mpr
    intro b hb
    rw [mem_selecionados] at hb
    obtain ⟨hbd, -, hcasa⟩ := hb
    have hbj : b ∈ chamadosDaPagina feed tok abS j := by
      rw [chamadosDaPagina_eq feed tok abS j data total hr]
      exact hbd
    have hle := hord m j hj a ha b hbj pa alvo ⟨s, hs, hsne, hpa⟩ hcasa
    exact lt_irrefl _ (lt_of_lt_of_le hlt hle)

theorem coletadosAte_depois (feed : RequisicaoChamados → RespostaChamados)
    (tok abS alvo : String) (m : Nat)
    (h : ∀ j, m < j → selecionados alvo (feed (reqChamados tok abS j)) = []) (k : Nat) :
    coletadosAte feed tok abS alvo (m + 1 + k) = coletadosAte feed tok abS alvo (m + 1) := by
  induction k with
  | zero => rfl
  | succ k ih =>
    have e : m + 1 + (k + 1) = (m + 1 + k) + 1 := by omega
    rw [e, coletadosAte_succ, ih, h (m + 1 + k) (by omega), List.append_nil]

theorem primeirosPorId_cobre (ys : List Chamado) :
    ∀ c ∈ ys, ∃ c2 ∈ primeirosPorId ys, c2.id = c.id := by
  induction ys with
  | nil => intro c h; simp at h
  | cons y ys ih =>
    intro c hc
    simp only [List.mem_cons] at hc
    rcases hc with rfl | hc
    · exact ⟨c, by simp [primeirosPorId], rfl⟩
    · obtain ⟨c2, hc2, hid⟩ := ih c hc
      by_cases hy : c2.id = y.id
      · exact ⟨y, by simp [primeirosPorId], by rw [← hy, hid]⟩
      · refine ⟨c2, ?_, hid⟩
        simp only [primeirosPorId, List.mem_cons, List.mem_filter]
        right
        exact ⟨hc2, by simpa using hy⟩

theorem mem_coletadosAte_of_pagina (feed : RequisicaoChamados → RespostaChamados)
    (tok abS alvo : String) (k i : Nat) (hi : i < k) (c : Chamado)
    (hc : c ∈ chamadosDaPagina feed tok abS i) (hu : urgenteDoDia alvo c) :
    c ∈ coletadosAte feed tok abS alvo k := by
  unfold coletadosAte
  simp only [List.mem_flatten, List.mem_map, List.mem_range]
  refine ⟨_, ⟨i, hi, rfl⟩, ?_⟩
  unfold chamadosDaPagina at hc
  cases hr : feed (reqChamados tok abS i) with
  | lancou => rw [hr] at hc; simp at hc
  | naoOk st => rw [hr] at hc; simp at hc
  | pagina data total =>
    rw [hr] at hc
    rw [mem_selecionados]
    exact ⟨hc, hu⟩

/-- C26: with a token that is set, on a feed whose every page is successful and
announces the same `totalPage = N`, and whose tickets are in non-decreasing
date order across pages, the scan returns (with fuel beyond `N`) exactly what
the scan without the early-stop check returns after requesting all the pages 0
to `N`: the first occurrences of the urgent tickets of the target date of
those pages, so that every such ticket has its id among the returned ones and
no two returned tickets share an id. -/
theorem C26_parada_antecipada (fuel : Nat) (tok : String) (htok : tok ≠ "")
    (feed : RequisicaoChamados → RespostaChamados) (alvo : String) (N : Nat)
    (hpag : ∀ i, ∃ data,
      feed (reqChamados tok (abertoStartDe alvo) i) = RespostaChamados.pagina data (some N))
    (hord : feedOrdenadoPorData feed tok (abertoStartDe alvo))
    (hf : N < fuel) :
    (getAssistenciasUrgentesDiaAnterior fuel (some tok) feed alvo).2 =
      (getAssistenciasSemParada fuel (some tok) feed alvo).2 ∧
    (getAssistenciasSemParada fuel (some tok) feed alvo).1 =
      (List.range (N + 1)).map (fun j => reqChamados tok (abertoStartDe alvo) j) ∧
    ∃ xs, (getAssistenciasUrgentesDiaAnterior fuel (some tok) feed alvo).2 =
        Desfecho.retorna xs ∧
      xs = primeirosPorId (coletadosAte feed tok (abertoStartDe alvo) alvo (N + 1)) ∧
      (∀ i, i ≤ N → ∀ c ∈ chamadosDaPagina feed tok (abertoStartDe alvo) i,
        urgenteDoDia alvo c → ∃ c2 ∈ xs, c2.id = c.id) ∧
      (∀ c ∈ xs, urgenteDoDia alvo c ∧
        ∃ i, i ≤ N ∧ c ∈ chamadosDaPagina feed tok (abertoStartDe alvo) i) ∧
      xs.Pairwise (fun a b => a.id ≠ b.id) := by
  have hsem : getAssistenciasSemParada fuel (some tok) feed alvo =
      ((List.range (N + 1)).map (fun j => reqChamados tok (abertoStartDe alvo) j),
        Desfecho.retorna
          (primeirosPorId (coletadosAte feed tok (abertoStartDe alvo) alvo (N + 1)))) := by
    unfold getAssistenciasSemParada
    have hfal : jsFalsy (some tok) = false := by simp [jsFalsy, htok]
    simp only [hfal, Bool.false_eq_true, if_false]
    have h0 : primeirosPorId (coletadosAte feed tok (abertoStartDe alvo) alvo 0) = [] := rfl
    have := varrerSemParada_paginas feed tok (abertoStartDe alvo) alvo N
      (fun i _ => hpag i) N 0 fuel [] (by omega) hf
    rw [h0] at this
    rw [this]
    simp
  have hstopN : paraEm feed tok (abertoStartDe alvo) alvo N = true := by
    obtain ⟨data, hr⟩ := hpag N
    exact paraEm_of_fim feed tok _ alvo N (Or.inr (Or.inr (Or.inr ⟨data, N, hr, le_refl _⟩)))
  obtain ⟨m, hmN, -, hm3, hm⟩ :=
    getAssistencias_termina fuel tok htok feed alvo N hstopN hf
  obtain ⟨data, hr⟩ := hpag m
  have hres : resultadoEm feed tok (abertoStartDe alvo) alvo m =
      primeirosPorId (coletadosAte feed tok (abertoStartDe alvo) alvo (N + 1)) := by
    unfold resultadoEm
    rw [hr]
    simp only
    rcases Nat.lt_or_ge m N with hlt | hge
    · rcases (paraEm_pagina feed tok (abertoStartDe alvo) alvo m data (some N) hr).mp hm3
        with h | h
      · have hmais : haMaisRecente alvo (chamadosDaPagina feed tok (abertoStartDe alvo) m) := by
          rw [chamadosDaPagina_eq feed tok _ m data (some N) hr]
          exact h.1
        have := coletadosAte_depois feed tok (abertoStartDe alvo) alvo m
          (selecionados_depois feed tok _ alvo hord m hmais) (N - m)
        have e : m + 1 + (N - m) = N + 1 := by omega
        rw [e] at this
        rw [this]
      · simp only [Option.getD_some] at h
        omega
    · have : m = N := by omega
      rw [this]
  rw [hm, hsem, hres]
  refine ⟨rfl, rfl, _, rfl, rfl, ?_, ?_, primeirosPorId_pairwise _⟩
  · intro i hi c hc hu
    exact primeirosPorId_cobre _ c
      (mem_coletadosAte_of_pagina feed tok _ alvo (N + 1) i (by omega) c hc hu)
  · intro c hc
    have hcol := mem_primeirosPorId _ c hc
    refine ⟨mem_coletadosAte feed tok _ alvo _ c hcol, ?_⟩
    unfold coletadosAte at hcol
    simp only [List.mem_flatten, List.mem_map, List.mem_range] at hcol
    obtain ⟨l, ⟨i, hi, rfl⟩, hcl⟩ := hcol
    refine ⟨i, by omega, ?_⟩
    obtain ⟨d2, hr2⟩ := hpag i
    rw [hr2, mem_selecionados] at hcl
    rw [chamadosDaPagina_eq feed tok _ i d2 (some N) hr2]
    exact hcl.1

theorem datadoEm_chamadoUrgente (n : Nat) (s pre : String)
    (h : datadoEm (chamadoUrgente n s) pre) : (jsSplit s 'T').head? = some pre := by
  obtain ⟨s2, hs, -, hp⟩ := h
  have e : s2 = s := by
    simp only [chamadoUrgente, Option.some.injEq] at hs
    exact hs.symm
  subst e
  exact (jsSplit_head_iff s2 pre).mpr hp

theorem str_le_of_not_jsStrLt (a b : String) (h : jsStrLt b.data a.data = false) : a ≤ b := by
  apply not_lt.mp
  intro hlt
  rw [← jsStrLt_string, h] at hlt
  exact absurd hlt (by simp)

/-- The dates of the tickets of the sample feed in date order, page by page. -/
theorem feedEmOrdem_datas (abS : String) (i : Nat) (a : Chamado)
    (ha : a ∈ chamadosDaPagina feedEmOrdem "k" abS i) (pa : String) (hd : datadoEm a pa) :
    (i = 0 ∧ pa = "2024-05-01") ∨ (i = 1 ∧ (pa = "2024-05-01" ∨ pa = "2024-05-02")) ∨
      (2 ≤ i ∧ pa = "2024-05-03") := by
  unfold chamadosDaPagina feedEmOrdem at ha
  simp only [reqChamados] at ha
  split_ifs at ha with h0 h1
  · left
    refine ⟨h0, ?_⟩
    simp only [Option.getD_some, List.mem_cons, List.mem_singleton, List.not_mem_nil,
      or_false] at ha
    rcases ha with rfl | rfl
    · have := datadoEm_chamadoUrgente _ _ _ hd
      have e : (jsSplit "2024-05-01T08:00:00" 'T').head? = some "2024-05-01" := by decide
      rw [e] at this
      exact (Option.some.inj this).symm
    · have := datadoEm_chamadoUrgente _ _ _ hd
      have e : (jsSplit "2024-05-01T09:30:00" 'T').head? = some "2024-05-01" := by decide
      rw [e] at this
      exact (Option.some.inj this).symm
  · right; left
    refine ⟨h1, ?_⟩
    simp only [Option.getD_some, List.mem_cons, List.mem_singleton, List.not_mem_nil,
      or_false] at ha
    rcases ha with rfl | rfl
    · left
      have := datadoEm_chamadoUrgente _ _ _ hd
      have e : (jsSplit "2024-05-01T17:00:00" 'T').head? = some "2024-05-01" := by decide
      rw [e] at this
      exact (Option.some.inj this).symm
    · right
      have := datadoEm_chamadoUrgente _ _ _ hd
      have e : (jsSplit "2024-05-02T10:00:00" 'T').head? = some "2024-05-02" := by decide
      rw [e] at this
      exact (Option.some.inj this).symm
  · right; right
    refine ⟨by omega, ?_⟩
    simp only [Option.getD_some, List.mem_cons, List.mem_singleton, List.not_mem_nil,
      or_false] at ha
    subst ha
    have := datadoEm_chamadoUrgente _ _ _ hd
    have e : (jsSplit "2024-05-03T07:00:00" 'T').head? = some "2024-05-03" := by decide
    rw [e] at this
    exact (Option.some.inj this).symm

theorem feedEmOrdem_ordenado (abS : String) : feedOrdenadoPorData feedEmOrdem "k" abS := by
  intro i j hij a ha b hb pa pb hda hdb
  have h12 : ("2024-05-01" : String) ≤ "2024-05-02" := str_le_of_not_jsStrLt _ _ (by decide)
  have h13 : ("2024-05-01" : String) ≤ "2024-05-03" := str_le_of_not_jsStrLt _ _ (by decide)
  have h23 : ("2024-05-02" : String) ≤ "2024-05-03" := str_le_of_not_jsStrLt _ _ (by decide)
  rcases feedEmOrdem_datas abS i a ha pa hda with ⟨hi, rfl⟩ | ⟨hi, rfl | rfl⟩ | ⟨hi, rfl⟩ <;>
    rcases feedEmOrdem_datas abS j b hb pb hdb with ⟨hj, rfl⟩ | ⟨hj, rfl | rfl⟩ | ⟨hj, rfl⟩ <;>
    first
      | exact le_refl _
      | exact h12
      | exact h13
      | exact h23
      | (exfalso; omega)

theorem feedEmOrdem_paginas (abS : String) (i : Nat) :
    ∃ data, feedEmOrdem (reqChamados "k" abS i) = RespostaChamados.pagina data (some 2) := by
  unfold feedEmOrdem
  split_ifs
  · exact ⟨_, rfl⟩
  · exact ⟨_, rfl⟩
  · exact ⟨_, rfl⟩

/-- Witness of C26 on the sample feed in date order, target date 2024-05-01:
the scan stops after page 1, the scan without the early stop also requests
page 2, and both return the tickets 1, 2 and 3. -/
theorem C26_parada_antecipada_witness :
    "k" ≠ "" ∧
    (∀ i, ∃ data, feedEmOrdem (reqChamados "k" (abertoStartDe "2024-05-01") i) =
      RespostaChamados.pagina data (some 2)) ∧
    feedOrdenadoPorData feedEmOrdem "k" (abertoStartDe "2024-05-01") ∧
    2 < 5 ∧
    ((getAssistenciasUrgentesDiaAnterior 5 (some "k") feedEmOrdem "2024-05-01").2 =
        (getAssistenciasSemParada 5 (some "k") feedEmOrdem "2024-05-01").2 ∧
      (getAssistenciasSemParada 5 (some "k") feedEmOrdem "2024-05-01").1 =
        (List.range (2 + 1)).map (fun j => reqChamados "k" (abertoStartDe "2024-05-01") j) ∧
      ∃ xs, (getAssistenciasUrgentesDiaAnterior 5 (some "k") feedEmOrdem "2024-05-01").2 =
          Desfecho.retorna xs ∧
        xs = primeirosPorId
          (coletadosAte feedEmOrdem "k" (abertoStartDe "2024-05-01") "2024-05-01" (2 + 1)) ∧
        (∀ i, i ≤ 2 → ∀ c ∈ chamadosDaPagina feedEmOrdem "k" (abertoStartDe "2024-05-01") i,
          urgenteDoDia "2024-05-01" c → ∃ c2 ∈ xs, c2.id = c.id) ∧
        (∀ c ∈ xs, urgenteDoDia "2024-05-01" c ∧
          ∃ i, i ≤ 2 ∧ c ∈ chamadosDaPagina feedEmOrdem "k" (abertoStartDe "2024-05-01") i) ∧
        xs.Pairwise (fun a b => a.id ≠ b.id)) ∧
    (getAssistenciasUrgentesDiaAnterior 5 (some "k") feedEmOrdem "2024-05-01").1.map
      (fun req => req.start) = [0, 1] ∧
    (getAssistenciasUrgentesDiaAnterior 5 (some "k") feedEmOrdem "2024-05-01").2 =
      Desfecho.retorna [chamadoUrgente 1 "2024-05-01T08:00:00",
        chamadoUrgente 2 "2024-05-01T09:30:00", chamadoUrgente 3 "2024-05-01T17:00:00"] :=
  ⟨by decide, feedEmOrdem_paginas _, feedEmOrdem_ordenado _, by decide,
    C26_parada_antecipada 5 "k" (by decide) feedEmOrdem "2024-05-01" 2
      (feedEmOrdem_paginas _) (feedEmOrdem_ordenado _) (by decide),
    by decide, by decide⟩

/-! ## C28: the period filter and the per-day filters -/

theorem formatYMD_data (n : Int) (hy : 0 ≤ YearFromDay n) :
    (formatYMD ⟨n⟩).data = (jsStringNat (civilDe n).ano).data ++
      '-' :: ((padStart (jsStringNat (civilDe n).mes) 2).data ++
        '-' :: (padStart (jsStringNat (civilDe n).dia) 2).data) := by
  have hm := MonthFromDay_range n
  have hd := DateFromDay_range n
  unfold formatYMD civilDe JSDate.getFullYear JSDate.getMonth JSDate.getDate jsString
  simp only
  have h1 : ¬ YearFromDay n < 0 := by omega
  have h2 : ¬ MonthFromDay n + 1 < 0 := by omega
  have h3 : ¬ DateFromDay n < 0 := by omega
  simp only [h1, h2, h3, if_false]
  simp [String.data_append]

/-- The rendering of `formatYMD` determines the day, for days of the year 0 or
later: the year is written without padding, but it ends at the first `-`. -/
theorem formatYMD_injective (n1 n2 : Int) (h1 : 0 ≤ YearFromDay n1) (h2 : 0 ≤ YearFromDay n2)
    (h : formatYMD ⟨n1⟩ = formatYMD ⟨n2⟩) : n1 = n2 := by
  have hd := congrArg String.data h
  rw [formatYMD_data n1 h1, formatYMD_data n2 h2] at hd
  have t1 := (takeWhile_eq_iff '-'
    ((jsStringNat (civilDe n1).ano).data ++
      '-' :: ((padStart (jsStringNat (civilDe n1).mes) 2).data ++
        '-' :: (padStart (jsStringNat (civilDe n1).dia) 2).data))
    (jsStringNat (civilDe n1).ano).data).mpr
    ⟨(natDigitsAux_not_mem _ _).1, Or.inr ⟨_, rfl⟩⟩
  have t2 := (takeWhile_eq_iff '-'
    ((jsStringNat (civilDe n2).ano).data ++
      '-' :: ((padStart (jsStringNat (civilDe n2).mes) 2).data ++
        '-' :: (padStart (jsStringNat (civilDe n2).dia) 2).data))
    (jsStringNat (civilDe n2).ano).data).mpr
    ⟨(natDigitsAux_not_mem _ _).1, Or.inr ⟨_, rfl⟩⟩
  rw [hd, t2] at t1
  have hano : jsStringNat (civilDe n2).ano = jsStringNat (civilDe n1).ano := String.ext t1
  rw [← t1] at hd
  have hresto := List.append_cancel_left hd
  have hymd : ymd (civilDe n1) = ymd (civilDe n2) := by
    apply String.ext
    rw [ymd_data, ymd_data, hano]
    congr 1
  have hc := ymd_injective _ _ hymd
  rw [← diaDe_civilDe n1 h1, ← diaDe_civilDe n2 h2, hc]

theorem monthLen_pos (l m : Int) (hl : l = 0 ∨ l = 1) : 1 ≤ monthLen l m := by
  unfold monthLen
  split_ifs <;> omega

/-- The day that `new Date(y, m - 1, d)` denotes for the fields of a valid
calendar date lies in the year 100 or later. -/
theorem ofFields_ano (a : DataCivil) (ha : a.valida) :
    100 ≤ YearFromDay (JSDate.ofFields (a.ano : Int) ((a.mes : Int) - 1) a.dia).dia := by
  obtain ⟨hm1, hm2, hd1, -⟩ := ha
  unfold JSDate.ofFields
  simp only
  generalize hyr : (if 0 ≤ (a.ano : Int) ∧ (a.ano : Int) ≤ 99 then 1900 + (a.ano : Int)
    else (a.ano : Int)) = yr
  have hyr100 : 100 ≤ yr := by
    rw [← hyr]
    split_ifs <;> omega
  have h1 := (MakeDay_valid yr ((a.mes : Int) - 1) 1 (by omega)
    ⟨le_refl _, monthLen_pos _ _ (InLeapYear_cases yr)⟩).1
  have h2 := MakeDay_date yr ((a.mes : Int) - 1) (a.dia : Int) 1
  have h3 := YearFromDay_mono (show MakeDay yr ((a.mes : Int) - 1) 1 ≤
    MakeDay yr ((a.mes : Int) - 1) (a.dia : Int) by rw [h2]; omega)
  omega

/-- The dates of `getDateRange` on a valid zero-padded start date: from some
amount of fuel on, one list without repetition. -/
theorem getDateRange_nodup (a b : DataCivil) (ha : a.valida) :
    ∃ f0 datas, (∀ fuel, f0 ≤ fuel → getDateRange fuel (ymd a) (ymd b) = some datas) ∧
      datas.Nodup := by
  have hy := ofFields_ano a ha
  unfold getDateRange
  rw [splitYMD_ymd, splitYMD_ymd]
  simp only
  generalize JSDate.ofFields (a.ano : Int) ((a.mes : Int) - 1) a.dia = start at hy
  generalize JSDate.ofFields (b.ano : Int) ((b.mes : Int) - 1) b.dia = fim
  by_cases h : start.dia ≤ fim.dia
  · refine ⟨(fim.dia - start.dia + 1).toNat + 1, _, fun fuel hf =>
      getDateRangeLoop_eq fim (fim.dia - start.dia + 1).toNat start [] fuel (by omega)
        (by omega), ?_⟩
    rw [List.nil_append]
    apply List.Nodup.map_on _ (List.nodup_range _)
    intro x _ y _ hxy
    have hx := YearFromDay_mono (show start.dia ≤ start.dia + (x : Int) by omega)
    have hy2 := YearFromDay_mono (show start.dia ≤ start.dia + (y : Int) by omega)
    have := formatYMD_injective _ _ (by omega) (by omega) hxy
    omega
  · exact ⟨1, [], fun fuel hf => getDateRangeLoop_done fim start fuel [] (by omega) hf,
      List.nodup_nil⟩

/-- The period filter keeps a record exactly when one of the dates is kept by
the day filter's test on `dataVigenciaInicial`. -/
theorem filtrarPeriodo_eq_any (datas : List String) (rs : List Registro) :
    filtrarPeriodo datas rs =
      rs.filter (fun r => datas.any (fun d => campoNoDia d r.dataVigenciaInicial)) := by
  unfold filtrarPeriodo
  apply List.filter_congr
  intro r _
  cases hr : r.dataVigenciaInicial with
  | none => simp [campoNoDia]
  | some s =>
    cases hf : jsFalsy (some s) with
    | true => simp [campoNoDia, hf]
    | false =>
      cases hh : (jsSplit s 'T').head? with
      | none => simp [campoNoDia, hf, hh]
      | some v =>
        simp only [campoNoDia, hf, hh, Bool.false_eq_true, if_false]
        rw [Bool.eq_iff_iff]
        simp only [List.contains_eq_any_beq, List.any_eq_true, beq_iff_eq, Option.some.injEq]

theorem filter_or_perm {α : Type} (p q : α → Bool) (h : ∀ x, ¬ (p x = true ∧ q x = true))
    (l : List α) :
    (l.filter (fun x => p x || q x)).Perm (l.filter p ++ l.filter q) := by
  induction l with
  | nil => simp
  | cons x l ih =>
    cases hp : p x with
    | true =>
      have hq : q x = false := by
        cases hq : q x with
        | true => exact absurd ⟨hp, hq⟩ (h x)
        | false => rfl
      simp only [List.filter_cons, hp, hq, Bool.or_false, if_true, Bool.false_eq_true, if_false,
        List.cons_append]
      exact List.Perm.cons x ih
    | false =>
      cases hq : q x with
      | true =>
        simp only [List.filter_cons, hp, hq, Bool.or_true, if_true, Bool.false_eq_true,
          if_false]
        exact (List.Perm.cons x ih).trans List.perm_middle.symm
      | false =>
        simp only [List.filter_cons, hp, hq, Bool.or_self, Bool.false_eq_true, if_false]
        exact ih

/-- For dates without repetition, the period filter keeps, up to order, what
the day filters keep for each date in turn. -/
theorem filtrarPeriodo_perm (rs : List Registro) (datas : List String) (hnd : datas.Nodup) :
    (filtrarPeriodo datas rs).Perm
      ((datas.map (fun d => filtrarPorDiaAnterior d rs)).flatten) := by
  rw [filtrarPeriodo_eq_any]
  induction datas with
  | nil => simp
  | cons d ds ih =>
    rw [List.nodup_cons] at hnd
    simp only [List.any_cons, List.map_cons, List.flatten_cons]
    have hdisj : ∀ r : Registro, ¬ (campoNoDia d r.dataVigenciaInicial = true ∧
        ds.any (fun d2 => campoNoDia d2 r.dataVigenciaInicial) = true) := by
      rintro r ⟨h1, h2⟩
      rw [List.any_eq_true] at h2
      obtain ⟨d2, hd2, h3⟩ := h2
      have := campoNoDia_unique d d2 _ h1 h3
      rw [this] at hnd
      exact hnd.1 hd2
    refine (filter_or_perm (fun r => campoNoDia d r.dataVigenciaInicial)
      (fun r => ds.any (fun d2 => campoNoDia d2 r.dataVigenciaInicial)) hdisj rs).trans ?_
    exact List.Perm.append_left _ (ih hnd.2)

/-- C28: for every valid zero-padded start date, every end date and every list
of records, `getDateRange` gives (with enough fuel) one list of dates, and the
records kept by the period filter of `getProducaoCompletaPeriodo` for these
dates are a permutation of the concatenation, over the dates in order, of the
records `filtrarPorDiaAnterior` keeps for each date; in particular the number
of records kept for the period is the sum of the numbers kept per day. -/
theorem C28_periodo_e_dias (a b : DataCivil) (ha : a.valida) (rs : List Registro) :
    ∃ (f0 : Nat) (datas : List String),
      (∀ fuel, f0 ≤ fuel → getDateRange fuel (ymd a) (ymd b) = some datas) ∧
      (filtrarPeriodo datas rs).Perm
        ((datas.map (fun d => filtrarPorDiaAnterior d rs)).flatten) ∧
      (filtrarPeriodo datas rs).length =
        (datas.map (fun d => (filtrarPorDiaAnterior d rs).length)).sum := by
  obtain ⟨f0, datas, hd, hnd⟩ := getDateRange_nodup a b ha
  have hperm := filtrarPeriodo_perm rs datas hnd
  refine ⟨f0, datas, hd, hperm, ?_⟩
  rw [hperm.length_eq, List.length_flatten, List.map_map]
  rfl

/-- Witness of C28 from 2024-04-29 to 2024-05-02 and, below the year 1000, from
0999-05-01 to 0999-05-03, where the dates of `getDateRange` carry the year
without padding. -/
theorem C28_periodo_e_dias_witness :
    (DataCivil.mk 2024 4 29).valida ∧
    (∃ (f0 : Nat) (datas : List String),
      (∀ fuel, f0 ≤ fuel →
        getDateRange fuel (ymd (DataCivil.mk 2024 4 29)) (ymd (DataCivil.mk 2024 5 2)) =
          some datas) ∧
      (filtrarPeriodo datas [registroVigencia 1 "2024-05-01T10:00:00",
          registroVigencia 2 "2024-05-03", registroVigencia 3 "2024-04-29"]).Perm
        ((datas.map (fun d => filtrarPorDiaAnterior d
          [registroVigencia 1 "2024-05-01T10:00:00", registroVigencia 2 "2024-05-03",
            registroVigencia 3 "2024-04-29"])).flatten) ∧
      (filtrarPeriodo datas [registroVigencia 1 "2024-05-01T10:00:00",
          registroVigencia 2 "2024-05-03", registroVigencia 3 "2024-04-29"]).length =
        (datas.map (fun d => (filtrarPorDiaAnterior d
          [registroVigencia 1 "2024-05-01T10:00:00", registroVigencia 2 "2024-05-03",
            registroVigencia 3 "2024-04-29"]).length)).sum) ∧
    getDateRange 6 "2024-04-29" "2024-05-02" =
      some ["2024-04-29", "2024-04-30", "2024-05-01", "2024-05-02"] ∧
    filtrarPeriodo ["2024-04-29", "2024-04-30", "2024-05-01", "2024-05-02"]
      [registroVigencia 1 "2024-05-01T10:00:00", registroVigencia 2 "2024-05-03",
        registroVigencia 3 "2024-04-29"] =
      [registroVigencia 1 "2024-05-01T10:00:00", registroVigencia 3 "2024-04-29"] ∧
    (["2024-04-29", "2024-04-30", "2024-05-01", "2024-05-02"].map
      (fun d => filtrarPorDiaAnterior d
        [registroVigencia 1 "2024-05-01T10:00:00", registroVigencia 2 "2024-05-03",
          registroVigencia 3 "2024-04-29"])).flatten =
      [registroVigencia 3 "2024-04-29", registroVigencia 1 "2024-05-01T10:00:00"] ∧
    getDateRange 5 "0999-05-01" "0999-05-03" = some ["999-05-01", "999-05-02", "999-05-03"] :=
  ⟨by decide,
    C28_periodo_e_dias (DataCivil.mk 2024 4 29) (DataCivil.mk 2024 5 2) (by decide) _,
    by decide, by decide, by decide, by decide⟩

/-! ## The runs: sequencing and the outer `catch` -/

theorem seguir_log_of_not_retorna {α β : Type} (r : List Acao × Desfecho α)
    (k : α → List Acao × Desfecho β) (h : ∀ x, r.2 ≠ Desfecho.retorna x) :
    (seguir r k).1 = r.1 ∧ ∀ y, (seguir r k).2 ≠ Desfecho.retorna y := by
  obtain ⟨log, d⟩ := r
  cases d with
  | retorna x => exact absurd rfl (h x)
  | lanca e => exact ⟨rfl, fun y => by simp [seguir]⟩
  | semCombustivel => exact ⟨rfl, fun y => by simp [seguir]⟩

theorem seguir_of_retorna {α β : Type} (log : List Acao) (d : Desfecho α) (x : α)
    (k : α → List Acao × Desfecho β) (h : d = Desfecho.retorna x) :
    seguir (log, d) k = (log ++ (k x).1, (k x).2) := by
  subst h
  rfl

/-- The `catch` block of the daily run: whatever the error caught, the
evaluation of the context stops at the identifier `dataAnterior`, the hook is
not called and the error that leaves the block is the `ReferenceError`. -/
theorem capturar_diario (log : List Acao) (err titulo mensagem : String) :
    capturar (log, Desfecho.lanca err) titulo mensagem
        [("tipo", [Parte.texto "Relatório Diário"]), ("data", [Parte.variavel "dataAnterior"])] =
      (log, Desfecho.lanca "ReferenceError: dataAnterior is not defined") := by
  have h : lerVariavel (escopoDoCatch err) "dataAnterior" =
      Desfecho.lanca "ReferenceError: dataAnterior is not defined" := by
    unfold lerVariavel escopoDoCatch
    have e : ("dataAnterior" == "err") = false := by decide
    simp only [List.lookup, e]
    rfl
  simp [capturar, seguir, chamarEmailErro, avaliarContexto, avaliarPartes, h]

theorem capturar_semanal (log : List Acao) (err titulo mensagem : String) :
    capturar (log, Desfecho.lanca err) titulo mensagem
        [("tipo", [Parte.texto "Relatório Semanal"]),
          ("periodo", [Parte.variavel "dataInicial", Parte.texto " até ",
            Parte.variavel "dataFinal"])] =
      (log, Desfecho.lanca "ReferenceError: dataInicial is not defined") := by
  have h : lerVariavel (escopoDoCatch err) "dataInicial" =
      Desfecho.lanca "ReferenceError: dataInicial is not defined" := by
    unfold lerVariavel escopoDoCatch
    have e : ("dataInicial" == "err") = false := by decide
    simp only [List.lookup, e]
    rfl
  simp [capturar, seguir, chamarEmailErro, avaliarContexto, avaliarPartes, h]

theorem capturar_mensal (log : List Acao) (err titulo mensagem : String) :
    capturar (log, Desfecho.lanca err) titulo mensagem
        [("tipo", [Parte.texto "Relatório Mensal"]), ("periodo", [Parte.variavel "mesNome"])] =
      (log, Desfecho.lanca "ReferenceError: mesNome is not defined") := by
  have h : lerVariavel (escopoDoCatch err) "mesNome" =
      Desfecho.lanca "ReferenceError: mesNome is not defined" := by
    unfold lerVariavel escopoDoCatch
    have e : ("mesNome" == "err") = false := by decide
    simp only [List.lookup, e]
    rfl
  simp [capturar, seguir, chamarEmailErro, avaliarContexto, avaliarPartes, h]

/-- A run whose body throws ends with the given error and with the log of the
body, when that is how its `catch` block treats every error. -/
theorem capturar_casos (corpo : List Acao × Desfecho Unit) (titulo mensagem ref : String)
    (contexto : List (String × List Parte))
    (hc : ∀ log err, capturar (log, Desfecho.lanca err) titulo mensagem contexto =
      (log, Desfecho.lanca ref)) :
    (capturar corpo titulo mensagem contexto).1 = corpo.1 ∧
    (∀ e, (capturar corpo titulo mensagem contexto).2 = Desfecho.lanca e → e = ref) ∧
    (∀ u, corpo.2 = Desfecho.retorna u →
      (capturar corpo titulo mensagem contexto).2 = Desfecho.retorna u) := by
  obtain ⟨log, d⟩ := corpo
  cases d with
  | retorna u =>
    refine ⟨rfl, ?_, ?_⟩
    · intro e h
      simp [capturar] at h
    · intro u2 _
      rfl
  | lanca err =>
    rw [hc log err]
    refine ⟨rfl, ?_, ?_⟩
    · intro e h
      simp only [Desfecho.lanca.injEq] at h
      exact h.symm
    · intro u h
      simp at h
  | semCombustivel =>
    refine ⟨rfl, ?_, ?_⟩
    · intro e h
      simp [capturar] at h
    · intro u h
      simp at h

/-! ## C22: a fatal error and the failure-reporting hook -/

/-- C22, the code at the failing input: when `getAuth()` throws an error `e`,
each of the three runs ends after that one call without calling
`enviarEmailErro`, and the error it throws to its caller is the
`ReferenceError` raised in its `catch` block by the identifier of the period
label, which is declared inside the `try` block. More generally the log of a
run is the log of its `try` block (the `catch` block never adds a call), and
whatever error a run throws is that `ReferenceError`. -/
theorem C22_erro_fatal_sem_gancho (m : Mundo) (e : String) :
    (gerarRelatorioDiario { m with auth := Desfecho.lanca e } =
        ([Acao.getAuth], Desfecho.lanca "ReferenceError: dataAnterior is not defined") ∧
      gerarRelatorioSemanal { m with auth := Desfecho.lanca e } =
        ([Acao.getAuth], Desfecho.lanca "ReferenceError: dataInicial is not defined") ∧
      gerarRelatorioMensal { m with auth := Desfecho.lanca e } =
        ([Acao.getAuth], Desfecho.lanca "ReferenceError: mesNome is not defined")) ∧
    ((gerarRelatorioDiario m).1 =
        (seguir (coletarDiario m (formatDate m.hoje (-1)))
          (entregarDiario m (formatDate m.hoje (-1)))).1 ∧
      ((gerarRelatorioDiario m).2 = Desfecho.lanca e →
        e = "ReferenceError: dataAnterior is not defined")) ∧
    ((gerarRelatorioSemanal m).2 = Desfecho.lanca e →
      e = "ReferenceError: dataInicial is not defined") ∧
    ((gerarRelatorioMensal m).2 = Desfecho.lanca e →
      e = "ReferenceError: mesNome is not defined") := by
  refine ⟨⟨?_, ?_, ?_⟩, ⟨?_, ?_⟩, ?_, ?_⟩
  · unfold gerarRelatorioDiario coletarDiario
    simp only [seguir]
    exact capturar_diario _ _ _ _
  · unfold gerarRelatorioSemanal coletarPeriodo
    simp only [seguir]
    exact capturar_semanal _ _ _ _
  · unfold gerarRelatorioMensal coletarPeriodo
    simp only [seguir]
    exact capturar_mensal _ _ _ _
  · exact (capturar_casos _ _ _ _ _ (fun log err => capturar_diario log err _ _)).1
  · exact (capturar_casos _ _ _ _ _ (fun log err => capturar_diario log err _ _)).2.1 e
  · exact (capturar_casos _ _ _ _ _ (fun log err => capturar_semanal log err _ _)).2.1 e
  · exact (capturar_casos _ _ _ _ _ (fun log err => capturar_mensal log err _ _)).2.1 e

/-! ## C23: no report after a failed page -/

/-- A paginated fetch that returns has received a successful answer to every
request it sent. -/
theorem aposBusca_ok (servidor : Requisicao → Resposta) (montar : Nat → Requisicao)
    (mensagem : String) (filtro : List Registro → List Registro) (fuel : Nat)
    (xs : List Registro)
    (h : (aposBusca filtro (buscarPaginas servidor montar mensagem fuel 1 [] [])).2 =
      Desfecho.retorna xs) :
    ∀ req ∈ (aposBusca filtro (buscarPaginas servidor montar mensagem fuel 1 [] [])).1,
      (servidor req).ok = true := by
  obtain ⟨ys, hys, -⟩ := aposBusca_retorna _ _ _ h
  obtain ⟨j, hj1, -, hj3⟩ := buscarPaginas_retorna servidor montar mensagem fuel 1 [] [] ys hys
  intro req hreq
  rw [aposBusca_log, hj1] at hreq
  simp only [List.nil_append, List.mem_map, List.mem_range] at hreq
  obtain ⟨i, hi, rfl⟩ := hreq
  exact hj3 i hi

theorem getProducaoCompletaPeriodo_ok (fuel : Nat) (servidor : Requisicao → Resposta)
    (token dataInicial dataFinal : String) (xs : List Registro)
    (h : (getProducaoCompletaPeriodo fuel servidor token dataInicial dataFinal).2 =
      Desfecho.retorna xs) :
    ∀ req ∈ (getProducaoCompletaPeriodo fuel servidor token dataInicial dataFinal).1,
      (servidor req).ok = true := by
  unfold getProducaoCompletaPeriodo at h ⊢
  simp only at h ⊢
  have key := buscarPaginas_retorna servidor
    (reqProducao token "dataVigenciaInicial" dataInicial (dataFinalParaAPI dataInicial dataFinal))
    "Erro na requisição de produção completa: " fuel 1 [] []
  generalize buscarPaginas servidor
    (reqProducao token "dataVigenciaInicial" dataInicial (dataFinalParaAPI dataInicial dataFinal))
    "Erro na requisição de produção completa: " fuel 1 [] [] = r at h key ⊢
  obtain ⟨log, d⟩ := r
  cases d with
  | lanca e => simp at h
  | semCombustivel => simp at h
  | retorna ys =>
    obtain ⟨j, hj1, -, hj3⟩ := key ys rfl
    simp only at hj1
    have hlog : ∀ req ∈ log, (servidor req).ok = true := by
      intro req hreq
      rw [hj1] at hreq
      simp only [List.nil_append, List.mem_map, List.mem_range] at hreq
      obtain ⟨i, hi, rfl⟩ := hreq
      exact hj3 i hi
    cases hd : getDateRange fuel dataInicial dataFinal with
    | none => simp [hd] at h
    | some ds =>
      simp only
      exact hlog

/-- A request that was not answered successfully keeps each of the four
token-based fetches from returning. -/
theorem busca_nao_retorna (fuel : Nat) (servidor : Requisicao → Resposta) (hoje : Nat)
    (token d : String) (req : Requisicao) (hreq : (servidor req).ok = false) :
    (req ∈ (getTransmissoesDiaAnterior fuel servidor hoje token d).1 →
      ∀ xs, (getTransmissoesDiaAnterior fuel servidor hoje token d).2 ≠ Desfecho.retorna xs) ∧
    (req ∈ (getApolicesEmitidasDiaAnterior fuel servidor hoje token d).1 →
      ∀ xs, (getApolicesEmitidasDiaAnterior fuel servidor hoje token d).2 ≠
        Desfecho.retorna xs) ∧
    (req ∈ (getSinistrosAbertosDiaAnterior fuel servidor hoje token d).1 →
      ∀ xs, (getSinistrosAbertosDiaAnterior fuel servidor hoje token d).2 ≠
        Desfecho.retorna xs) ∧
    (∀ ini fim, req ∈ (getProducaoCompletaPeriodo fuel servidor token ini fim).1 →
      ∀ xs, (getProducaoCompletaPeriodo fuel servidor token ini fim).2 ≠
        Desfecho.retorna xs) := by
  refine ⟨?_, ?_, ?_, ?_⟩
  · intro hmem xs h
    have := aposBusca_ok servidor _ _ _ fuel xs h req hmem
    rw [hreq] at this
    exact absurd this (by simp)
  · intro hmem xs h
    have := aposBusca_ok servidor _ _ _ fuel xs h req hmem
    rw [hreq] at this
    exact absurd this (by simp)
  · intro hmem xs h
    have := aposBusca_ok servidor _ _ _ fuel xs h req hmem
    rw [hreq] at this
    exact absurd this (by simp)
  · intro ini fim hmem xs h
    have := getProducaoCompletaPeriodo_ok fuel servidor token ini fim xs h req hmem
    rw [hreq] at this
    exact absurd this (by simp)

/-- The day-by-day loop returns only when every fetch of every date returned. -/
theorem acumularDias_retorna_inv (ad : Adaptadores) (datas : List String) :
    ∀ (totais : Totais) (log : List Chamada) (t : Totais),
      (acumularDias ad datas totais log).2 = Desfecho.retorna t →
      ∀ d ∈ datas, (∃ xs, ad.transmissoes d = Desfecho.retorna xs) ∧
        (∃ xs, ad.apolices d = Desfecho.retorna xs) ∧
        (∃ xs, ad.sinistros d = Desfecho.retorna xs) := by
  induction datas with
  | nil => intro totais log t _ d hd; simp at hd
  | cons data resto ih =>
    intro totais log t h d hd
    unfold acumularDias at h
    cases h1 : ad.transmissoes data with
    | lanca e => simp [h1] at h
    | semCombustivel => simp [h1] at h
    | retorna ts =>
      cases h2 : ad.apolices data with
      | lanca e => simp [h1, h2] at h
      | semCombustivel => simp [h1, h2] at h
      | retorna aps =>
        cases h3 : ad.sinistros data with
        | lanca e => simp [h1, h2, h3] at h
        | semCombustivel => simp [h1, h2, h3] at h
        | retorna ss =>
          cases h4 : ad.assistencias data with
          | lanca e => simp [h1, h2, h3, h4] at h
          | semCombustivel => simp [h1, h2, h3, h4] at h
          | retorna us =>
            simp only [h1, h2, h3, h4] at h
            simp only [List.mem_cons] at hd
            rcases hd with rfl | hd
            · exact ⟨⟨ts, h1⟩, ⟨aps, h2⟩, ⟨ss, h3⟩⟩
            · exact ih _ _ t h d hd

/-- The first part of the daily run: either authentication and the four
token-based fetches all returned, or no report call is made and no delivery
is reached. -/
theorem coletarDiario_casos (m : Mundo) (d : String) :
    (∃ token ts aps ss ps, m.auth = Desfecho.retorna token ∧
      (getTransmissoesDiaAnterior m.fuel m.servidor m.hoje token d).2 = Desfecho.retorna ts ∧
      (getApolicesEmitidasDiaAnterior m.fuel m.servidor m.hoje token d).2 =
        Desfecho.retorna aps ∧
      (getSinistrosAbertosDiaAnterior m.fuel m.servidor m.hoje token d).2 =
        Desfecho.retorna ss ∧
      (getProducaoCompletaPeriodo m.fuel m.servidor token d d).2 = Desfecho.retorna ps) ∨
    ((∀ a ∈ (coletarDiario m d).1, a.ehRelatorio = false) ∧
      ∀ ent, (coletarDiario m d).2 ≠ Desfecho.retorna ent) := by
  unfold coletarDiario
  cases h0 : m.auth with
  | lanca e => right; simp [seguir, Acao.ehRelatorio]
  | semCombustivel => right; simp [seguir, Acao.ehRelatorio]
  | retorna token =>
    cases h1 : (getTransmissoesDiaAnterior m.fuel m.servidor m.hoje token d).2 with
    | lanca e => right; simp [seguir, h1, Acao.ehRelatorio]
    | semCombustivel => right; simp [seguir, h1, Acao.ehRelatorio]
    | retorna ts =>
      cases h2 : (getApolicesEmitidasDiaAnterior m.fuel m.servidor m.hoje token d).2 with
      | lanca e => right; simp [seguir, h1, h2, Acao.ehRelatorio]
      | semCombustivel => right; simp [seguir, h1, h2, Acao.ehRelatorio]
      | retorna aps =>
        cases h3 : (getSinistrosAbertosDiaAnterior m.fuel m.servidor m.hoje token d).2 with
        | lanca e => right; simp [seguir, h1, h2, h3, Acao.ehRelatorio]
        | semCombustivel => right; simp [seguir, h1, h2, h3, Acao.ehRelatorio]
        | retorna ss =>
          cases h4 : (getAssistenciasUrgentesDiaAnterior m.fuel m.accessToken m.feed d).2 with
          | lanca e => right; simp [seguir, h1, h2, h3, h4, Acao.ehRelatorio]
          | semCombustivel => right; simp [seguir, h1, h2, h3, h4, Acao.ehRelatorio]
          | retorna us =>
            cases h5 : (getProducaoCompletaPeriodo m.fuel m.servidor token d d).2 with
            | lanca e =>
              right
              simp [seguir, h1, h2, h3, h4, h5, getProducaoCompletaDiaAnterior,
                Acao.ehRelatorio]
            | semCombustivel =>
              right
              simp [seguir, h1, h2, h3, h4, h5, getProducaoCompletaDiaAnterior,
                Acao.ehRelatorio]
            | retorna ps =>
              left
              exact ⟨token, ts, aps, ss, ps, rfl, h1, h2, h3, h5⟩

/-- The first part of the weekly and monthly runs: either authentication, the
day-by-day loop and the full-production fetch all returned, or no report call
is made and no delivery is reached. -/
theorem coletarPeriodo_casos (m : Mundo) (ini fim nome : String) (periodo : List String) :
    (∃ token datas totais ps, m.auth = Desfecho.retorna token ∧
      getDateRange m.fuel ini fim = some datas ∧
      (acumularDias (adaptadoresDoDia m.fuel m.servidor m.feed m.accessToken m.hoje token)
        datas (Totais.mk [] [] [] []) []).2 = Desfecho.retorna totais ∧
      (getProducaoCompletaPeriodo m.fuel m.servidor token ini fim).2 = Desfecho.retorna ps) ∨
    ((∀ a ∈ (coletarPeriodo m ini fim nome periodo).1, a.ehRelatorio = false) ∧
      ∀ ent, (coletarPeriodo m ini fim nome periodo).2 ≠ Desfecho.retorna ent) := by
  unfold coletarPeriodo
  cases h0 : m.auth with
  | lanca e => right; simp [seguir, Acao.ehRelatorio]
  | semCombustivel => right; simp [seguir, Acao.ehRelatorio]
  | retorna token =>
    cases h1 : getDateRange m.fuel ini fim with
    | none => right; simp [seguir, Acao.ehRelatorio]
    | some datas =>
      cases h2 : (acumularDias
          (adaptadoresDoDia m.fuel m.servidor m.feed m.accessToken m.hoje token)
          datas (Totais.mk [] [] [] []) []).2 with
      | lanca e =>
        right
        constructor
        · intro a ha
          simp only [seguir, h2, List.mem_append, List.mem_map, List.mem_singleton] at ha
          rcases ha with rfl | ⟨c, -, rfl⟩ <;> rfl
        · intro ent
          simp [seguir, h2]
      | semCombustivel =>
        right
        constructor
        · intro a ha
          simp only [seguir, h2, List.mem_append, List.mem_map, List.mem_singleton] at ha
          rcases ha with rfl | ⟨c, -, rfl⟩ <;> rfl
        · intro ent
          simp [seguir, h2]
      | retorna totais =>
        cases h3 : (getProducaoCompletaPeriodo m.fuel m.servidor token ini fim).2 with
        | lanca e =>
          right
          constructor
          · intro a ha
            simp only [seguir, h2, h3, List.mem_append, List.mem_map,
              List.mem_singleton] at ha
            rcases ha with rfl | ⟨c, -, rfl⟩ | rfl <;> rfl
          · intro ent
            simp [seguir, h2, h3]
        | semCombustivel =>
          right
          constructor
          · intro a ha
            simp only [seguir, h2, h3, List.mem_append, List.mem_map,
              List.mem_singleton] at ha
            rcases ha with rfl | ⟨c, -, rfl⟩ | rfl <;> rfl
          · intro ent
            simp [seguir, h2, h3]
        | retorna ps =>
          left
          exact ⟨token, datas, totais, ps, rfl, rfl, h2, h3⟩

/-- A period run makes no report call when a request of one of its token-based
fetches is not answered successfully. -/
theorem periodo_sem_relatorio (m : Mundo) (ini fim nome : String) (periodo : List String)
    (k : Entrega → List Acao × Desfecho Unit) (token : String) (datas : List String)
    (req : Requisicao) (hauth : m.auth = Desfecho.retorna token)
    (hdatas : getDateRange m.fuel ini fim = some datas)
    (hreq : (m.servidor req).ok = false)
    (hmem : (∃ d ∈ datas,
        req ∈ (getTransmissoesDiaAnterior m.fuel m.servidor m.hoje token d).1 ∨
        req ∈ (getApolicesEmitidasDiaAnterior m.fuel m.servidor m.hoje token d).1 ∨
        req ∈ (getSinistrosAbertosDiaAnterior m.fuel m.servidor m.hoje token d).1) ∨
      req ∈ (getProducaoCompletaPeriodo m.fuel m.servidor token ini fim).1) :
    ∀ a ∈ (seguir (coletarPeriodo m ini fim nome periodo) k).1, a.ehRelatorio = false := by
  rcases coletarPeriodo_casos m ini fim nome periodo with
    ⟨token2, datas2, totais, ps, h0, h1, h2, h3⟩ | ⟨hlog, hret⟩
  · exfalso
    rw [hauth] at h0
    simp only [Desfecho.retorna.injEq] at h0
    subst h0
    rw [hdatas] at h1
    simp only [Option.some.injEq] at h1
    subst h1
    rcases hmem with ⟨d, hd, hm⟩ | hm
    · obtain ⟨⟨ts, ht⟩, ⟨aps, ha⟩, ⟨ss, hs⟩⟩ := acumularDias_retorna_inv _ _ _ _ _ h2 d hd
      obtain ⟨b1, b2, b3, -⟩ := busca_nao_retorna m.fuel m.servidor m.hoje token d req hreq
      rcases hm with hm | hm | hm
      · exact b1 hm ts ht
      · exact b2 hm aps ha
      · exact b3 hm ss hs
    · exact (busca_nao_retorna m.fuel m.servidor m.hoje token ini req hreq).2.2.2
        ini fim hm ps h3
  · rw [(seguir_log_of_not_retorna _ k hret).1]
    exact hlog

theorem diario_sem_relatorio (m : Mundo) (d : String)
    (k : Entrega → List Acao × Desfecho Unit) (token : String)
    (req : Requisicao) (hauth : m.auth = Desfecho.retorna token)
    (hreq : (m.servidor req).ok = false)
    (hmem : req ∈ (getTransmissoesDiaAnterior m.fuel m.servidor m.hoje token d).1 ∨
      req ∈ (getApolicesEmitidasDiaAnterior m.fuel m.servidor m.hoje token d).1 ∨
      req ∈ (getSinistrosAbertosDiaAnterior m.fuel m.servidor m.hoje token d).1 ∨
      req ∈ (getProducaoCompletaDiaAnterior m.fuel m.servidor token d).1) :
    ∀ a ∈ (seguir (coletarDiario m d) k).1, a.ehRelatorio = false := by
  rcases coletarDiario_casos m d with ⟨token2, ts, aps, ss, ps, h0, ht, ha, hs, hp⟩ | ⟨hlog, hret⟩
  · exfalso
    rw [hauth] at h0
    simp only [Desfecho.retorna.injEq] at h0
    subst h0
    obtain ⟨b1, b2, b3, b4⟩ := busca_nao_retorna m.fuel m.servidor m.hoje token d req hreq
    rcases hmem with hm | hm | hm | hm
    · exact b1 hm ts ht
    · exact b2 hm aps ha
    · exact b3 hm ss hs
    · exact b4 d d hm ps hp
  · rw [(seguir_log_of_not_retorna _ k hret).1]
    exact hlog

/-- C23: in each of the daily, weekly and monthly runs, once authenticated, if
a request of a production or claims fetch of the run (for the day, or for any
date of the period, or of the full-production fetch) is answered with a status
that is not a success, the run calls neither an e-mail report function nor a
WhatsApp report function and does not generate the spreadsheet, whatever had
been fetched before. -/
theorem C23_sem_relatorio_parcial (m : Mundo) (token : String) (req : Requisicao)
    (hauth : m.auth = Desfecho.retorna token) (hreq : (m.servidor req).ok = false) :
    ((req ∈ (getTransmissoesDiaAnterior m.fuel m.servidor m.hoje token
          (formatDate m.hoje (-1))).1 ∨
        req ∈ (getApolicesEmitidasDiaAnterior m.fuel m.servidor m.hoje token
          (formatDate m.hoje (-1))).1 ∨
        req ∈ (getSinistrosAbertosDiaAnterior m.fuel m.servidor m.hoje token
          (formatDate m.hoje (-1))).1 ∨
        req ∈ (getProducaoCompletaDiaAnterior m.fuel m.servidor token
          (formatDate m.hoje (-1))).1) →
      ∀ a ∈ (gerarRelatorioDiario m).1, a.ehRelatorio = false) ∧
    (∀ datas, getDateRange m.fuel (getLastWeekRange m.hoje).inicio
        (getLastWeekRange m.hoje).fim = some datas →
      ((∃ d ∈ datas,
          req ∈ (getTransmissoesDiaAnterior m.fuel m.servidor m.hoje token d).1 ∨
          req ∈ (getApolicesEmitidasDiaAnterior m.fuel m.servidor m.hoje token d).1 ∨
          req ∈ (getSinistrosAbertosDiaAnterior m.fuel m.servidor m.hoje token d).1) ∨
        req ∈ (getProducaoCompletaPeriodo m.fuel m.servidor token
          (getLastWeekRange m.hoje).inicio (getLastWeekRange m.hoje).fim).1) →
      ∀ a ∈ (gerarRelatorioSemanal m).1, a.ehRelatorio = false) ∧
    (∀ datas, getDateRange m.fuel (getLastMonthRange m.hoje).inicio
        (getLastMonthRange m.hoje).fim = some datas →
      ((∃ d ∈ datas,
          req ∈ (getTransmissoesDiaAnterior m.fuel m.servidor m.hoje token d).1 ∨
          req ∈ (getApolicesEmitidasDiaAnterior m.fuel m.servidor m.hoje token d).1 ∨
          req ∈ (getSinistrosAbertosDiaAnterior m.fuel m.servidor m.hoje token d).1) ∨
        req ∈ (getProducaoCompletaPeriodo m.fuel m.servidor token
          (getLastMonthRange m.hoje).inicio (getLastMonthRange m.hoje).fim).1) →
      ∀ a ∈ (gerarRelatorioMensal m).1, a.ehRelatorio = false) := by
  refine ⟨?_, ?_, ?_⟩
  · intro hmem
    unfold gerarRelatorioDiario
    simp only
    rw [(capturar_casos _ _ _ _ _ (fun log err => capturar_diario log err _ _)).1]
    exact diario_sem_relatorio m _ _ token req hauth hreq hmem
  · intro datas hdatas hmem
    unfold gerarRelatorioSemanal
    simp only
    rw [(capturar_casos _ _ _ _ _ (fun log err => capturar_semanal log err _ _)).1]
    exact periodo_sem_relatorio m _ _ _ _ _ token datas req hauth hdatas hreq hmem
  · intro datas hdatas hmem
    unfold gerarRelatorioMensal
    simp only
    rw [(capturar_casos _ _ _ _ _ (fun log err => capturar_mensal log err _ _)).1]
    exact periodo_sem_relatorio m _ _ _ _ _ token datas req hauth hdatas hreq hmem

/-- Witness of C23 on 2024-05-01 with an upstream whose second page answers
500: the daily run stops at the transmissions fetch; the weekly run fetches the
first day of the week and stops at its second page. -/
theorem C23_sem_relatorio_parcial_witness :
    (mundoDeExemplo (servidorFalhaNaSegunda [registroVigencia 1 "2024-04-30"]) none none).auth =
      Desfecho.retorna "t" ∧
    ((mundoDeExemplo (servidorFalhaNaSegunda [registroVigencia 1 "2024-04-30"]) none
      none).servidor (reqProducao "t" "dataVigenciaInicial" "2024-04-30" "2024-05-01" 2)).ok =
      false ∧
    reqProducao "t" "dataVigenciaInicial" "2024-04-30" "2024-05-01" 2 ∈
      (getTransmissoesDiaAnterior 8 (servidorFalhaNaSegunda [registroVigencia 1 "2024-04-30"])
        19844 "t" (formatDate 19844 (-1))).1 ∧
    (∀ a ∈ (gerarRelatorioDiario
        (mundoDeExemplo (servidorFalhaNaSegunda [registroVigencia 1 "2024-04-30"]) none
          none)).1, a.ehRelatorio = false) ∧
    (gerarRelatorioDiario
      (mundoDeExemplo (servidorFalhaNaSegunda [registroVigencia 1 "2024-04-30"]) none
        none)).1 = [Acao.getAuth, Acao.busca (Chamada.transmissoes "2024-04-30")] ∧
    (gerarRelatorioSemanal
      (mundoDeExemplo (servidorFalhaNaSegunda [registroVigencia 1 "2024-04-30"]) none
        none)).1 = [Acao.getAuth, Acao.busca (Chamada.transmissoes "2024-04-22")] :=
  ⟨rfl, rfl, by decide,
    (C23_sem_relatorio_parcial
      (mundoDeExemplo (servidorFalhaNaSegunda [registroVigencia 1 "2024-04-30"]) none none)
      "t" (reqProducao "t" "dataVigenciaInicial" "2024-04-30" "2024-05-01" 2) rfl rfl).1
      (Or.inl (by decide)),
    by decide, by decide⟩

/-! ## C24: the two delivery channels are independent -/

theorem chamarEmailErro_diario (d titulo mensagem err : String) :
    chamarEmailErro [("dataAnterior", d)] titulo mensagem err
        [("data", [Parte.variavel "dataAnterior"]), ("tipo", [Parte.texto "Relatório Diário"])] =
      ([Acao.emailErro titulo mensagem err [("data", d), ("tipo", "Relatório Diário")]],
        Desfecho.retorna ()) := by
  simp [chamarEmailErro, avaliarContexto, avaliarPartes, lerVariavel, List.lookup]

theorem chamarEmailErro_semanal (n1 n2 : String) (hne : (n2 == n1) = false)
    (i f titulo mensagem err : String) :
    chamarEmailErro [(n1, i), (n2, f)] titulo mensagem err
        [("periodo", [Parte.variavel n1, Parte.texto " até ", Parte.variavel n2]),
          ("tipo", [Parte.texto "Relatório Semanal"])] =
      ([Acao.emailErro titulo mensagem err
          [("periodo", i ++ " até " ++ f), ("tipo", "Relatório Semanal")]],
        Desfecho.retorna ()) := by
  simp [chamarEmailErro, avaliarContexto, avaliarPartes, lerVariavel, List.lookup, hne,
    String.append_assoc]

theorem chamarEmailErro_mensal (n titulo mensagem err : String) :
    chamarEmailErro [("mesNome", n)] titulo mensagem err
        [("periodo", [Parte.variavel "mesNome"]), ("tipo", [Parte.texto "Relatório Mensal"])] =
      ([Acao.emailErro titulo mensagem err [("periodo", n), ("tipo", "Relatório Mensal")]],
        Desfecho.retorna ()) := by
  simp [chamarEmailErro, avaliarContexto, avaliarPartes, lerVariavel, List.lookup]

/-- The `try` block of a WhatsApp report function returns or throws. -/
theorem tentarWhatsApp_casos (m : Mundo) (tipo : Tipo) (ent : Entrega) :
    (tentarWhatsApp m tipo ent).2 = Desfecho.retorna () ∨
      ∃ err, (tentarWhatsApp m tipo ent).2 = Desfecho.lanca err := by
  unfold tentarWhatsApp
  split_ifs
  · left; rfl
  · cases m.inicioWhatsApp <;> cases m.whatsapp tipo ent <;>
      simp [inicializarWhatsApp, seguir]

/-- The errors of the `try` block of a WhatsApp report function, once a
recipient number is configured: the error of a failed start of the client, and
the error met while sending with a client that is ready. -/
theorem tentarWhatsApp_lanca (m : Mundo) (tipo : Tipo) (ent : Entrega)
    (hn : jsFalsy m.diretorWhatsApp = false) :
    (m.inicioWhatsApp = InicioWhatsApp.tempoEsgotado →
      (tentarWhatsApp m tipo ent).2 =
        Desfecho.lanca "Timeout: WhatsApp não conectou em 5 minutos") ∧
    (∀ msg, m.inicioWhatsApp = InicioWhatsApp.falhaAutenticacao msg →
      (tentarWhatsApp m tipo ent).2 = Desfecho.lanca "Falha na autenticação do WhatsApp") ∧
    (∀ e, m.inicioWhatsApp = InicioWhatsApp.erroInitialize e →
      (tentarWhatsApp m tipo ent).2 = Desfecho.lanca e) ∧
    (∀ e, m.inicioWhatsApp = InicioWhatsApp.pronto → m.whatsapp tipo ent = some e →
      (tentarWhatsApp m tipo ent).2 = Desfecho.lanca e) := by
  unfold tentarWhatsApp
  simp only [hn, Bool.false_eq_true, if_false]
  refine ⟨?_, ?_, ?_, ?_⟩
  · intro h
    simp [h, inicializarWhatsApp, seguir]
  · intro msg h
    simp [h, inicializarWhatsApp, seguir]
  · intro e h
    simp [h, inicializarWhatsApp, seguir]
  · intro e h hw
    simp [h, hw, inicializarWhatsApp, seguir]

/-- The WhatsApp report functions never throw: their log starts with the
call, and an error of their `try` block is passed to `enviarEmailErro` together
with the period label, after the calls the `try` block made itself. -/
theorem enviarWhatsApp_casos (m : Mundo) (ent : Entrega) (d i f n : String) :
    ((enviarWhatsApp m ent d).2 = Desfecho.retorna () ∧
      (enviarWhatsApp m ent d).1.head? = some (Acao.whatsapp Tipo.diario ent) ∧
      ((tentarWhatsApp m Tipo.diario ent).2 = Desfecho.retorna () →
        (enviarWhatsApp m ent d).1 =
          Acao.whatsapp Tipo.diario ent :: (tentarWhatsApp m Tipo.diario ent).1) ∧
      ∀ err, (tentarWhatsApp m Tipo.diario ent).2 = Desfecho.lanca err →
        ∃ titulo mensagem, (enviarWhatsApp m ent d).1 =
          Acao.whatsapp Tipo.diario ent :: (tentarWhatsApp m Tipo.diario ent).1 ++
            [Acao.emailErro titulo mensagem err [("data", d), ("tipo", "Relatório Diário")]]) ∧
    ((enviarWhatsAppSemanal m ent i f).2 = Desfecho.retorna () ∧
      (enviarWhatsAppSemanal m ent i f).1.head? = some (Acao.whatsapp Tipo.semanal ent) ∧
      ((tentarWhatsApp m Tipo.semanal ent).2 = Desfecho.retorna () →
        (enviarWhatsAppSemanal m ent i f).1 =
          Acao.whatsapp Tipo.semanal ent :: (tentarWhatsApp m Tipo.semanal ent).1) ∧
      ∀ err, (tentarWhatsApp m Tipo.semanal ent).2 = Desfecho.lanca err →
        ∃ titulo mensagem, (enviarWhatsAppSemanal m ent i f).1 =
          Acao.whatsapp Tipo.semanal ent :: (tentarWhatsApp m Tipo.semanal ent).1 ++
            [Acao.emailErro titulo mensagem err
              [("periodo", i ++ " até " ++ f), ("tipo", "Relatório Semanal")]]) ∧
    ((enviarWhatsAppMensal m ent n).2 = Desfecho.retorna () ∧
      (enviarWhatsAppMensal m ent n).1.head? = some (Acao.whatsapp Tipo.mensal ent) ∧
      ((tentarWhatsApp m Tipo.mensal ent).2 = Desfecho.retorna () →
        (enviarWhatsAppMensal m ent n).1 =
          Acao.whatsapp Tipo.mensal ent :: (tentarWhatsApp m Tipo.mensal ent).1) ∧
      ∀ err, (tentarWhatsApp m Tipo.mensal ent).2 = Desfecho.lanca err →
        ∃ titulo mensagem, (enviarWhatsAppMensal m ent n).1 =
          Acao.whatsapp Tipo.mensal ent :: (tentarWhatsApp m Tipo.mensal ent).1 ++
            [Acao.emailErro titulo mensagem err
              [("periodo", n), ("tipo", "Relatório Mensal")]]) := by
  refine ⟨?_, ?_, ?_⟩
  · have hc := tentarWhatsApp_casos m Tipo.diario ent
    unfold enviarWhatsApp
    generalize tentarWhatsApp m Tipo.diario ent = r at hc ⊢
    obtain ⟨log, dd⟩ := r
    cases dd with
    | retorna u => exact ⟨rfl, rfl, fun _ => rfl, fun err h => by simp at h⟩
    | lanca e =>
      refine ⟨?_, ?_, ?_, ?_⟩
      · simp [chamarEmailErro_diario, seguir]
      · simp [chamarEmailErro_diario, seguir]
      · intro h
        simp at h
      · intro err h
        simp only [Desfecho.lanca.injEq] at h
        subst h
        simp only [chamarEmailErro_diario, seguir]
        exact ⟨_, _, rfl⟩
    | semCombustivel => simp at hc
  · have hc := tentarWhatsApp_casos m Tipo.semanal ent
    unfold enviarWhatsAppSemanal
    generalize tentarWhatsApp m Tipo.semanal ent = r at hc ⊢
    obtain ⟨log, dd⟩ := r
    cases dd with
    | retorna u => exact ⟨rfl, rfl, fun _ => rfl, fun err h => by simp at h⟩
    | lanca e =>
      refine ⟨?_, ?_, ?_, ?_⟩
      · simp [chamarEmailErro_semanal "dataInicio" "dataFim" (by decide), seguir]
      · simp [chamarEmailErro_semanal "dataInicio" "dataFim" (by decide), seguir]
      · intro h
        simp at h
      · intro err h
        simp only [Desfecho.lanca.injEq] at h
        subst h
        simp only [chamarEmailErro_semanal "dataInicio" "dataFim" (by decide), seguir]
        exact ⟨_, _, rfl⟩
    | semCombustivel => simp at hc
  · have hc := tentarWhatsApp_casos m Tipo.mensal ent
    unfold enviarWhatsAppMensal
    generalize tentarWhatsApp m Tipo.mensal ent = r at hc ⊢
    obtain ⟨log, dd⟩ := r
    cases dd with
    | retorna u => exact ⟨rfl, rfl, fun _ => rfl, fun err h => by simp at h⟩
    | lanca e =>
      refine ⟨?_, ?_, ?_, ?_⟩
      · simp [chamarEmailErro_mensal, seguir]
      · simp [chamarEmailErro_mensal, seguir]
      · intro h
        simp at h
      · intro err h
        simp only [Desfecho.lanca.injEq] at h
        subst h
        simp only [chamarEmailErro_mensal, seguir]
        exact ⟨_, _, rfl⟩
    | semCombustivel => simp at hc

/-- A run whose first part returns the arguments of the deliveries and whose
deliveries return ends normally with the two logs in sequence. -/
theorem capturar_seguir_retorna (coleta : List Acao × Desfecho Entrega)
    (entregar : Entrega → List Acao × Desfecho Unit) (titulo mensagem : String)
    (contexto : List (String × List Parte)) (ent : Entrega)
    (h1 : coleta.2 = Desfecho.retorna ent) (h2 : (entregar ent).2 = Desfecho.retorna ()) :
    capturar (seguir coleta entregar) titulo mensagem contexto =
      (coleta.1 ++ (entregar ent).1, Desfecho.retorna ()) := by
  obtain ⟨log, d⟩ := coleta
  simp only at h1
  subst h1
  simp only [seguir, h2, capturar]

/-- The deliveries of the daily run when the e-mail report function throws:
the hook is called with the error and the day, the WhatsApp report function is
called, the temporary file is removed, and the block ends normally. -/
theorem entregarDiario_email_falha (m : Mundo) (d : String) (ent : Entrega) (emailErr : String)
    (hmail : m.enviarEmail Tipo.diario ent = some emailErr) :
    ∃ titulo mensagem, entregarDiario m d ent =
      ([Acao.email Tipo.diario ent,
          Acao.emailErro titulo mensagem emailErr [("data", d), ("tipo", "Relatório Diário")]] ++
        ((enviarWhatsApp m ent d).1 ++ [Acao.unlink ent.arquivo.filePath]),
        Desfecho.retorna ()) := by
  have hw := (enviarWhatsApp_casos m ent d "" "" "").1.1
  have key : entregarDiario m d ent =
      ([Acao.email Tipo.diario ent,
          Acao.emailErro "Erro ao Enviar E-mail - Relatório Diário"
            "Ocorreu um erro ao tentar enviar o relatório diário por e-mail. O relatório foi gerado, mas não foi enviado."
            emailErr [("data", d), ("tipo", "Relatório Diário")]] ++
        ((enviarWhatsApp m ent d).1 ++ [Acao.unlink ent.arquivo.filePath]),
        Desfecho.retorna ()) := by
    unfold entregarDiario tentarEmail
    simp only [hmail, chamarEmailErro_diario]
    generalize enviarWhatsApp m ent d = w at hw
    obtain ⟨wl, wd⟩ := w
    simp only at hw
    subst hw
    simp [seguir]
  exact ⟨_, _, key⟩

theorem entregarSemanal_email_falha (m : Mundo) (i f : String) (ent : Entrega)
    (emailErr : String) (hmail : m.enviarEmail Tipo.semanal ent = some emailErr) :
    ∃ titulo mensagem, entregarSemanal m i f ent =
      ([Acao.email Tipo.semanal ent,
          Acao.emailErro titulo mensagem emailErr
            [("periodo", i ++ " até " ++ f), ("tipo", "Relatório Semanal")]] ++
        ((enviarWhatsAppSemanal m ent i f).1 ++ [Acao.unlink ent.arquivo.filePath]),
        Desfecho.retorna ()) := by
  have hw := (enviarWhatsApp_casos m ent "" i f "").2.1.1
  have key : entregarSemanal m i f ent =
      ([Acao.email Tipo.semanal ent,
          Acao.emailErro "Erro ao Enviar E-mail - Relatório Semanal"
            "Ocorreu um erro ao tentar enviar o relatório semanal por e-mail. O relatório foi gerado, mas não foi enviado."
            emailErr [("periodo", i ++ " até " ++ f), ("tipo", "Relatório Semanal")]] ++
        ((enviarWhatsAppSemanal m ent i f).1 ++ [Acao.unlink ent.arquivo.filePath]),
        Desfecho.retorna ()) := by
    unfold entregarSemanal tentarEmail
    simp only [hmail, chamarEmailErro_semanal "dataInicial" "dataFinal" (by decide)]
    generalize enviarWhatsAppSemanal m ent i f = w at hw
    obtain ⟨wl, wd⟩ := w
    simp only at hw
    subst hw
    simp [seguir]
  exact ⟨_, _, key⟩

theorem entregarMensal_email_falha (m : Mundo) (n : String) (ent : Entrega)
    (emailErr : String) (hmail : m.enviarEmail Tipo.mensal ent = some emailErr) :
    ∃ titulo mensagem, entregarMensal m n ent =
      ([Acao.email Tipo.mensal ent,
          Acao.emailErro titulo mensagem emailErr
            [("periodo", n), ("tipo", "Relatório Mensal")]] ++
        ((enviarWhatsAppMensal m ent n).1 ++ [Acao.unlink ent.arquivo.filePath]),
        Desfecho.retorna ()) := by
  have hw := (enviarWhatsApp_casos m ent "" "" "" n).2.2.1
  have key : entregarMensal m n ent =
      ([Acao.email Tipo.mensal ent,
          Acao.emailErro "Erro ao Enviar E-mail - Relatório Mensal"
            "Ocorreu um erro ao tentar enviar o relatório mensal por e-mail. O relatório foi gerado, mas não foi enviado."
            emailErr [("periodo", n), ("tipo", "Relatório Mensal")]] ++
        ((enviarWhatsAppMensal m ent n).1 ++ [Acao.unlink ent.arquivo.filePath]),
        Desfecho.retorna ()) := by
    unfold entregarMensal tentarEmail
    simp only [hmail, chamarEmailErro_mensal]
    generalize enviarWhatsAppMensal m ent n = w at hw
    obtain ⟨wl, wd⟩ := w
    simp only at hw
    subst hw
    simp [seguir]
  exact ⟨_, _, key⟩

/-- C24: in each of the three runs, when the steps up to the spreadsheet have
returned and the e-mail report function throws an error, the run calls
`enviarEmailErro` with that error and the period label (the day, the
start-to-end range, the month name), then calls the WhatsApp report function
with the same lists and artifact, removes the temporary file and ends without
throwing; and a WhatsApp report function never throws: every error of its `try`
block, be it the error of a failed start of the client (which
`inicializarWhatsApp` has reported once already) or an error met while
sending, is passed to `enviarEmailErro` with the period label. -/
theorem C24_canais_independentes (m : Mundo) (ent : Entrega) (emailErr : String) :
    ((coletarDiario m (formatDate m.hoje (-1))).2 = Desfecho.retorna ent →
      m.enviarEmail Tipo.diario ent = some emailErr →
      ∃ titulo mensagem,
        gerarRelatorioDiario m =
          ((coletarDiario m (formatDate m.hoje (-1))).1 ++
            ([Acao.email Tipo.diario ent,
              Acao.emailErro titulo mensagem emailErr
                [("data", formatDate m.hoje (-1)), ("tipo", "Relatório Diário")]] ++
            ((enviarWhatsApp m ent (formatDate m.hoje (-1))).1 ++
              [Acao.unlink ent.arquivo.filePath])),
            Desfecho.retorna ()) ∧
        (enviarWhatsApp m ent (formatDate m.hoje (-1))).1.head? =
          some (Acao.whatsapp Tipo.diario ent)) ∧
    ((coletarPeriodo m (getLastWeekRange m.hoje).inicio (getLastWeekRange m.hoje).fim
        ("semana_" ++ (getLastWeekRange m.hoje).inicio ++ "_a_" ++ (getLastWeekRange m.hoje).fim)
        [(getLastWeekRange m.hoje).inicio, (getLastWeekRange m.hoje).fim]).2 =
        Desfecho.retorna ent →
      m.enviarEmail Tipo.semanal ent = some emailErr →
      ∃ titulo mensagem,
        gerarRelatorioSemanal m =
          ((coletarPeriodo m (getLastWeekRange m.hoje).inicio (getLastWeekRange m.hoje).fim
              ("semana_" ++ (getLastWeekRange m.hoje).inicio ++ "_a_" ++
                (getLastWeekRange m.hoje).fim)
              [(getLastWeekRange m.hoje).inicio, (getLastWeekRange m.hoje).fim]).1 ++
            ([Acao.email Tipo.semanal ent,
              Acao.emailErro titulo mensagem emailErr
                [("periodo", (getLastWeekRange m.hoje).inicio ++ " até " ++
                    (getLastWeekRange m.hoje).fim),
                  ("tipo", "Relatório Semanal")]] ++
            ((enviarWhatsAppSemanal m ent (getLastWeekRange m.hoje).inicio
                (getLastWeekRange m.hoje).fim).1 ++
              [Acao.unlink ent.arquivo.filePath])),
            Desfecho.retorna ()) ∧
        (enviarWhatsAppSemanal m ent (getLastWeekRange m.hoje).inicio
          (getLastWeekRange m.hoje).fim).1.head? = some (Acao.whatsapp Tipo.semanal ent)) ∧
    ((coletarPeriodo m (getLastMonthRange m.hoje).inicio (getLastMonthRange m.hoje).fim
        m.mesNome [m.mesNome]).2 = Desfecho.retorna ent →
      m.enviarEmail Tipo.mensal ent = some emailErr →
      ∃ titulo mensagem,
        gerarRelatorioMensal m =
          ((coletarPeriodo m (getLastMonthRange m.hoje).inicio (getLastMonthRange m.hoje).fim
              m.mesNome [m.mesNome]).1 ++
            ([Acao.email Tipo.mensal ent,
              Acao.emailErro titulo mensagem emailErr
                [("periodo", m.mesNome), ("tipo", "Relatório Mensal")]] ++
            ((enviarWhatsAppMensal m ent m.mesNome).1 ++ [Acao.unlink ent.arquivo.filePath])),
            Desfecho.retorna ()) ∧
        (enviarWhatsAppMensal m ent m.mesNome).1.head? =
          some (Acao.whatsapp Tipo.mensal ent)) ∧
    (∀ d i f n : String,
      ((enviarWhatsApp m ent d).2 = Desfecho.retorna () ∧
        ∀ err, (tentarWhatsApp m Tipo.diario ent).2 = Desfecho.lanca err →
          ∃ titulo mensagem,
            Acao.emailErro titulo mensagem err [("data", d), ("tipo", "Relatório Diário")] ∈
              (enviarWhatsApp m ent d).1) ∧
      ((enviarWhatsAppSemanal m ent i f).2 = Desfecho.retorna () ∧
        ∀ err, (tentarWhatsApp m Tipo.semanal ent).2 = Desfecho.lanca err →
          ∃ titulo mensagem,
            Acao.emailErro titulo mensagem err
                [("periodo", i ++ " até " ++ f), ("tipo", "Relatório Semanal")] ∈
              (enviarWhatsAppSemanal m ent i f).1) ∧
      ((enviarWhatsAppMensal m ent n).2 = Desfecho.retorna () ∧
        ∀ err, (tentarWhatsApp m Tipo.mensal ent).2 = Desfecho.lanca err →
          ∃ titulo mensagem,
            Acao.emailErro titulo mensagem err
                [("periodo", n), ("tipo", "Relatório Mensal")] ∈
              (enviarWhatsAppMensal m ent n).1)) ∧
    (jsFalsy m.diretorWhatsApp = false →
      ∀ tipo : Tipo,
        (m.inicioWhatsApp = InicioWhatsApp.tempoEsgotado →
          (tentarWhatsApp m tipo ent).2 =
            Desfecho.lanca "Timeout: WhatsApp não conectou em 5 minutos") ∧
        (∀ msg, m.inicioWhatsApp = InicioWhatsApp.falhaAutenticacao msg →
          (tentarWhatsApp m tipo ent).2 =
            Desfecho.lanca "Falha na autenticação do WhatsApp") ∧
        (∀ e, m.inicioWhatsApp = InicioWhatsApp.erroInitialize e →
          (tentarWhatsApp m tipo ent).2 = Desfecho.lanca e) ∧
        (∀ e, m.inicioWhatsApp = InicioWhatsApp.pronto → m.whatsapp tipo ent = some e →
          (tentarWhatsApp m tipo ent).2 = Desfecho.lanca e)) := by
  have hcasos := enviarWhatsApp_casos m ent
  refine ⟨?_, ?_, ?_, ?_, ?_⟩
  · intro hcol hmail
    obtain ⟨t, ms, he⟩ := entregarDiario_email_falha m (formatDate m.hoje (-1)) ent emailErr hmail
    refine ⟨t, ms, ?_, (hcasos _ "" "" "").1.2.1⟩
    unfold gerarRelatorioDiario
    simp only
    rw [capturar_seguir_retorna _ _ _ _ _ ent hcol (by rw [he]), he]
  · intro hcol hmail
    obtain ⟨t, ms, he⟩ := entregarSemanal_email_falha m (getLastWeekRange m.hoje).inicio
      (getLastWeekRange m.hoje).fim ent emailErr hmail
    refine ⟨t, ms, ?_, (hcasos "" _ _ "").2.1.2.1⟩
    unfold gerarRelatorioSemanal
    simp only
    rw [capturar_seguir_retorna _ _ _ _ _ ent hcol (by rw [he]), he]
  · intro hcol hmail
    obtain ⟨t, ms, he⟩ := entregarMensal_email_falha m m.mesNome ent emailErr hmail
    refine ⟨t, ms, ?_, (hcasos "" "" "" _).2.2.2.1⟩
    unfold gerarRelatorioMensal
    simp only
    rw [capturar_seguir_retorna _ _ _ _ _ ent hcol (by rw [he]), he]
  · intro d i f n
    obtain ⟨⟨a0, -, -, a2⟩, ⟨b0, -, -, b2⟩, ⟨c0, -, -, c2⟩⟩ := hcasos d i f n
    refine ⟨⟨a0, ?_⟩, ⟨b0, ?_⟩, ⟨c0, ?_⟩⟩
    · intro err he
      obtain ⟨t, ms, e⟩ := a2 err he
      exact ⟨t, ms, by rw [e]; simp⟩
    · intro err he
      obtain ⟨t, ms, e⟩ := b2 err he
      exact ⟨t, ms, by rw [e]; simp⟩
    · intro err he
      obtain ⟨t, ms, e⟩ := c2 err he
      exact ⟨t, ms, by rw [e]; simp⟩
  · intro hn tipo
    exact tentarWhatsApp_lanca m tipo ent hn

/-- Witness of C24 on the daily run of 2024-05-01 in a world where the e-mail
delivery fails and the WhatsApp client does not start (`initialize()` rejects):
the run ends normally, having called the spreadsheet step and both report
functions, and the error of the start is passed to `enviarEmailErro` twice, by
`inicializarWhatsApp` and by the `catch` block of `enviarWhatsApp`. -/
theorem C24_canais_independentes_witness :
    (coletarDiario
        (mundoComInicio (servidorUmaPagina [registroVigencia 1 "2024-04-30"]) (some "SMTP 421")
          (InicioWhatsApp.erroInitialize "sem sessão"))
        (formatDate 19844 (-1))).2 = Desfecho.retorna entregaDeExemplo ∧
    (∃ titulo mensagem,
      gerarRelatorioDiario
          (mundoComInicio (servidorUmaPagina [registroVigencia 1 "2024-04-30"])
            (some "SMTP 421") (InicioWhatsApp.erroInitialize "sem sessão")) =
        ((coletarDiario
            (mundoComInicio (servidorUmaPagina [registroVigencia 1 "2024-04-30"])
              (some "SMTP 421") (InicioWhatsApp.erroInitialize "sem sessão"))
            (formatDate 19844 (-1))).1 ++
          ([Acao.email Tipo.diario entregaDeExemplo,
            Acao.emailErro titulo mensagem "SMTP 421"
              [("data", formatDate 19844 (-1)), ("tipo", "Relatório Diário")]] ++
          ((enviarWhatsApp
              (mundoComInicio (servidorUmaPagina [registroVigencia 1 "2024-04-30"])
                (some "SMTP 421") (InicioWhatsApp.erroInitialize "sem sessão"))
              entregaDeExemplo (formatDate 19844 (-1))).1 ++
            [Acao.unlink entregaDeExemplo.arquivo.filePath])),
          Desfecho.retorna ()) ∧
      (enviarWhatsApp
          (mundoComInicio (servidorUmaPagina [registroVigencia 1 "2024-04-30"])
            (some "SMTP 421") (InicioWhatsApp.erroInitialize "sem sessão"))
          entregaDeExemplo (formatDate 19844 (-1))).1.head? =
        some (Acao.whatsapp Tipo.diario entregaDeExemplo)) ∧
    (gerarRelatorioDiario
      (mundoComInicio (servidorUmaPagina [registroVigencia 1 "2024-04-30"]) (some "SMTP 421")
        (InicioWhatsApp.erroInitialize "sem sessão"))).2 = Desfecho.retorna () ∧
    (gerarRelatorioDiario
      (mundoComInicio (servidorUmaPagina [registroVigencia 1 "2024-04-30"]) (some "SMTP 421")
        (InicioWhatsApp.erroInitialize "sem sessão"))).1.filter Acao.ehRelatorio =
      [Acao.planilha [registroVigencia 1 "2024-04-30"] [] [] "2024-04-30",
        Acao.email Tipo.diario entregaDeExemplo, Acao.whatsapp Tipo.diario entregaDeExemplo] ∧
    (tentarWhatsApp
      (mundoComInicio (servidorUmaPagina [registroVigencia 1 "2024-04-30"]) (some "SMTP 421")
        (InicioWhatsApp.erroInitialize "sem sessão"))
      Tipo.diario entregaDeExemplo).2 = Desfecho.lanca "sem sessão" ∧
    (enviarWhatsApp
      (mundoComInicio (servidorUmaPagina [registroVigencia 1 "2024-04-30"]) (some "SMTP 421")
        (InicioWhatsApp.erroInitialize "sem sessão"))
      entregaDeExemplo "2024-04-30").1 =
      [Acao.whatsapp Tipo.diario entregaDeExemplo,
        Acao.emailErro "Erro ao Inicializar WhatsApp"
          "Ocorreu um erro ao tentar inicializar o cliente WhatsApp." "sem sessão" [],
        Acao.emailErro "Erro ao Enviar WhatsApp - Relatório Diário"
          "Ocorreu um erro ao tentar enviar o relatório diário via WhatsApp. O relatório foi gerado e enviado por e-mail, mas falhou no envio via WhatsApp."
          "sem sessão" [("data", "2024-04-30"), ("tipo", "Relatório Diário")]] :=
  ⟨by decide,
    (C24_canais_independentes
      (mundoComInicio (servidorUmaPagina [registroVigencia 1 "2024-04-30"]) (some "SMTP 421")
        (InicioWhatsApp.erroInitialize "sem sessão"))
      entregaDeExemplo "SMTP 421").1 (by decide) rfl,
    by decide, by decide, by decide, by decide⟩

end Relatorio
